import Mathlib

/-!
# sfx_gen: parameter codec, mutation and wave synthesis

A shallow embedding of `sfx_gen.c` / `sfx_gen.h`.

* `int` variables are unbounded integers; signed overflow (undefined behaviour in C) is outside
  the model.  `uint32_t` values are naturals below `2^32`.
* Files are lists of bytes (naturals below 256).  Objects are laid out as on a little-endian
  host without struct padding, which is what `assert(sizeof(SfxParams) == 96)` demands.
* The codec moves `float` members as raw 32-bit patterns, so there `F = Nat`.
* An output stream is fully buffered: `fwrite` appends to the buffer, `fclose` writes the
  buffer out as far as the file has room.
* The synthesizer and the parameter generators are written against an arbitrary interpretation
  `FloatOps F D` of the `float` / `double` operations and an arbitrary random source.  Two
  interpretations are given: exact arithmetic on the rationals (`exactOps`) and IEEE 754
  arithmetic with rounding, infinities and NaN (`ieeeOps`).
-/

set_option autoImplicit false

namespace SfxGen

/-! ## Data model (sfx_gen.h) -/

/-- Sound parameters, `struct SfxParams`: a `uint32_t` seed, an `int` wave type and 22 `float`
members in declaration order.  `F` is the representation chosen for `float`. -/
structure SfxParams (F : Type) where
  randSeed : Nat
  waveType : Int
  attackTime : F
  sustainTime : F
  sustainPunch : F
  decayTime : F
  startFrequency : F
  minFrequency : F
  slide : F
  deltaSlide : F
  vibratoDepth : F
  vibratoSpeed : F
  changeAmount : F
  changeSpeed : F
  squareDuty : F
  dutySweep : F
  repeatSpeed : F
  phaserOffset : F
  phaserSweep : F
  lpfCutoff : F
  lpfCutoffSweep : F
  lpfResonance : F
  hpfCutoff : F
  hpfCutoffSweep : F
deriving DecidableEq

/-- Constant of `enum SfxWaveType`. -/
def SFX_SQUARE : Int := 0
/-- Constant of `enum SfxWaveType`. -/
def SFX_SAWTOOTH : Int := 1
/-- Constant of `enum SfxWaveType`. -/
def SFX_SINE : Int := 2
/-- Constant of `enum SfxWaveType`. -/
def SFX_NOISE : Int := 3
/-- Constant of `enum SfxWaveType`. -/
def SFX_TRIANGLE : Int := 4
/-- Constant of `enum SfxWaveType`. -/
def SFX_PINK_NOISE : Int := 5

/-- Constant of `enum SfxSampleFormat` (`uint8_t` samples). -/
def SFX_U8 : Int := 0
/-- Constant of `enum SfxSampleFormat` (`int16_t` samples). -/
def SFX_I16 : Int := 1
/-- Constant of `enum SfxSampleFormat` (`float` samples). -/
def SFX_F32 : Int := 2

/-- The macro `SFX_NEGATIVE_ONE_MASK`: parameters whose range is -1,1. -/
def SFX_NEGATIVE_ONE_MASK : Nat := 0x0025A4C0

/-- The `float` members in memory order; `&sp->attackTime` points at the head. -/
def SfxParams.floats {F : Type} (p : SfxParams F) : List F :=
  [p.attackTime, p.sustainTime, p.sustainPunch, p.decayTime,
   p.startFrequency, p.minFrequency, p.slide, p.deltaSlide, p.vibratoDepth, p.vibratoSpeed,
   p.changeAmount, p.changeSpeed, p.squareDuty, p.dutySweep, p.repeatSpeed,
   p.phaserOffset, p.phaserSweep,
   p.lpfCutoff, p.lpfCutoffSweep, p.lpfResonance, p.hpfCutoff, p.hpfCutoffSweep]

/-- The store `valPtr[i] = f(valPtr[i])` with `valPtr = &sp->attackTime`. -/
def SfxParams.modifyFloat {F : Type} (p : SfxParams F) (i : Nat) (f : F → F) : SfxParams F :=
  match i with
  | 0 => { p with attackTime := f p.attackTime }
  | 1 => { p with sustainTime := f p.sustainTime }
  | 2 => { p with sustainPunch := f p.sustainPunch }
  | 3 => { p with decayTime := f p.decayTime }
  | 4 => { p with startFrequency := f p.startFrequency }
  | 5 => { p with minFrequency := f p.minFrequency }
  | 6 => { p with slide := f p.slide }
  | 7 => { p with deltaSlide := f p.deltaSlide }
  | 8 => { p with vibratoDepth := f p.vibratoDepth }
  | 9 => { p with vibratoSpeed := f p.vibratoSpeed }
  | 10 => { p with changeAmount := f p.changeAmount }
  | 11 => { p with changeSpeed := f p.changeSpeed }
  | 12 => { p with squareDuty := f p.squareDuty }
  | 13 => { p with dutySweep := f p.dutySweep }
  | 14 => { p with repeatSpeed := f p.repeatSpeed }
  | 15 => { p with phaserOffset := f p.phaserOffset }
  | 16 => { p with phaserSweep := f p.phaserSweep }
  | 17 => { p with lpfCutoff := f p.lpfCutoff }
  | 18 => { p with lpfCutoffSweep := f p.lpfCutoffSweep }
  | 19 => { p with lpfResonance := f p.lpfResonance }
  | 20 => { p with hpfCutoff := f p.hpfCutoff }
  | 21 => { p with hpfCutoffSweep := f p.hpfCutoffSweep }
  | _ => p

/-! ## Object representation -/

/-- Bytes of a 16-bit object, lowest address first. -/
def encode16 (x : Nat) : List Nat := [x % 256, x / 256 % 256]

/-- Value of a 16-bit object given its bytes. -/
def decode16 (bs : List Nat) : Nat := bs.getD 0 0 + 256 * bs.getD 1 0

/-- Bytes of a 32-bit object, lowest address first. -/
def encode32 (x : Nat) : List Nat :=
  [x % 256, x / 256 % 256, x / 65536 % 256, x / 16777216 % 256]

/-- Value of a 32-bit object given its bytes. -/
def decode32 (bs : List Nat) : Nat :=
  bs.getD 0 0 + 256 * bs.getD 1 0 + 65536 * bs.getD 2 0 + 16777216 * bs.getD 3 0

/-- Two's complement reading of a 32-bit pattern as an `int`. -/
def toInt32 (x : Nat) : Int := if x < 2147483648 then (x : Int) else (x : Int) - 4294967296

/-- The 32-bit pattern of an `int`. -/
def ofInt32 (i : Int) : Nat := (i % 4294967296).toNat

/-- The 24 four-byte members of the struct as 32-bit patterns, in memory order. -/
def SfxParams.words (p : SfxParams Nat) : List Nat :=
  p.randSeed :: ofInt32 p.waveType :: p.floats

/-- Object representation of a `SfxParams` (96 bytes). -/
def SfxParams.bytes (p : SfxParams Nat) : List Nat :=
  p.words.flatMap encode32

/-- The 32-bit member at word offset `k` of an object representation. -/
def wordAt (bs : List Nat) (k : Nat) : Nat := decode32 ((bs.drop (4 * k)).take 4)

/-- The `SfxParams` value held by 96 bytes of memory. -/
def SfxParams.ofBytes (bs : List Nat) : SfxParams Nat :=
  { randSeed := wordAt bs 0
    waveType := toInt32 (wordAt bs 1)
    attackTime := wordAt bs 2
    sustainTime := wordAt bs 3
    sustainPunch := wordAt bs 4
    decayTime := wordAt bs 5
    startFrequency := wordAt bs 6
    minFrequency := wordAt bs 7
    slide := wordAt bs 8
    deltaSlide := wordAt bs 9
    vibratoDepth := wordAt bs 10
    vibratoSpeed := wordAt bs 11
    changeAmount := wordAt bs 12
    changeSpeed := wordAt bs 13
    squareDuty := wordAt bs 14
    dutySweep := wordAt bs 15
    repeatSpeed := wordAt bs 16
    phaserOffset := wordAt bs 17
    phaserSweep := wordAt bs 18
    lpfCutoff := wordAt bs 19
    lpfCutoffSweep := wordAt bs 20
    lpfResonance := wordAt bs 21
    hpfCutoff := wordAt bs 22
    hpfCutoffSweep := wordAt bs 23 }

/-- A parameter set whose members hold values of their C types: a `uint32_t`, an `int` and 22
32-bit `float` patterns. -/
def SfxParams.Valid (p : SfxParams Nat) : Prop :=
  p.randSeed < 4294967296 ∧ -2147483648 ≤ p.waveType ∧ p.waveType < 2147483648 ∧
    ∀ x ∈ p.floats, x < 4294967296

instance (p : SfxParams Nat) : Decidable p.Valid := by
  unfold SfxParams.Valid; infer_instance

/-! ## Stream I/O -/

/-- The call `fread(ptr, 1, n, fp)`, where `obj` lists the `n` bytes stored at `ptr` before the
call and `fp` the unread rest of the file.  Up to `n` bytes replace the front of the object.
The result is the object afterwards, the count returned, and the rest of the file. -/
def fread (obj : List Nat) (fp : List Nat) : List Nat × Nat × List Nat :=
  ((fp.take obj.length) ++ obj.drop (fp.take obj.length).length,
   (fp.take obj.length).length,
   fp.drop obj.length)

/-- A `fread` into a `float` (or `uint32_t`) that held `old`. -/
def readWord (old : Nat) (fp : List Nat) : Nat × List Nat :=
  (decode32 (fread (encode32 old) fp).1, (fread (encode32 old) fp).2.2)

/-- A `fread` into an `int` that held `old`. -/
def readInt (old : Int) (fp : List Nat) : Int × List Nat :=
  (toInt32 (readWord (ofInt32 old) fp).1, (readWord (ofInt32 old) fp).2)

/-- A `fread` into a `uint16_t` that held `old`. -/
def readU16 (old : Nat) (fp : List Nat) : Nat × List Nat :=
  (decode16 (fread (encode16 old) fp).1, (fread (encode16 old) fp).2.2)

/-- The call `fwrite(buf, 1, n, fp)` on a stream that `fopen` has just opened on a file.  Such
a stream is fully buffered and its buffer (`BUFSIZ`, at least 256 bytes) takes the 104 bytes
`sfx_saveRfx` writes: the bytes are appended to the buffer `out`, nothing reaches the file yet,
and the full count is returned.  The result is the count returned and the buffer. -/
def fwrite (buf : List Nat) (out : List Nat) : Nat × List Nat :=
  (buf.length, out ++ buf)

/-- The call `fclose(fp)` on a stream with the buffer `out` for a file that can take `room`
bytes: the buffer is written out as far as the file takes it.  The result is the value
returned (0, or `EOF`, -1, when not everything could be written) and the content of the
file. -/
def fclose (room : Nat) (out : List Nat) : Int × List Nat :=
  (if out.length ≤ room then 0 else -1, out.take room)

/-- The messages `sfx_loadParams` and `sfx_saveRfx` return. -/
inductive SfxError where
  /-- File open failed -/
  | fileOpenFailed
  /-- File read failed -/
  | fileReadFailed
  /-- File write failed -/
  | fileWriteFailed
  /-- The rFX file version is not supported -/
  | rfxVersionNotSupported
  /-- Invalid rFX wave parameters size -/
  | rfxInvalidSize
  /-- The SFS file version is not supported -/
  | sfsVersionNotSupported
deriving DecidableEq, Repr

/-- The bit pattern of the `float` constant `0.0f`. -/
def bits_0_0f : Nat := 0

/-- The bit pattern of the `float` constant `0.5f`. -/
def bits_0_5f : Nat := 0x3F000000

/-- A sample record: seed 12345, wave type -3, and 22 distinct bit patterns, among them those of
`0.5f`, `-0.0f` and a NaN. -/
def sampleRecord : SfxParams Nat :=
  { randSeed := 12345, waveType := -3, attackTime := 1, sustainTime := 2, sustainPunch := 3,
    decayTime := 4, startFrequency := 0x3F000000, minFrequency := 0x80000000, slide := 7,
    deltaSlide := 8, vibratoDepth := 9, vibratoSpeed := 10, changeAmount := 11,
    changeSpeed := 12, squareDuty := 13, dutySweep := 14, repeatSpeed := 15, phaserOffset := 16,
    phaserSweep := 17, lpfCutoff := 18, lpfCutoffSweep := 19, lpfResonance := 20,
    hpfCutoff := 21, hpfCutoffSweep := 0xFFFFFFFF }

/-- Another record, differing from `sampleRecord` in every member. -/
def otherRecord : SfxParams Nat :=
  { randSeed := 77, waveType := 2, attackTime := 101, sustainTime := 102, sustainPunch := 103,
    decayTime := 104, startFrequency := 105, minFrequency := 106, slide := 107,
    deltaSlide := 108, vibratoDepth := 109, vibratoSpeed := 110, changeAmount := 111,
    changeSpeed := 112, squareDuty := 113, dutySweep := 114, repeatSpeed := 115,
    phaserOffset := 116, phaserSweep := 117, lpfCutoff := 118, lpfCutoffSweep := 119,
    lpfResonance := 120, hpfCutoff := 121, hpfCutoffSweep := 122 }

/-- The reading of the record layout claim with `n` float members: the 96 bytes are the word of
`randSeed`, the word of `waveType` and then the words of `n` floats, nothing else. -/
def RecordHasFloats (n : Nat) (p : SfxParams Nat) : Prop :=
  ∃ fs : List Nat, fs.length = n ∧
    p.bytes = encode32 p.randSeed ++ encode32 (ofInt32 p.waveType) ++ fs.flatMap encode32

/-! ## Load / save (sfx_gen.c) -/

/-- The four characters `r`, `F`, `X` and space. -/
def rfxSignature : List Nat := [0x72, 0x46, 0x58, 0x20]

/-- The rFX header of the specification: the signature, then 200 and 96 as little-endian
16-bit words. -/
def rfxHeader : List Nat := rfxSignature ++ [200, 0] ++ [96, 0]

/-- The little-endian 32-bit value at byte offset `off` of a file. -/
def u32At (file : List Nat) (off : Nat) : Nat := decode32 ((file.drop off).take 4)

/-- The little-endian 16-bit value at byte offset `off` of a file. -/
def u16At (file : List Nat) (off : Nat) : Nat := decode16 ((file.drop off).take 2)

/-- Size in bytes of a complete sfxr settings file of version 100, 101 or 102. -/
def sfsSize (v : Int) : Nat := if v = 102 then 105 else if v = 101 then 101 else 89

/-- The sfxr settings layout as the specification tabulates it, by byte offset: `a` is the room
the volume takes (version 102 only), `b` the room `deltaSlide` takes (from version 101 on). -/
def sfsLayout (v : Int) (file : List Nat) (randSeed : Nat) : SfxParams Nat :=
  let a := if v = 102 then 4 else 0
  let b := if v ≥ 101 then 4 else 0
  { randSeed := randSeed
    waveType := toInt32 (u32At file 4)
    startFrequency := u32At file (8 + a)
    minFrequency := u32At file (12 + a)
    slide := u32At file (16 + a)
    deltaSlide := if v ≥ 101 then u32At file (20 + a) else bits_0_0f
    squareDuty := u32At file (20 + a + b)
    dutySweep := u32At file (24 + a + b)
    vibratoDepth := u32At file (28 + a + b)
    vibratoSpeed := u32At file (32 + a + b)
    attackTime := u32At file (40 + a + b)
    sustainTime := u32At file (44 + a + b)
    decayTime := u32At file (48 + a + b)
    sustainPunch := u32At file (52 + a + b)
    lpfResonance := u32At file (57 + a + b)
    lpfCutoff := u32At file (61 + a + b)
    lpfCutoffSweep := u32At file (65 + a + b)
    hpfCutoff := u32At file (69 + a + b)
    hpfCutoffSweep := u32At file (73 + a + b)
    phaserOffset := u32At file (77 + a + b)
    phaserSweep := u32At file (81 + a + b)
    repeatSpeed := u32At file (85 + a + b)
    changeSpeed := if v ≥ 101 then u32At file (89 + a + b) else bits_0_0f
    changeAmount := if v ≥ 101 then u32At file (93 + a + b) else bits_0_0f }

/-- The volume the specification's layout delivers: the `float` at offset 8 of a version 102
file, the default `0.5f` otherwise. -/
def sfsLayoutVolume (v : Int) (file : List Nat) : Nat :=
  if v = 102 then u32At file 8 else bits_0_5f

/-- A complete version 102 sfxr settings file: the version word, then the bytes 1 to 101. -/
def sfsFile102 : List Nat := encode32 102 ++ (List.range 101).map (fun i => i + 1)

/-- An rFX file of 8 bytes announcing version 201. -/
def rfxFile201 : List Nat := rfxSignature ++ [201, 0] ++ [96, 0]

/-- The sfxr branch of `sfx_loadParams` once the version is accepted: the sequence of unchecked
`fread` calls.  `vibratoPhaseDelay` (4 bytes) and `filterOn` (1 byte) are read into locals that
are never used.  Returns the parameters and what `sfsVolume` points at afterwards. -/
def loadSfs (version : Int) (sp : SfxParams Nat) (fp : List Nat) (sfsVolume : Option Nat) :
    SfxParams Nat × Option Nat :=
  let r : Int × List Nat := readInt sp.waveType fp
  let sp : SfxParams Nat := { sp with waveType := r.1 }
  let rv : Nat × List Nat := if version = 102 then readWord bits_0_5f r.2 else (bits_0_5f, r.2)
  let sfsVolume : Option Nat := sfsVolume.map (fun _ => rv.1)
  let r : Nat × List Nat := readWord sp.startFrequency rv.2
  let sp : SfxParams Nat := { sp with startFrequency := r.1 }
  let r : Nat × List Nat := readWord sp.minFrequency r.2
  let sp : SfxParams Nat := { sp with minFrequency := r.1 }
  let r : Nat × List Nat := readWord sp.slide r.2
  let sp : SfxParams Nat := { sp with slide := r.1 }
  let r : Nat × List Nat := if version ≥ 101 then readWord sp.deltaSlide r.2 else (bits_0_0f, r.2)
  let sp : SfxParams Nat := { sp with deltaSlide := r.1 }
  let r : Nat × List Nat := readWord sp.squareDuty r.2
  let sp : SfxParams Nat := { sp with squareDuty := r.1 }
  let r : Nat × List Nat := readWord sp.dutySweep r.2
  let sp : SfxParams Nat := { sp with dutySweep := r.1 }
  let r : Nat × List Nat := readWord sp.vibratoDepth r.2
  let sp : SfxParams Nat := { sp with vibratoDepth := r.1 }
  let r : Nat × List Nat := readWord sp.vibratoSpeed r.2
  let sp : SfxParams Nat := { sp with vibratoSpeed := r.1 }
  let fp : List Nat := r.2.drop 4
  let r : Nat × List Nat := readWord sp.attackTime fp
  let sp : SfxParams Nat := { sp with attackTime := r.1 }
  let r : Nat × List Nat := readWord sp.sustainTime r.2
  let sp : SfxParams Nat := { sp with sustainTime := r.1 }
  let r : Nat × List Nat := readWord sp.decayTime r.2
  let sp : SfxParams Nat := { sp with decayTime := r.1 }
  let r : Nat × List Nat := readWord sp.sustainPunch r.2
  let sp : SfxParams Nat := { sp with sustainPunch := r.1 }
  let fp : List Nat := r.2.drop 1
  let r : Nat × List Nat := readWord sp.lpfResonance fp
  let sp : SfxParams Nat := { sp with lpfResonance := r.1 }
  let r : Nat × List Nat := readWord sp.lpfCutoff r.2
  let sp : SfxParams Nat := { sp with lpfCutoff := r.1 }
  let r : Nat × List Nat := readWord sp.lpfCutoffSweep r.2
  let sp : SfxParams Nat := { sp with lpfCutoffSweep := r.1 }
  let r : Nat × List Nat := readWord sp.hpfCutoff r.2
  let sp : SfxParams Nat := { sp with hpfCutoff := r.1 }
  let r : Nat × List Nat := readWord sp.hpfCutoffSweep r.2
  let sp : SfxParams Nat := { sp with hpfCutoffSweep := r.1 }
  let r : Nat × List Nat := readWord sp.phaserOffset r.2
  let sp : SfxParams Nat := { sp with phaserOffset := r.1 }
  let r : Nat × List Nat := readWord sp.phaserSweep r.2
  let sp : SfxParams Nat := { sp with phaserSweep := r.1 }
  let r : Nat × List Nat := readWord sp.repeatSpeed r.2
  let sp : SfxParams Nat := { sp with repeatSpeed := r.1 }
  if version ≥ 101 then
    let r : Nat × List Nat := readWord sp.changeSpeed r.2
    let sp : SfxParams Nat := { sp with changeSpeed := r.1 }
    let r : Nat × List Nat := readWord sp.changeAmount r.2
    ({ sp with changeAmount := r.1 }, sfsVolume)
  else
    ({ sp with changeSpeed := bits_0_0f, changeAmount := bits_0_0f }, sfsVolume)

/-- The function `sfx_loadParams(sp, fileName, sfsVolume)`.

* `sp` is the content of `*sp` before the call;
* `file` is the content of the named file, `none` when `fopen` fails;
* `sfsVolume` is `none` for a null pointer, otherwise the `float` it points at;
* `version0`, `length0` are the indeterminate initial contents of the two `uint16_t` locals.

Returns the message (`none` for `NULL`), `*sp` and `*sfsVolume` after the call. -/
def sfx_loadParams (sp : SfxParams Nat) (file : Option (List Nat)) (sfsVolume : Option Nat)
    (version0 length0 : Nat) : Option SfxError × SfxParams Nat × Option Nat :=
  match file with
  | none => (some SfxError.fileOpenFailed, sp, sfsVolume)
  | some fp =>
    let header := fread [0, 0, 0, 0] fp
    if header.2.1 ≠ 4 then
      (some SfxError.fileReadFailed, sp, sfsVolume)
    else if header.1.getD 0 0 = 0x72 ∧ header.1.getD 1 0 = 0x46 ∧
        header.1.getD 2 0 = 0x58 ∧ header.1.getD 3 0 = 0x20 then
      let version := readU16 version0 header.2.2
      let length := readU16 length0 version.2
      if version.1 ≠ 200 then
        (some SfxError.rfxVersionNotSupported, sp, sfsVolume)
      else if length.1 ≠ 96 then
        (some SfxError.rfxInvalidSize, sp, sfsVolume)
      else
        let rd := fread sp.bytes length.2
        (if rd.2.1 = 96 then none else some SfxError.fileReadFailed,
         SfxParams.ofBytes rd.1, sfsVolume)
    else
      let version := toInt32 (decode32 header.1)
      if version = 100 ∨ version = 101 ∨ version = 102 then
        let r := loadSfs version sp header.2.2 sfsVolume
        (none, r.1, r.2)
      else
        (some SfxError.sfsVersionNotSupported, sp, sfsVolume)

/-- The function `sfx_saveRfx(sp, fileName)`.  `dev` is `none` when `fopen` fails, otherwise the
number of bytes the opened file can take.  The results of the three header writes and of
`fclose` are not looked at; only the count `n` of the last `fwrite` is.  Returns the message
(`none` for `NULL`) and the content of the file after `fclose` (`none` when it was not
opened). -/
def sfx_saveRfx (sp : SfxParams Nat) (dev : Option Nat) : Option SfxError × Option (List Nat) :=
  let version := 200
  let dataLen := 96
  match dev with
  | none => (some SfxError.fileOpenFailed, none)
  | some room =>
    let w := fwrite [0x72, 0x46, 0x58, 0x20] []
    let w := fwrite (encode16 version) w.2
    let w := fwrite (encode16 dataLen) w.2
    let w := fwrite (sp.bytes.take dataLen) w.2
    let c := fclose room w.2
    (if w.1 ≠ dataLen then some SfxError.fileWriteFailed else none, some c.2)

/-! ## Arithmetic and random numbers -/

/-- An interpretation of the `float` (type `F`) and `double` (type `D`) operations the program
uses.  Nothing is assumed about them: rounding, infinities and NaN are up to the
interpretation. -/
structure FloatOps (F D : Type) where
  /-- A `float` constant, such as `0.5f`. -/
  lit : ℚ → F
  /-- The conversion `(float)i` of an `int`. -/
  ofInt : Int → F
  /-- The conversion `(int)x`. -/
  toInt : F → Int
  /-- `x + y` -/
  add : F → F → F
  /-- `x - y` -/
  sub : F → F → F
  /-- `x * y` -/
  mul : F → F → F
  /-- `x / y` -/
  div : F → F → F
  /-- `-x` -/
  neg : F → F
  /-- `x < y` -/
  lt : F → F → Bool
  /-- `x <= y` -/
  le : F → F → Bool
  /-- `x == y` -/
  eq : F → F → Bool
  /-- `powf(x, y)` -/
  powf : F → F → F
  /-- `sinf(x)` -/
  sinf : F → F
  /-- A `double` constant, such as `0.001`. -/
  dlit : ℚ → D
  /-- The conversion `(int)x` of a `double`. -/
  dtoInt : D → Int
  /-- `x + y` on `double` -/
  dadd : D → D → D
  /-- `x - y` on `double` -/
  dsub : D → D → D
  /-- `x * y` on `double` -/
  dmul : D → D → D
  /-- `x / y` on `double` -/
  ddiv : D → D → D
  /-- `-x` on `double` -/
  dneg : D → D
  /-- `x < y` on `double` -/
  dlt : D → D → Bool
  /-- `pow(x, y)` -/
  pow : D → D → D
  /-- The promotion of a `float` to `double`. -/
  toDouble : F → D
  /-- The conversion `(float)x` of a `double`. -/
  toFloat : D → F

/-- The user-supplied `int sfx_random(int range)` with its hidden generator state made
explicit: the number drawn and the state afterwards. -/
abbrev RandomSource (R : Type) := Int → R → Int × R

/-- The contract the header comment states for `sfx_random`: the result lies between 0
(inclusive) and `range` (exclusive). -/
def RandomSource.InRange {R : Type} (rnd : RandomSource R) : Prop :=
  ∀ (range : Int) (r : R), 0 < range → 0 ≤ (rnd range r).1 ∧ (rnd range r).1 < range

/-- Exact arithmetic on the rationals: no rounding, `(int)x` truncates toward zero.  `powf`,
`pow` and `sinf` are supplied by the caller. -/
def exactOps (pw : ℚ → ℚ → ℚ) (sn : ℚ → ℚ) : FloatOps ℚ ℚ :=
  { lit := fun q => q
    ofInt := fun i => (i : ℚ)
    toInt := fun x => if 0 ≤ x then ⌊x⌋ else ⌈x⌉
    add := fun x y => x + y
    sub := fun x y => x - y
    mul := fun x y => x * y
    div := fun x y => x / y
    neg := fun x => -x
    lt := fun x y => decide (x < y)
    le := fun x y => decide (x ≤ y)
    eq := fun x y => decide (x = y)
    powf := pw
    sinf := sn
    dlit := fun q => q
    dtoInt := fun x => if 0 ≤ x then ⌊x⌋ else ⌈x⌉
    dadd := fun x y => x + y
    dsub := fun x y => x - y
    dmul := fun x y => x * y
    ddiv := fun x y => x / y
    dneg := fun x => -x
    dlt := fun x y => decide (x < y)
    pow := pw
    toDouble := fun x => x
    toFloat := fun x => x }

/-- The power `x ^ y` for an exponent `y` that is a natural number, as are all exponents the
program passes to `pow` and `powf` (1, 2, 3 and 5). -/
def powNat (x y : ℚ) : ℚ := x ^ y.num.toNat

/-- The Taylor polynomial of degree 7 of the sine, a rational stand-in for `sinf`. -/
def sinPoly (x : ℚ) : ℚ := x - x ^ 3 / 6 + x ^ 5 / 120 - x ^ 7 / 5040

/-- Exact arithmetic with `powNat` for `pow` and `powf` and `sinPoly` for `sinf`. -/
def exactArith : FloatOps ℚ ℚ := exactOps powNat sinPoly

/-- A random source that returns `k` reduced modulo the range at every call and counts the
calls in its state. -/
def constRandom (k : Int) : RandomSource Nat := fun range n => (k % range, n + 1)

/-- The C operator `a & b` on 32-bit `int` values in two's complement. -/
def cAnd (a b : Int) : Int := toInt32 (ofInt32 a &&& ofInt32 b)

/-- The C operator `a ^ b` on 32-bit `int` values in two's complement. -/
def cXor (a b : Int) : Int := toInt32 (ofInt32 a ^^^ ofInt32 b)

/-- The function `frnd(range)`: `(float)sfx_random(10001)/10000.0f*range`. -/
def frnd {F D R : Type} (fo : FloatOps F D) (rnd : RandomSource R) (range : F) (r : R) : F × R :=
  (fo.mul (fo.div (fo.ofInt (rnd 10001 r).1) (fo.lit 10000)) range, (rnd 10001 r).2)

/-- The function `rndNP1()`: `(float)sfx_random(20001)/10000.0f - 1.0f`. -/
def rndNP1 {F D R : Type} (fo : FloatOps F D) (rnd : RandomSource R) (r : R) : F × R :=
  (fo.sub (fo.div (fo.ofInt (rnd 20001 r).1) (fo.lit 10000)) (fo.lit 1), (rnd 20001 r).2)

/-! ## Mutation (sfx_gen.c) -/

/-- The clamp at the end of the loop body of `sfx_mutate`:
`if (val > 1.0f) val = 1.0f; else if (val < low) val = low;`. -/
def mutateClamp {F D : Type} (fo : FloatOps F D) (low val : F) : F :=
  if fo.lt (fo.lit 1) val then fo.lit 1 else if fo.lt val low then low else val

/-- One pass of the loop of `sfx_mutate`, at index `i`, on the parameters and the generator. -/
def mutateStep {F D R : Type} (fo : FloatOps F D) (rnd : RandomSource R) (range half : F)
    (mask rmod : Nat) (st : SfxParams F × R) (i : Nat) : SfxParams F × R :=
  let bit := (1 <<< i) % 4294967296
  if (rmod &&& bit) &&& mask ≠ 0 then
    let low := if SFX_NEGATIVE_ONE_MASK &&& bit ≠ 0 then fo.neg (fo.lit 1) else fo.lit 0
    let d := frnd fo rnd range st.2
    (st.1.modifyFloat i (fun old => mutateClamp fo low (fo.sub (fo.add old d.1) half)), d.2)
  else st

/-- The function `sfx_mutate(sp, range, mask)`; returns `*sp` and the generator state after the
call. -/
def sfx_mutate {F D R : Type} (fo : FloatOps F D) (rnd : RandomSource R) (sp : SfxParams F)
    (range : F) (mask : Nat) (r : R) : SfxParams F × R :=
  let half := fo.mul range (fo.lit 0.5)
  let rmod := ofInt32 (1 + (rnd 0xFFFFFF r).1)
  (List.range 22).foldl (mutateStep fo rnd range half mask rmod) (sp, (rnd 0xFFFFFF r).2)

/-- The function `sfx_resetParams(sp)`: the 24 stores, in the order of the source. -/
def sfx_resetParams {F D : Type} (fo : FloatOps F D) (sp : SfxParams F) : SfxParams F :=
  { sp with
    randSeed := 0
    waveType := SFX_SQUARE
    attackTime := fo.lit 0
    sustainTime := fo.lit 0.3
    sustainPunch := fo.lit 0
    decayTime := fo.lit 0.4
    startFrequency := fo.lit 0.3
    minFrequency := fo.lit 0
    slide := fo.lit 0
    deltaSlide := fo.lit 0
    vibratoDepth := fo.lit 0
    vibratoSpeed := fo.lit 0
    changeAmount := fo.lit 0
    changeSpeed := fo.lit 0
    squareDuty := fo.lit 0
    dutySweep := fo.lit 0
    repeatSpeed := fo.lit 0
    phaserOffset := fo.lit 0
    phaserSweep := fo.lit 0
    lpfCutoff := fo.lit 1
    lpfCutoffSweep := fo.lit 0
    lpfResonance := fo.lit 0
    hpfCutoff := fo.lit 0
    hpfCutoffSweep := fo.lit 0 }

/-! ## Wave synthesis (sfx_gen.c) -/

/-- A cell of the sample buffer, seen through the view `sampleFormat` selects. -/
inductive Sample (F : Type) where
  /-- A `uint8_t` sample. -/
  | u8 (v : Int)
  /-- An `int16_t` sample. -/
  | i16 (v : Int)
  /-- A `float` sample. -/
  | f32 (x : F)

/-- The synthesizer context, `struct SfxSynth`.  Arrays are maps from the index; an access
outside the declared size is an access to a cell the program does not own. -/
structure SfxSynth (F : Type) where
  sampleFormat : Int
  sampleRate : Int
  maxDuration : Int
  samples : Int → Sample F
  noiseBuffer : Int → F
  pinkWhiteValue : Int → F
  phaserBuffer : Int → F

/-- The local variables of `sfx_generateWave` that live across loop iterations. -/
structure Regs (F D : Type) where
  phase : Int
  fperiod : D
  fmaxperiod : D
  fslide : D
  fdslide : D
  period : Int
  squareDuty : F
  squareSlide : F
  envStage : Int
  envTime : Int
  envLength0 : Int
  envLength1 : Int
  envLength2 : Int
  envVolume : F
  fphase : F
  fdphase : F
  iphase : Int
  ipp : Int
  fltp : F
  fltdp : F
  fltw : F
  fltwd : F
  fltdmp : F
  fltphp : F
  flthp : F
  flthpd : F
  vibratoPhase : F
  vibratoSpeed : F
  vibratoAmplitude : F
  repeatTime : Int
  repeatLimit : Int
  arpeggioTime : Int
  arpeggioLimit : Int
  arpeggioModulation : D
  pinkI : Int

/-- The element `envLength[i]`. -/
def Regs.envLength {F D : Type} (g : Regs F D) (i : Int) : Int :=
  if i = 0 then g.envLength0 else if i = 1 then g.envLength1 else g.envLength2

/-- What a generation call works on besides the sample buffer: the locals, the three scratch
arrays of the context and the random generator. -/
structure GenState (F D R : Type) where
  regs : Regs F D
  noiseBuffer : Int → F
  pinkWhiteValue : Int → F
  phaserBuffer : Int → F
  rng : R

/-- The local `minFreq`: `minFrequency`, lowered to `startFrequency` when above it. -/
def minFreq {F D : Type} (fo : FloatOps F D) (sp : SfxParams F) : F :=
  if fo.lt sp.startFrequency sp.minFrequency then sp.startFrequency else sp.minFrequency

/-- The local `sslide`: `slide`, raised to `deltaSlide` when below it. -/
def sslide {F D : Type} (fo : FloatOps F D) (sp : SfxParams F) : F :=
  if fo.lt sp.slide sp.deltaSlide then sp.deltaSlide else sp.slide

/-- The value `RESET_SAMPLE` gives `fperiod`. -/
def startPeriod {F D : Type} (fo : FloatOps F D) (sp : SfxParams F) : D :=
  fo.ddiv (fo.dlit 100)
    (fo.dadd (fo.toDouble (fo.mul sp.startFrequency sp.startFrequency)) (fo.dlit 0.001))

/-- The macro `RESET_SAMPLE`. -/
def resetSample {F D : Type} (fo : FloatOps F D) (sp : SfxParams F) (g : Regs F D) : Regs F D :=
  { g with
    fperiod := startPeriod fo sp
    period := fo.dtoInt (startPeriod fo sp)
    fmaxperiod := fo.ddiv (fo.dlit 100)
      (fo.dadd (fo.toDouble (fo.mul (minFreq fo sp) (minFreq fo sp))) (fo.dlit 0.001))
    fslide := fo.dsub (fo.dlit 1)
      (fo.dmul (fo.pow (fo.toDouble (sslide fo sp)) (fo.dlit 3)) (fo.dlit 0.01))
    fdslide := fo.dmul (fo.dneg (fo.pow (fo.toDouble sp.deltaSlide) (fo.dlit 3)))
      (fo.dlit 0.000001)
    squareDuty := fo.sub (fo.lit 0.5) (fo.mul sp.squareDuty (fo.lit 0.5))
    squareSlide := fo.mul (fo.neg sp.dutySweep) (fo.lit 0.00005)
    arpeggioModulation :=
      if fo.le (fo.lit 0) sp.changeAmount then
        fo.dsub (fo.dlit 1) (fo.dmul (fo.pow (fo.toDouble sp.changeAmount) (fo.dlit 2)) (fo.dlit 0.9))
      else
        fo.dadd (fo.dlit 1) (fo.dmul (fo.pow (fo.toDouble sp.changeAmount) (fo.dlit 2)) (fo.dlit 10))
    arpeggioTime := 0
    arpeggioLimit :=
      if fo.eq sp.changeSpeed (fo.lit 1) then 0
      else fo.toInt (fo.add (fo.mul (fo.powf (fo.sub (fo.lit 1) sp.changeSpeed) (fo.lit 2))
        (fo.ofInt 20000)) (fo.ofInt 32)) }

/-- One pass of the loop of `pinkValue`, at index `k`, on the running sum and the state. -/
def pinkStep {F D R : Type} (fo : FloatOps F D) (rnd : RandomSource R) (bitsChanged : Int)
    (acc : F × GenState F D R) (k : Nat) : F × GenState F D R :=
  let st : GenState F D R :=
    if cAnd bitsChanged (2 ^ k) ≠ 0 then
      { acc.2 with
        pinkWhiteValue := Function.update acc.2.pinkWhiteValue (k : Int)
          (frnd fo rnd (fo.lit 1) acc.2.rng).1
        rng := (frnd fo rnd (fo.lit 1) acc.2.rng).2 }
    else acc.2
  (fo.add acc.1 (st.pinkWhiteValue (k : Int)), st)

/-- The function `pinkValue(&pinkI, synth->pinkWhiteValue)`. -/
def pinkValue {F D R : Type} (fo : FloatOps F D) (rnd : RandomSource R) (st : GenState F D R) :
    F × GenState F D R :=
  let lastI := st.regs.pinkI
  let i := if lastI + 1 > 0x1f then 0 else lastI + 1
  let r := (List.range 5).foldl (pinkStep fo rnd (cXor lastI i))
    (fo.lit 0, { st with regs := { st.regs with pinkI := i } })
  (fo.sub (fo.mul (fo.div r.1 (fo.ofInt 5)) (fo.lit 2)) (fo.lit 1), r.2)

/-- The macro `RESET_NOISE`. -/
def resetNoise {F D R : Type} (fo : FloatOps F D) (rnd : RandomSource R) (sp : SfxParams F)
    (st : GenState F D R) : GenState F D R :=
  if sp.waveType = SFX_NOISE then
    (List.range 32).foldl (fun (s : GenState F D R) (i : Nat) =>
      { s with
        noiseBuffer := Function.update s.noiseBuffer (i : Int) (rndNP1 fo rnd s.rng).1
        rng := (rndNP1 fo rnd s.rng).2 }) st
  else if sp.waveType = SFX_PINK_NOISE then
    (List.range 32).foldl (fun (s : GenState F D R) (i : Nat) =>
      { (pinkValue fo rnd s).2 with
        noiseBuffer := Function.update (pinkValue fo rnd s).2.noiseBuffer (i : Int)
          (pinkValue fo rnd s).1 }) st
  else st

/-- The locals after the code of `sfx_generateWave` that precedes the phaser reset: the sanity
checks, `RESET_SAMPLE`, the filter, vibrato and envelope resets, and the phaser offsets.
`pinkI` is indeterminate in C at this point; the model starts it at 0.  `repeatTime` and
`repeatLimit`, assigned just before the loop, are set here as well. -/
def initRegs {F D : Type} (fo : FloatOps F D) (sp : SfxParams F) : Regs F D :=
  let fltw := fo.mul (fo.powf sp.lpfCutoff (fo.lit 3)) (fo.lit 0.1)
  let fltdmp := fo.mul
    (fo.div (fo.lit 5) (fo.add (fo.lit 1) (fo.mul (fo.powf sp.lpfResonance (fo.lit 2)) (fo.lit 20))))
    (fo.add (fo.lit 0.01) fltw)
  let fphase0 := fo.mul (fo.powf sp.phaserOffset (fo.lit 2)) (fo.lit 1020)
  let fphase := if fo.lt sp.phaserOffset (fo.lit 0) then fo.neg fphase0 else fphase0
  let fdphase0 := fo.mul (fo.powf sp.phaserSweep (fo.lit 2)) (fo.lit 1)
  let fdphase := if fo.lt sp.phaserSweep (fo.lit 0) then fo.neg fdphase0 else fdphase0
  resetSample fo sp
    { phase := 0
      fperiod := fo.dlit 0
      fmaxperiod := fo.dlit 0
      fslide := fo.dlit 0
      fdslide := fo.dlit 0
      period := 0
      squareDuty := fo.lit 0
      squareSlide := fo.lit 0
      envStage := 0
      envTime := 0
      envLength0 := fo.toInt (fo.mul (fo.mul sp.attackTime sp.attackTime) (fo.lit 100000))
      envLength1 := fo.toInt (fo.mul (fo.mul sp.sustainTime sp.sustainTime) (fo.lit 100000))
      envLength2 := fo.toInt (fo.mul (fo.mul sp.decayTime sp.decayTime) (fo.lit 100000))
      envVolume := fo.lit 0
      fphase := fphase
      fdphase := fdphase
      iphase := |fo.toInt fphase|
      ipp := 0
      fltp := fo.lit 0
      fltdp := fo.lit 0
      fltw := fltw
      fltwd := fo.add (fo.lit 1) (fo.mul sp.lpfCutoffSweep (fo.lit 0.0001))
      fltdmp := if fo.lt (fo.lit 0.8) fltdmp then fo.lit 0.8 else fltdmp
      fltphp := fo.lit 0
      flthp := fo.mul (fo.powf sp.hpfCutoff (fo.lit 2)) (fo.lit 0.1)
      flthpd := fo.add (fo.lit 1) (fo.mul sp.hpfCutoffSweep (fo.lit 0.0003))
      vibratoPhase := fo.lit 0
      vibratoSpeed := fo.mul (fo.powf sp.vibratoSpeed (fo.lit 2)) (fo.lit 0.01)
      vibratoAmplitude := fo.mul sp.vibratoDepth (fo.lit 0.5)
      repeatTime := 0
      repeatLimit :=
        if fo.eq sp.repeatSpeed (fo.lit 0) then 0
        else fo.toInt (fo.add (fo.mul (fo.powf (fo.sub (fo.lit 1) sp.repeatSpeed) (fo.lit 2))
          (fo.ofInt 20000)) (fo.ofInt 32))
      arpeggioTime := 0
      arpeggioLimit := 0
      arpeggioModulation := fo.dlit 0
      pinkI := 0 }

/-- The state when the sample loop is entered: the locals of `initRegs`, the phaser buffer
zeroed over its 1024 cells, for pink noise `pinkI = 0` and five fresh white values, and
`RESET_NOISE` done. -/
def initState {F D R : Type} (fo : FloatOps F D) (rnd : RandomSource R) (synth : SfxSynth F)
    (sp : SfxParams F) (r : R) : GenState F D R :=
  let st0 : GenState F D R :=
    { regs := initRegs fo sp
      noiseBuffer := synth.noiseBuffer
      pinkWhiteValue := synth.pinkWhiteValue
      phaserBuffer := fun i => if 0 ≤ i ∧ i < 1024 then fo.lit 0 else synth.phaserBuffer i
      rng := r }
  let st1 : GenState F D R :=
    if sp.waveType = SFX_PINK_NOISE then
      (List.range 5).foldl (fun (s : GenState F D R) (i : Nat) =>
        { s with
          pinkWhiteValue := Function.update s.pinkWhiteValue (i : Int)
            (frnd fo rnd (fo.lit 1) s.rng).1
          rng := (frnd fo rnd (fo.lit 1) s.rng).2 })
        { st0 with regs := { st0.regs with pinkI := 0 } }
    else st0
  resetNoise fo rnd sp st1

/-- The repeat at the head of the loop body: `repeatTime++`, and when `repeatLimit` is not 0
and is reached, `repeatTime = 0` and `RESET_SAMPLE`. -/
def stepRepeat {F D : Type} (fo : FloatOps F D) (sp : SfxParams F) (g : Regs F D) : Regs F D :=
  let g1 : Regs F D := { g with repeatTime := g.repeatTime + 1 }
  if g1.repeatLimit ≠ 0 ∧ g1.repeatTime ≥ g1.repeatLimit then
    resetSample fo sp { g1 with repeatTime := 0 }
  else g1

/-- The head of the loop body up to the duty clamp: repeat, arpeggio, slide, the
minimum-frequency test, vibrato, the period floor and the duty sweep.  The flag tells whether
the statement `sampleEnd = sampleCount` is executed. -/
def stepControl {F D : Type} (fo : FloatOps F D) (sp : SfxParams F) (g : Regs F D) :
    Regs F D × Bool :=
  let g2 : Regs F D := stepRepeat fo sp g
  let g3 : Regs F D := { g2 with arpeggioTime := g2.arpeggioTime + 1 }
  let g4 : Regs F D :=
    if g3.arpeggioLimit ≠ 0 ∧ g3.arpeggioTime ≥ g3.arpeggioLimit then
      { g3 with arpeggioLimit := 0, fperiod := fo.dmul g3.fperiod g3.arpeggioModulation }
    else g3
  let fslide : D := fo.dadd g4.fslide g4.fdslide
  let fperiod0 : D := fo.dmul g4.fperiod fslide
  let over : Bool := fo.dlt g4.fmaxperiod fperiod0
  let fperiod : D := if over then g4.fmaxperiod else fperiod0
  let vib : Bool := fo.lt (fo.lit 0) g4.vibratoAmplitude
  let vibratoPhase : F := if vib then fo.add g4.vibratoPhase g4.vibratoSpeed else g4.vibratoPhase
  let rfperiod : F :=
    if vib then
      fo.toFloat (fo.dmul fperiod
        (fo.dadd (fo.dlit 1) (fo.toDouble (fo.mul (fo.sinf vibratoPhase) g4.vibratoAmplitude))))
    else fo.toFloat fperiod
  let duty : F := fo.add g4.squareDuty g4.squareSlide
  ({ g4 with
     fslide := fslide
     fperiod := fperiod
     vibratoPhase := vibratoPhase
     period := if fo.toInt rfperiod < 8 then 8 else fo.toInt rfperiod
     squareDuty :=
       if fo.lt duty (fo.lit 0) then fo.lit 0
       else if fo.lt (fo.lit 0.5) duty then fo.lit 0.5 else duty },
   over && fo.lt (fo.lit 0) (minFreq fo sp))

/-- The label `next_stage`, entered with `envStage = s`: the stage to continue in, or `none`
when stage 3 is reached and the loop is left.  From a stage 0, 1 or 2 at most three passes are
made; the count of passes left is the first argument. -/
def nextStage {F D : Type} (g : Regs F D) : Nat → Int → Option Int
  | 0, s => some s
  | n + 1, s =>
    if s + 1 = 3 then none
    else if g.envLength (s + 1) = 0 then nextStage g n (s + 1)
    else some (s + 1)

/-- The `switch (envStage)` that computes `envVolume`. -/
def envelopeVolume {F D : Type} (fo : FloatOps F D) (sp : SfxParams F) (g : Regs F D) : F :=
  if g.envStage = 0 then
    fo.div (fo.ofInt g.envTime) (fo.ofInt (g.envLength 0))
  else if g.envStage = 1 then
    fo.add (fo.lit 1)
      (fo.mul (fo.mul
        (fo.powf (fo.sub (fo.lit 1) (fo.div (fo.ofInt g.envTime) (fo.ofInt (g.envLength 1))))
          (fo.lit 1))
        (fo.lit 2)) sp.sustainPunch)
  else if g.envStage = 2 then
    fo.sub (fo.lit 1) (fo.div (fo.ofInt g.envTime) (fo.ofInt (g.envLength 2)))
  else g.envVolume

/-- The volume envelope part of the loop body; `none` when the `break` is taken. -/
def stepEnvelope {F D : Type} (fo : FloatOps F D) (sp : SfxParams F) (g : Regs F D) :
    Option (Regs F D) :=
  let g1 : Regs F D := { g with envTime := g.envTime + 1 }
  let g2 : Option (Regs F D) :=
    if g1.envTime > g1.envLength g1.envStage then
      (nextStage g1 3 g1.envStage).map (fun s => { g1 with envTime := 0, envStage := s })
    else some g1
  g2.map (fun g3 => { g3 with envVolume := envelopeVolume fo sp g3 })

/-- The phaser step and the high-pass cutoff sweep of the loop body. -/
def stepPhaser {F D : Type} (fo : FloatOps F D) (g : Regs F D) : Regs F D :=
  let fphase : F := fo.add g.fphase g.fdphase
  let hp : F := fo.mul g.flthp g.flthpd
  { g with
    fphase := fphase
    iphase := if |fo.toInt fphase| > 1023 then 1023 else |fo.toInt fphase|
    flthp :=
      if !(fo.eq g.flthpd (fo.lit 0)) then
        (if fo.lt hp (fo.lit 0.00001) then fo.lit 0.00001
         else if fo.lt (fo.lit 0.1) hp then fo.lit 0.1 else hp)
      else g.flthp }

/-- The macro `RAMP(v, x1, x2, y1, y2)`. -/
def RAMP {F D : Type} (fo : FloatOps F D) (v x1 x2 y1 y2 : F) : F :=
  fo.add y1 (fo.mul (fo.sub y2 y1) (fo.div (fo.sub v x1) (fo.sub x2 x1)))

/-- The base waveform: the `switch (sp->waveType)` of the supersampling loop, with
`SAWTOOTH_DUTY` defined.  A wave type outside the enumeration leaves the sample at `0.0f`. -/
def waveform {F D : Type} (fo : FloatOps F D) (sp : SfxParams F) (g : Regs F D)
    (noiseBuffer : Int → F) (fp : F) : F :=
  if sp.waveType = SFX_SQUARE then
    (if fo.lt fp g.squareDuty then fo.lit 0.5 else fo.neg (fo.lit 0.5))
  else if sp.waveType = SFX_SAWTOOTH then
    (if fo.lt fp g.squareDuty then
      fo.add (fo.neg (fo.lit 1)) (fo.div (fo.mul (fo.lit 2) fp) g.squareDuty)
     else
      fo.sub (fo.lit 1)
        (fo.div (fo.mul (fo.lit 2) (fo.sub fp g.squareDuty)) (fo.sub (fo.lit 1) g.squareDuty)))
  else if sp.waveType = SFX_SINE then
    fo.sinf (fo.mul (fo.mul fp (fo.ofInt 2)) (fo.lit 3.14159265))
  else if sp.waveType = SFX_NOISE ∨ sp.waveType = SFX_PINK_NOISE then
    noiseBuffer (Int.tdiv (g.phase * 32) g.period)
  else if sp.waveType = SFX_TRIANGLE then
    (if fo.dlt (fo.toDouble fp) (fo.dlit 0.5) then
      RAMP fo fp (fo.lit 0) (fo.lit 0.5) (fo.neg (fo.lit 1)) (fo.lit 1)
     else
      RAMP fo fp (fo.lit 0.5) (fo.lit 1) (fo.lit 1) (fo.neg (fo.lit 1)))
  else fo.lit 0

/-- The start of one supersampling pass: `phase++` and, when a period is complete, the wrap
`phase %= period` followed by `RESET_NOISE`. -/
def advancePhase {F D R : Type} (fo : FloatOps F D) (rnd : RandomSource R) (sp : SfxParams F)
    (st : GenState F D R) : GenState F D R :=
  if st.regs.phase + 1 ≥ st.regs.period then
    resetNoise fo rnd sp
      { st with regs := { st.regs with phase := Int.tmod (st.regs.phase + 1) st.regs.period } }
  else
    { st with regs := { st.regs with phase := st.regs.phase + 1 } }

/-- The low-pass and high-pass filters of one supersampling pass, applied to the waveform
sample: the locals afterwards (`fltphp` is the filtered sample). -/
def stepFilter {F D : Type} (fo : FloatOps F D) (sp : SfxParams F) (g : Regs F D) (sample : F) :
    Regs F D :=
  let pp : F := g.fltp
  let w : F := fo.mul g.fltw g.fltwd
  let fltw : F :=
    if fo.lt w (fo.lit 0) then fo.lit 0 else if fo.lt (fo.lit 0.1) w then fo.lit 0.1 else w
  let dp : F := fo.add g.fltdp (fo.mul (fo.sub sample g.fltp) fltw)
  let lowpass : Bool := !(fo.eq sp.lpfCutoff (fo.lit 1))
  let fltdp : F := if lowpass then fo.sub dp (fo.mul dp g.fltdmp) else fo.lit 0
  let fltp : F := fo.add (if lowpass then g.fltp else sample) fltdp
  let hp : F := fo.add g.fltphp (fo.sub fltp pp)
  { g with fltw := fltw, fltdp := fltdp, fltp := fltp, fltphp := fo.sub hp (fo.mul hp g.flthp) }

/-- One pass of the 8x supersampling loop, on the running sum `ssample` and the state. -/
def subSample {F D R : Type} (fo : FloatOps F D) (rnd : RandomSource R) (sp : SfxParams F)
    (acc : F × GenState F D R) : F × GenState F D R :=
  let st : GenState F D R := advancePhase fo rnd sp acc.2
  let fp : F := fo.div (fo.ofInt st.regs.phase) (fo.ofInt st.regs.period)
  let g : Regs F D := stepFilter fo sp st.regs (waveform fo sp st.regs st.noiseBuffer fp)
  let buf : Int → F := Function.update st.phaserBuffer (cAnd g.ipp 1023) g.fltphp
  let sample : F := fo.add g.fltphp (buf (cAnd (g.ipp - g.iphase + 1024) 1023))
  (fo.add acc.1 (fo.mul sample g.envVolume),
   { st with regs := { g with ipp := cAnd (g.ipp + 1) 1023 }, phaserBuffer := buf })

/-- The scaling and clamp of the accumulated sample after the supersampling loop. -/
def finishSample {F D : Type} (fo : FloatOps F D) (ssample : F) : F :=
  let s : F := fo.mul (fo.div ssample (fo.ofInt 8)) (fo.lit 0.2)
  if fo.lt (fo.lit 1) s then fo.lit 1
  else if fo.lt s (fo.neg (fo.lit 1)) then fo.neg (fo.lit 1) else s

/-- The store `switch (synth->sampleFormat)` makes at index `sampleCount`; a format outside the
enumeration stores nothing. -/
def emitSample {F D : Type} (fo : FloatOps F D) (sampleFormat : Int) (samples : Int → Sample F)
    (sampleCount : Int) (ssample : F) : Int → Sample F :=
  if sampleFormat = SFX_U8 then
    Function.update samples sampleCount
      (Sample.u8 (fo.toInt (fo.add (fo.mul ssample (fo.lit 127)) (fo.lit 128))))
  else if sampleFormat = SFX_I16 then
    Function.update samples sampleCount (Sample.i16 (fo.toInt (fo.mul ssample (fo.lit 32767))))
  else if sampleFormat = SFX_F32 then
    Function.update samples sampleCount (Sample.f32 ssample)
  else samples

/-- The 8x supersampling loop: eight passes of `subSample` from `ssample = 0.0f`. -/
def superSample {F D R : Type} (fo : FloatOps F D) (rnd : RandomSource R) (sp : SfxParams F)
    (st : GenState F D R) : F × GenState F D R :=
  (List.range 8).foldl (fun acc _ => subSample fo rnd sp acc) (fo.lit 0, st)

/-- The loop `for (sampleCount = 0; sampleCount < sampleEnd; sampleCount++)`, entered with the
given `sampleCount`, `sampleEnd`, state and sample buffer.  Returns `sampleCount` at the exit,
the state and the buffer. -/
def genLoop {F D R : Type} (fo : FloatOps F D) (rnd : RandomSource R) (sp : SfxParams F)
    (sampleFormat : Int) (sampleCount sampleEnd : Int) (st : GenState F D R)
    (samples : Int → Sample F) : Int × GenState F D R × (Int → Sample F) :=
  if sampleCount < sampleEnd then
    match stepEnvelope fo sp (stepControl fo sp st.regs).1 with
    | none => (sampleCount, st, samples)
    | some g =>
      genLoop fo rnd sp sampleFormat (sampleCount + 1)
        (if (stepControl fo sp st.regs).2 then sampleCount else sampleEnd)
        (superSample fo rnd sp { st with regs := stepPhaser fo g }).2
        (emitSample fo sampleFormat samples sampleCount
          (finishSample fo (superSample fo rnd sp { st with regs := stepPhaser fo g }).1))
  else (sampleCount, st, samples)
termination_by (sampleEnd - sampleCount).toNat
decreasing_by
  split <;> omega

/-- The function `sfx_generateWave(synth, sp)`, with the state of the random generator at the
call.  Returns the number of samples generated, the context afterwards and the generator
state afterwards. -/
def sfx_generateWave {F D R : Type} (fo : FloatOps F D) (rnd : RandomSource R)
    (synth : SfxSynth F) (sp : SfxParams F) (r : R) : Int × SfxSynth F × R :=
  let res := genLoop fo rnd sp synth.sampleFormat 0 (synth.sampleRate * synth.maxDuration)
    (initState fo rnd synth sp r) synth.samples
  (res.1,
   { synth with
     samples := res.2.2
     noiseBuffer := res.2.1.noiseBuffer
     pinkWhiteValue := res.2.1.pinkWhiteValue
     phaserBuffer := res.2.1.phaserBuffer },
   res.2.1.rng)

/-- The float members the header lists as having range -1 to 1, by position in `floats`:
slide, deltaSlide, changeAmount, dutySweep, phaserOffset, phaserSweep, lpfCutoffSweep,
hpfCutoffSweep. -/
def signedFields : List Nat := [6, 7, 10, 13, 15, 16, 18, 21]

/-- The lower clamp bound of float member `i` in exact arithmetic. -/
def lowBound (i : Nat) : ℚ := if i ∈ signedFields then -1 else 0

/-- The perturbation of the specification, in exact arithmetic: a draw `k` out of 10001 scaled
to `k / 10000 * range`, minus half the range. -/
def perturbation {R : Type} (rnd : RandomSource R) (range : ℚ) (r : R) : ℚ :=
  ((rnd 10001 r).1 : ℚ) / 10000 * range - range / 2

/-- The random word of the specification: one more than a draw below `0xFFFFFF`. -/
def mutateWord {R : Type} (rnd : RandomSource R) (r : R) : Nat := (1 + (rnd 0xFFFFFF r).1).toNat

/-- One member of the specification of mutate, amended: member `i` is perturbed when bit `i` is
set in `sel` (the mask and the random word together), at the cost of one draw, and clamped to
`lowBound i`, 1; otherwise nothing happens and nothing is drawn. -/
def mutateSpecStep {R : Type} (rnd : RandomSource R) (range : ℚ) (sel : Nat)
    (st : SfxParams ℚ × R) (i : Nat) : SfxParams ℚ × R :=
  if sel.testBit i then
    (st.1.modifyFloat i (fun old => max (lowBound i) (min 1 (old + perturbation rnd range st.2))),
     (rnd 10001 st.2).2)
  else st

/-- The specification of mutate, amended, in exact arithmetic: draw the random word, then visit
the 22 float members in declaration order. -/
def mutateSpec {R : Type} (rnd : RandomSource R) (sp : SfxParams ℚ) (range : ℚ) (mask : Nat)
    (r : R) : SfxParams ℚ × R :=
  (List.range 22).foldl (mutateSpecStep rnd range (mutateWord rnd r &&& mask))
    (sp, (rnd 0xFFFFFF r).2)

/-- Every float member lies within the bounds `sfx_mutate` clamps it to. -/
def InClampRange (sp : SfxParams ℚ) : Prop :=
  ∀ i x, sp.floats[i]? = some x → lowBound i ≤ x ∧ x ≤ 1

/-- The mask with the bits of all 22 float members set. -/
def fullMask : Nat := 0x3FFFFF

/-- The baseline of `sfx_resetParams` in exact arithmetic. -/
def baseline : SfxParams ℚ :=
  sfx_resetParams exactArith
    ⟨7, 7, 7, 7, 7, 7, 7, 7, 7, 7, 7, 7, 7, 7, 7, 7, 7, 7, 7, 7, 7, 7, 7, 7⟩

/-- A record outside the clamp range: the baseline with `attackTime` 2. -/
def loudAttack : SfxParams ℚ := { baseline with attackTime := 2 }

/-- The baseline with `attackTime` 1/2. -/
def halfAttack : SfxParams ℚ := { baseline with attackTime := 0.5 }

/-- A context for 3 samples (rate 3, one second), all cells zero. -/
def tinySynth : SfxSynth ℚ :=
  { sampleFormat := SFX_F32, sampleRate := 3, maxDuration := 1,
    samples := fun _ => Sample.f32 0, noiseBuffer := fun _ => 0,
    pinkWhiteValue := fun _ => 0, phaserBuffer := fun _ => 0 }

/-- The context `tinySynth` with other values in every cell. -/
def dirtySynth : SfxSynth ℚ :=
  { sampleFormat := SFX_F32, sampleRate := 3, maxDuration := 1,
    samples := fun i => Sample.i16 i, noiseBuffer := fun i => 1 + i,
    pinkWhiteValue := fun i => 2 + i, phaserBuffer := fun i => 3 + i }

/-- Two generation states that agree on everything the program can still read: the locals, the
generator, the 1024 phaser cells, for the two noise wave types the first `n` noise cells, and
for pink noise the first `m` white values. -/
def Live {F D R : Type} (sp : SfxParams F) (n m : Int) (a b : GenState F D R) : Prop :=
  a.regs = b.regs ∧ a.rng = b.rng ∧
    (∀ i, 0 ≤ i → i < 1024 → a.phaserBuffer i = b.phaserBuffer i) ∧
    ((sp.waveType = SFX_NOISE ∨ sp.waveType = SFX_PINK_NOISE) →
      ∀ i, 0 ≤ i → i < n → a.noiseBuffer i = b.noiseBuffer i) ∧
    (sp.waveType = SFX_PINK_NOISE → ∀ i, 0 ≤ i → i < m → a.pinkWhiteValue i = b.pinkWhiteValue i)

/-! ## Parameter generators (sfx_gen.c)

Each generator takes the content of `*sp` before the call and the generator state, and returns
`*sp` and the generator state after the call.  The draws are bound in the order the source
makes them; a statement under an `if` becomes a conditional value of the member it assigns
and a conditional generator state.  Where C leaves the order of two draws inside one
expression open, they are made from left to right. -/

/-- The function `sfx_genPickupCoin(sp)`. -/
def sfx_genPickupCoin {F D R : Type} (fo : FloatOps F D) (rnd : RandomSource R)
    (sp : SfxParams F) (r : R) : SfxParams F × R :=
  let sp0 : SfxParams F := sfx_resetParams fo sp
  let d1 : F × R := frnd fo rnd (fo.lit 0.5) r
  let d2 : F × R := frnd fo rnd (fo.lit 0.1) d1.2
  let d3 : F × R := frnd fo rnd (fo.lit 0.4) d2.2
  let d4 : F × R := frnd fo rnd (fo.lit 0.3) d3.2
  let sp1 : SfxParams F :=
    { sp0 with
      startFrequency := fo.add (fo.lit 0.4) d1.1
      attackTime := fo.lit 0
      sustainTime := d2.1
      decayTime := fo.add (fo.lit 0.1) d3.1
      sustainPunch := fo.add (fo.lit 0.3) d4.1 }
  -- if (sfx_random(2)) { changeSpeed = ...; changeAmount = ...; }
  let c1 : Int × R := rnd 2 d4.2
  let e1 : F × R := frnd fo rnd (fo.lit 0.2) c1.2
  let e2 : F × R := frnd fo rnd (fo.lit 0.4) e1.2
  ({ sp1 with
     changeSpeed := if c1.1 ≠ 0 then fo.add (fo.lit 0.5) e1.1 else sp1.changeSpeed
     changeAmount := if c1.1 ≠ 0 then fo.add (fo.lit 0.2) e2.1 else sp1.changeAmount },
   if c1.1 ≠ 0 then e2.2 else c1.2)

/-- The function `sfx_genLaserShoot(sp)`. -/
def sfx_genLaserShoot {F D R : Type} (fo : FloatOps F D) (rnd : RandomSource R)
    (sp : SfxParams F) (r : R) : SfxParams F × R :=
  let sp0 : SfxParams F := sfx_resetParams fo sp
  -- waveType = sfx_random(3); if ((waveType == SFX_SINE) && sfx_random(2)) waveType = sfx_random(2);
  let w1 : Int × R := rnd 3 r
  let w2 : Int × R := rnd 2 w1.2
  let w3 : Int × R := rnd 2 w2.2
  let r1 : R := if w1.1 = SFX_SINE then (if w2.1 ≠ 0 then w3.2 else w2.2) else w1.2
  let d1 : F × R := frnd fo rnd (fo.lit 0.5) r1
  let d2 : F × R := frnd fo rnd (fo.lit 0.6) d1.2
  let d3 : F × R := frnd fo rnd (fo.lit 0.2) d2.2
  let sp1 : SfxParams F :=
    { sp0 with
      waveType := if w1.1 = SFX_SINE ∧ w2.1 ≠ 0 then w3.1 else w1.1
      startFrequency := fo.add (fo.lit 0.5) d1.1
      minFrequency :=
        if fo.lt (fo.sub (fo.sub (fo.add (fo.lit 0.5) d1.1) (fo.lit 0.2)) d2.1) (fo.lit 0.2) then
          fo.lit 0.2
        else fo.sub (fo.sub (fo.add (fo.lit 0.5) d1.1) (fo.lit 0.2)) d2.1
      slide := fo.sub (fo.neg (fo.lit 0.15)) d3.1 }
  -- if (sfx_random(3) == 0) { startFrequency = ...; minFrequency = ...; slide = ...; }
  let c1 : Int × R := rnd 3 d3.2
  let e1 : F × R := frnd fo rnd (fo.lit 0.6) c1.2
  let e2 : F × R := frnd fo rnd (fo.lit 0.1) e1.2
  let e3 : F × R := frnd fo rnd (fo.lit 0.3) e2.2
  let r2 : R := if c1.1 = 0 then e3.2 else c1.2
  let sp2 : SfxParams F :=
    { sp1 with
      startFrequency := if c1.1 = 0 then fo.add (fo.lit 0.3) e1.1 else sp1.startFrequency
      minFrequency := if c1.1 = 0 then e2.1 else sp1.minFrequency
      slide := if c1.1 = 0 then fo.sub (fo.neg (fo.lit 0.35)) e3.1 else sp1.slide }
  -- if (sfx_random(2)) { squareDuty, dutySweep } else { squareDuty, dutySweep }
  let c2 : Int × R := rnd 2 r2
  let t1 : F × R := frnd fo rnd (fo.lit 0.5) c2.2
  let t2 : F × R := frnd fo rnd (fo.lit 0.2) t1.2
  let f1 : F × R := frnd fo rnd (fo.lit 0.5) c2.2
  let f2 : F × R := frnd fo rnd (fo.lit 0.7) f1.2
  let r3 : R := if c2.1 ≠ 0 then t2.2 else f2.2
  let d4 : F × R := frnd fo rnd (fo.lit 0.2) r3
  let d5 : F × R := frnd fo rnd (fo.lit 0.4) d4.2
  let sp3 : SfxParams F :=
    { sp2 with
      squareDuty := if c2.1 ≠ 0 then t1.1 else fo.add (fo.lit 0.4) f1.1
      dutySweep := if c2.1 ≠ 0 then t2.1 else fo.neg f2.1
      attackTime := fo.lit 0
      sustainTime := fo.add (fo.lit 0.1) d4.1
      decayTime := d5.1 }
  -- if (sfx_random(2)) sustainPunch = frnd(0.3f);
  let c3 : Int × R := rnd 2 d5.2
  let g1 : F × R := frnd fo rnd (fo.lit 0.3) c3.2
  let r4 : R := if c3.1 ≠ 0 then g1.2 else c3.2
  -- if (sfx_random(3) == 0) { phaserOffset = frnd(0.2f); phaserSweep = -frnd(0.2f); }
  let c4 : Int × R := rnd 3 r4
  let h1 : F × R := frnd fo rnd (fo.lit 0.2) c4.2
  let h2 : F × R := frnd fo rnd (fo.lit 0.2) h1.2
  let r5 : R := if c4.1 = 0 then h2.2 else c4.2
  -- if (sfx_random(2)) hpfCutoff = frnd(0.3f);
  let c5 : Int × R := rnd 2 r5
  let k1 : F × R := frnd fo rnd (fo.lit 0.3) c5.2
  ({ sp3 with
     sustainPunch := if c3.1 ≠ 0 then g1.1 else sp3.sustainPunch
     phaserOffset := if c4.1 = 0 then h1.1 else sp3.phaserOffset
     phaserSweep := if c4.1 = 0 then fo.neg h2.1 else sp3.phaserSweep
     hpfCutoff := if c5.1 ≠ 0 then k1.1 else sp3.hpfCutoff },
   if c5.1 ≠ 0 then k1.2 else c5.2)

/-- The function `sfx_genExplosion(sp)`. -/
def sfx_genExplosion {F D R : Type} (fo : FloatOps F D) (rnd : RandomSource R)
    (sp : SfxParams F) (r : R) : SfxParams F × R :=
  let sp0 : SfxParams F := sfx_resetParams fo sp
  -- if (sfx_random(2)) { startFrequency, slide } else { startFrequency, slide }
  let c1 : Int × R := rnd 2 r
  let t1 : F × R := frnd fo rnd (fo.lit 0.4) c1.2
  let t2 : F × R := frnd fo rnd (fo.lit 0.4) t1.2
  let f1 : F × R := frnd fo rnd (fo.lit 0.7) c1.2
  let f2 : F × R := frnd fo rnd (fo.lit 0.2) f1.2
  let r1 : R := if c1.1 ≠ 0 then t2.2 else f2.2
  let sp1 : SfxParams F :=
    { sp0 with
      waveType := SFX_NOISE
      startFrequency :=
        if c1.1 ≠ 0 then fo.add (fo.lit 0.1) t1.1 else fo.add (fo.lit 0.2) f1.1
      slide :=
        if c1.1 ≠ 0 then fo.add (fo.neg (fo.lit 0.1)) t2.1
        else fo.sub (fo.neg (fo.lit 0.2)) f2.1 }
  -- startFrequency *= startFrequency; if (sfx_random(5) == 0) slide = 0.0f;
  let c2 : Int × R := rnd 5 r1
  -- if (sfx_random(3) == 0) repeatSpeed = 0.3f + frnd(0.5f);
  let c3 : Int × R := rnd 3 c2.2
  let g1 : F × R := frnd fo rnd (fo.lit 0.5) c3.2
  let r2 : R := if c3.1 = 0 then g1.2 else c3.2
  let d1 : F × R := frnd fo rnd (fo.lit 0.3) r2
  let d2 : F × R := frnd fo rnd (fo.lit 0.5) d1.2
  let sp2 : SfxParams F :=
    { sp1 with
      startFrequency := fo.mul sp1.startFrequency sp1.startFrequency
      slide := if c2.1 = 0 then fo.lit 0 else sp1.slide
      repeatSpeed := if c3.1 = 0 then fo.add (fo.lit 0.3) g1.1 else sp1.repeatSpeed
      attackTime := fo.lit 0
      sustainTime := fo.add (fo.lit 0.1) d1.1
      decayTime := d2.1 }
  -- if (sfx_random(2) == 0) { phaserOffset = -0.3f + frnd(0.9f); phaserSweep = -frnd(0.3f); }
  let c4 : Int × R := rnd 2 d2.2
  let h1 : F × R := frnd fo rnd (fo.lit 0.9) c4.2
  let h2 : F × R := frnd fo rnd (fo.lit 0.3) h1.2
  let r3 : R := if c4.1 = 0 then h2.2 else c4.2
  let d3 : F × R := frnd fo rnd (fo.lit 0.6) r3
  -- if (sfx_random(2)) { vibratoDepth = frnd(0.7f); vibratoSpeed = frnd(0.6f); }
  let c5 : Int × R := rnd 2 d3.2
  let k1 : F × R := frnd fo rnd (fo.lit 0.7) c5.2
  let k2 : F × R := frnd fo rnd (fo.lit 0.6) k1.2
  let r4 : R := if c5.1 ≠ 0 then k2.2 else c5.2
  -- if (sfx_random(3) == 0) { changeSpeed = 0.6f + frnd(0.3f); changeAmount = 0.8f - frnd(1.6f); }
  let c6 : Int × R := rnd 3 r4
  let m1 : F × R := frnd fo rnd (fo.lit 0.3) c6.2
  let m2 : F × R := frnd fo rnd (fo.lit 1.6) m1.2
  ({ sp2 with
     phaserOffset :=
       if c4.1 = 0 then fo.add (fo.neg (fo.lit 0.3)) h1.1 else sp2.phaserOffset
     phaserSweep := if c4.1 = 0 then fo.neg h2.1 else sp2.phaserSweep
     sustainPunch := fo.add (fo.lit 0.2) d3.1
     vibratoDepth := if c5.1 ≠ 0 then k1.1 else sp2.vibratoDepth
     vibratoSpeed := if c5.1 ≠ 0 then k2.1 else sp2.vibratoSpeed
     changeSpeed := if c6.1 = 0 then fo.add (fo.lit 0.6) m1.1 else sp2.changeSpeed
     changeAmount := if c6.1 = 0 then fo.sub (fo.lit 0.8) m2.1 else sp2.changeAmount },
   if c6.1 = 0 then m2.2 else c6.2)

/-- The function `sfx_genPowerup(sp)`, with `SAWTOOTH_DUTY` defined. -/
def sfx_genPowerup {F D R : Type} (fo : FloatOps F D) (rnd : RandomSource R)
    (sp : SfxParams F) (r : R) : SfxParams F × R :=
  let sp0 : SfxParams F := sfx_resetParams fo sp
  -- if (sfx_random(2)) { waveType = SFX_SAWTOOTH; squareDuty = 1.0f; } else squareDuty = frnd(0.6f);
  let c1 : Int × R := rnd 2 r
  let f1 : F × R := frnd fo rnd (fo.lit 0.6) c1.2
  let r1 : R := if c1.1 ≠ 0 then c1.2 else f1.2
  -- if (sfx_random(2)) { startFrequency, slide, repeatSpeed }
  -- else { startFrequency, slide; if (sfx_random(2)) { vibratoDepth, vibratoSpeed } }
  let c2 : Int × R := rnd 2 r1
  let t1 : F × R := frnd fo rnd (fo.lit 0.3) c2.2
  let t2 : F × R := frnd fo rnd (fo.lit 0.4) t1.2
  let t3 : F × R := frnd fo rnd (fo.lit 0.4) t2.2
  let g1 : F × R := frnd fo rnd (fo.lit 0.3) c2.2
  let g2 : F × R := frnd fo rnd (fo.lit 0.2) g1.2
  let c3 : Int × R := rnd 2 g2.2
  let k1 : F × R := frnd fo rnd (fo.lit 0.7) c3.2
  let k2 : F × R := frnd fo rnd (fo.lit 0.6) k1.2
  let r2 : R := if c2.1 ≠ 0 then t3.2 else (if c3.1 ≠ 0 then k2.2 else c3.2)
  let d1 : F × R := frnd fo rnd (fo.lit 0.4) r2
  let d2 : F × R := frnd fo rnd (fo.lit 0.4) d1.2
  ({ sp0 with
     waveType := if c1.1 ≠ 0 then SFX_SAWTOOTH else sp0.waveType
     squareDuty := if c1.1 ≠ 0 then fo.lit 1 else f1.1
     startFrequency :=
       if c2.1 ≠ 0 then fo.add (fo.lit 0.2) t1.1 else fo.add (fo.lit 0.2) g1.1
     slide := if c2.1 ≠ 0 then fo.add (fo.lit 0.1) t2.1 else fo.add (fo.lit 0.05) g2.1
     repeatSpeed := if c2.1 ≠ 0 then fo.add (fo.lit 0.4) t3.1 else sp0.repeatSpeed
     vibratoDepth := if c2.1 ≠ 0 then sp0.vibratoDepth
       else (if c3.1 ≠ 0 then k1.1 else sp0.vibratoDepth)
     vibratoSpeed := if c2.1 ≠ 0 then sp0.vibratoSpeed
       else (if c3.1 ≠ 0 then k2.1 else sp0.vibratoSpeed)
     attackTime := fo.lit 0
     sustainTime := d1.1
     decayTime := fo.add (fo.lit 0.1) d2.1 }, d2.2)

/-- The function `sfx_genHitHurt(sp)`, with `SAWTOOTH_DUTY` defined. -/
def sfx_genHitHurt {F D R : Type} (fo : FloatOps F D) (rnd : RandomSource R)
    (sp : SfxParams F) (r : R) : SfxParams F × R :=
  let sp0 : SfxParams F := sfx_resetParams fo sp
  -- waveType = sfx_random(3); if (SINE) waveType = NOISE; else if (SQUARE) squareDuty = frnd(0.6f);
  -- else if (SAWTOOTH) squareDuty = 1.0f;
  let w : Int × R := rnd 3 r
  let f1 : F × R := frnd fo rnd (fo.lit 0.6) w.2
  let r1 : R := if w.1 = SFX_SINE then w.2 else if w.1 = SFX_SQUARE then f1.2 else w.2
  let d1 : F × R := frnd fo rnd (fo.lit 0.6) r1
  let d2 : F × R := frnd fo rnd (fo.lit 0.4) d1.2
  let d3 : F × R := frnd fo rnd (fo.lit 0.1) d2.2
  let d4 : F × R := frnd fo rnd (fo.lit 0.2) d3.2
  -- if (sfx_random(2)) hpfCutoff = frnd(0.3f);
  let c : Int × R := rnd 2 d4.2
  let k1 : F × R := frnd fo rnd (fo.lit 0.3) c.2
  ({ sp0 with
     waveType := if w.1 = SFX_SINE then SFX_NOISE else w.1
     squareDuty :=
       if w.1 = SFX_SINE then sp0.squareDuty
       else if w.1 = SFX_SQUARE then f1.1
       else if w.1 = SFX_SAWTOOTH then fo.lit 1 else sp0.squareDuty
     startFrequency := fo.add (fo.lit 0.2) d1.1
     slide := fo.sub (fo.neg (fo.lit 0.3)) d2.1
     attackTime := fo.lit 0
     sustainTime := d3.1
     decayTime := fo.add (fo.lit 0.1) d4.1
     hpfCutoff := if c.1 ≠ 0 then k1.1 else sp0.hpfCutoff },
   if c.1 ≠ 0 then k1.2 else c.2)

/-- The function `sfx_genJump(sp)`. -/
def sfx_genJump {F D R : Type} (fo : FloatOps F D) (rnd : RandomSource R)
    (sp : SfxParams F) (r : R) : SfxParams F × R :=
  let sp0 : SfxParams F := sfx_resetParams fo sp
  let d1 : F × R := frnd fo rnd (fo.lit 0.6) r
  let d2 : F × R := frnd fo rnd (fo.lit 0.3) d1.2
  let d3 : F × R := frnd fo rnd (fo.lit 0.2) d2.2
  let d4 : F × R := frnd fo rnd (fo.lit 0.3) d3.2
  let d5 : F × R := frnd fo rnd (fo.lit 0.2) d4.2
  -- if (sfx_random(2)) hpfCutoff = frnd(0.3f);
  let c1 : Int × R := rnd 2 d5.2
  let k1 : F × R := frnd fo rnd (fo.lit 0.3) c1.2
  let r1 : R := if c1.1 ≠ 0 then k1.2 else c1.2
  -- if (sfx_random(2)) lpfCutoff = 1.0f - frnd(0.6f);
  let c2 : Int × R := rnd 2 r1
  let k2 : F × R := frnd fo rnd (fo.lit 0.6) c2.2
  ({ sp0 with
     waveType := SFX_SQUARE
     squareDuty := d1.1
     startFrequency := fo.add (fo.lit 0.3) d2.1
     slide := fo.add (fo.lit 0.1) d3.1
     attackTime := fo.lit 0
     sustainTime := fo.add (fo.lit 0.1) d4.1
     decayTime := fo.add (fo.lit 0.1) d5.1
     hpfCutoff := if c1.1 ≠ 0 then k1.1 else sp0.hpfCutoff
     lpfCutoff := if c2.1 ≠ 0 then fo.sub (fo.lit 1) k2.1 else sp0.lpfCutoff },
   if c2.1 ≠ 0 then k2.2 else c2.2)

/-- The function `sfx_genBlipSelect(sp)`, with `SAWTOOTH_DUTY` defined. -/
def sfx_genBlipSelect {F D R : Type} (fo : FloatOps F D) (rnd : RandomSource R)
    (sp : SfxParams F) (r : R) : SfxParams F × R :=
  let sp0 : SfxParams F := sfx_resetParams fo sp
  -- waveType = sfx_random(2); if (waveType == SFX_SQUARE) squareDuty = frnd(0.6f);
  -- else squareDuty = 1.0f;
  let w : Int × R := rnd 2 r
  let f1 : F × R := frnd fo rnd (fo.lit 0.6) w.2
  let r1 : R := if w.1 = SFX_SQUARE then f1.2 else w.2
  let d1 : F × R := frnd fo rnd (fo.lit 0.4) r1
  let d2 : F × R := frnd fo rnd (fo.lit 0.1) d1.2
  let d3 : F × R := frnd fo rnd (fo.lit 0.2) d2.2
  ({ sp0 with
     waveType := w.1
     squareDuty := if w.1 = SFX_SQUARE then f1.1 else fo.lit 1
     startFrequency := fo.add (fo.lit 0.2) d1.1
     attackTime := fo.lit 0
     sustainTime := fo.add (fo.lit 0.1) d2.1
     decayTime := d3.1
     hpfCutoff := fo.lit 0.1 }, d3.2)

/-- The table `synthFreq` of `sfx_genSynth`. -/
def synthFreq : List ℚ := [0.27231713609, 0.19255692561, 0.13615778746]

/-- The table `arpeggioMod` of `sfx_genSynth`. -/
def arpeggioMod : List ℚ := [0, 0, 0, 0, -0.3162, 0.7454, 0.7454]

/-- The element `table[i]` of a table of `float` constants.  An index outside the table, which
in C reads memory the table does not own, yields `0.0f` here. -/
def tableAt {F D : Type} (fo : FloatOps F D) (table : List ℚ) (i : Int) : F :=
  if 0 ≤ i then fo.lit (table.getD i.toNat 0) else fo.lit 0

/-- The function `sfx_genSynth(sp)`. -/
def sfx_genSynth {F D R : Type} (fo : FloatOps F D) (rnd : RandomSource R)
    (sp : SfxParams F) (r : R) : SfxParams F × R :=
  let sp : SfxParams F := sfx_resetParams fo sp
  let w : Int × R := rnd 2 r
  let i1 : Int × R := rnd 3 w.2
  let c1 : Int × R := rnd 5 i1.2
  let a : F × R := if c1.1 > 3 then frnd fo rnd (fo.lit 0.5) c1.2 else (fo.ofInt 0, c1.2)
  let d1 : F × R := frnd fo rnd (fo.lit 1) a.2
  let d2 : F × R := frnd fo rnd (fo.lit 1) d1.2
  let d3 : F × R := frnd fo rnd (fo.lit 0.9) d2.2
  let i2 : Int × R := rnd 7 d3.2
  let d4 : F × R := frnd fo rnd (fo.lit 0.5) i2.2
  let d5 : F × R := frnd fo rnd (fo.lit 1) d4.2
  let c2 : Int × R := rnd 3 d5.2
  let ds : F × R := if c2.1 = 2 then frnd fo rnd (fo.lit 1) c2.2 else (fo.lit 0, c2.2)
  let c3 : Int × R := rnd 2 ds.2
  let lp : F × R :=
    if c3.1 = 1 then (fo.lit 1, c3.2)
    else
      let e1 : F × R := frnd fo rnd (fo.lit 1) c3.2
      let e2 : F × R := frnd fo rnd (fo.lit 1) e1.2
      (fo.add (fo.mul (fo.mul (fo.lit 0.9) e1.1) e2.1) (fo.lit 0.1), e2.2)
  let d6 : F × R := rndNP1 fo rnd lp.2
  let d7 : F × R := frnd fo rnd (fo.lit 1) d6.2
  let c4 : Int × R := rnd 4 d7.2
  let hc : F × R := if c4.1 = 3 then frnd fo rnd (fo.lit 1) c4.2 else (fo.lit 0, c4.2)
  let c5 : Int × R := rnd 4 hc.2
  let hs : F × R := if c5.1 = 3 then frnd fo rnd (fo.lit 1) c5.2 else (fo.lit 0, c5.2)
  ({ sp with
     waveType := w.1
     startFrequency := tableAt fo synthFreq i1.1
     attackTime := a.1
     sustainTime := d1.1
     sustainPunch := d2.1
     decayTime := fo.add d3.1 (fo.lit 0.1)
     changeAmount := tableAt fo arpeggioMod i2.1
     changeSpeed := fo.add d4.1 (fo.lit 0.4)
     squareDuty := d5.1
     dutySweep := ds.1
     lpfCutoff := lp.1
     lpfCutoffSweep := d6.1
     lpfResonance := d7.1
     hpfCutoff := hc.1
     hpfCutoffSweep := hs.1 }, hs.2)

/-- The function `sfx_genRandomize(sp, waveType)`. -/
def sfx_genRandomize {F D R : Type} (fo : FloatOps F D) (rnd : RandomSource R)
    (sp : SfxParams F) (waveType : Int) (r : R) : SfxParams F × R :=
  let sp : SfxParams F := { sfx_resetParams fo sp with waveType := waveType }
  let d1 : F × R := rndNP1 fo rnd r
  let c1 : Int × R := rnd 1 d1.2
  let st : F × R :=
    if c1.1 ≠ 0 then
      (fo.add (fo.powf (rndNP1 fo rnd c1.2).1 (fo.lit 3)) (fo.lit 0.5), (rndNP1 fo rnd c1.2).2)
    else (fo.powf d1.1 (fo.lit 2), c1.2)
  let d2 : F × R := rndNP1 fo rnd st.2
  let slide0 : F := fo.powf d2.1 (fo.lit 5)
  let slide1 : F :=
    if fo.lt (fo.lit 0.7) st.1 && fo.lt (fo.lit 0.2) slide0 then fo.neg slide0 else slide0
  let slide2 : F :=
    if fo.lt st.1 (fo.lit 0.2) && fo.lt slide1 (fo.neg (fo.lit 0.05)) then fo.neg slide1
    else slide1
  let d3 : F × R := rndNP1 fo rnd d2.2
  let d4 : F × R := rndNP1 fo rnd d3.2
  let d5 : F × R := rndNP1 fo rnd d4.2
  let d6 : F × R := rndNP1 fo rnd d5.2
  let d7 : F × R := rndNP1 fo rnd d6.2
  let d8 : F × R := rndNP1 fo rnd d7.2
  let d9 : F × R := rndNP1 fo rnd d8.2
  let d10 : F × R := rndNP1 fo rnd d9.2
  let d11 : F × R := frnd fo rnd (fo.lit 0.8) d10.2
  let attack : F := fo.powf d8.1 (fo.lit 3)
  let sustain : F := fo.powf d9.1 (fo.lit 2)
  let decay : F := d10.1
  let pad : Bool := fo.lt (fo.add (fo.add attack sustain) decay) (fo.lit 0.2)
  let p1 : F × R := if pad then frnd fo rnd (fo.lit 0.3) d11.2 else (fo.lit 0, d11.2)
  let p2 : F × R := if pad then frnd fo rnd (fo.lit 0.3) p1.2 else (fo.lit 0, p1.2)
  let d12 : F × R := rndNP1 fo rnd p2.2
  let d13 : F × R := frnd fo rnd (fo.lit 1) d12.2
  let d14 : F × R := rndNP1 fo rnd d13.2
  let lpf : F := fo.sub (fo.lit 1) (fo.powf d13.1 (fo.lit 3))
  let sweep : F := fo.powf d14.1 (fo.lit 3)
  let d15 : F × R := frnd fo rnd (fo.lit 1) d14.2
  let d16 : F × R := rndNP1 fo rnd d15.2
  let d17 : F × R := rndNP1 fo rnd d16.2
  let d18 : F × R := rndNP1 fo rnd d17.2
  let d19 : F × R := rndNP1 fo rnd d18.2
  let d20 : F × R := rndNP1 fo rnd d19.2
  let d21 : F × R := rndNP1 fo rnd d20.2
  ({ sp with
     startFrequency := st.1
     minFrequency := fo.lit 0
     slide := slide2
     deltaSlide := fo.powf d3.1 (fo.lit 3)
     squareDuty := d4.1
     dutySweep := fo.powf d5.1 (fo.lit 3)
     vibratoDepth := fo.powf d6.1 (fo.lit 3)
     vibratoSpeed := d7.1
     attackTime := attack
     sustainTime := if pad then fo.add sustain (fo.add (fo.lit 0.2) p1.1) else sustain
     decayTime := if pad then fo.add decay (fo.add (fo.lit 0.2) p2.1) else decay
     sustainPunch := fo.powf d11.1 (fo.lit 2)
     lpfResonance := d12.1
     lpfCutoff := lpf
     lpfCutoffSweep :=
       if fo.lt lpf (fo.lit 0.1) && fo.lt sweep (fo.neg (fo.lit 0.05)) then fo.neg sweep
       else sweep
     hpfCutoff := fo.powf d15.1 (fo.lit 5)
     hpfCutoffSweep := fo.powf d16.1 (fo.lit 5)
     phaserOffset := fo.powf d17.1 (fo.lit 3)
     phaserSweep := fo.powf d18.1 (fo.lit 3)
     repeatSpeed := d19.1
     changeSpeed := d20.1
     changeAmount := d21.1 }, d21.2)

/-- The number of samples still to come when the sample loop is entered with the envelope in
stage `s` at time `t`, for the stage lengths `l0`, `l1`, `l2`, if nothing but the envelope
ends the loop: a stage of length 0 is skipped, a later stage of length `l` gives `l + 1`
samples. -/
def envRemaining (l0 l1 l2 s t : Int) : Int :=
  if s = 0 then (l0 - t) + (if 0 < l1 then l1 + 1 else 0) + (if 0 < l2 then l2 + 1 else 0)
  else if s = 1 then (l1 - t) + (if 0 < l2 then l2 + 1 else 0)
  else l2 - t

/-- Truncation toward zero, the conversion to an integer the specification calls `trunc`. -/
def trunc (x : ℚ) : Int := if 0 ≤ x then ⌊x⌋ else ⌈x⌉

/-- The frame count of the specification when only the envelope ends the run: with
`L0`, `L1`, `L2` the truncations of `attackTime^2*100000`, `sustainTime^2*100000` and
`decayTime^2*100000`, the count is `min(N, L0 + (L1 > 0 ? L1+1 : 0) + (L2 > 0 ? L2+1 : 0))`. -/
def envelopeFrames (sp : SfxParams ℚ) (N : Int) : Int :=
  min N (trunc (sp.attackTime ^ 2 * 100000)
    + (if 0 < trunc (sp.sustainTime ^ 2 * 100000) then trunc (sp.sustainTime ^ 2 * 100000) + 1
       else 0)
    + (if 0 < trunc (sp.decayTime ^ 2 * 100000) then trunc (sp.decayTime ^ 2 * 100000) + 1
       else 0))

/-- The states in which the test of the sample loop is reached during a run that enters the
loop in state `st0` with `sampleEnd = N`: `LoopHead fo rnd sp st0 N c e st` says that the test
`sampleCount < sampleEnd` is evaluated with `sampleCount = c`, `sampleEnd = e` and the state
`st`.  The step is the body of `genLoop`. -/
inductive LoopHead {F D R : Type} (fo : FloatOps F D) (rnd : RandomSource R) (sp : SfxParams F)
    (st0 : GenState F D R) (N : Int) : Int → Int → GenState F D R → Prop
  | start : LoopHead fo rnd sp st0 N 0 N st0
  | step (c e : Int) (st : GenState F D R) (g : Regs F D) :
      LoopHead fo rnd sp st0 N c e st → c < e →
      stepEnvelope fo sp (stepControl fo sp st.regs).1 = some g →
      LoopHead fo rnd sp st0 N (c + 1) (if (stepControl fo sp st.regs).2 then c else e)
        (superSample fo rnd sp { st with regs := stepPhaser fo g }).2

/-- The running sum and the state after `k` passes of the supersampling loop entered in state
`st`; `superSample` is the case `k = 8`. -/
def subState {F D R : Type} (fo : FloatOps F D) (rnd : RandomSource R) (sp : SfxParams F)
    (st : GenState F D R) (k : Nat) : F × GenState F D R :=
  (List.range k).foldl (fun acc _ => subSample fo rnd sp acc) (fo.lit 0, st)

/-- The defaults with `lpfCutoff` 2, outside the documented range 0 to 1. -/
def wideLowpass : SfxParams ℚ := { baseline with lpfCutoff := 2 }

/-- The locals at the waveform evaluation of pass `k` (0 to 7) of the supersampling loop, in
the loop iteration that starts in state `st` and whose envelope step gave the locals `g`: the
state after `k` passes, then `phase++` with the wrap. -/
def waveRegs {F D R : Type} (fo : FloatOps F D) (rnd : RandomSource R) (sp : SfxParams F)
    (st : GenState F D R) (g : Regs F D) (k : Nat) : Regs F D :=
  (advancePhase fo rnd sp (subState fo rnd sp { st with regs := stepPhaser fo g } k).2).regs

/-- The defaults with `repeatSpeed` 1: the repeat limit is 32. -/
def repeatedStart : SfxParams ℚ := { baseline with repeatSpeed := 1 }

/-- A context for ten seconds at 44100 Hz; the cells are those of `tinySynth`. -/
def roomySynth : SfxSynth ℚ := { tinySynth with sampleRate := 44100, maxDuration := 10 }

/-- The oscillator and repeat locals at the head of iteration `n` of a run of `repeatedStart`,
as long as no repeat has happened: nothing slides, the period stays at 100000/91. -/
def RepeatRun (n : Int) (g : Regs ℚ ℚ) : Prop :=
  g.repeatTime = n ∧ g.repeatLimit = 32 ∧ g.fperiod = 100000 / 91 ∧ g.fslide = 1 ∧
  g.fdslide = 0 ∧ g.fmaxperiod = 100000 ∧ g.vibratoAmplitude = 0 ∧ g.arpeggioTime = n ∧
  g.arpeggioLimit = 20032

/-- The envelope locals at the head of iteration `n` of a run of `repeatedStart`, for the
first iterations: stage 0 at time 0, or stage 1 at a time of at most `n`. -/
def EnvelopeRun (n : Int) (g : Regs ℚ ℚ) : Prop :=
  g.envLength0 = 0 ∧ g.envLength1 = 9000 ∧ g.envLength2 = 16000 ∧
  ((g.envStage = 0 ∧ g.envTime = 0) ∨ (g.envStage = 1 ∧ 0 ≤ g.envTime ∧ g.envTime ≤ n))

/-- The generation state `st` with the state of the random generator replaced by `r`, which
may belong to another random source. -/
def GenState.withRng {F D R R' : Type} (st : GenState F D R) (r : R') : GenState F D R' :=
  { regs := st.regs
    noiseBuffer := st.noiseBuffer
    pinkWhiteValue := st.pinkWhiteValue
    phaserBuffer := st.phaserBuffer
    rng := r }

/-- Two sets of locals with the same envelope: stage, time, volume and the three lengths. -/
def EnvSame {F D : Type} (a b : Regs F D) : Prop :=
  a.envStage = b.envStage ∧ a.envTime = b.envTime ∧ a.envVolume = b.envVolume ∧
  a.envLength0 = b.envLength0 ∧ a.envLength1 = b.envLength1 ∧ a.envLength2 = b.envLength2

/-- The envelope locals are in order: the lengths of stages 1 and 2 are not negative, the stage
is 0, 1 or 2 and the time lies between 0 and the length of the stage. -/
def EnvOk {F D : Type} (g : Regs F D) : Prop :=
  0 ≤ g.envLength1 ∧ 0 ≤ g.envLength2 ∧
  (g.envStage = 0 ∨ g.envStage = 1 ∨ g.envStage = 2) ∧
  0 ≤ g.envTime ∧ g.envTime ≤ g.envLength g.envStage

/-- The bounds on the locals from which the bound on `period` follows: the period cap is at most
100000 and the vibrato amplitude lies in `[0, 1/2]`. -/
def PeriodOk (g : Regs ℚ ℚ) : Prop :=
  g.fmaxperiod ≤ 100000 ∧ 0 ≤ g.vibratoAmplitude ∧ g.vibratoAmplitude ≤ 1 / 2

/-- The sine stand-in `sinPoly` cut off at -1 and 1. -/
def sinClamped (x : ℚ) : ℚ := max (-1) (min 1 (sinPoly x))

/-- The ranges of the claim on the archetype generators: a wave type among square, sawtooth,
sine and noise, every float member inside its clamp range, and `minFrequency` not above
`startFrequency`. -/
def InArchetypeRange (sp : SfxParams ℚ) : Prop :=
  (sp.waveType = SFX_SQUARE ∨ sp.waveType = SFX_SAWTOOTH ∨ sp.waveType = SFX_SINE ∨
    sp.waveType = SFX_NOISE) ∧
  InClampRange sp ∧ sp.minFrequency ≤ sp.startFrequency

/-- The arpeggio statements of the loop body: `arpeggioTime++` and the `if` that, once the
limit is reached, clears the limit and multiplies `fperiod` by `arpeggioModulation`.
`stepControl` runs them on the result of `stepRepeat`. -/
def stepArpeggio {F D : Type} (fo : FloatOps F D) (g : Regs F D) : Regs F D :=
  let g3 : Regs F D := { g with arpeggioTime := g.arpeggioTime + 1 }
  if g3.arpeggioLimit ≠ 0 ∧ g3.arpeggioTime ≥ g3.arpeggioLimit then
    { g3 with arpeggioLimit := 0, fperiod := fo.dmul g3.fperiod g3.arpeggioModulation }
  else g3

/-- The defaults with `minFrequency` 0.3, the start frequency, and `slide` and `deltaSlide`
both -0.5: the period grows from the first iteration on. -/
def earlyStop : SfxParams ℚ :=
  { baseline with minFrequency := 0.3, slide := -0.5, deltaSlide := -0.5 }

/-- The condition of the arpeggio `if` in the iteration entered with the locals `g`: after the
repeat statements and `arpeggioTime++`, the limit is not 0 and the counter has reached it. -/
def arpeggioFires {F D : Type} (fo : FloatOps F D) (sp : SfxParams F) (g : Regs F D) : Prop :=
  (stepRepeat fo sp g).arpeggioLimit ≠ 0 ∧
    (stepRepeat fo sp g).arpeggioTime + 1 ≥ (stepRepeat fo sp g).arpeggioLimit

/-- The defaults with `minFrequency` 0.3, the start frequency, `slide` 0 and `deltaSlide` -1:
the slide factor starts at 1 and grows by the delta slide. -/
def deltaOnly : SfxParams ℚ := { baseline with minFrequency := 0.3, deltaSlide := -1 }

/-- The defaults with `slide` -0.5: a negative slide with `deltaSlide` 0. -/
def deadSlide : SfxParams ℚ := { baseline with slide := -0.5 }

/-! ## IEEE 754 arithmetic -/

/-- A value of an IEEE 754 binary format: a rational number, an infinity or a NaN.  The sign of
a zero and the payload of a NaN are not kept. -/
inductive Ext where
  /-- A finite number. -/
  | fin (q : ℚ)
  /-- Positive infinity. -/
  | pinf
  /-- Negative infinity. -/
  | ninf
  /-- Not a number. -/
  | nan
deriving DecidableEq

/-- Rounding to the nearest integer, a tie to the even one. -/
def roundEven (x : ℚ) : Int :=
  if x - ⌊x⌋ < 1 / 2 then ⌊x⌋
  else if 1 / 2 < x - ⌊x⌋ then ⌊x⌋ + 1
  else if ⌊x⌋ % 2 = 0 then ⌊x⌋ else ⌊x⌋ + 1

/-- The rounding of a binary format with `prec` significand bits and exponents `emin` to `emax`,
in the default mode (to nearest, ties to even): the exact result is rounded to a multiple of the
unit in its last place, subnormal below `2^emin`, and becomes an infinity when the rounded
magnitude reaches `2^(emax+1)`. -/
def roundTo (prec : Nat) (emin emax : Int) (q : ℚ) : Ext :=
  if q = 0 then Ext.fin 0
  else
    let u : ℚ := 2 ^ (max (Int.log 2 |q|) emin - ((prec : Int) - 1))
    let r : ℚ := (roundEven (q / u) : ℚ) * u
    if (2 : ℚ) ^ (emax + 1) ≤ |r| then (if 0 < q then Ext.pinf else Ext.ninf) else Ext.fin r

/-- Rounding to `float` (binary32). -/
def round32 (q : ℚ) : Ext := roundTo 24 (-126) 127 q

/-- Rounding to `double` (binary64). -/
def round64 (q : ℚ) : Ext := roundTo 53 (-1022) 1023 q

/-- The sum `x + y`, rounded by `rd`. -/
def Ext.add (rd : ℚ → Ext) : Ext → Ext → Ext
  | Ext.nan, _ => Ext.nan
  | _, Ext.nan => Ext.nan
  | Ext.fin a, Ext.fin b => rd (a + b)
  | Ext.pinf, Ext.ninf => Ext.nan
  | Ext.ninf, Ext.pinf => Ext.nan
  | Ext.pinf, _ => Ext.pinf
  | _, Ext.pinf => Ext.pinf
  | Ext.ninf, _ => Ext.ninf
  | _, Ext.ninf => Ext.ninf

/-- The negation `-x`. -/
def Ext.neg : Ext → Ext
  | Ext.fin a => Ext.fin (-a)
  | Ext.pinf => Ext.ninf
  | Ext.ninf => Ext.pinf
  | Ext.nan => Ext.nan

/-- The difference `x - y`, rounded by `rd`. -/
def Ext.sub (rd : ℚ → Ext) (x y : Ext) : Ext := Ext.add rd x (Ext.neg y)

/-- An infinity of the sign of `a * s`, with `s` 1 or -1; NaN when `a` is zero. -/
def Ext.scaledInf (a : ℚ) (s : Int) : Ext :=
  if a = 0 then Ext.nan else if 0 < a * s then Ext.pinf else Ext.ninf

/-- The product `x * y`, rounded by `rd`; zero times an infinity is NaN. -/
def Ext.mul (rd : ℚ → Ext) : Ext → Ext → Ext
  | Ext.nan, _ => Ext.nan
  | _, Ext.nan => Ext.nan
  | Ext.fin a, Ext.fin b => rd (a * b)
  | Ext.fin a, Ext.pinf => Ext.scaledInf a 1
  | Ext.fin a, Ext.ninf => Ext.scaledInf a (-1)
  | Ext.pinf, Ext.fin b => Ext.scaledInf b 1
  | Ext.ninf, Ext.fin b => Ext.scaledInf b (-1)
  | Ext.pinf, Ext.pinf => Ext.pinf
  | Ext.pinf, Ext.ninf => Ext.ninf
  | Ext.ninf, Ext.pinf => Ext.ninf
  | Ext.ninf, Ext.ninf => Ext.pinf

/-- The quotient `x / y`, rounded by `rd`.  A finite number over an infinity is zero, a nonzero
number over zero an infinity (the zero counts as positive), and zero over zero and an infinity
over an infinity are NaN. -/
def Ext.div (rd : ℚ → Ext) : Ext → Ext → Ext
  | Ext.nan, _ => Ext.nan
  | _, Ext.nan => Ext.nan
  | Ext.fin a, Ext.fin b => if b = 0 then Ext.scaledInf a 1 else rd (a / b)
  | Ext.fin _, Ext.pinf => Ext.fin 0
  | Ext.fin _, Ext.ninf => Ext.fin 0
  | Ext.pinf, Ext.fin b => if 0 ≤ b then Ext.pinf else Ext.ninf
  | Ext.ninf, Ext.fin b => if 0 ≤ b then Ext.ninf else Ext.pinf
  | Ext.pinf, Ext.pinf => Ext.nan
  | Ext.pinf, Ext.ninf => Ext.nan
  | Ext.ninf, Ext.pinf => Ext.nan
  | Ext.ninf, Ext.ninf => Ext.nan

/-- The comparison `x < y`; false when an operand is NaN. -/
def Ext.lt : Ext → Ext → Bool
  | Ext.fin a, Ext.fin b => decide (a < b)
  | Ext.fin _, Ext.pinf => true
  | Ext.ninf, Ext.fin _ => true
  | Ext.ninf, Ext.pinf => true
  | _, _ => false

/-- The comparison `x == y`; false when an operand is NaN. -/
def Ext.eq : Ext → Ext → Bool
  | Ext.fin a, Ext.fin b => decide (a = b)
  | Ext.pinf, Ext.pinf => true
  | Ext.ninf, Ext.ninf => true
  | _, _ => false

/-- The comparison `x <= y`; false when an operand is NaN. -/
def Ext.le (x y : Ext) : Bool := Ext.lt x y || Ext.eq x y

/-- The conversion `(int)x`: truncation toward zero.  For a value outside the range of `int`,
an infinity or a NaN the conversion is undefined in C; the model returns `INT_MIN`, as the
conversion instructions of x86 do. -/
def Ext.toInt : Ext → Int
  | Ext.fin a => if -2147483648 ≤ trunc a ∧ trunc a ≤ 2147483647 then trunc a else -2147483648
  | _ => -2147483648

/-- The power `x^y` for an exponent `y` that is a natural number, as are all exponents the
program passes to `pow` and `powf`, rounded by `rd`; NaN for another exponent. -/
def Ext.pow (rd : ℚ → Ext) (x y : Ext) : Ext :=
  match y with
  | Ext.fin e =>
    if e.den = 1 ∧ 0 ≤ e.num then
      (if e = 0 then Ext.fin 1
       else match x with
        | Ext.fin a => rd (a ^ e.num.toNat)
        | Ext.pinf => Ext.pinf
        | Ext.ninf => if e.num % 2 = 0 then Ext.pinf else Ext.ninf
        | Ext.nan => Ext.nan)
    else Ext.nan
  | _ => Ext.nan

/-- A function on the rationals applied to a finite number and rounded by `rd`; NaN for an
infinity or a NaN. -/
def Ext.app (rd : ℚ → Ext) (f : ℚ → ℚ) : Ext → Ext
  | Ext.fin a => rd (f a)
  | _ => Ext.nan

/-- The conversion `(float)x` of a `double`. -/
def Ext.toFloat : Ext → Ext
  | Ext.fin a => round32 a
  | x => x

/-- IEEE 754 arithmetic: `float` is binary32 and `double` binary64, every operation rounds its
exact result to nearest, overflow gives an infinity and an invalid operation NaN.  `powf` and
`pow` are correctly rounded for the exponents the program uses; `sinf` is the rounding of the
function `sn` supplied by the caller. -/
def ieeeOps (sn : ℚ → ℚ) : FloatOps Ext Ext :=
  { lit := round32
    ofInt := fun i => round32 (i : ℚ)
    toInt := Ext.toInt
    add := Ext.add round32
    sub := Ext.sub round32
    mul := Ext.mul round32
    div := Ext.div round32
    neg := Ext.neg
    lt := Ext.lt
    le := Ext.le
    eq := Ext.eq
    powf := Ext.pow round32
    sinf := Ext.app round32 sn
    dlit := round64
    dtoInt := Ext.toInt
    dadd := Ext.add round64
    dsub := Ext.sub round64
    dmul := Ext.mul round64
    ddiv := Ext.div round64
    dneg := Ext.neg
    dlt := Ext.lt
    pow := Ext.pow round64
    toDouble := fun x => x
    toFloat := Ext.toFloat }


/-- The baseline of `sfx_resetParams` in IEEE arithmetic. -/
def baseline32 : SfxParams Ext :=
  sfx_resetParams (ieeeOps sinPoly)
    ⟨7, 7, Ext.nan, Ext.nan, Ext.nan, Ext.nan, Ext.nan, Ext.nan, Ext.nan, Ext.nan, Ext.nan,
      Ext.nan, Ext.nan, Ext.nan, Ext.nan, Ext.nan, Ext.nan, Ext.nan, Ext.nan, Ext.nan, Ext.nan,
      Ext.nan, Ext.nan, Ext.nan⟩

/-- A context of `float` samples for ten seconds at 44100 Hz, all cells zero. -/
def roomy32 : SfxSynth Ext :=
  { sampleFormat := SFX_F32, sampleRate := 44100, maxDuration := 10,
    samples := fun _ => Sample.f32 (Ext.fin 0), noiseBuffer := fun _ => Ext.fin 0,
    pinkWhiteValue := fun _ => Ext.fin 0, phaserBuffer := fun _ => Ext.fin 0 }

/-- The defaults with `sustainTime = 0.01f`, the `float` next to 1/100, and `decayTime = 0`. -/
def shortNote : SfxParams Ext :=
  { baseline32 with sustainTime := Ext.fin (5368709 / 536870912), decayTime := Ext.fin 0 }

/-- The parameters of `shortNote` as rational numbers. -/
def shortNoteExact : SfxParams ℚ :=
  { baseline with sustainTime := 5368709 / 536870912, decayTime := 0 }


/-- The defaults with `repeatSpeed = 0.2f`, the `float` next to 1/5. -/
def fifthRepeat : SfxParams Ext := { baseline32 with repeatSpeed := Ext.fin (13421773 / 67108864) }


/-- The value `x` has passed the clamp `if (x < lo) x = lo; else if (x > hi) x = hi;`: it is
`lo`, or it is `hi`, or neither comparison holds for it. -/
def Clamped {F D : Type} (fo : FloatOps F D) (lo hi x : F) : Prop :=
  x = lo ∨ x = hi ∨ (fo.lt x lo = false ∧ fo.lt hi x = false)

/-- The value `x` has passed the cap `if (x > hi) x = hi;`: it is `hi`, or the comparison does
not hold for it. -/
def Capped {F D : Type} (fo : FloatOps F D) (hi x : F) : Prop :=
  x = hi ∨ fo.lt hi x = false

/-- The defaults with `lpfCutoff` and `lpfResonance` both `1e20f`, the `float` next to
`10^20`: finite values outside the documented range 0 to 1. -/
def hugeFilter : SfxParams Ext :=
  { baseline32 with
    lpfCutoff := Ext.fin 100000002004087734272
    lpfResonance := Ext.fin 100000002004087734272 }


/-- A value that every arithmetic operation passes on and for which no comparison holds, as
NaN in IEEE arithmetic. -/
def Absorbing {F D : Type} (fo : FloatOps F D) (n : F) : Prop :=
  (∀ a, fo.add a n = n) ∧ (∀ a, fo.add n a = n) ∧ (∀ a, fo.sub a n = n) ∧
  (∀ a, fo.sub n a = n) ∧ (∀ a, fo.mul a n = n) ∧ (∀ a, fo.mul n a = n) ∧
  (∀ a, fo.div n a = n) ∧ (∀ a, fo.lt n a = false) ∧ (∀ a, fo.lt a n = false)

/-- A context of `float` samples for one sample (rate 1, one second), all cells zero. -/
def oneFrame32 : SfxSynth Ext := { roomy32 with sampleRate := 1, maxDuration := 1 }

/-- The parameters `hugeFilter` with `lpfCutoffSweep = -10000`: `1.0f + lpfCutoffSweep*0.0001f`
is then exactly 0. -/
def hugeSweep : SfxParams Ext := { hugeFilter with lpfCutoffSweep := Ext.fin (-10000) }

/-- The duty locals are in order: `squareDuty` is not NaN and `squareSlide` is finite. -/
def DutyOk (g : Regs Ext Ext) : Prop :=
  g.squareDuty ≠ Ext.nan ∧ ∃ s, g.squareSlide = Ext.fin s

/-! # Theorems -/

/-! ## Codec: basic facts -/

theorem decode32_encode32 (x : Nat) (h : x < 4294967296) : decode32 (encode32 x) = x := by
  simp only [decode32, encode32, List.getD_cons_zero, List.getD_cons_succ]
  omega

theorem decode16_encode16 (x : Nat) (h : x < 65536) : decode16 (encode16 x) = x := by
  simp only [decode16, encode16, List.getD_cons_zero, List.getD_cons_succ]
  omega

theorem toInt32_ofInt32 (i : Int) (h1 : -2147483648 ≤ i) (h2 : i < 2147483648) :
    toInt32 (ofInt32 i) = i := by
  unfold toInt32 ofInt32
  split <;> omega

theorem ofInt32_lt (i : Int) : ofInt32 i < 4294967296 := by
  unfold ofInt32
  omega

theorem encode32_length (x : Nat) : (encode32 x).length = 4 := rfl

theorem bytes_length (p : SfxParams Nat) : p.bytes.length = 96 := by
  simp [SfxParams.bytes, SfxParams.words, SfxParams.floats, encode32]

theorem ofBytes_bytes (p : SfxParams Nat) (hp : p.Valid) : SfxParams.ofBytes p.bytes = p := by
  obtain ⟨h1, h2, h3, h4⟩ := hp
  simp only [SfxParams.floats, List.mem_cons, List.mem_singleton, forall_eq_or_imp, forall_eq,
    List.not_mem_nil, false_implies, implies_true, and_true] at h4
  have hw := ofInt32_lt p.waveType
  have hi := toInt32_ofInt32 p.waveType h2 h3
  cases p
  simp only [SfxParams.ofBytes, SfxParams.bytes, SfxParams.words, SfxParams.floats, wordAt,
    List.flatMap_cons, List.flatMap_nil, encode32, List.cons_append, List.nil_append,
    List.append_nil, List.drop_succ_cons, List.drop_zero, List.take_succ_cons, List.take_zero,
    Nat.mul_zero, Nat.mul_one, Nat.reduceMul] at *
  have e : ∀ x, x < 4294967296 →
      decode32 [x % 256, x / 256 % 256, x / 65536 % 256, x / 16777216 % 256] = x :=
    decode32_encode32
  obtain ⟨a1, a2, a3, a4, a5, a6, a7, a8, a9, a10, a11, a12, a13, a14, a15, a16, a17, a18, a19,
    a20, a21, a22⟩ := h4
  rw [e _ h1, e _ hw, hi, e _ a1, e _ a2, e _ a3, e _ a4, e _ a5, e _ a6, e _ a7, e _ a8, e _ a9,
    e _ a10, e _ a11, e _ a12, e _ a13, e _ a14, e _ a15, e _ a16, e _ a17, e _ a18, e _ a19,
    e _ a20, e _ a21, e _ a22]

theorem fread_full (obj fp : List Nat) (h : obj.length ≤ fp.length) :
    fread obj fp = (fp.take obj.length, obj.length, fp.drop obj.length) := by
  have hl : (fp.take obj.length).length = obj.length := by
    rw [List.length_take]; omega
  simp only [fread, hl, List.drop_length, List.append_nil]

theorem bytes_length_header (p : SfxParams Nat) : (rfxHeader ++ p.bytes).length = 104 := by
  simp only [List.length_append, bytes_length p, rfxHeader, rfxSignature, List.length_cons,
    List.length_nil]

theorem sfx_saveRfx_eq (p : SfxParams Nat) (room : Nat) :
    sfx_saveRfx p (some room) = (none, some ((rfxHeader ++ p.bytes).take room)) := by
  have hb := bytes_length p
  have h96 : p.bytes.take 96 = p.bytes := by
    rw [List.take_of_length_le]; omega
  simp [sfx_saveRfx, fwrite, fclose, encode16, h96, hb, rfxHeader, rfxSignature]

theorem sfx_saveRfx_ok (p : SfxParams Nat) (room : Nat) (h : 104 ≤ room) :
    sfx_saveRfx p (some room) = (none, some (rfxHeader ++ p.bytes)) := by
  have hb := bytes_length p
  rw [sfx_saveRfx_eq, List.take_of_length_le]
  simp only [List.length_append, hb, rfxHeader, rfxSignature, List.length_cons, List.length_nil]
  omega

theorem readWord_full (old : Nat) (fp : List Nat) (h : 4 ≤ fp.length) :
    readWord old fp = (decode32 (fp.take 4), fp.drop 4) := by
  simp only [readWord, fread_full (encode32 old) fp (by simpa [encode32_length] using h),
    encode32_length]

theorem readInt_full (old : Int) (fp : List Nat) (h : 4 ≤ fp.length) :
    readInt old fp = (toInt32 (decode32 (fp.take 4)), fp.drop 4) := by
  simp only [readInt, readWord_full _ fp h]

theorem readU16_full (old : Nat) (fp : List Nat) (h : 2 ≤ fp.length) :
    readU16 old fp = (decode16 (fp.take 2), fp.drop 2) := by
  have e : (encode16 old).length = 2 := rfl
  simp only [readU16, fread_full (encode16 old) fp (by omega), e]

theorem loadSfs_full (v : Int) (hv : v = 100 ∨ v = 101 ∨ v = 102) (sp : SfxParams Nat)
    (file : List Nat) (vol : Option Nat) (h : sfsSize v ≤ file.length) :
    loadSfs v sp (file.drop 4) vol
      = (sfsLayout v file sp.randSeed, vol.map (fun _ => sfsLayoutVolume v file)) := by
  rcases hv with rfl | rfl | rfl <;>
  · simp only [sfsSize, Int.reduceEq, reduceIte] at h
    simp (disch := (simp only [List.length_drop]; omega)) [loadSfs, readWord_full,
      readInt_full, List.drop_drop, sfsLayout, sfsLayoutVolume, u32At]

theorem sfx_loadParams_rfx (sp : SfxParams Nat) (body : List Nat) (vol : Option Nat)
    (v0 l0 : Nat) (hb : 96 ≤ body.length) :
    sfx_loadParams sp (some (rfxHeader ++ body)) vol v0 l0
      = (none, SfxParams.ofBytes (body.take 96), vol) := by
  have h2 : min 96 body.length = 96 := by omega
  have h3 : List.drop 96 sp.bytes = [] := List.drop_eq_nil_of_le (by rw [bytes_length])
  simp [sfx_loadParams, rfxHeader, rfxSignature, fread, readU16, encode16, decode16,
    bytes_length, h2, h3]

theorem fread_count (obj fp : List Nat) :
    (fread obj fp).2.2.length = fp.length - obj.length ∧
    (fread obj fp).2.1 = min obj.length fp.length := by
  simp [fread]

theorem fread_front (fp : List Nat) (h : 4 ≤ fp.length) (i : Nat) (hi : i < 4) :
    (fread [0, 0, 0, 0] fp).1.getD i 0 = fp.getD i 0 := by
  have e : (fread [0, 0, 0, 0] fp).1 = fp.take 4 := by
    simp [fread, List.length_take, Nat.min_eq_left h]
  rw [e, List.getD_eq_getElem?_getD, List.getD_eq_getElem?_getD, List.getElem?_take_of_lt hi]

/-- A file of fewer than 104 bytes that is too short for a signature or starts with the
signature `rFX ` is not loaded: `sfx_loadParams` returns a message. -/
theorem sfx_loadParams_short (sp : SfxParams Nat) (fp : List Nat) (vol : Option Nat)
    (v0 l0 : Nat) (h : fp.length < 104)
    (hsig : fp.length < 4 ∨ (fp.getD 0 0 = 0x72 ∧ fp.getD 1 0 = 0x46 ∧ fp.getD 2 0 = 0x58 ∧
      fp.getD 3 0 = 0x20)) :
    (sfx_loadParams sp (some fp) vol v0 l0).1 ≠ none := by
  unfold sfx_loadParams
  dsimp only
  by_cases c1 : (fread [0, 0, 0, 0] fp).2.1 ≠ 4
  · rw [if_pos c1]
    simp
  · rw [if_neg c1]
    have e1 := fread_count [0, 0, 0, 0] fp
    have hlen : 4 ≤ fp.length := by
      have := e1.2
      simp only [List.length_cons, List.length_nil] at this
      omega
    have hs : (fread [0, 0, 0, 0] fp).1.getD 0 0 = 0x72 ∧
        (fread [0, 0, 0, 0] fp).1.getD 1 0 = 0x46 ∧
        (fread [0, 0, 0, 0] fp).1.getD 2 0 = 0x58 ∧
        (fread [0, 0, 0, 0] fp).1.getD 3 0 = 0x20 := by
      rcases hsig with a | ⟨a0, a1, a2, a3⟩
      · omega
      · rw [fread_front fp hlen 0 (by decide), fread_front fp hlen 1 (by decide),
          fread_front fp hlen 2 (by decide), fread_front fp hlen 3 (by decide)]
        exact ⟨a0, a1, a2, a3⟩
    rw [if_pos hs]
    split_ifs with c3 c4 c5
    · simp
    · simp
    · exfalso
      have e2 := fread_count (encode16 v0) (fread [0, 0, 0, 0] fp).2.2
      have e3 := fread_count (encode16 l0) (readU16 v0 (fread [0, 0, 0, 0] fp).2.2).2
      have e4 := fread_count sp.bytes
        (readU16 l0 (readU16 v0 (fread [0, 0, 0, 0] fp).2.2).2).2
      have b := bytes_length sp
      simp only [readU16] at e3 e4 c5
      rw [e4.2, b] at c5
      have l1 := e1.1
      have l2 := e2.1
      have l3 := e3.1
      have l16a : (encode16 v0).length = 2 := by simp [encode16]
      have l16b : (encode16 l0).length = 2 := by simp [encode16]
      simp only [List.length_cons, List.length_nil] at l1
      rw [l16a] at l2
      rw [l16b] at l3
      omega
    · simp

theorem truncated_save_signature (p : SfxParams Nat) (room : Nat) :
    ((rfxHeader ++ p.bytes).take room).length < 4 ∨
    (((rfxHeader ++ p.bytes).take room).getD 0 0 = 0x72 ∧
      ((rfxHeader ++ p.bytes).take room).getD 1 0 = 0x46 ∧
      ((rfxHeader ++ p.bytes).take room).getD 2 0 = 0x58 ∧
      ((rfxHeader ++ p.bytes).take room).getD 3 0 = 0x20) := by
  by_cases h : room < 4
  · left
    rw [List.length_take]
    omega
  · right
    have e : ∀ i, i < 4 → ((rfxHeader ++ p.bytes).take room).getD i 0
        = (rfxHeader ++ p.bytes).getD i 0 := by
      intro i hi
      rw [List.getD_eq_getElem?_getD, List.getD_eq_getElem?_getD,
        List.getElem?_take_of_lt (by omega)]
    rw [e 0 (by decide), e 1 (by decide), e 2 (by decide), e 3 (by decide)]
    simp [rfxHeader, rfxSignature]

/-! ## Codec: the claims -/

/-- C1 (round trip).  For every valid record `p`, `sfx_saveRfx` returns `NULL` whatever the
opened file can take.  When the file can take the 104 bytes, loading the bytes written returns
no error and stores exactly `p`, member for member and bit for bit, into the output, whatever
the output and the locals held before; the volume out-parameter is not touched.  When the file
cannot take them, the save has still returned `NULL`, and loading the bytes written returns a
message. -/
theorem rfx_save_load_roundtrip (p sp : SfxParams Nat) (hp : p.Valid) (room : Nat)
    (vol : Option Nat) (v0 l0 : Nat) :
    ∃ file, sfx_saveRfx p (some room) = (none, some file) ∧
      (104 ≤ room → sfx_loadParams sp (some file) vol v0 l0 = (none, p, vol)) ∧
      (room < 104 → (sfx_loadParams sp (some file) vol v0 l0).1 ≠ none) := by
  refine ⟨_, sfx_saveRfx_eq p room, ?_, ?_⟩
  · intro hroom
    rw [List.take_of_length_le (by rw [bytes_length_header]; exact hroom),
      sfx_loadParams_rfx sp p.bytes vol v0 l0 (by rw [bytes_length]),
      List.take_of_length_le (by rw [bytes_length]), ofBytes_bytes p hp]
  · intro hroom
    exact sfx_loadParams_short sp _ vol v0 l0
      (by rw [List.length_take, bytes_length_header]; omega) (truncated_save_signature p room)

/-- Witness for C1: the sample record (seed 12345) saved to a file with room for 104 bytes and
loaded over a record that differs in every member. -/
theorem rfx_save_load_roundtrip_witness :
    sampleRecord.Valid ∧
      ∃ file, sfx_saveRfx sampleRecord (some 104) = (none, some file) ∧
        sfx_loadParams otherRecord (some file) (some 9) 1 2 = (none, sampleRecord, some 9) := by
  obtain ⟨file, h1, h2, _⟩ :=
    rfx_save_load_roundtrip sampleRecord otherRecord (by decide) 104 (some 9) 1 2
  exact ⟨by decide, file, h1, h2 (le_refl _)⟩

/-- C4 (save layout).  Whatever the opened file can take, `sfx_saveRfx` reports success, and
the file holds the first `min(104, room)` bytes of the layout.  When the file can take them,
exactly 104 bytes are written: the ASCII characters `rFX ` at offsets 0-3, the bytes 200, 0
(little-endian 200) at offsets 4-5, the bytes 96, 0 (little-endian 96) at offsets 6-7, and at
offsets 8-103 the four-byte little-endian words of `randSeed`, `waveType` and the float
members in declaration order, nothing in between; no sfxr (legacy) file is ever written.
When it cannot, the write is short and the call still returns `NULL`; for the sample record and
room for 50 bytes the 50 bytes written are then rejected by `sfx_loadParams`. -/
theorem sfx_saveRfx_layout (p : SfxParams Nat) (room : Nat) :
    (∃ file, sfx_saveRfx p (some room) = (none, some file) ∧
      file = (rfxHeader ++ p.bytes).take room ∧ file.length = min 104 room ∧
      (104 ≤ room →
        file.length = 104 ∧
        file.take 4 = ['r', 'F', 'X', ' '].map Char.toNat ∧
        (file.drop 4).take 2 = [200 % 256, 200 / 256] ∧
        (file.drop 6).take 2 = [96 % 256, 96 / 256] ∧
        file.drop 8 = (p.randSeed :: ofInt32 p.waveType :: p.floats).flatMap encode32 ∧
        (file.drop 8).length = 96)) ∧
    (∃ short, sfx_saveRfx sampleRecord (some 50) = (none, some short) ∧ short.length = 50 ∧
      (sfx_loadParams otherRecord (some short) (some 9) 1 2).1
        = some SfxError.fileReadFailed) := by
  have hb := bytes_length p
  have hl : (rfxHeader ++ p.bytes).length = 104 := by
    simp only [List.length_append, hb, rfxHeader, rfxSignature, List.length_cons,
      List.length_nil]
  refine ⟨⟨_, sfx_saveRfx_eq p room, rfl, ?_, ?_⟩, ?_⟩
  · rw [List.length_take, hl, min_comm]
  · intro h
    rw [List.take_of_length_le (by omega)]
    refine ⟨hl, ?_, ?_, ?_, ?_, ?_⟩
    · simp [rfxHeader, rfxSignature]
    · simp [rfxHeader, rfxSignature]
    · simp [rfxHeader, rfxSignature]
    · simp [rfxHeader, rfxSignature, SfxParams.bytes, SfxParams.words]
    · simp [rfxHeader, rfxSignature, bytes_length]
  · refine ⟨_, sfx_saveRfx_eq sampleRecord 50, ?_, ?_⟩
    · rw [List.length_take, bytes_length_header sampleRecord]
      decide
    · decide

/-- Witness for C4: the sample record saved to a file with room for 200 bytes. -/
theorem sfx_saveRfx_layout_witness :
    ∃ file, sfx_saveRfx sampleRecord (some 200) = (none, some file) ∧ file.length = 104 ∧
      file.drop 8 = (sampleRecord.randSeed :: ofInt32 sampleRecord.waveType ::
        sampleRecord.floats).flatMap encode32 := by
  obtain ⟨file, h1, _, _, h4⟩ := (sfx_saveRfx_layout sampleRecord 200).1
  obtain ⟨a, _, _, _, b, _⟩ := h4 (by decide)
  exact ⟨file, h1, a, b⟩

theorem flatMap_encode32_length (fs : List Nat) : (fs.flatMap encode32).length = 4 * fs.length := by
  induction fs with
  | nil => rfl
  | cons x xs ih => simp only [List.flatMap_cons, List.length_append, ih, encode32_length,
      List.length_cons]; omega

/-- C5, as stated, fails: the record of the sample parameters is not a seed, a wave type and
21 floats (that would be 92 bytes, the record has 96). -/
theorem record_not_21_floats : ¬ RecordHasFloats 21 sampleRecord := by
  rintro ⟨fs, hlen, h⟩
  have := congrArg List.length h
  rw [bytes_length] at this
  simp only [List.length_append, encode32_length, flatMap_encode32_length, hlen] at this
  omega

/-- C5, amended: the 96-byte record is the `uint32` seed, the `int32` wave type and then exactly
22 `float32` members in declaration order, without padding: the seed is the word at offset 0,
the wave type the word at offset 4, and float member `i` the word at offset `8 + 4 * i`. -/
theorem record_layout_22_floats (p : SfxParams Nat) (hp : p.Valid) :
    p.bytes.length = 96 ∧ p.floats.length = 22 ∧ RecordHasFloats 22 p ∧
      (∀ n, RecordHasFloats n p → n = 22) ∧
      u32At p.bytes 0 = p.randSeed ∧ toInt32 (u32At p.bytes 4) = p.waveType ∧
      ∀ i, i < 22 → u32At p.bytes (8 + 4 * i) = p.floats.getD i 0 := by
  have hb := ofBytes_bytes p hp
  refine ⟨bytes_length p, rfl, ⟨p.floats, rfl, ?_⟩, ?_, ?_, ?_, ?_⟩
  · simp [SfxParams.bytes, SfxParams.words]
  · rintro n ⟨fs, hlen, h⟩
    have := congrArg List.length h
    rw [bytes_length] at this
    simp only [List.length_append, encode32_length, flatMap_encode32_length, hlen] at this
    omega
  · have := congrArg SfxParams.randSeed hb
    simpa [SfxParams.ofBytes, wordAt, u32At] using this
  · have := congrArg SfxParams.waveType hb
    simpa [SfxParams.ofBytes, wordAt, u32At] using this
  · intro i hi
    have e : ∀ k, u32At p.bytes (4 * k) = wordAt p.bytes k := fun k => rfl
    have h8 : 8 + 4 * i = 4 * (2 + i) := by omega
    rw [h8, e]
    have hf : (SfxParams.ofBytes p.bytes).floats = p.floats := by rw [hb]
    rw [← hf]
    interval_cases i <;> rfl

/-- Witness for the amended C5: the sample record. -/
theorem record_layout_22_floats_witness :
    sampleRecord.bytes.length = 96 ∧ sampleRecord.floats.length = 22 ∧
      RecordHasFloats 22 sampleRecord ∧ (∀ n, RecordHasFloats n sampleRecord → n = 22) ∧
      u32At sampleRecord.bytes 0 = sampleRecord.randSeed ∧
      toInt32 (u32At sampleRecord.bytes 4) = sampleRecord.waveType ∧
      ∀ i, i < 22 → u32At sampleRecord.bytes (8 + 4 * i) = sampleRecord.floats.getD i 0 :=
  record_layout_22_floats sampleRecord (by decide)

/-- C6 (format validation is atomic).  For a file of at least 8 bytes:
(a) signature `rFX ` and a version word other than 200: the rFX unsupported-version message;
(b) signature `rFX `, version 200 and a length word other than 96: the invalid-size message;
(c) no signature and first four bytes, read as a little-endian `int`, not 100, 101 or 102: the
sfxr unsupported-version message.  In all three the parameters and the volume come back as
they were passed in. -/
theorem load_validation_atomic (sp : SfxParams Nat) (file : List Nat) (vol : Option Nat)
    (v0 l0 : Nat) (hlen : 8 ≤ file.length) :
    (file.take 4 = rfxSignature → u16At file 4 ≠ 200 →
      sfx_loadParams sp (some file) vol v0 l0
        = (some SfxError.rfxVersionNotSupported, sp, vol)) ∧
    (file.take 4 = rfxSignature → u16At file 4 = 200 → u16At file 6 ≠ 96 →
      sfx_loadParams sp (some file) vol v0 l0 = (some SfxError.rfxInvalidSize, sp, vol)) ∧
    (file.take 4 ≠ rfxSignature → toInt32 (u32At file 0) ≠ 100 →
      toInt32 (u32At file 0) ≠ 101 → toInt32 (u32At file 0) ≠ 102 →
      sfx_loadParams sp (some file) vol v0 l0
        = (some SfxError.sfsVersionNotSupported, sp, vol)) := by
  obtain ⟨b0, b1, b2, b3, b4, b5, b6, b7, rest, rfl⟩ :
      ∃ b0 b1 b2 b3 b4 b5 b6 b7 rest, file = b0 :: b1 :: b2 :: b3 :: b4 :: b5 :: b6 :: b7 :: rest := by
    match file, hlen with
    | b0 :: b1 :: b2 :: b3 :: b4 :: b5 :: b6 :: b7 :: rest, _ =>
      exact ⟨b0, b1, b2, b3, b4, b5, b6, b7, rest, rfl⟩
  refine ⟨?_, ?_, ?_⟩
  · intro hs hv
    simp only [rfxSignature, List.take_succ_cons, List.take_zero, List.cons.injEq, and_true] at hs
    obtain ⟨rfl, rfl, rfl, rfl⟩ := hs
    simp only [u16At, decode16, List.drop_succ_cons, List.drop_zero, List.take_succ_cons,
      List.take_zero, List.getD_cons_zero, List.getD_cons_succ] at hv
    simp [sfx_loadParams, fread, readU16, encode16, decode16, hv]
  · intro hs hv hl
    simp only [rfxSignature, List.take_succ_cons, List.take_zero, List.cons.injEq, and_true] at hs
    obtain ⟨rfl, rfl, rfl, rfl⟩ := hs
    simp only [u16At, decode16, List.drop_succ_cons, List.drop_zero, List.take_succ_cons,
      List.take_zero, List.getD_cons_zero, List.getD_cons_succ] at hv hl
    simp [sfx_loadParams, fread, readU16, encode16, decode16, hv, hl]
  · intro hs h100 h101 h102
    simp only [rfxSignature, List.take_succ_cons, List.take_zero, List.cons.injEq, and_true,
      not_and] at hs
    simp only [u32At, List.drop_zero, List.take_succ_cons, List.take_zero] at h100 h101 h102
    have hn : ¬ (b0 = 114 ∧ b1 = 70 ∧ b2 = 88 ∧ b3 = 32) := by
      rintro ⟨a, b, c, d⟩
      exact hs (by rw [a, b, c, d])
    simp [sfx_loadParams, fread, hn, h100, h101, h102]

/-- Witness for C6: an 8-byte rFX file that announces version 201. -/
theorem load_validation_atomic_witness :
    sfx_loadParams sampleRecord (some rfxFile201) (some 9) 1 2
      = (some SfxError.rfxVersionNotSupported, sampleRecord, some 9) :=
  (load_validation_atomic sampleRecord rfxFile201 (some 9) 1 2 (by decide)).1
    (by decide) (by decide)

/-- C7 (legacy decoding).  For a file that holds a complete sfxr record of version `v` in
100, 101, 102 (at least 89, 101, 105 bytes), the load returns no error and the output is the
specification's layout table `sfsLayout`: consecutive little-endian values after the version
word; `deltaSlide`, `changeSpeed` and `changeAmount` are `0.0f` for version 100; the four bytes
of `vibratoPhaseDelay` and the byte of `filterOn` are skipped; `randSeed` is the old one.  The
volume (the file's for version 102, else `0.5f`) goes to the out-parameter when there is one
and to no member of the output. -/
theorem sfs_load_layout (v : Int) (hv : v = 100 ∨ v = 101 ∨ v = 102) (sp : SfxParams Nat)
    (file : List Nat) (vol : Option Nat) (v0 l0 : Nat) (hver : toInt32 (u32At file 0) = v)
    (hlen : sfsSize v ≤ file.length) :
    sfx_loadParams sp (some file) vol v0 l0
      = (none, sfsLayout v file sp.randSeed, vol.map (fun _ => sfsLayoutVolume v file)) := by
  have h4 : 4 ≤ file.length := by
    have : 89 ≤ sfsSize v := by unfold sfsSize; split <;> [skip; split] <;> omega
    omega
  have hl := loadSfs_full v hv sp file vol hlen
  have hh : fread [0, 0, 0, 0] file = (file.take 4, 4, file.drop 4) := fread_full _ _ h4
  have hd : toInt32 (decode32 (List.take 4 file)) = v := by simpa [u32At] using hver
  have hsig : ¬ ((file.take 4).getD 0 0 = 0x72 ∧ (file.take 4).getD 1 0 = 0x46 ∧
      (file.take 4).getD 2 0 = 0x58 ∧ (file.take 4).getD 3 0 = 0x20) := by
    rintro ⟨a, b, c, d⟩
    have : toInt32 (decode32 (List.take 4 file)) = 542656114 := by
      simp only [decode32, a, b, c, d]
      decide
    rw [hd] at this
    omega
  simp only [sfx_loadParams, hh, ne_eq, not_true_eq_false, reduceIte, hsig, hd, hv, hl]

/-- Witness for C7: a complete version 102 file loaded over `otherRecord` (seed 77). -/
theorem sfs_load_layout_witness :
    sfx_loadParams otherRecord (some sfsFile102) (some 9) 1 2
      = (none, sfsLayout 102 sfsFile102 77, some (sfsLayoutVolume 102 sfsFile102)) :=
  sfs_load_layout 102 (by decide) otherRecord sfsFile102 (some 9) 1 2 (by decide) (by decide)

/-! ## Mutation: basic facts -/

theorem modifyFloat_randSeed {F : Type} (p : SfxParams F) (i : Nat) (f : F → F) :
    (p.modifyFloat i f).randSeed = p.randSeed := by
  unfold SfxParams.modifyFloat
  split <;> rfl

theorem modifyFloat_waveType {F : Type} (p : SfxParams F) (i : Nat) (f : F → F) :
    (p.modifyFloat i f).waveType = p.waveType := by
  unfold SfxParams.modifyFloat
  split <;> rfl

theorem modifyFloat_floats {F : Type} (p : SfxParams F) (i : Nat) (hi : i < 22) (f : F → F) :
    (p.modifyFloat i f).floats = p.floats.modify f i := by
  interval_cases i <;> rfl

theorem params_ext {F : Type} (p q : SfxParams F) (h1 : p.randSeed = q.randSeed)
    (h2 : p.waveType = q.waveType) (h3 : p.floats = q.floats) : p = q := by
  cases p; cases q
  simp only [SfxParams.floats, List.cons.injEq, and_true] at h3
  simp only [SfxParams.mk.injEq]
  simp only at h1 h2
  tauto

theorem and_two_pow_and_ne_zero (a m i : Nat) :
    (a &&& 2 ^ i) &&& m ≠ 0 ↔ a.testBit i = true ∧ m.testBit i = true := by
  constructor
  · intro h
    obtain ⟨j, hj⟩ := Nat.ne_zero_implies_bit_true h
    simp only [Nat.testBit_and, Nat.testBit_two_pow, Bool.and_eq_true, decide_eq_true_eq] at hj
    obtain ⟨⟨ha, rfl⟩, hm⟩ := hj
    exact ⟨ha, hm⟩
  · rintro ⟨ha, hm⟩ h
    have := congrArg (fun x => Nat.testBit x i) h
    simp [ha, hm] at this

theorem mutate_bit (i : Nat) (hi : i < 22) : (1 <<< i) % 4294967296 = 2 ^ i := by
  interval_cases i <;> rfl

theorem mutateStep_unselected {F D R : Type} (fo : FloatOps F D) (rnd : RandomSource R)
    (range half : F) (mask rmod : Nat) (st : SfxParams F × R) (i : Nat) (hi : i < 22)
    (h : ¬ (rmod.testBit i = true ∧ mask.testBit i = true)) :
    mutateStep fo rnd range half mask rmod st i = st := by
  have hb := (and_two_pow_and_ne_zero rmod mask i).not.mpr h
  simp only [mutateStep, mutate_bit i hi]
  rw [if_neg hb]

theorem mutateStep_selected {F D R : Type} (fo : FloatOps F D) (rnd : RandomSource R)
    (range half : F) (mask rmod : Nat) (st : SfxParams F × R) (i : Nat) (hi : i < 22)
    (h : rmod.testBit i = true ∧ mask.testBit i = true) :
    mutateStep fo rnd range half mask rmod st i
      = (st.1.modifyFloat i (fun old => mutateClamp fo
          (if SFX_NEGATIVE_ONE_MASK.testBit i then fo.neg (fo.lit 1) else fo.lit 0)
          (fo.sub (fo.add old (frnd fo rnd range st.2).1) half)), (frnd fo rnd range st.2).2) := by
  have hb := (and_two_pow_and_ne_zero rmod mask i).mpr h
  have hl : (SFX_NEGATIVE_ONE_MASK &&& 2 ^ i ≠ 0) ↔ SFX_NEGATIVE_ONE_MASK.testBit i = true := by
    interval_cases i <;> decide
  simp only [mutateStep, mutate_bit i hi, hl]
  rw [if_pos hb]

theorem mutateStep_frame {F D R : Type} (fo : FloatOps F D) (rnd : RandomSource R)
    (range half : F) (mask rmod : Nat) (st : SfxParams F × R) (i : Nat) (hi : i < 22) :
    (mutateStep fo rnd range half mask rmod st i).1.randSeed = st.1.randSeed ∧
    (mutateStep fo rnd range half mask rmod st i).1.waveType = st.1.waveType ∧
    ∀ j, mask.testBit j = false →
      (mutateStep fo rnd range half mask rmod st i).1.floats[j]? = st.1.floats[j]? := by
  by_cases h : rmod.testBit i = true ∧ mask.testBit i = true
  · rw [mutateStep_selected fo rnd range half mask rmod st i hi h]
    refine ⟨modifyFloat_randSeed _ _ _, modifyFloat_waveType _ _ _, ?_⟩
    intro j hj
    have hne : i ≠ j := by
      rintro rfl
      rw [hj] at h
      exact absurd h.2 (by decide)
    simp only [modifyFloat_floats _ i hi, List.getElem?_modify_ne _ _ hne]
  · rw [mutateStep_unselected fo rnd range half mask rmod st i hi h]
    exact ⟨rfl, rfl, fun _ _ => rfl⟩

theorem mutateFold_frame {F D R : Type} (fo : FloatOps F D) (rnd : RandomSource R)
    (range half : F) (mask rmod : Nat) (l : List Nat) (hl : ∀ i ∈ l, i < 22)
    (st : SfxParams F × R) :
    (l.foldl (mutateStep fo rnd range half mask rmod) st).1.randSeed = st.1.randSeed ∧
    (l.foldl (mutateStep fo rnd range half mask rmod) st).1.waveType = st.1.waveType ∧
    ∀ j, mask.testBit j = false →
      (l.foldl (mutateStep fo rnd range half mask rmod) st).1.floats[j]? = st.1.floats[j]? := by
  induction l generalizing st with
  | nil => exact ⟨rfl, rfl, fun _ _ => rfl⟩
  | cons i l ih =>
    have hi : i < 22 := hl i (List.mem_cons_self _ _)
    obtain ⟨a, b, c⟩ := mutateStep_frame fo rnd range half mask rmod st i hi
    obtain ⟨a', b', c'⟩ := ih (fun k hk => hl k (List.mem_cons_of_mem _ hk))
      (mutateStep fo rnd range half mask rmod st i)
    rw [List.foldl_cons]
    exact ⟨a'.trans a, b'.trans b, fun j hj => (c' j hj).trans (c j hj)⟩

theorem range_lt_22 : ∀ i ∈ List.range 22, i < 22 := fun _ h => List.mem_range.mp h

theorem floats_length {F : Type} (p : SfxParams F) : p.floats.length = 22 := rfl

/-! ## Mutation: the claims -/

/-- C8 (mutate frame).  For every interpretation of the arithmetic, every random source, range
and mask, `sfx_mutate` leaves `randSeed`, `waveType` and every float member whose mask bit is
clear as they were.  So the mask 0 leaves the whole record as it was, and the sfxr mask
`0xffffdf`, whose bits are set at every member index except 5, leaves `minFrequency` as it
was. -/
theorem sfx_mutate_frame {F D R : Type} (fo : FloatOps F D) (rnd : RandomSource R)
    (sp : SfxParams F) (range : F) (mask : Nat) (r : R) :
    (sfx_mutate fo rnd sp range mask r).1.randSeed = sp.randSeed ∧
    (sfx_mutate fo rnd sp range mask r).1.waveType = sp.waveType ∧
    (∀ i, mask.testBit i = false →
      (sfx_mutate fo rnd sp range mask r).1.floats[i]? = sp.floats[i]?) ∧
    (mask = 0 → (sfx_mutate fo rnd sp range mask r).1 = sp) ∧
    (mask = 0xffffdf → (sfx_mutate fo rnd sp range mask r).1.minFrequency = sp.minFrequency) ∧
    (∀ i, i < 22 → (Nat.testBit 0xffffdf i = true ↔ i ≠ 5)) := by
  obtain ⟨a, b, c⟩ := mutateFold_frame fo rnd range (fo.mul range (fo.lit 0.5)) mask
    (ofInt32 (1 + (rnd 0xFFFFFF r).1)) (List.range 22) range_lt_22 (sp, (rnd 0xFFFFFF r).2)
  refine ⟨a, b, c, ?_, ?_, ?_⟩
  · rintro rfl
    refine params_ext _ _ a b ?_
    apply List.ext_getElem?
    intro i
    exact c i (Nat.zero_testBit i)
  · rintro rfl
    have h5 := c 5 (by decide)
    simpa [SfxParams.floats] using h5
  · intro i hi
    interval_cases i <;> decide

/-- Witness for C8: the baseline with `attackTime` 1/2, range 1, the sfxr mask and a random
source that always returns `0x3FFFFE`, in exact arithmetic. -/
theorem sfx_mutate_frame_witness :
    (sfx_mutate exactArith (constRandom 0x3FFFFE)
        halfAttack 1 0xffffdf 0).1.minFrequency = halfAttack.minFrequency :=
  (sfx_mutate_frame exactArith (constRandom 0x3FFFFE) halfAttack 1 0xffffdf 0).2.2.2.2.1 rfl

theorem constRandom_inRange (k : Int) : (constRandom k).InRange := by
  intro range r h
  exact ⟨Int.emod_nonneg _ (by omega), Int.emod_lt_of_pos _ h⟩

theorem modifyFloat_eq_self {F : Type} (p : SfxParams F) (i : Nat) (hi : i < 22) (f : F → F)
    (h : ∀ x, p.floats[i]? = some x → f x = x) : p.modifyFloat i f = p := by
  cases p
  interval_cases i <;>
    simp only [SfxParams.floats, List.getElem?_cons_zero, List.getElem?_cons_succ,
      Option.some.injEq, forall_eq'] at h <;>
    simp only [SfxParams.modifyFloat, h]

theorem signedFields_iff (i : Nat) (hi : i < 22) :
    SFX_NEGATIVE_ONE_MASK.testBit i = true ↔ i ∈ signedFields := by
  interval_cases i <;> decide

theorem exact_low (pw : ℚ → ℚ → ℚ) (sn : ℚ → ℚ) (i : Nat) (hi : i < 22) :
    (if SFX_NEGATIVE_ONE_MASK.testBit i = true then (exactOps pw sn).neg ((exactOps pw sn).lit 1)
      else (exactOps pw sn).lit 0) = lowBound i := by
  simp only [signedFields_iff i hi, lowBound, exactOps]

theorem lowBound_le_one (i : Nat) : lowBound i ≤ 1 := by
  unfold lowBound
  split <;> norm_num

theorem exact_clamp (pw : ℚ → ℚ → ℚ) (sn : ℚ → ℚ) (low v : ℚ) (hl : low ≤ 1) :
    mutateClamp (exactOps pw sn) low v = max low (min 1 v) := by
  simp only [mutateClamp, exactOps, decide_eq_true_eq]
  split
  · rw [min_eq_left (by linarith), max_eq_right hl]
  · split
    · rw [min_eq_right (by linarith), max_eq_left (by linarith)]
    · rw [min_eq_right (by linarith), max_eq_right (by linarith)]

theorem foldl_congr_mem {α β : Type} (f g : α → β → α) (l : List β)
    (h : ∀ a, ∀ b ∈ l, f a b = g a b) (a : α) : l.foldl f a = l.foldl g a := by
  induction l generalizing a with
  | nil => rfl
  | cons b l ih =>
    rw [List.foldl_cons, List.foldl_cons, h a b (List.mem_cons_self _ _)]
    exact ih (fun a' b' hb' => h a' b' (List.mem_cons_of_mem _ hb')) _

theorem exact_mutateStep (pw : ℚ → ℚ → ℚ) (sn : ℚ → ℚ) {R : Type} (rnd : RandomSource R)
    (range : ℚ) (mask rmod : Nat) (st : SfxParams ℚ × R) (i : Nat) (hi : i < 22) :
    mutateStep (exactOps pw sn) rnd range ((exactOps pw sn).mul range ((exactOps pw sn).lit 0.5))
        mask rmod st i
      = mutateSpecStep rnd range (rmod &&& mask) st i := by
  by_cases h : rmod.testBit i = true ∧ mask.testBit i = true
  · have hs : (rmod &&& mask).testBit i = true := by
      rw [Nat.testBit_and, h.1, h.2]; rfl
    rw [mutateStep_selected _ rnd range _ mask rmod st i hi h, exact_low pw sn i hi]
    simp only [mutateSpecStep, hs, reduceIte]
    refine Prod.ext ?_ rfl
    dsimp only
    refine congrArg (st.1.modifyFloat i) (funext fun old => ?_)
    rw [exact_clamp pw sn _ _ (lowBound_le_one i)]
    simp only [exactOps, frnd, perturbation]
    congr 2
    ring
  · have hs : ¬ (rmod &&& mask).testBit i = true := by
      rw [Nat.testBit_and, Bool.and_eq_true]; exact h
    rw [mutateStep_unselected _ rnd range _ mask rmod st i hi h]
    simp only [mutateSpecStep, hs]
    rfl

/-- C9, as stated, fails: with range 0, the full mask and a random word whose bit 0 is set, an
`attackTime` of 2 comes back as 1. -/
theorem sfx_mutate_range_zero_clamps :
    loudAttack.attackTime = 2 ∧
      (sfx_mutate exactArith (constRandom 0) loudAttack 0 fullMask 0).1.attackTime = 1 := by
  refine ⟨rfl, ?_⟩
  simp [sfx_mutate, List.range, List.range.loop, mutateStep, loudAttack, fullMask, constRandom,
    ofInt32, SfxParams.modifyFloat, exactArith, exactOps, frnd, mutateClamp,
    SFX_NEGATIVE_ONE_MASK, sfx_resetParams, baseline]

/-- C9, amended: in exact arithmetic, for every record whose float members lie within their
clamp bounds (-1 to 1 for the eight signed members, 0 to 1 for the others), every random
source and every mask, the full one included, `sfx_mutate` with range 0 returns the record as
it was. -/
theorem sfx_mutate_range_zero (pw : ℚ → ℚ → ℚ) (sn : ℚ → ℚ) {R : Type} (rnd : RandomSource R)
    (sp : SfxParams ℚ) (h : InClampRange sp) (mask : Nat) (r : R) :
    (sfx_mutate (exactOps pw sn) rnd sp 0 mask r).1 = sp := by
  have key : ∀ (l : List Nat), (∀ i ∈ l, i < 22) → ∀ st : SfxParams ℚ × R, st.1 = sp →
      (l.foldl (mutateSpecStep rnd 0 (ofInt32 (1 + (rnd 0xFFFFFF r).1) &&& mask)) st).1 = sp := by
    intro l
    induction l with
    | nil => intro _ st hst; exact hst
    | cons i l ih =>
      intro hl st hst
      rw [List.foldl_cons]
      refine ih (fun k hk => hl k (List.mem_cons_of_mem _ hk)) _ ?_
      unfold mutateSpecStep
      split
      · rw [hst]
        dsimp only
        refine modifyFloat_eq_self sp i (hl i (List.mem_cons_self _ _)) _ ?_
        intro x hx
        obtain ⟨h1, h2⟩ := h i x hx
        simp only [perturbation, mul_zero, zero_div, sub_zero, add_zero]
        rw [min_eq_right h2, max_eq_right h1]
      · exact hst
  unfold sfx_mutate
  rw [foldl_congr_mem _ _ _ (fun a b hb => exact_mutateStep pw sn rnd 0 mask _ a b
    (range_lt_22 b hb))]
  exact key _ range_lt_22 _ rfl

/-- Witness for the amended C9: the baseline record, which is within the clamp bounds, under
the full mask. -/
theorem sfx_mutate_range_zero_witness :
    (sfx_mutate exactArith (constRandom 0) baseline 0 fullMask 0).1
      = baseline :=
  sfx_mutate_range_zero _ _ (constRandom 0) baseline
    (by
      intro i x hx
      have hi : i < 22 := by
        by_contra hn
        rw [List.getElem?_eq_none (by rw [floats_length]; omega)] at hx
        exact absurd hx (by simp)
      interval_cases i <;>
        simp only [baseline, sfx_resetParams, exactArith, exactOps, SfxParams.floats,
          List.getElem?_cons_zero, List.getElem?_cons_succ, Option.some.injEq] at hx <;>
        subst hx <;> simp only [lowBound, signedFields] <;> norm_num)
    fullMask 0

theorem perturbation_bounds {R : Type} (rnd : RandomSource R) (hr : rnd.InRange) (range : ℚ)
    (hrange : 0 ≤ range) (r : R) :
    -(range / 2) ≤ perturbation rnd range r ∧ perturbation rnd range r ≤ range / 2 := by
  obtain ⟨h0, h1⟩ := hr 10001 r (by norm_num)
  have k0 : (0 : ℚ) ≤ ((rnd 10001 r).1 : ℚ) := by exact_mod_cast h0
  have k1 : ((rnd 10001 r).1 : ℚ) ≤ 10000 := by
    have : (rnd 10001 r).1 ≤ 10000 := by omega
    exact_mod_cast this
  have a0 : 0 ≤ ((rnd 10001 r).1 : ℚ) / 10000 * range :=
    mul_nonneg (div_nonneg k0 (by norm_num)) hrange
  have a1 : ((rnd 10001 r).1 : ℚ) / 10000 * range ≤ 1 * range :=
    mul_le_mul_of_nonneg_right (by rw [div_le_one (by norm_num)]; exact k1) hrange
  unfold perturbation
  constructor <;> linarith

theorem mutateWord_bounds {R : Type} (rnd : RandomSource R) (hr : rnd.InRange) (r : R) :
    1 ≤ mutateWord rnd r ∧ mutateWord rnd r < 2 ^ 24 ∧
      ofInt32 (1 + (rnd 0xFFFFFF r).1) = mutateWord rnd r := by
  obtain ⟨h0, h1⟩ := hr 0xFFFFFF r (by norm_num)
  unfold mutateWord ofInt32
  refine ⟨by omega, by omega, ?_⟩
  rw [Int.emod_eq_of_lt (by omega) (by omega)]

/-- C10, as stated, fails: under the full mask with range 1, a random word 2 (the source
returns 1) leaves `attackTime` at 1/2, although the claimed perturbation would move it, and the
whole call makes 2 draws, not 23. -/
theorem sfx_mutate_full_mask_skips :
    (constRandom 1).InRange ∧
      (sfx_mutate exactArith (constRandom 1) halfAttack 1 fullMask 0).1.attackTime
        = halfAttack.attackTime ∧
      max (lowBound 0) (min 1 (halfAttack.attackTime + perturbation (constRandom 1) 1 1))
        ≠ halfAttack.attackTime ∧
      (sfx_mutate exactArith (constRandom 1) halfAttack 1 fullMask 0).2 = 2 := by
  refine ⟨constRandom_inRange 1, ?_, ?_, ?_⟩
  · simp +decide [sfx_mutate, List.range, List.range.loop, mutateStep, halfAttack, fullMask, constRandom,
      ofInt32, SfxParams.modifyFloat, exactArith, exactOps, frnd, mutateClamp,
      SFX_NEGATIVE_ONE_MASK, sfx_resetParams, baseline]
  · simp only [halfAttack, baseline, sfx_resetParams, exactArith, exactOps, perturbation, constRandom,
      lowBound, signedFields]
    norm_num
  · simp +decide [sfx_mutate, List.range, List.range.loop, mutateStep, halfAttack, fullMask, constRandom,
      ofInt32, SfxParams.modifyFloat, exactArith, exactOps, frnd, mutateClamp,
      SFX_NEGATIVE_ONE_MASK, sfx_resetParams, baseline]

/-- C10, amended: in exact arithmetic, with a random source that keeps its contract and a range
that is not negative, `sfx_mutate` is the amended specification `mutateSpec`: it draws one
random word between 1 and `2^24 - 1`, then visits the 22 float members in declaration order
and, for each member whose bit is set in both the mask and the random word, makes one draw for
a perturbation `d = frnd(range) - range/2`, which lies between `-range/2` and `range/2`, and
stores `old + d` clamped to `lowBound i`, 1; a member whose bit is clear in either is left alone
and costs no draw.  So under the full mask exactly the members the random word selects are
perturbed. -/
theorem sfx_mutate_refines_spec (pw : ℚ → ℚ → ℚ) (sn : ℚ → ℚ) {R : Type}
    (rnd : RandomSource R) (hr : rnd.InRange) (sp : SfxParams ℚ) (range : ℚ)
    (hrange : 0 ≤ range) (mask : Nat) (r : R) :
    sfx_mutate (exactOps pw sn) rnd sp range mask r = mutateSpec rnd sp range mask r ∧
      (1 ≤ mutateWord rnd r ∧ mutateWord rnd r < 2 ^ 24) ∧
      (∀ r', -(range / 2) ≤ perturbation rnd range r' ∧ perturbation rnd range r' ≤ range / 2) ∧
      (∀ i, i < 22 → ((mutateWord rnd r &&& fullMask).testBit i = (mutateWord rnd r).testBit i)) := by
  obtain ⟨w1, w2, w3⟩ := mutateWord_bounds rnd hr r
  refine ⟨?_, ⟨w1, w2⟩, fun r' => perturbation_bounds rnd hr range hrange r', ?_⟩
  · unfold sfx_mutate mutateSpec
    rw [w3]
    exact foldl_congr_mem _ _ _ (fun a b hb => exact_mutateStep pw sn rnd range mask _ a b
      (range_lt_22 b hb)) _
  · intro i hi
    rw [Nat.testBit_and]
    have : fullMask.testBit i = true := by
      interval_cases i <;> decide
    rw [this, Bool.and_true]

/-- Witness for the amended C10: `halfAttack` under the full mask with range 1 and the source
that returns 1. -/
theorem sfx_mutate_refines_spec_witness :
    sfx_mutate exactArith (constRandom 1) halfAttack 1 fullMask 0
      = mutateSpec (constRandom 1) halfAttack 1 fullMask 0 :=
  (sfx_mutate_refines_spec _ _ (constRandom 1) (constRandom_inRange 1) halfAttack 1
    (by norm_num) fullMask 0).1

/-! ## Wave synthesis: the sample loop -/

theorem emitSample_of_ne {F D : Type} (fo : FloatOps F D) (fmt : Int) (samples : Int → Sample F)
    (c : Int) (x : F) (i : Int) (h : i ≠ c) : emitSample fo fmt samples c x i = samples i := by
  unfold emitSample
  split_ifs <;> simp [Function.update_noteq h]

theorem genLoop_bounds {F D R : Type} (fo : FloatOps F D) (rnd : RandomSource R)
    (sp : SfxParams F) (fmt : Int) (c e : Int) (st : GenState F D R) (samples : Int → Sample F) :
    c ≤ (genLoop fo rnd sp fmt c e st samples).1 ∧
    (genLoop fo rnd sp fmt c e st samples).1 ≤ max c e ∧
    ∀ i, (i < c ∨ (genLoop fo rnd sp fmt c e st samples).1 ≤ i) →
      (genLoop fo rnd sp fmt c e st samples).2.2 i = samples i := by
  induction c, e, st, samples using genLoop.induct fo rnd sp fmt with
  | case1 c e st samples hlt hbrk =>
    rw [genLoop, if_pos hlt, hbrk]
    exact ⟨le_refl _, le_max_left _ _, fun _ _ => rfl⟩
  | case2 c e st samples hlt g hg ih =>
    rw [genLoop, if_pos hlt, hg]
    simp only [dite_eq_ite] at ih ⊢
    obtain ⟨h1, h2, h3⟩ := ih
    refine ⟨by omega, ?_, ?_⟩
    · refine le_trans h2 ?_
      split <;> omega
    · intro i hi
      rw [h3 i (by omega), emitSample_of_ne fo fmt samples c _ i (by omega)]
  | case3 c e st samples hge =>
    rw [genLoop, if_neg hge]
    exact ⟨le_refl _, le_max_left _ _, fun _ _ => rfl⟩

/-- C2 (buffer bound).  For every interpretation of the arithmetic, every parameter set,
random source and context with `N = sampleRate * maxDuration` not negative, the count `r` that
`sfx_generateWave` returns satisfies `0 ≤ r ≤ N`, and the call stores into no cell of the
sample buffer outside the indices `0 .. r - 1`, so none at `N` or beyond; this covers the
iteration of the minimum-frequency stop. -/
theorem generateWave_buffer_bound {F D R : Type} (fo : FloatOps F D) (rnd : RandomSource R)
    (synth : SfxSynth F) (sp : SfxParams F) (r : R)
    (hN : 0 ≤ synth.sampleRate * synth.maxDuration) :
    0 ≤ (sfx_generateWave fo rnd synth sp r).1 ∧
    (sfx_generateWave fo rnd synth sp r).1 ≤ synth.sampleRate * synth.maxDuration ∧
    (∀ i, (i < 0 ∨ (sfx_generateWave fo rnd synth sp r).1 ≤ i) →
      (sfx_generateWave fo rnd synth sp r).2.1.samples i = synth.samples i) ∧
    (∀ i, (i < 0 ∨ synth.sampleRate * synth.maxDuration ≤ i) →
      (sfx_generateWave fo rnd synth sp r).2.1.samples i = synth.samples i) := by
  obtain ⟨h1, h2, h3⟩ := genLoop_bounds fo rnd sp synth.sampleFormat 0
    (synth.sampleRate * synth.maxDuration) (initState fo rnd synth sp r) synth.samples
  rw [max_eq_right hN] at h2
  refine ⟨h1, h2, h3, ?_⟩
  intro i hi
  exact h3 i (by rcases hi with hi | hi <;> [exact Or.inl hi; exact Or.inr (le_trans h2 hi)])

/-- Witness for C2: the baseline parameters in exact arithmetic on a context for 3 samples. -/
theorem generateWave_buffer_bound_witness :
    0 ≤ (sfx_generateWave exactArith (constRandom 0) tinySynth baseline 0).1 ∧
    (sfx_generateWave exactArith (constRandom 0) tinySynth baseline 0).1
      ≤ 3 * 1 :=
  ⟨(generateWave_buffer_bound exactArith (constRandom 0) tinySynth baseline 0
      (by decide)).1,
   (generateWave_buffer_bound exactArith (constRandom 0) tinySynth baseline 0
      (by decide)).2.1⟩

/-! ## Wave synthesis: array indices -/

theorem cAnd_1023_bounds (x : Int) : 0 ≤ cAnd x 1023 ∧ cAnd x 1023 < 1024 := by
  have h : ofInt32 x &&& ofInt32 1023 ≤ 1023 := Nat.and_le_right
  unfold cAnd toInt32
  rw [if_pos (by omega)]
  omega

theorem noise_index_bounds (p q : Int) (hp : 0 ≤ p) (hq : p < q) :
    0 ≤ Int.tdiv (p * 32) q ∧ Int.tdiv (p * 32) q < 32 := by
  rw [Int.tdiv_eq_ediv (by omega) (by omega)]
  exact ⟨Int.ediv_nonneg (by omega) (by omega), Int.ediv_lt_of_lt_mul (by omega) (by omega)⟩

theorem wrap_bounds (p q : Int) (hp : 0 ≤ p) (hq : 0 < q) :
    0 ≤ Int.tmod p q ∧ Int.tmod p q < q :=
  ⟨Int.tmod_nonneg _ hp, Int.tmod_lt_of_pos _ hq⟩

/-! ## Wave synthesis: what a call can read of its context -/

theorem foldl_rel {α β : Type} (P : α → α → Prop) (f : α → β → α) (l : List β)
    (h : ∀ a b, ∀ x ∈ l, P a b → P (f a x) (f b x)) (a b : α) (hab : P a b) :
    P (l.foldl f a) (l.foldl f b) := by
  induction l generalizing a b with
  | nil => exact hab
  | cons x l ih =>
    rw [List.foldl_cons, List.foldl_cons]
    exact ih (fun a' b' y hy => h a' b' y (List.mem_cons_of_mem _ hy)) _ _
      (h a b x (List.mem_cons_self _ _) hab)

theorem foldl_range_grow {α : Type} (P : Nat → α → α → Prop) (f : α → Nat → α)
    (h : ∀ n a b, P n a b → P (n + 1) (f a n) (f b n)) (a b : α) (hab : P 0 a b) (n : Nat) :
    P n ((List.range n).foldl f a) ((List.range n).foldl f b) := by
  induction n with
  | zero => exact hab
  | succ n ih =>
    rw [List.range_succ, List.foldl_append, List.foldl_append]
    exact h n _ _ ih

theorem Live.weaken {F D R : Type} {sp : SfxParams F} {n m n' m' : Int} {a b : GenState F D R}
    (h : Live sp n m a b) (hn : n' ≤ n) (hm : m' ≤ m) : Live sp n' m' a b := by
  obtain ⟨h1, h2, h3, h4, h5⟩ := h
  exact ⟨h1, h2, h3, fun w i h0 hi => h4 w i h0 (by omega), fun w i h0 hi => h5 w i h0 (by omega)⟩

theorem pinkStep_live {F D R : Type} (fo : FloatOps F D) (rnd : RandomSource R)
    (sp : SfxParams F) (hp : sp.waveType = SFX_PINK_NOISE) (n : Int) (bits : Int)
    (x y : F × GenState F D R) (k : Nat) (hk : k ∈ List.range 5)
    (h : x.1 = y.1 ∧ Live sp n 5 x.2 y.2) :
    (pinkStep fo rnd bits x k).1 = (pinkStep fo rnd bits y k).1 ∧
      Live sp n 5 (pinkStep fo rnd bits x k).2 (pinkStep fo rnd bits y k).2 := by
  obtain ⟨hs, h1, h2, h3, h4, h5⟩ := h
  have hk5 : (k : Int) < 5 := by
    have := List.mem_range.mp hk
    omega
  have hl : Live sp n 5 (pinkStep fo rnd bits x k).2 (pinkStep fo rnd bits y k).2 := by
    unfold pinkStep
    dsimp only
    split
    · refine ⟨h1, by simp only [h2], h3, h4, ?_⟩
      intro w i h0 hi
      by_cases e : i = (k : Int)
      · subst e
        simp only [Function.update_same, h2]
      · simp only [Function.update_noteq e, h5 w i h0 hi]
    · exact ⟨h1, h2, h3, h4, h5⟩
  refine ⟨?_, hl⟩
  have := hl.2.2.2.2 hp (k : Int) (by omega) hk5
  unfold pinkStep at this ⊢
  dsimp only at this ⊢
  rw [hs, this]

theorem pinkValue_live {F D R : Type} (fo : FloatOps F D) (rnd : RandomSource R)
    (sp : SfxParams F) (hp : sp.waveType = SFX_PINK_NOISE) (n : Int) (a b : GenState F D R)
    (h : Live sp n 5 a b) :
    (pinkValue fo rnd a).1 = (pinkValue fo rnd b).1 ∧
      Live sp n 5 (pinkValue fo rnd a).2 (pinkValue fo rnd b).2 := by
  obtain ⟨h1, h2, h3, h4, h5⟩ := h
  have key := foldl_rel (fun (x y : F × GenState F D R) => x.1 = y.1 ∧ Live sp n 5 x.2 y.2)
    (pinkStep fo rnd (cXor a.regs.pinkI (if a.regs.pinkI + 1 > 0x1f then 0 else a.regs.pinkI + 1)))
    (List.range 5) (fun x y k hk hxy => pinkStep_live fo rnd sp hp n _ x y k hk hxy)
    (fo.lit 0, { a with regs := { a.regs with
      pinkI := if a.regs.pinkI + 1 > 0x1f then 0 else a.regs.pinkI + 1 } })
    (fo.lit 0, { b with regs := { b.regs with
      pinkI := if a.regs.pinkI + 1 > 0x1f then 0 else a.regs.pinkI + 1 } })
    ⟨rfl, by simp only [h1], h2, h3, h4, h5⟩
  have hb : b.regs.pinkI = a.regs.pinkI := by rw [h1]
  unfold pinkValue
  dsimp only
  rw [hb]
  exact ⟨by rw [key.1], key.2⟩

theorem resetNoise_live {F D R : Type} (fo : FloatOps F D) (rnd : RandomSource R)
    (sp : SfxParams F) (n : Int) (a b : GenState F D R) (h : Live sp n 5 a b) (hn : 0 ≤ n) :
    Live sp 32 5 (resetNoise fo rnd sp a) (resetNoise fo rnd sp b) := by
  have h0 : Live sp ((0 : Nat) : Int) 5 a b := h.weaken hn (le_refl _)
  unfold resetNoise
  split
  · refine foldl_range_grow (fun (k : Nat) x y => Live sp (k : Int) 5 x y) _ ?_ a b h0 32
    rintro k x y ⟨h1, h2, h3, h4, h5⟩
    refine ⟨h1, by simp only [h2], h3, ?_, h5⟩
    intro w i hi0 hi
    by_cases e : i = (k : Int)
    · subst e
      simp only [Function.update_same, h2]
    · simp only [Function.update_noteq e]
      exact h4 w i hi0 (by push_cast at hi; omega)
  · split
    · rename_i hp
      refine foldl_range_grow (fun (k : Nat) x y => Live sp (k : Int) 5 x y) _ ?_ a b h0 32
      intro k x y hxy
      obtain ⟨hv, h1, h2, h3, h4, h5⟩ := pinkValue_live fo rnd sp hp _ x y hxy
      refine ⟨h1, h2, h3, ?_, h5⟩
      intro w i hi0 hi
      by_cases e : i = (k : Int)
      · subst e
        simp only [Function.update_same, hv]
      · simp only [Function.update_noteq e]
        exact h4 w i hi0 (by push_cast at hi; omega)
    · rename_i hn1 hn2
      obtain ⟨h1, h2, h3, _, h5⟩ := h
      exact ⟨h1, h2, h3, fun w => absurd w (by rintro (w | w) <;> contradiction), h5⟩

theorem foldl_inv {α β : Type} (P : α → Prop) (f : α → β → α) (l : List β)
    (h : ∀ a x, P a → P (f a x)) (a : α) (ha : P a) : P (l.foldl f a) := by
  induction l generalizing a with
  | nil => exact ha
  | cons x l ih =>
    rw [List.foldl_cons]
    exact ih _ (h a x ha)

theorem pinkStep_regs {F D R : Type} (fo : FloatOps F D) (rnd : RandomSource R) (bits : Int)
    (x : F × GenState F D R) (k : Nat) : (pinkStep fo rnd bits x k).2.regs = x.2.regs := by
  unfold pinkStep
  dsimp only
  split <;> rfl

theorem pinkValue_regs {F D R : Type} (fo : FloatOps F D) (rnd : RandomSource R)
    (st : GenState F D R) :
    (pinkValue fo rnd st).2.regs
      = { st.regs with pinkI := (pinkValue fo rnd st).2.regs.pinkI } := by
  unfold pinkValue
  dsimp only
  refine foldl_inv (fun (x : F × GenState F D R) =>
    x.2.regs = { st.regs with pinkI := x.2.regs.pinkI }) _ _ ?_ _ rfl
  intro x k hx
  dsimp only
  rw [pinkStep_regs, hx]

theorem resetNoise_regs {F D R : Type} (fo : FloatOps F D) (rnd : RandomSource R)
    (sp : SfxParams F) (st : GenState F D R) :
    (resetNoise fo rnd sp st).regs
      = { st.regs with pinkI := (resetNoise fo rnd sp st).regs.pinkI } := by
  unfold resetNoise
  split
  · refine foldl_inv (fun (x : GenState F D R) =>
      x.regs = { st.regs with pinkI := x.regs.pinkI }) _ _ ?_ _ rfl
    intro x k hx
    exact hx
  · split
    · refine foldl_inv (fun (x : GenState F D R) =>
        x.regs = { st.regs with pinkI := x.regs.pinkI }) _ _ ?_ _ rfl
      intro x k hx
      dsimp only
      rw [pinkValue_regs fo rnd x, hx]
    · rfl

theorem advancePhase_live {F D R : Type} (fo : FloatOps F D) (rnd : RandomSource R)
    (sp : SfxParams F) (a b : GenState F D R) (h : Live sp 32 5 a b) :
    Live sp 32 5 (advancePhase fo rnd sp a) (advancePhase fo rnd sp b) := by
  obtain ⟨h1, h2, h3, h4, h5⟩ := h
  unfold advancePhase
  rw [← h1]
  split
  · exact resetNoise_live fo rnd sp 32 _ _ ⟨by simp only [h1], h2, h3, h4, h5⟩ (by norm_num)
  · exact ⟨by simp only [h1], h2, h3, h4, h5⟩

theorem advancePhase_phase {F D R : Type} (fo : FloatOps F D) (rnd : RandomSource R)
    (sp : SfxParams F) (st : GenState F D R) (h0 : 0 ≤ st.regs.phase)
    (hq : 0 < st.regs.period) :
    (advancePhase fo rnd sp st).regs.period = st.regs.period ∧
      0 ≤ (advancePhase fo rnd sp st).regs.phase ∧
      (advancePhase fo rnd sp st).regs.phase < st.regs.period := by
  unfold advancePhase
  split
  · rw [resetNoise_regs]
    dsimp only
    obtain ⟨w1, w2⟩ := wrap_bounds (st.regs.phase + 1) st.regs.period (by omega) hq
    exact ⟨rfl, w1, w2⟩
  · dsimp only
    exact ⟨rfl, by omega, by omega⟩

theorem waveform_live {F D : Type} (fo : FloatOps F D) (sp : SfxParams F) (g : Regs F D)
    (na nb : Int → F) (fp : F) (h0 : 0 ≤ g.phase) (hq : g.phase < g.period)
    (h : (sp.waveType = SFX_NOISE ∨ sp.waveType = SFX_PINK_NOISE) →
      ∀ i, 0 ≤ i → i < 32 → na i = nb i) :
    waveform fo sp g na fp = waveform fo sp g nb fp := by
  obtain ⟨b1, b2⟩ := noise_index_bounds g.phase g.period h0 hq
  unfold waveform
  split_ifs <;> first | rfl | exact h (by assumption) _ b1 b2

theorem subSample_live {F D R : Type} (fo : FloatOps F D) (rnd : RandomSource R)
    (sp : SfxParams F) (x y : F × GenState F D R)
    (h : x.1 = y.1 ∧ Live sp 32 5 x.2 y.2 ∧ 0 ≤ x.2.regs.phase ∧ 0 < x.2.regs.period) :
    (subSample fo rnd sp x).1 = (subSample fo rnd sp y).1 ∧
      Live sp 32 5 (subSample fo rnd sp x).2 (subSample fo rnd sp y).2 ∧
      0 ≤ (subSample fo rnd sp x).2.regs.phase ∧ 0 < (subSample fo rnd sp x).2.regs.period := by
  obtain ⟨hs, hl, h0, hq⟩ := h
  obtain ⟨p1, p2, p3⟩ := advancePhase_phase fo rnd sp x.2 h0 hq
  obtain ⟨h1, h2, h3, h4, h5⟩ := advancePhase_live fo rnd sp x.2 y.2 hl
  have hw := waveform_live fo sp (advancePhase fo rnd sp x.2).regs
    (advancePhase fo rnd sp x.2).noiseBuffer (advancePhase fo rnd sp y.2).noiseBuffer
    (fo.div (fo.ofInt (advancePhase fo rnd sp x.2).regs.phase)
      (fo.ofInt (advancePhase fo rnd sp x.2).regs.period)) p2 (by rw [p1]; exact p3) h4
  have hbuf : ∀ (i j : Int) (v : F), 0 ≤ i → i < 1024 →
      Function.update (advancePhase fo rnd sp x.2).phaserBuffer j v i
        = Function.update (advancePhase fo rnd sp y.2).phaserBuffer j v i := by
    intro i j v i0 i1
    by_cases e : i = j
    · subst e
      simp only [Function.update_same]
    · simp only [Function.update_noteq e, h3 i i0 i1]
  unfold subSample
  dsimp only
  rw [← h1, ← hw, hs]
  refine ⟨?_, ⟨rfl, h2, ?_, h4, h5⟩, p2, ?_⟩
  · rw [hbuf _ _ _ (cAnd_1023_bounds _).1 (cAnd_1023_bounds _).2]
  · intro i i0 i1
    exact hbuf i _ _ i0 i1
  · show 0 < (advancePhase fo rnd sp x.2).regs.period
    rw [p1]
    exact hq

theorem superSample_live {F D R : Type} (fo : FloatOps F D) (rnd : RandomSource R)
    (sp : SfxParams F) (a b : GenState F D R) (h : Live sp 32 5 a b) (h0 : 0 ≤ a.regs.phase)
    (hq : 0 < a.regs.period) :
    (superSample fo rnd sp a).1 = (superSample fo rnd sp b).1 ∧
      Live sp 32 5 (superSample fo rnd sp a).2 (superSample fo rnd sp b).2 ∧
      0 ≤ (superSample fo rnd sp a).2.regs.phase :=
  have key := foldl_rel (fun (x y : F × GenState F D R) =>
      x.1 = y.1 ∧ Live sp 32 5 x.2 y.2 ∧ 0 ≤ x.2.regs.phase ∧ 0 < x.2.regs.period)
    (fun acc (_ : Nat) => subSample fo rnd sp acc) (List.range 8)
    (fun x y _ _ hxy => subSample_live fo rnd sp x y hxy) (fo.lit 0, a) (fo.lit 0, b)
    ⟨rfl, h, h0, hq⟩
  ⟨key.1, key.2.1, key.2.2.1⟩

theorem stepControl_phase {F D : Type} (fo : FloatOps F D) (sp : SfxParams F) (g : Regs F D) :
    (stepControl fo sp g).1.phase = g.phase ∧ 8 ≤ (stepControl fo sp g).1.period := by
  unfold stepControl stepRepeat
  dsimp only
  refine ⟨?_, ?_⟩
  · unfold resetSample
    split_ifs <;> rfl
  · split_ifs <;> omega

theorem stepEnvelope_phase {F D : Type} (fo : FloatOps F D) (sp : SfxParams F) (g g' : Regs F D)
    (h : stepEnvelope fo sp g = some g') : g'.phase = g.phase ∧ g'.period = g.period := by
  unfold stepEnvelope at h
  dsimp only at h
  split_ifs at h
  · cases hn : nextStage { g with envTime := g.envTime + 1 } 3 g.envStage with
    | none => rw [hn] at h; simp at h
    | some s =>
      rw [hn] at h
      simp only [Option.map_some', Option.some.injEq] at h
      subst h
      exact ⟨rfl, rfl⟩
  · simp only [Option.map_some', Option.some.injEq] at h
    subst h
    exact ⟨rfl, rfl⟩

theorem emitSample_same {F D : Type} (fo : FloatOps F D) (fmt : Int)
    (hfmt : fmt = SFX_U8 ∨ fmt = SFX_I16 ∨ fmt = SFX_F32) (sa sb : Int → Sample F) (c : Int)
    (x : F) : emitSample fo fmt sa c x c = emitSample fo fmt sb c x c := by
  unfold emitSample
  rcases hfmt with h | h | h <;> subst h <;> simp [SFX_U8, SFX_I16, SFX_F32]

theorem genLoop_live {F D R : Type} (fo : FloatOps F D) (rnd : RandomSource R)
    (sp : SfxParams F) (fmt : Int) (hfmt : fmt = SFX_U8 ∨ fmt = SFX_I16 ∨ fmt = SFX_F32)
    (c e : Int) (a : GenState F D R) (sa : Int → Sample F) :
    ∀ (b : GenState F D R) (sb : Int → Sample F), Live sp 32 5 a b → 0 ≤ a.regs.phase →
      (∀ i, 0 ≤ i → i < c → sa i = sb i) →
      (genLoop fo rnd sp fmt c e a sa).1 = (genLoop fo rnd sp fmt c e b sb).1 ∧
      (∀ i, 0 ≤ i → i < (genLoop fo rnd sp fmt c e a sa).1 →
        (genLoop fo rnd sp fmt c e a sa).2.2 i = (genLoop fo rnd sp fmt c e b sb).2.2 i) ∧
      Live sp 32 5 (genLoop fo rnd sp fmt c e a sa).2.1 (genLoop fo rnd sp fmt c e b sb).2.1 := by
  induction c, e, a, sa using genLoop.induct fo rnd sp fmt with
  | case1 c e a sa hlt hbrk =>
    intro b sb hl h0 hs
    have hr : b.regs = a.regs := hl.1.symm
    rw [genLoop, if_pos hlt, hbrk, genLoop, if_pos hlt, hr, hbrk]
    exact ⟨rfl, hs, hl⟩
  | case2 c e a sa hlt g hg ih =>
    intro b sb hl h0 hs
    have hr : b.regs = a.regs := hl.1.symm
    obtain ⟨c1, c2⟩ := stepControl_phase fo sp a.regs
    obtain ⟨e1, e2⟩ := stepEnvelope_phase fo sp _ g hg
    have hl' : Live sp 32 5 { a with regs := stepPhaser fo g } { b with regs := stepPhaser fo g } :=
      ⟨rfl, hl.2.1, hl.2.2.1, hl.2.2.2.1, hl.2.2.2.2⟩
    have hp0 : 0 ≤ (stepPhaser fo g).phase := by
      show 0 ≤ g.phase
      omega
    have hq0 : 0 < (stepPhaser fo g).period := by
      show 0 < g.period
      omega
    obtain ⟨s1, s2, s3⟩ := superSample_live fo rnd sp _ _ hl' hp0 hq0
    rw [genLoop, if_pos hlt, hg, genLoop, if_pos hlt, hr, hg]
    simp only [dite_eq_ite] at ih ⊢
    rw [← s1]
    refine ih _ _ s2 s3 ?_
    intro i i0 i1
    by_cases hi : i = c
    · subst hi
      exact emitSample_same fo fmt hfmt sa sb i _
    · rw [emitSample_of_ne fo fmt sa c _ i hi, emitSample_of_ne fo fmt sb c _ i hi]
      exact hs i i0 (by omega)
  | case3 c e a sa hge =>
    intro b sb hl h0 hs
    rw [genLoop, if_neg hge, genLoop, if_neg hge]
    exact ⟨rfl, hs, hl⟩

theorem initState_live {F D R : Type} (fo : FloatOps F D) (rnd : RandomSource R)
    (s1 s2 : SfxSynth F) (sp : SfxParams F) (r : R) :
    Live sp 32 5 (initState fo rnd s1 sp r) (initState fo rnd s2 sp r : GenState F D R) := by
  unfold initState
  dsimp only
  refine resetNoise_live fo rnd sp 0 _ _ ?_ (le_refl _)
  have base : ∀ g : Regs F D, Live sp 0 ((0 : Nat) : Int)
      ({ regs := g, noiseBuffer := s1.noiseBuffer, pinkWhiteValue := s1.pinkWhiteValue,
         phaserBuffer := fun i => if 0 ≤ i ∧ i < 1024 then fo.lit 0 else s1.phaserBuffer i,
         rng := r } : GenState F D R)
      { regs := g, noiseBuffer := s2.noiseBuffer, pinkWhiteValue := s2.pinkWhiteValue,
        phaserBuffer := fun i => if 0 ≤ i ∧ i < 1024 then fo.lit 0 else s2.phaserBuffer i,
        rng := r } := by
    intro g
    refine ⟨rfl, rfl, ?_, ?_, ?_⟩
    · intro i i0 i1
      simp only [i0, i1, and_self, reduceIte]
    · intro _ i i0 i1
      omega
    · intro _ i i0 i1
      omega
  split
  · refine foldl_range_grow (fun (k : Nat) x y => Live sp 0 (k : Int) x y) _ ?_ _ _ (base _) 5
    rintro k x y ⟨h1, h2, h3, h4, h5⟩
    refine ⟨h1, by simp only [h2], h3, h4, ?_⟩
    intro w i hi0 hi
    by_cases e : i = (k : Int)
    · subst e
      simp only [Function.update_same, h2]
    · simp only [Function.update_noteq e]
      exact h5 w i hi0 (by push_cast at hi; omega)
  · rename_i hnp
    obtain ⟨h1, h2, h3, h4, _⟩ := base (initRegs fo sp)
    exact ⟨h1, h2, h3, h4, fun w => absurd w hnp⟩

theorem initState_phase {F D R : Type} (fo : FloatOps F D) (rnd : RandomSource R)
    (s1 : SfxSynth F) (sp : SfxParams F) (r : R) :
    (initState fo rnd s1 sp r : GenState F D R).regs.phase = 0 := by
  unfold initState
  dsimp only
  rw [resetNoise_regs]
  dsimp only
  split
  · refine foldl_inv (fun (x : GenState F D R) => x.regs.phase = 0) _ _ ?_ _ rfl
    intro x k hx
    exact hx
  · rfl

/-- C3 (determinism across reused contexts).  For every interpretation of the arithmetic, every
random source started in the same state and every parameter set, two calls on contexts that
agree on `sampleFormat` (one of the three formats), `sampleRate` and `maxDuration`, and are
otherwise arbitrary in their sample buffer, noise table, white values and phaser buffer, return
the same count, the same samples at the indices below the count, and leave the random source
in the same state. -/
theorem generateWave_scratch_independent {F D R : Type} (fo : FloatOps F D)
    (rnd : RandomSource R) (s1 s2 : SfxSynth F) (sp : SfxParams F) (r : R)
    (hf : s1.sampleFormat = s2.sampleFormat) (hr : s1.sampleRate = s2.sampleRate)
    (hd : s1.maxDuration = s2.maxDuration)
    (hfmt : s1.sampleFormat = SFX_U8 ∨ s1.sampleFormat = SFX_I16 ∨ s1.sampleFormat = SFX_F32) :
    (sfx_generateWave fo rnd s1 sp r).1 = (sfx_generateWave fo rnd s2 sp r).1 ∧
    (∀ i, 0 ≤ i → i < (sfx_generateWave fo rnd s1 sp r).1 →
      (sfx_generateWave fo rnd s1 sp r).2.1.samples i
        = (sfx_generateWave fo rnd s2 sp r).2.1.samples i) ∧
    (sfx_generateWave fo rnd s1 sp r).2.2 = (sfx_generateWave fo rnd s2 sp r).2.2 := by
  have key := genLoop_live fo rnd sp s1.sampleFormat hfmt 0 (s1.sampleRate * s1.maxDuration)
    (initState fo rnd s1 sp r) s1.samples (initState fo rnd s2 sp r) s2.samples
    (initState_live fo rnd s1 s2 sp r) (le_of_eq (initState_phase fo rnd s1 sp r).symm)
    (fun i i0 i1 => absurd i1 (by omega))
  unfold sfx_generateWave
  dsimp only
  rw [← hf, ← hr, ← hd]
  exact ⟨key.1, key.2.1, key.2.2.2.1⟩

/-- Witness for C3: the baseline parameters in exact arithmetic on two contexts for 3 float
samples, one all zero and one with other values in every cell. -/
theorem generateWave_scratch_independent_witness :
    (sfx_generateWave exactArith (constRandom 0) tinySynth baseline 0).1
      = (sfx_generateWave exactArith (constRandom 0) dirtySynth baseline 0).1 :=
  (generateWave_scratch_independent exactArith (constRandom 0) tinySynth dirtySynth
    baseline 0 rfl rfl rfl (Or.inr (Or.inr rfl))).1

/-! ## Mutation: the clamp -/

theorem mutateSpecStep_clamped {R : Type} (rnd : RandomSource R) (sp : SfxParams ℚ) (range : ℚ)
    (sel : Nat) (st : SfxParams ℚ × R) (b : Nat) (hb : b < 22)
    (h : ∀ i x y, st.1.floats[i]? = some x → sp.floats[i]? = some y → x ≠ y →
      lowBound i ≤ x ∧ x ≤ 1) :
    ∀ i x y, (mutateSpecStep rnd range sel st b).1.floats[i]? = some x → sp.floats[i]? = some y →
      x ≠ y → lowBound i ≤ x ∧ x ≤ 1 := by
  unfold mutateSpecStep
  split
  · intro i x y hx hy hne
    dsimp only at hx
    rw [modifyFloat_floats _ b hb] at hx
    by_cases e : b = i
    · subst e
      rw [List.getElem?_modify_eq] at hx
      cases h0 : st.1.floats[b]? with
      | none => rw [h0] at hx; cases hx
      | some x0 =>
        rw [h0] at hx
        simp only [Option.map_eq_map, Option.map_some', Option.some.injEq] at hx
        subst hx
        exact ⟨le_max_left _ _, max_le (lowBound_le_one b) (min_le_left _ _)⟩
    · rw [List.getElem?_modify_ne _ _ e] at hx
      exact h i x y hx hy hne
  · exact h

theorem foldl_inv_mem {α β : Type} (P : α → Prop) (f : α → β → α) (l : List β)
    (h : ∀ a, ∀ x ∈ l, P a → P (f a x)) (a : α) (ha : P a) : P (l.foldl f a) := by
  induction l generalizing a with
  | nil => exact ha
  | cons x l ih =>
    rw [List.foldl_cons]
    exact ih (fun a' y hy => h a' y (List.mem_cons_of_mem _ hy)) _ (h a x (List.mem_cons_self _ _) ha)

theorem sfx_mutate_exact_fold (pw : ℚ → ℚ → ℚ) (sn : ℚ → ℚ) {R : Type} (rnd : RandomSource R)
    (sp : SfxParams ℚ) (range : ℚ) (mask : Nat) (r : R) :
    sfx_mutate (exactOps pw sn) rnd sp range mask r
      = (List.range 22).foldl
          (mutateSpecStep rnd range (ofInt32 (1 + (rnd 0xFFFFFF r).1) &&& mask))
          (sp, (rnd 0xFFFFFF r).2) := by
  unfold sfx_mutate
  exact foldl_congr_mem _ _ _ (fun a b hb => exact_mutateStep pw sn rnd range mask _ a b
    (range_lt_22 b hb)) _

/-- C11 (mutate clamp and signed table).  In exact arithmetic, for every random source, range
and mask: a float member that `sfx_mutate` leaves with another value than it had lies between
`lowBound i` and 1.  The lower bound is -1 exactly at the member indices whose bit is set in
`SFX_NEGATIVE_ONE_MASK = 0x0025A4C0`, which are 6, 7, 10, 13, 15, 16, 18, 21: slide,
deltaSlide, changeAmount, dutySweep, phaserOffset, phaserSweep, lpfCutoffSweep,
hpfCutoffSweep; at the other 14 it is 0.  With the mask of `lpfCutoff` alone (bit 17), range 2
and `lpfCutoff = 1` the new `lpfCutoff` lies between 0 and 1, whatever is drawn. -/
theorem sfx_mutate_clamped (pw : ℚ → ℚ → ℚ) (sn : ℚ → ℚ) {R : Type} (rnd : RandomSource R)
    (sp : SfxParams ℚ) (range : ℚ) (mask : Nat) (r : R) :
    (∀ i x y, (sfx_mutate (exactOps pw sn) rnd sp range mask r).1.floats[i]? = some x →
      sp.floats[i]? = some y → x ≠ y → lowBound i ≤ x ∧ x ≤ 1) ∧
    (∀ i, i < 22 → (lowBound i = -1 ∨ lowBound i = 0) ∧
      (lowBound i = -1 ↔ SFX_NEGATIVE_ONE_MASK.testBit i = true) ∧
      (lowBound i = -1 ↔ i ∈ [6, 7, 10, 13, 15, 16, 18, 21])) ∧
    SFX_NEGATIVE_ONE_MASK = 0x0025A4C0 ∧
    [6, 7, 10, 13, 15, 16, 18, 21].map (fun i => sp.floats[i]?) =
      [some sp.slide, some sp.deltaSlide, some sp.changeAmount, some sp.dutySweep,
       some sp.phaserOffset, some sp.phaserSweep, some sp.lpfCutoffSweep,
       some sp.hpfCutoffSweep] ∧
    (sp.lpfCutoff = 1 →
      0 ≤ (sfx_mutate (exactOps pw sn) rnd sp 2 (2 ^ 17) r).1.lpfCutoff ∧
      (sfx_mutate (exactOps pw sn) rnd sp 2 (2 ^ 17) r).1.lpfCutoff ≤ 1) := by
  have main : ∀ (range : ℚ) (mask : Nat) i x y,
      (sfx_mutate (exactOps pw sn) rnd sp range mask r).1.floats[i]? = some x →
      sp.floats[i]? = some y → x ≠ y → lowBound i ≤ x ∧ x ≤ 1 := by
    intro range mask
    rw [sfx_mutate_exact_fold]
    refine foldl_inv_mem (fun (st : SfxParams ℚ × R) => ∀ i x y, st.1.floats[i]? = some x →
      sp.floats[i]? = some y → x ≠ y → lowBound i ≤ x ∧ x ≤ 1) _ _ ?_ _ ?_
    · intro st b hb hst
      exact mutateSpecStep_clamped rnd sp range _ st b (range_lt_22 b hb) hst
    · intro i x y hx hy hne
      rw [hx] at hy
      exact absurd (Option.some.inj hy) hne
  refine ⟨main range mask, ?_, rfl, rfl, ?_⟩
  · intro i hi
    have hs := signedFields_iff i hi
    have hl : lowBound i = -1 ↔ i ∈ signedFields := by
      unfold lowBound
      split <;> simp [*]
    refine ⟨?_, hl.trans hs.symm, hl⟩
    unfold lowBound
    split <;> simp
  · intro h1
    by_cases hc : (sfx_mutate (exactOps pw sn) rnd sp 2 (2 ^ 17) r).1.lpfCutoff = 1
    · rw [hc]; norm_num
    · have := main 2 (2 ^ 17) 17 _ 1 rfl (by rw [← h1]; rfl) hc
      simpa [lowBound, signedFields] using this

/-- Witness for C11: the baseline (`lpfCutoff = 1`), range 2, the mask of `lpfCutoff` alone and
a random source whose word selects bit 17. -/
theorem sfx_mutate_clamped_witness :
    0 ≤ (sfx_mutate exactArith (constRandom 131071) baseline 2 (2 ^ 17) 0).1.lpfCutoff ∧
      (sfx_mutate exactArith (constRandom 131071) baseline 2 (2 ^ 17) 0).1.lpfCutoff ≤ 1 :=
  (sfx_mutate_clamped powNat sinPoly (constRandom 131071) baseline 2 (2 ^ 17) 0).2.2.2.2 rfl

/-- The function `sfx_resetParams` does not read the structure it overwrites. -/
theorem sfx_resetParams_eq {F D : Type} (fo : FloatOps F D) (sp sp' : SfxParams F) :
    sfx_resetParams fo sp = sfx_resetParams fo sp' := rfl

/-- C12: `sfx_resetParams` overwrites all 24 members with the baseline (randSeed 0, square wave,
attackTime 0, sustainTime 0.3, sustainPunch 0, decayTime 0.4, startFrequency 0.3, lpfCutoff 1,
every other float 0); each of the eight archetype generators and `sfx_genRandomize` returns,
for the same random source and state (and waveType argument), the same parameters and the same
generator state whatever the structure held before the call, and the randSeed it returns
is 0. -/
theorem generators_start_from_baseline {F D R : Type} (fo : FloatOps F D) (rnd : RandomSource R)
    (sp sp' : SfxParams F) (waveType : Int) (r : R) :
    sfx_resetParams fo sp =
      ⟨0, SFX_SQUARE, fo.lit 0, fo.lit 0.3, fo.lit 0, fo.lit 0.4, fo.lit 0.3, fo.lit 0, fo.lit 0,
        fo.lit 0, fo.lit 0, fo.lit 0, fo.lit 0, fo.lit 0, fo.lit 0, fo.lit 0, fo.lit 0, fo.lit 0,
        fo.lit 0, fo.lit 1, fo.lit 0, fo.lit 0, fo.lit 0, fo.lit 0⟩ ∧
    (sfx_genPickupCoin fo rnd sp r = sfx_genPickupCoin fo rnd sp' r ∧
      sfx_genLaserShoot fo rnd sp r = sfx_genLaserShoot fo rnd sp' r ∧
      sfx_genExplosion fo rnd sp r = sfx_genExplosion fo rnd sp' r ∧
      sfx_genPowerup fo rnd sp r = sfx_genPowerup fo rnd sp' r ∧
      sfx_genHitHurt fo rnd sp r = sfx_genHitHurt fo rnd sp' r ∧
      sfx_genJump fo rnd sp r = sfx_genJump fo rnd sp' r ∧
      sfx_genBlipSelect fo rnd sp r = sfx_genBlipSelect fo rnd sp' r ∧
      sfx_genSynth fo rnd sp r = sfx_genSynth fo rnd sp' r ∧
      sfx_genRandomize fo rnd sp waveType r = sfx_genRandomize fo rnd sp' waveType r) ∧
    ((sfx_genPickupCoin fo rnd sp r).1.randSeed = 0 ∧
      (sfx_genLaserShoot fo rnd sp r).1.randSeed = 0 ∧
      (sfx_genExplosion fo rnd sp r).1.randSeed = 0 ∧
      (sfx_genPowerup fo rnd sp r).1.randSeed = 0 ∧
      (sfx_genHitHurt fo rnd sp r).1.randSeed = 0 ∧
      (sfx_genJump fo rnd sp r).1.randSeed = 0 ∧
      (sfx_genBlipSelect fo rnd sp r).1.randSeed = 0 ∧
      (sfx_genSynth fo rnd sp r).1.randSeed = 0 ∧
      (sfx_genRandomize fo rnd sp waveType r).1.randSeed = 0) := by
  refine ⟨rfl, ⟨?_, ?_, ?_, ?_, ?_, ?_, ?_, ?_, ?_⟩, ⟨?_, ?_, ?_, ?_, ?_, ?_, ?_, ?_, ?_⟩⟩
  · unfold sfx_genPickupCoin; rw [sfx_resetParams_eq fo sp sp']
  · unfold sfx_genLaserShoot; rw [sfx_resetParams_eq fo sp sp']
  · unfold sfx_genExplosion; rw [sfx_resetParams_eq fo sp sp']
  · unfold sfx_genPowerup; rw [sfx_resetParams_eq fo sp sp']
  · unfold sfx_genHitHurt; rw [sfx_resetParams_eq fo sp sp']
  · unfold sfx_genJump; rw [sfx_resetParams_eq fo sp sp']
  · unfold sfx_genBlipSelect; rw [sfx_resetParams_eq fo sp sp']
  · unfold sfx_genSynth; rw [sfx_resetParams_eq fo sp sp']
  · unfold sfx_genRandomize; rw [sfx_resetParams_eq fo sp sp']
  all_goals rfl

/-- In exact arithmetic `frnd(range)` lies between 0 and `range` when the random source keeps
its contract and `range` is not negative. -/
theorem frnd_bounds (pw : ℚ → ℚ → ℚ) (sn : ℚ → ℚ) {R : Type} (rnd : RandomSource R)
    (h : rnd.InRange) (range : ℚ) (hr : 0 ≤ range) (r : R) :
    0 ≤ (frnd (exactOps pw sn) rnd range r).1 ∧ (frnd (exactOps pw sn) rnd range r).1 ≤ range := by
  obtain ⟨h0, h1⟩ := h 10001 r (by norm_num)
  have a0 : (0 : ℚ) ≤ ((rnd 10001 r).1 : ℚ) := by exact_mod_cast h0
  have a1 : ((rnd 10001 r).1 : ℚ) ≤ 10000 := by
    have : (rnd 10001 r).1 ≤ 10000 := by omega
    exact_mod_cast this
  simp only [frnd, exactOps]
  constructor
  · positivity
  · have : ((rnd 10001 r).1 : ℚ) / 10000 ≤ 1 := by
      rw [div_le_one (by norm_num)]; exact a1
    calc ((rnd 10001 r).1 : ℚ) / 10000 * range ≤ 1 * range :=
          mul_le_mul_of_nonneg_right this hr
      _ = range := one_mul _

/-- In exact arithmetic `rndNP1()` lies between -1 and 1 when the random source keeps its
contract. -/
theorem rndNP1_bounds (pw : ℚ → ℚ → ℚ) (sn : ℚ → ℚ) {R : Type} (rnd : RandomSource R)
    (h : rnd.InRange) (r : R) :
    -1 ≤ (rndNP1 (exactOps pw sn) rnd r).1 ∧ (rndNP1 (exactOps pw sn) rnd r).1 ≤ 1 := by
  obtain ⟨h0, h1⟩ := h 20001 r (by norm_num)
  have a0 : (0 : ℚ) ≤ ((rnd 20001 r).1 : ℚ) := by exact_mod_cast h0
  have a1 : ((rnd 20001 r).1 : ℚ) ≤ 20000 := by
    have : (rnd 20001 r).1 ≤ 20000 := by omega
    exact_mod_cast this
  simp only [rndNP1, exactOps]
  constructor
  · have : (0 : ℚ) ≤ ((rnd 20001 r).1 : ℚ) / 10000 := by positivity
    linarith
  · have : ((rnd 20001 r).1 : ℚ) / 10000 ≤ 2 := by
      rw [div_le_iff₀ (by norm_num)]; linarith
    linarith

theorem powNat_two (x : ℚ) : powNat x 2 = x ^ 2 := by
  simp [powNat]

theorem powNat_three (x : ℚ) : powNat x 3 = x ^ 3 := by
  simp [powNat]

theorem powNat_five (x : ℚ) : powNat x 5 = x ^ 5 := by
  simp [powNat]

/-- C14: in exact arithmetic, for every random source and waveType, the parameters
`sfx_genRandomize` produces satisfy: startFrequency > 0.7 implies slide <= 0.2,
startFrequency < 0.2 implies slide >= -0.05, and lpfCutoff < 0.1 implies
lpfCutoffSweep >= -0.05. -/
theorem sfx_genRandomize_slide_sign (pw : ℚ → ℚ → ℚ) (sn : ℚ → ℚ) {R : Type}
    (rnd : RandomSource R) (sp : SfxParams ℚ) (waveType : Int) (r : R) :
    (0.7 < (sfx_genRandomize (exactOps pw sn) rnd sp waveType r).1.startFrequency →
      (sfx_genRandomize (exactOps pw sn) rnd sp waveType r).1.slide ≤ 0.2) ∧
    ((sfx_genRandomize (exactOps pw sn) rnd sp waveType r).1.startFrequency < 0.2 →
      -0.05 ≤ (sfx_genRandomize (exactOps pw sn) rnd sp waveType r).1.slide) ∧
    ((sfx_genRandomize (exactOps pw sn) rnd sp waveType r).1.lpfCutoff < 0.1 →
      -0.05 ≤ (sfx_genRandomize (exactOps pw sn) rnd sp waveType r).1.lpfCutoffSweep) := by
  unfold sfx_genRandomize
  lift_lets
  intro sp0 sp1 d1 c1 st d2 slide0 slide1 slide2 d3 d4 d5 d6 d7 d8 d9 d10 d11 attack sustain decay
    pad p1 p2 d12 d13 d14 lpf sweep d15 d16 d17 d18 d19 d20 d21
  dsimp only
  refine ⟨?_, ?_, ?_⟩
  · intro hst
    have h1 : slide1 ≤ 0.2 := by
      simp only [slide1, exactOps, Bool.and_eq_true, decide_eq_true_eq]
      split_ifs with c
      · linarith [c.2]
      · by_contra hc
        exact c ⟨hst, not_le.mp hc⟩
    have h2 : slide2 = slide1 := by
      simp only [slide2, exactOps, Bool.and_eq_true, decide_eq_true_eq]
      rw [if_neg]
      intro c
      linarith [c.1]
    rw [h2]; exact h1
  · intro hst
    have h1 : slide1 = slide0 := by
      simp only [slide1, exactOps, Bool.and_eq_true, decide_eq_true_eq]
      rw [if_neg]
      intro c
      linarith [c.1]
    simp only [slide2, exactOps, Bool.and_eq_true, decide_eq_true_eq]
    split_ifs with c
    · linarith [c.2]
    · by_contra hc
      exact c ⟨hst, not_le.mp hc⟩
  · intro hl
    simp only [exactOps, Bool.and_eq_true, decide_eq_true_eq]
    split_ifs with c
    · linarith [c.2]
    · by_contra hc
      exact c ⟨hl, not_le.mp hc⟩

theorem sfx_genRandomize_slide_sign_witness :
    0.7 < (sfx_genRandomize exactArith (constRandom 0) baseline SFX_SQUARE 0).1.startFrequency ∧
    (sfx_genRandomize exactArith (constRandom 0) baseline SFX_SQUARE 0).1.slide ≤ 0.2 :=
  ⟨by simp only [sfx_genRandomize, rndNP1, frnd, constRandom, exactArith, exactOps, powNat_two,
    powNat_three, powNat_five]
      norm_num,
    (sfx_genRandomize_slide_sign powNat sinPoly (constRandom 0) baseline SFX_SQUARE 0).1
      (by simp only [sfx_genRandomize, rndNP1, frnd, constRandom, exactArith, exactOps, powNat_two,
    powNat_three, powNat_five]
          norm_num)⟩

/-! ## Wave synthesis: which locals each part of the loop body assigns -/

theorem stepControl_frame {F D : Type} (fo : FloatOps F D) (sp : SfxParams F) (g : Regs F D) :
    ∃ (rt : Int) (fp : D) (p : Int) (fm fs fds : D) (sd ss : F) (am : D) (at' al : Int) (vp : F),
      (stepControl fo sp g).1 =
        { g with
          repeatTime := rt, fperiod := fp, period := p, fmaxperiod := fm, fslide := fs,
          fdslide := fds, squareDuty := sd, squareSlide := ss, arpeggioModulation := am,
          arpeggioTime := at', arpeggioLimit := al, vibratoPhase := vp } := by
  unfold stepControl
  lift_lets
  intro g2 g3 g4 fslide fperiod0 over fperiod vib vibratoPhase rfperiod duty
  have h2 : ∃ (rt : Int) (fp : D) (p : Int) (fm fs fds : D) (sd ss : F) (am : D) (at' al : Int),
      g2 = { g with
          repeatTime := rt, fperiod := fp, period := p, fmaxperiod := fm, fslide := fs,
          fdslide := fds, squareDuty := sd, squareSlide := ss, arpeggioModulation := am,
          arpeggioTime := at', arpeggioLimit := al } := by
    simp only [g2, stepRepeat]
    split
    · exact ⟨_, _, _, _, _, _, _, _, _, _, _, rfl⟩
    · exact ⟨_, _, _, _, _, _, _, _, _, _, _, rfl⟩
  obtain ⟨rt, fp, p, fm, fs, fds, sd, ss, am, at', al, h2⟩ := h2
  have h4 : ∃ (fp : D) (at' al : Int),
      g4 = { g with
          repeatTime := rt, fperiod := fp, period := p, fmaxperiod := fm, fslide := fs,
          fdslide := fds, squareDuty := sd, squareSlide := ss, arpeggioModulation := am,
          arpeggioTime := at', arpeggioLimit := al } := by
    simp only [g4, g3]
    rw [h2]
    split
    · exact ⟨_, _, _, rfl⟩
    · exact ⟨_, _, _, rfl⟩
  obtain ⟨fp', at'', al', h4⟩ := h4
  clear_value g4
  subst h4
  exact ⟨_, _, _, _, _, _, _, _, _, _, _, _, rfl⟩

theorem stepEnvelope_frame {F D : Type} (fo : FloatOps F D) (sp : SfxParams F) (g g' : Regs F D)
    (h : stepEnvelope fo sp g = some g') :
    g' = { g with envTime := g'.envTime, envStage := g'.envStage, envVolume := g'.envVolume } := by
  unfold stepEnvelope at h
  dsimp only at h
  split_ifs at h
  · cases hn : nextStage { g with envTime := g.envTime + 1 } 3 g.envStage with
    | none => rw [hn] at h; simp at h
    | some s =>
      rw [hn] at h
      simp only [Option.map_some', Option.some.injEq] at h
      subst h
      rfl
  · simp only [Option.map_some', Option.some.injEq] at h
    subst h
    rfl

theorem stepPhaser_frame {F D : Type} (fo : FloatOps F D) (g : Regs F D) :
    stepPhaser fo g =
      { g with
        fphase := (stepPhaser fo g).fphase
        iphase := (stepPhaser fo g).iphase
        flthp := (stepPhaser fo g).flthp } := rfl

theorem advancePhase_frame {F D R : Type} (fo : FloatOps F D) (rnd : RandomSource R)
    (sp : SfxParams F) (st : GenState F D R) :
    (advancePhase fo rnd sp st).regs =
      { st.regs with
        phase := (advancePhase fo rnd sp st).regs.phase
        pinkI := (advancePhase fo rnd sp st).regs.pinkI } := by
  unfold advancePhase
  split
  · rw [resetNoise_regs]
  · rfl

theorem subSample_frame {F D R : Type} (fo : FloatOps F D) (rnd : RandomSource R)
    (sp : SfxParams F) (x : F × GenState F D R) :
    ∃ (ph pk : Int) (w dp p php : F) (ip : Int),
      (subSample fo rnd sp x).2.regs =
        { x.2.regs with
          phase := ph, pinkI := pk, fltw := w, fltdp := dp, fltp := p, fltphp := php,
          ipp := ip } := by
  unfold subSample stepFilter
  dsimp only
  rw [advancePhase_frame]
  exact ⟨_, _, _, _, _, _, _, rfl⟩

theorem superSample_frame {F D R : Type} (fo : FloatOps F D) (rnd : RandomSource R)
    (sp : SfxParams F) (st : GenState F D R) :
    ∃ (ph pk : Int) (w dp p php : F) (ip : Int),
      (superSample fo rnd sp st).2.regs =
        { st.regs with
          phase := ph, pinkI := pk, fltw := w, fltdp := dp, fltp := p, fltphp := php,
          ipp := ip } := by
  unfold superSample
  refine foldl_inv (fun (x : F × GenState F D R) =>
    ∃ (ph pk : Int) (w dp p php : F) (ip : Int),
      x.2.regs = { st.regs with
        phase := ph, pinkI := pk, fltw := w, fltdp := dp, fltp := p, fltphp := php,
        ipp := ip }) _ _ ?_ _ ⟨_, _, _, _, _, _, _, rfl⟩
  intro x k hx
  obtain ⟨ph, pk, w, dp, p, php, ip, hx⟩ := hx
  obtain ⟨ph', pk', w', dp', p', php', ip', h⟩ := subSample_frame fo rnd sp x
  dsimp only
  rw [h, hx]
  exact ⟨_, _, _, _, _, _, _, rfl⟩

/-! ## Wave synthesis: the envelope ends the loop -/

theorem stepEnvelope_some {F D : Type} (fo : FloatOps F D) (sp : SfxParams F) (g g' : Regs F D)
    (h : stepEnvelope fo sp g = some g') (h1 : 0 ≤ g.envLength1) (h2 : 0 ≤ g.envLength2)
    (hs : g.envStage = 0 ∨ g.envStage = 1 ∨ g.envStage = 2) (h0 : 0 ≤ g.envTime)
    (ht : g.envTime ≤ g.envLength g.envStage) :
    g'.envLength0 = g.envLength0 ∧ g'.envLength1 = g.envLength1 ∧
    g'.envLength2 = g.envLength2 ∧
    (g'.envStage = 0 ∨ g'.envStage = 1 ∨ g'.envStage = 2) ∧ 0 ≤ g'.envTime ∧
    g'.envTime ≤ g'.envLength g'.envStage ∧
    envRemaining g.envLength0 g.envLength1 g.envLength2 g.envStage g.envTime =
      1 + envRemaining g.envLength0 g.envLength1 g.envLength2 g'.envStage g'.envTime := by
  unfold stepEnvelope at h
  dsimp only at h
  split_ifs at h with c
  · cases hn : nextStage { g with envTime := g.envTime + 1 } 3 g.envStage with
    | none => rw [hn] at h; simp at h
    | some s =>
      rw [hn] at h
      simp only [Option.map_some', Option.some.injEq] at h
      subst h
      dsimp only
      rcases hs with hs | hs | hs <;>
        simp [hs, nextStage, Regs.envLength] at hn c ht
      · by_cases a1 : g.envLength1 = 0
        · by_cases a2 : g.envLength2 = 0
          · rw [if_pos a1, if_pos a2] at hn; exact absurd hn (by simp)
          · rw [if_pos a1, if_neg a2] at hn
            simp only [Option.some.injEq] at hn
            subst hn
            refine ⟨rfl, rfl, rfl, Or.inr (Or.inr rfl), le_refl _, h2, ?_⟩
            simp only [envRemaining, hs, a1, if_true, lt_self_iff_false,
              if_false, OfNat.ofNat_ne_zero, OfNat.ofNat_ne_one]
            split_ifs <;> omega
        · rw [if_neg a1] at hn
          simp only [Option.some.injEq] at hn
          subst hn
          refine ⟨rfl, rfl, rfl, Or.inr (Or.inl rfl), le_refl _, h1, ?_⟩
          simp only [envRemaining, hs, if_true, one_ne_zero, if_false]
          split_ifs <;> omega
      · obtain ⟨a2, hn⟩ := hn
        subst hn
        refine ⟨rfl, rfl, rfl, Or.inr (Or.inr rfl), le_refl _, h2, ?_⟩
        simp only [envRemaining, hs, if_true, one_ne_zero, if_false,
          OfNat.ofNat_ne_zero, OfNat.ofNat_ne_one]
        split_ifs <;> omega
  · simp only [Option.map_some', Option.some.injEq] at h
    subst h
    dsimp only
    have c' : ¬ g.envTime + 1 > g.envLength g.envStage := c
    refine ⟨rfl, rfl, rfl, hs, by omega, ?_, ?_⟩
    · change g.envTime + 1 ≤ g.envLength g.envStage
      omega
    · rcases hs with hs | hs | hs <;> simp only [envRemaining, hs] <;> split_ifs <;> omega

theorem stepEnvelope_none {F D : Type} (fo : FloatOps F D) (sp : SfxParams F) (g : Regs F D)
    (h : stepEnvelope fo sp g = none)
    (hs : g.envStage = 0 ∨ g.envStage = 1 ∨ g.envStage = 2)
    (ht : g.envTime ≤ g.envLength g.envStage) :
    envRemaining g.envLength0 g.envLength1 g.envLength2 g.envStage g.envTime = 0 := by
  unfold stepEnvelope at h
  dsimp only at h
  split_ifs at h with c
  · rcases hs with hs | hs | hs <;>
      simp [hs, nextStage, Regs.envLength] at h c ht
    · have a1 : g.envLength1 = 0 := by
        by_contra a; rw [if_neg a] at h; exact absurd h (by simp)
      have a2 : g.envLength2 = 0 := by
        by_contra a; rw [if_pos a1, if_neg a] at h; exact absurd h (by simp)
      simp only [envRemaining, hs, a1, a2, if_true, lt_self_iff_false, if_false]
      omega
    · simp only [envRemaining, hs, h, if_true, lt_self_iff_false, if_false, one_ne_zero]
      omega
    · simp only [envRemaining, hs, if_true, lt_self_iff_false, if_false, OfNat.ofNat_ne_zero,
        OfNat.ofNat_ne_one]
      omega
  · simp at h

theorem stepControl_no_stop {F D : Type} (fo : FloatOps F D) (sp : SfxParams F) (g : Regs F D)
    (hstop : fo.lt (fo.lit 0) (minFreq fo sp) = false) : (stepControl fo sp g).2 = false := by
  unfold stepControl
  dsimp only
  rw [hstop, Bool.and_false]

theorem genLoop_count {F D R : Type} (fo : FloatOps F D) (rnd : RandomSource R)
    (sp : SfxParams F) (fmt : Int) (hstop : fo.lt (fo.lit 0) (minFreq fo sp) = false)
    (c e : Int) (st : GenState F D R) (samples : Int → Sample F) :
    c ≤ e → 0 ≤ st.regs.envLength1 → 0 ≤ st.regs.envLength2 →
      (st.regs.envStage = 0 ∨ st.regs.envStage = 1 ∨ st.regs.envStage = 2) →
      0 ≤ st.regs.envTime → st.regs.envTime ≤ st.regs.envLength st.regs.envStage →
      (genLoop fo rnd sp fmt c e st samples).1 =
        min e (c + envRemaining st.regs.envLength0 st.regs.envLength1 st.regs.envLength2
          st.regs.envStage st.regs.envTime) := by
  induction c, e, st, samples using genLoop.induct fo rnd sp fmt with
  | case1 c e st samples hlt hbrk =>
    intro hce h1 h2 hs h0 ht
    rw [genLoop, if_pos hlt, hbrk]
    obtain ⟨rt, fp, p, fm, fs, fds, sd, ss, am, at', al, vp, hf⟩ := stepControl_frame fo sp st.regs
    rw [hf] at hbrk
    have := stepEnvelope_none fo sp _ hbrk hs ht
    dsimp only at this ⊢
    rw [this]
    omega
  | case2 c e st samples hlt g hg ih =>
    intro hce h1 h2 hs h0 ht
    rw [genLoop, if_pos hlt, hg]
    simp only [dite_eq_ite] at ih ⊢
    obtain ⟨rt, fp, p, fm, fs, fds, sd, ss, am, at', al, vp, hf⟩ := stepControl_frame fo sp st.regs
    have hflag := stepControl_no_stop fo sp st.regs hstop
    rw [hf] at hg
    obtain ⟨e0, e1, e2, es, et0, et, er⟩ := stepEnvelope_some fo sp _ g hg h1 h2 hs h0 ht
    dsimp only at e0 e1 e2 er
    obtain ⟨ph, pk, w, dp, p', php, ip, hsf⟩ :=
      superSample_frame fo rnd sp { st with regs := stepPhaser fo g }
    have q0 : (superSample fo rnd sp { st with regs := stepPhaser fo g }).2.regs.envLength0
        = g.envLength0 := by rw [hsf]; rfl
    have q1 : (superSample fo rnd sp { st with regs := stepPhaser fo g }).2.regs.envLength1
        = g.envLength1 := by rw [hsf]; rfl
    have q2 : (superSample fo rnd sp { st with regs := stepPhaser fo g }).2.regs.envLength2
        = g.envLength2 := by rw [hsf]; rfl
    have q3 : (superSample fo rnd sp { st with regs := stepPhaser fo g }).2.regs.envStage
        = g.envStage := by rw [hsf]; rfl
    have q4 : (superSample fo rnd sp { st with regs := stepPhaser fo g }).2.regs.envTime
        = g.envTime := by rw [hsf]; rfl
    have q5 : (superSample fo rnd sp { st with regs := stepPhaser fo g }).2.regs.envLength
          (superSample fo rnd sp { st with regs := stepPhaser fo g }).2.regs.envStage
        = g.envLength g.envStage := by rw [hsf]; rfl
    rw [hflag] at ih ⊢
    simp only [Bool.false_eq_true, if_false] at ih ⊢
    rw [ih (by omega) (by rw [q1, e1]; exact h1) (by rw [q2, e2]; exact h2) (by rw [q3]; exact es)
      (by rw [q4]; exact et0) (by rw [q5, q4]; exact et), q0, q1, q2, q3, q4, e0, e1, e2, er]
    congr 1
    omega
  | case3 c e st samples hge =>
    intro hce h1 h2 hs h0 ht
    rw [genLoop, if_neg hge]
    have : 0 ≤ envRemaining st.regs.envLength0 st.regs.envLength1 st.regs.envLength2
        st.regs.envStage st.regs.envTime := by
      rcases hs with hs | hs | hs <;> simp [envRemaining, Regs.envLength, hs] at ht ⊢ <;>
        (try split_ifs) <;> omega
    dsimp only
    omega

theorem initState_regs {F D R : Type} (fo : FloatOps F D) (rnd : RandomSource R)
    (synth : SfxSynth F) (sp : SfxParams F) (r : R) :
    ∃ pk : Int, (initState fo rnd synth sp r : GenState F D R).regs
      = { initRegs fo sp with pinkI := pk } := by
  unfold initState
  dsimp only
  rw [resetNoise_regs]
  dsimp only
  split
  · have := foldl_inv (fun (x : GenState F D R) =>
      x.regs = { initRegs fo sp with pinkI := 0 })
      (fun (s : GenState F D R) (i : Nat) =>
        { s with
          pinkWhiteValue := Function.update s.pinkWhiteValue (i : Int)
            (frnd fo rnd (fo.lit 1) s.rng).1
          rng := (frnd fo rnd (fo.lit 1) s.rng).2 }) (List.range 5) (fun x k hx => hx)
      { regs := { initRegs fo sp with pinkI := 0 }
        noiseBuffer := synth.noiseBuffer
        pinkWhiteValue := synth.pinkWhiteValue
        phaserBuffer := fun i => if 0 ≤ i ∧ i < 1024 then fo.lit 0 else synth.phaserBuffer i
        rng := r } rfl
    rw [this]
    exact ⟨_, rfl⟩
  · exact ⟨_, rfl⟩

theorem trunc_sq_nonneg (x : ℚ) : 0 ≤ trunc (x * x * 100000) := by
  have : (0 : ℚ) ≤ x * x * 100000 := mul_nonneg (mul_self_nonneg x) (by norm_num)
  unfold trunc
  rw [if_pos this]
  exact Int.floor_nonneg.mpr this

theorem baseline_minFreq (pw : ℚ → ℚ → ℚ) (sn : ℚ → ℚ) :
    minFreq (exactOps pw sn) baseline ≤ 0 := by
  simp [minFreq, baseline, sfx_resetParams, exactArith, exactOps]
  norm_num

theorem generateWave_count_eq (pw : ℚ → ℚ → ℚ) (sn : ℚ → ℚ) {R : Type}
    (rnd : RandomSource R) (sy : SfxSynth ℚ) (p : SfxParams ℚ) (r : R)
    (hn : 0 ≤ sy.sampleRate * sy.maxDuration) (hm : minFreq (exactOps pw sn) p ≤ 0) :
    (sfx_generateWave (exactOps pw sn) rnd sy p r).1
      = envelopeFrames p (sy.sampleRate * sy.maxDuration) := by
  have hstop : (exactOps pw sn).lt ((exactOps pw sn).lit 0) (minFreq (exactOps pw sn) p)
      = false := by
    simp only [exactOps, decide_eq_false_iff_not, not_lt]
    exact hm
  obtain ⟨pk, hr⟩ := initState_regs (exactOps pw sn) rnd sy p r
  unfold sfx_generateWave
  dsimp only
  rw [genLoop_count (exactOps pw sn) rnd p sy.sampleFormat hstop 0 _ _ _ hn
    (by rw [hr]; exact trunc_sq_nonneg _) (by rw [hr]; exact trunc_sq_nonneg _)
    (by rw [hr]; exact Or.inl rfl) (by rw [hr]; exact le_refl _)
    (by rw [hr]; exact trunc_sq_nonneg _), hr]
  simp only [envelopeFrames, envRemaining, initRegs, resetSample, exactOps, if_true, trunc,
    sq]
  congr 1
  omega

theorem baseline_lengths :
    trunc (baseline.attackTime ^ 2 * 100000) = 0 ∧
    trunc (baseline.sustainTime ^ 2 * 100000) = 9000 ∧
    trunc (baseline.decayTime ^ 2 * 100000) = 16000 := by
  refine ⟨?_, ?_, ?_⟩
  · simp [trunc, baseline, sfx_resetParams, exactArith, exactOps]
  · simp [trunc, baseline, sfx_resetParams, exactArith, exactOps]
    norm_num [Int.floor_eq_iff]
  · simp [trunc, baseline, sfx_resetParams, exactArith, exactOps]
    norm_num [Int.floor_eq_iff]

/-! ## Wave synthesis: the range of the samples -/

theorem trunc_mem (a b : Int) (y : ℚ) (ha : (a : ℚ) ≤ y) (hb : y ≤ (b : ℚ)) :
    a ≤ trunc y ∧ trunc y ≤ b := by
  unfold trunc
  split
  · refine ⟨Int.le_floor.mpr ha, ?_⟩
    have : ((⌊y⌋ : Int) : ℚ) ≤ (b : ℚ) := le_trans (Int.floor_le y) hb
    exact_mod_cast this
  · refine ⟨?_, Int.ceil_le.mpr hb⟩
    have : (a : ℚ) ≤ ((⌈y⌉ : Int) : ℚ) := le_trans ha (Int.le_ceil y)
    exact_mod_cast this

theorem genLoop_cells {F D R : Type} (fo : FloatOps F D) (rnd : RandomSource R)
    (sp : SfxParams F) (fmt : Int) (P : Sample F → Prop)
    (hP : ∀ (samples : Int → Sample F) (c : Int) (y : F),
      P (emitSample fo fmt samples c (finishSample fo y) c))
    (c e : Int) (st : GenState F D R) (samples : Int → Sample F) :
    (∀ i, 0 ≤ i → i < c → P (samples i)) →
    ∀ i, 0 ≤ i → i < (genLoop fo rnd sp fmt c e st samples).1 →
      P ((genLoop fo rnd sp fmt c e st samples).2.2 i) := by
  induction c, e, st, samples using genLoop.induct fo rnd sp fmt with
  | case1 c e st samples hlt hbrk =>
    intro h
    rw [genLoop, if_pos hlt, hbrk]
    exact h
  | case2 c e st samples hlt g hg ih =>
    intro h
    rw [genLoop, if_pos hlt, hg]
    simp only [dite_eq_ite] at ih ⊢
    refine ih ?_
    intro i h0 hi
    by_cases hc : i = c
    · subst hc
      exact hP _ _ _
    · rw [emitSample_of_ne _ fmt samples c _ i hc]
      exact h i h0 (by omega)
  | case3 c e st samples hge =>
    intro h
    rw [genLoop, if_neg hge]
    exact h

/-! ## Wave synthesis: the minimum frequency is clamped -/

theorem minFreq_clamped {F D : Type} (fo : FloatOps F D) (sp : SfxParams F) :
    minFreq fo { sp with minFrequency := minFreq fo sp } = minFreq fo sp := by
  unfold minFreq
  dsimp only
  split_ifs <;> rfl

theorem resetSample_clamped {F D : Type} (fo : FloatOps F D) (sp : SfxParams F) (g : Regs F D) :
    resetSample fo { sp with minFrequency := minFreq fo sp } g = resetSample fo sp g := by
  unfold resetSample
  rw [minFreq_clamped]
  rfl

theorem stepControl_clamped {F D : Type} (fo : FloatOps F D) (sp : SfxParams F) (g : Regs F D) :
    stepControl fo { sp with minFrequency := minFreq fo sp } g = stepControl fo sp g := by
  unfold stepControl stepRepeat
  simp only [resetSample_clamped, minFreq_clamped]

theorem stepEnvelope_clamped {F D : Type} (fo : FloatOps F D) (sp : SfxParams F) (g : Regs F D) :
    stepEnvelope fo { sp with minFrequency := minFreq fo sp } g = stepEnvelope fo sp g := rfl

theorem superSample_clamped {F D R : Type} (fo : FloatOps F D) (rnd : RandomSource R)
    (sp : SfxParams F) (st : GenState F D R) :
    superSample fo rnd { sp with minFrequency := minFreq fo sp } st = superSample fo rnd sp st :=
  rfl

theorem initState_clamped {F D R : Type} (fo : FloatOps F D) (rnd : RandomSource R)
    (synth : SfxSynth F) (sp : SfxParams F) (r : R) :
    (initState fo rnd synth { sp with minFrequency := minFreq fo sp } r : GenState F D R)
      = initState fo rnd synth sp r := by
  unfold initState initRegs
  rw [resetSample_clamped]
  rfl

theorem genLoop_clamped {F D R : Type} (fo : FloatOps F D) (rnd : RandomSource R)
    (sp : SfxParams F) (fmt : Int) (c e : Int) (st : GenState F D R)
    (samples : Int → Sample F) :
    genLoop fo rnd { sp with minFrequency := minFreq fo sp } fmt c e st samples
      = genLoop fo rnd sp fmt c e st samples := by
  induction c, e, st, samples using genLoop.induct fo rnd sp fmt with
  | case1 c e st samples hlt hbrk =>
    rw [genLoop, genLoop, if_pos hlt, if_pos hlt, stepControl_clamped, stepEnvelope_clamped, hbrk]
  | case2 c e st samples hlt g hg ih =>
    rw [genLoop, if_pos hlt, stepControl_clamped, stepEnvelope_clamped, hg]
    simp only [dite_eq_ite] at ih ⊢
    rw [superSample_clamped, ih]
    conv_rhs => rw [genLoop, if_pos hlt, hg]
  | case3 c e st samples hge =>
    rw [genLoop, genLoop, if_neg hge, if_neg hge]

/-- C18: for every interpretation of the arithmetic, parameter set, context and random source,
`sfx_generateWave` returns the same count, the same context (samples included) and the same
generator state for `p` as for `p` with `minFrequency` replaced by the clamped value the
function computes; in exact arithmetic that value is `min(minFrequency, startFrequency)`.
The function is total and takes `p` by value: no input is rejected and `p` is not changed. -/
theorem generateWave_minFrequency_clamped {F D R : Type} (fo : FloatOps F D)
    (rnd : RandomSource R) (synth : SfxSynth F) (sp : SfxParams F) (r : R)
    (pw : ℚ → ℚ → ℚ) (sn : ℚ → ℚ) (p : SfxParams ℚ) :
    sfx_generateWave fo rnd synth { sp with minFrequency := minFreq fo sp } r
      = sfx_generateWave fo rnd synth sp r ∧
    minFreq (exactOps pw sn) p = min p.minFrequency p.startFrequency := by
  refine ⟨?_, ?_⟩
  · unfold sfx_generateWave
    rw [initState_clamped, genLoop_clamped]
  · simp only [minFreq, exactOps, decide_eq_true_eq]
    split_ifs with h
    · exact (min_eq_right (le_of_lt h)).symm
    · exact (min_eq_left (not_lt.mp h)).symm

/-! ## Wave synthesis: the states a run goes through -/

theorem superSample_eq_subState {F D R : Type} (fo : FloatOps F D) (rnd : RandomSource R)
    (sp : SfxParams F) (st : GenState F D R) :
    superSample fo rnd sp st = subState fo rnd sp st 8 := rfl

theorem subState_succ {F D R : Type} (fo : FloatOps F D) (rnd : RandomSource R)
    (sp : SfxParams F) (st : GenState F D R) (k : Nat) :
    subState fo rnd sp st (k + 1) = subSample fo rnd sp (subState fo rnd sp st k) := by
  unfold subState
  rw [List.range_succ, List.foldl_append]
  rfl

theorem genLoop_head {F D R : Type} (fo : FloatOps F D) (rnd : RandomSource R)
    (sp : SfxParams F) (fmt : Int) (st0 : GenState F D R) (N : Int) (c e : Int)
    (st : GenState F D R) (samples : Int → Sample F) :
    LoopHead fo rnd sp st0 N c e st →
    ∃ e', LoopHead fo rnd sp st0 N (genLoop fo rnd sp fmt c e st samples).1 e'
      (genLoop fo rnd sp fmt c e st samples).2.1 := by
  induction c, e, st, samples using genLoop.induct fo rnd sp fmt with
  | case1 c e st samples hlt hbrk =>
    intro h
    rw [genLoop, if_pos hlt, hbrk]
    exact ⟨e, h⟩
  | case2 c e st samples hlt g hg ih =>
    intro h
    rw [genLoop, if_pos hlt, hg]
    simp only [dite_eq_ite] at ih ⊢
    exact ih (LoopHead.step c e st g h hlt hg)
  | case3 c e st samples hge =>
    intro h
    rw [genLoop, if_neg hge]
    exact ⟨e, h⟩

theorem LoopHead_inv {F D R : Type} (fo : FloatOps F D) (rnd : RandomSource R)
    (sp : SfxParams F) (st0 : GenState F D R) (N : Int) (P : Int → Regs F D → Prop)
    (h0 : P 0 st0.regs)
    (hstep : ∀ (c : Int) (st : GenState F D R) (g : Regs F D), P c st.regs →
      stepEnvelope fo sp (stepControl fo sp st.regs).1 = some g →
      P (c + 1) (superSample fo rnd sp { st with regs := stepPhaser fo g }).2.regs)
    (c e : Int) (st : GenState F D R) (h : LoopHead fo rnd sp st0 N c e st) : P c st.regs := by
  induction h with
  | start => exact h0
  | step c e st g _ _ hg ih => exact hstep c st g ih hg

theorem subState_frame {F D R : Type} (fo : FloatOps F D) (rnd : RandomSource R)
    (sp : SfxParams F) (st : GenState F D R) (k : Nat) :
    ∃ (ph pk : Int) (w dp p php : F) (ip : Int),
      (subState fo rnd sp st k).2.regs =
        { st.regs with
          phase := ph, pinkI := pk, fltw := w, fltdp := dp, fltp := p, fltphp := php,
          ipp := ip } := by
  induction k with
  | zero => exact ⟨_, _, _, _, _, _, _, rfl⟩
  | succ k ih =>
    obtain ⟨ph, pk, w, dp, p, php, ip, hx⟩ := ih
    obtain ⟨ph', pk', w', dp', p', php', ip', h⟩ :=
      subSample_frame fo rnd sp (subState fo rnd sp st k)
    rw [subState_succ, h, hx]
    exact ⟨_, _, _, _, _, _, _, rfl⟩

/-- The iteration of the loop that starts in a state with locals `g0` has locals `g` when its
supersampling loop is entered, and `flthp`, `flthpd` are those of `stepPhaser`. -/
theorem iteration_flthp {F D : Type} (fo : FloatOps F D) (sp : SfxParams F) (g0 g : Regs F D)
    (hg : stepEnvelope fo sp (stepControl fo sp g0).1 = some g) :
    g.flthp = g0.flthp ∧ g.flthpd = g0.flthpd ∧ g.fltp = g0.fltp ∧ g.fltphp = g0.fltphp ∧
    g.fltw = g0.fltw ∧ g.fltwd = g0.fltwd ∧ g.fltdmp = g0.fltdmp ∧ g.phase = g0.phase := by
  obtain ⟨rt, fp, p, fm, fs, fds, sd, ss, am, at', al, vp, hf⟩ := stepControl_frame fo sp g0
  rw [hf] at hg
  have := stepEnvelope_frame fo sp _ g hg
  rw [this]
  exact ⟨rfl, rfl, rfl, rfl, rfl, rfl, rfl, rfl⟩

theorem subSample_highpass {F D R : Type} (fo : FloatOps F D) (rnd : RandomSource R)
    (sp : SfxParams F) (x : F × GenState F D R) :
    (subSample fo rnd sp x).2.regs.fltphp =
      fo.sub
        (fo.add x.2.regs.fltphp (fo.sub (subSample fo rnd sp x).2.regs.fltp x.2.regs.fltp))
        (fo.mul
          (fo.add x.2.regs.fltphp (fo.sub (subSample fo rnd sp x).2.regs.fltp x.2.regs.fltp))
          x.2.regs.flthp) := by
  unfold subSample stepFilter
  dsimp only
  rw [advancePhase_frame]

theorem exactOps_toInt (pw : ℚ → ℚ → ℚ) (sn : ℚ → ℚ) (x : ℚ) :
    (exactOps pw sn).toInt x = trunc x := rfl

theorem first_iteration_some (pw : ℚ → ℚ → ℚ) (sn : ℚ → ℚ) {R : Type}
    (rnd : RandomSource R) (synth : SfxSynth ℚ) (sp : SfxParams ℚ) (r : R)
    (h : 0 < trunc (sp.sustainTime ^ 2 * 100000)) :
    ∃ g, stepEnvelope (exactOps pw sn) sp
      (stepControl (exactOps pw sn) sp (initState (exactOps pw sn) rnd synth sp r).regs).1
        = some g := by
  cases hc : stepEnvelope (exactOps pw sn) sp
      (stepControl (exactOps pw sn) sp (initState (exactOps pw sn) rnd synth sp r).regs).1 with
  | some g => exact ⟨g, rfl⟩
  | none =>
    exfalso
    obtain ⟨pk, hr⟩ := initState_regs (exactOps pw sn) rnd synth sp r
    obtain ⟨rt, fp, p, fm, fs, fds, sd, ss, am, at', al, vp, hf⟩ :=
      stepControl_frame (exactOps pw sn) sp (initState (exactOps pw sn) rnd synth sp r).regs
    rw [hf, hr] at hc
    have h0 := stepEnvelope_none (exactOps pw sn) sp _ hc (Or.inl rfl) (trunc_sq_nonneg _)
    have a0 := trunc_sq_nonneg sp.attackTime
    have a2 := trunc_sq_nonneg sp.decayTime
    simp only [envRemaining, initRegs, resetSample, exactOps_toInt] at h0
    simp only [exactOps, if_true, sq] at h0 h
    rw [if_pos h] at h0
    split_ifs at h0 <;> omega

/-! ## Wave synthesis: the high-pass filter with `hpfCutoff = 0` -/

theorem stepPhaser_flthp_exact (pw : ℚ → ℚ → ℚ) (sn : ℚ → ℚ) (g : Regs ℚ ℚ)
    (hd : g.flthpd = 1) (hp : g.flthp = 0 ∨ g.flthp = 1 / 100000) :
    (stepPhaser (exactOps pw sn) g).flthp = 1 / 100000 ∧
      (stepPhaser (exactOps pw sn) g).flthpd = 1 := by
  refine ⟨?_, hd⟩
  simp only [stepPhaser, exactOps, hd]
  rcases hp with hp | hp <;> rw [hp] <;> norm_num

theorem head_flthp (sn : ℚ → ℚ) {R : Type} (rnd : RandomSource R) (synth : SfxSynth ℚ)
    (sp : SfxParams ℚ) (r : R) (h1 : sp.hpfCutoff = 0) (h2 : sp.hpfCutoffSweep = 0) (N : Int)
    (c e : Int) (st : GenState ℚ ℚ R)
    (h : LoopHead (exactOps powNat sn) rnd sp (initState (exactOps powNat sn) rnd synth sp r) N
      c e st) :
    st.regs.flthpd = 1 ∧ (st.regs.flthp = 0 ∨ st.regs.flthp = 1 / 100000) := by
  refine LoopHead_inv (exactOps powNat sn) rnd sp _ N
    (fun _ g => g.flthpd = 1 ∧ (g.flthp = 0 ∨ g.flthp = 1 / 100000)) ?_ ?_ c e st h
  · obtain ⟨pk, hr⟩ := initState_regs (exactOps powNat sn) rnd synth sp r
    rw [hr]
    simp only [initRegs, resetSample, exactOps, h1, h2, powNat_two]
    norm_num
  · intro c st g hP hg
    obtain ⟨q1, q2, _⟩ := iteration_flthp (exactOps powNat sn) sp st.regs g hg
    obtain ⟨p1, p2⟩ := stepPhaser_flthp_exact powNat sn g (q2 ▸ hP.1) (q1 ▸ hP.2)
    obtain ⟨ph, pk, w, dp, p, php, ip, hsf⟩ := superSample_frame (exactOps powNat sn) rnd sp
      { st with regs := stepPhaser (exactOps powNat sn) g }
    rw [hsf]
    exact ⟨p2, Or.inr p1⟩

theorem subSample_fltp_square (pw : ℚ → ℚ → ℚ) (sn : ℚ → ℚ) {R : Type}
    (rnd : RandomSource R) (sp : SfxParams ℚ) (h3 : sp.lpfCutoff = 1)
    (h4 : sp.waveType = SFX_SQUARE) (x : ℚ × GenState ℚ ℚ R) :
    (subSample (exactOps pw sn) rnd sp x).2.regs.fltp = 1 / 2 ∨
      (subSample (exactOps pw sn) rnd sp x).2.regs.fltp = -(1 / 2) := by
  unfold subSample stepFilter waveform
  simp only [h3, h4, exactOps, if_true, decide_True, Bool.not_true, Bool.false_eq_true,
    if_false, add_zero]
  split_ifs
  · left; norm_num
  · right; norm_num

theorem first_subsample_leak (sn : ℚ → ℚ) {R : Type} (rnd : RandomSource R)
    (synth : SfxSynth ℚ) (sp : SfxParams ℚ) (r : R) (h1 : sp.hpfCutoff = 0)
    (h2 : sp.hpfCutoffSweep = 0) (h3 : sp.lpfCutoff = 1) (h4 : sp.waveType = SFX_SQUARE)
    (g : Regs ℚ ℚ)
    (hg : stepEnvelope (exactOps powNat sn) sp
      (stepControl (exactOps powNat sn) sp
        (initState (exactOps powNat sn) rnd synth sp r).regs).1 = some g) :
    (subSample (exactOps powNat sn) rnd sp
        ((exactOps powNat sn).lit 0,
          { initState (exactOps powNat sn) rnd synth sp r with
            regs := stepPhaser (exactOps powNat sn) g })).2.regs.fltphp ≠
      (subSample (exactOps powNat sn) rnd sp
        ((exactOps powNat sn).lit 0,
          { initState (exactOps powNat sn) rnd synth sp r with
            regs := stepPhaser (exactOps powNat sn) g })).2.regs.fltp := by
  obtain ⟨q1, q2, q3, q4, _⟩ := iteration_flthp (exactOps powNat sn) sp _ g hg
  obtain ⟨pk, hr⟩ := initState_regs (exactOps powNat sn) rnd synth sp r
  rw [hr] at q1 q2 q3 q4
  have i1 : g.flthp = 0 := by
    rw [q1]; simp only [initRegs, resetSample, exactOps, h1, powNat_two]; norm_num
  have i2 : g.flthpd = 1 := by
    rw [q2]; simp only [initRegs, resetSample, exactOps, h2]; norm_num
  have i3 : g.fltp = 0 := by rw [q3]; rfl
  have i4 : g.fltphp = 0 := by rw [q4]; rfl
  obtain ⟨p1, _⟩ := stepPhaser_flthp_exact powNat sn g i2 (Or.inl i1)
  have e1 : (stepPhaser (exactOps powNat sn) g).fltp = 0 := i3
  have e2 : (stepPhaser (exactOps powNat sn) g).fltphp = 0 := i4
  rw [subSample_highpass]
  dsimp only
  rw [e1, e2, p1]
  rcases subSample_fltp_square powNat sn rnd sp h3 h4
    ((exactOps powNat sn).lit 0,
      { initState (exactOps powNat sn) rnd synth sp r with
        regs := stepPhaser (exactOps powNat sn) g }) with hq | hq <;>
    rw [hq] <;> simp only [exactOps] <;> norm_num

/-- C17, as stated, fails: for the defaults (`hpfCutoff = 0`, `hpfCutoffSweep = 0`, square
wave) the first iteration of a run raises `flthp` from 0 to 0.00001, and after the first
sub-sample the high-pass output `fltphp` differs from the low-pass output `fltp`, which is
0.5 or -0.5: it is `fltp * 0.99999`. -/
theorem highpass_not_identity :
    baseline.hpfCutoff = 0 ∧ baseline.hpfCutoffSweep = 0 ∧
    (0 : Int) < tinySynth.sampleRate * tinySynth.maxDuration ∧
    ∃ g, stepEnvelope exactArith baseline
        (stepControl exactArith baseline
          (initState exactArith (constRandom 0) tinySynth baseline 0).regs).1 = some g ∧
      (subSample exactArith (constRandom 0) baseline
          (exactArith.lit 0,
            { initState exactArith (constRandom 0) tinySynth baseline 0 with
              regs := stepPhaser exactArith g })).2.regs.fltphp ≠
        (subSample exactArith (constRandom 0) baseline
          (exactArith.lit 0,
            { initState exactArith (constRandom 0) tinySynth baseline 0 with
              regs := stepPhaser exactArith g })).2.regs.fltp := by
  refine ⟨rfl, rfl, by decide, ?_⟩
  obtain ⟨g, hg⟩ := first_iteration_some powNat sinPoly (constRandom 0) tinySynth baseline 0
    (by rw [baseline_lengths.2.1]; decide)
  exact ⟨g, hg, first_subsample_leak sinPoly (constRandom 0) tinySynth baseline 0 rfl rfl rfl
    rfl g hg⟩

/-- C17, amended: in exact arithmetic, for every parameter set with `hpfCutoff = 0` and
`hpfCutoffSweep = 0`, in every iteration of the sample loop the cutoff coefficient `flthp` is
raised to 0.00001 by the clamp, so at every sub-sample the high-pass stage computes
`fltphp = (fltphp + fltp - pp) * (1 - 0.00001)`, `pp` being the low-pass output of the
sub-sample before; it is close to the identity on the low-pass output, not equal to it. -/
theorem highpass_leaks (sn : ℚ → ℚ) {R : Type} (rnd : RandomSource R) (synth : SfxSynth ℚ)
    (sp : SfxParams ℚ) (r : R) (h1 : sp.hpfCutoff = 0) (h2 : sp.hpfCutoffSweep = 0)
    (c e : Int) (st : GenState ℚ ℚ R) (g : Regs ℚ ℚ)
    (hh : LoopHead (exactOps powNat sn) rnd sp (initState (exactOps powNat sn) rnd synth sp r)
      (synth.sampleRate * synth.maxDuration) c e st)
    (hg : stepEnvelope (exactOps powNat sn) sp (stepControl (exactOps powNat sn) sp st.regs).1
      = some g) :
    (stepPhaser (exactOps powNat sn) g).flthp = 1 / 100000 ∧
    ∀ k, k < 8 →
      (subState (exactOps powNat sn) rnd sp
          { st with regs := stepPhaser (exactOps powNat sn) g } (k + 1)).2.regs.fltphp =
        ((subState (exactOps powNat sn) rnd sp
            { st with regs := stepPhaser (exactOps powNat sn) g } k).2.regs.fltphp +
          ((subState (exactOps powNat sn) rnd sp
              { st with regs := stepPhaser (exactOps powNat sn) g } (k + 1)).2.regs.fltp -
            (subState (exactOps powNat sn) rnd sp
              { st with regs := stepPhaser (exactOps powNat sn) g } k).2.regs.fltp)) *
          (1 - 1 / 100000) := by
  obtain ⟨a1, a2⟩ := head_flthp sn rnd synth sp r h1 h2 _ c e st hh
  obtain ⟨q1, q2, _⟩ := iteration_flthp (exactOps powNat sn) sp st.regs g hg
  obtain ⟨p1, p2⟩ := stepPhaser_flthp_exact powNat sn g (q2 ▸ a1) (q1 ▸ a2)
  refine ⟨p1, ?_⟩
  intro k _
  obtain ⟨ph, pk, w, dp, p, php, ip, hx⟩ := subState_frame (exactOps powNat sn) rnd sp
    { st with regs := stepPhaser (exactOps powNat sn) g } k
  have hf : (subState (exactOps powNat sn) rnd sp
      { st with regs := stepPhaser (exactOps powNat sn) g } k).2.regs.flthp = 1 / 100000 := by
    rw [hx]; exact p1
  rw [subState_succ, subSample_highpass, hf]
  simp only [exactOps]
  ring

theorem highpass_leaks_witness :
    baseline.hpfCutoff = 0 ∧ baseline.hpfCutoffSweep = 0 ∧
    ∃ g, stepEnvelope exactArith baseline
        (stepControl exactArith baseline
          (initState exactArith (constRandom 0) tinySynth baseline 0).regs).1 = some g ∧
      (stepPhaser exactArith g).flthp = 1 / 100000 := by
  obtain ⟨g, hg⟩ := first_iteration_some powNat sinPoly (constRandom 0) tinySynth baseline 0
    (by rw [baseline_lengths.2.1]; decide)
  exact ⟨rfl, rfl, g, hg,
    (highpass_leaks sinPoly (constRandom 0) tinySynth baseline 0 rfl rfl 0
      (tinySynth.sampleRate * tinySynth.maxDuration) _ g LoopHead.start hg).1⟩

/-! ## Wave synthesis: the stability clamps -/

theorem waveRegs_frame {F D R : Type} (fo : FloatOps F D) (rnd : RandomSource R)
    (sp : SfxParams F) (st : GenState F D R) (g0 g : Regs F D)
    (hg : stepEnvelope fo sp g0 = some g) (k : Nat) :
    (waveRegs fo rnd sp st g k).period = g0.period ∧
    (waveRegs fo rnd sp st g k).squareDuty = g0.squareDuty ∧
    (waveRegs fo rnd sp st g k).fltdmp = g0.fltdmp ∧
    (waveRegs fo rnd sp st g k).fltw
      = (subState fo rnd sp { st with regs := stepPhaser fo g } k).2.regs.fltw ∧
    (subState fo rnd sp { st with regs := stepPhaser fo g } 0).2.regs.fltw = g0.fltw := by
  have hf := stepEnvelope_frame fo sp _ g hg
  obtain ⟨ph, pk, w, dp, p, php, ip, hx⟩ := subState_frame fo rnd sp
    { st with regs := stepPhaser fo g } k
  unfold waveRegs
  rw [advancePhase_frame, hx]
  dsimp only
  refine ⟨?_, ?_, ?_, ?_, ?_⟩
  · rw [hf]; rfl
  · rw [hf]; rfl
  · rw [hf]; rfl
  · rfl
  · rw [hf]; rfl

/-- C19, as stated, fails: for the defaults with `lpfCutoff = 2` the first waveform
evaluation of a run finds `fltw = 2^3 * 0.1 = 0.8`, above 0.1; the clamp of `fltw` comes
after the waveform evaluation. -/
theorem fltw_unclamped_at_first_evaluation :
    (0 : Int) < tinySynth.sampleRate * tinySynth.maxDuration ∧
    ∃ g, stepEnvelope exactArith wideLowpass
        (stepControl exactArith wideLowpass
          (initState exactArith (constRandom 0) tinySynth wideLowpass 0).regs).1 = some g ∧
      (waveRegs exactArith (constRandom 0) wideLowpass
        (initState exactArith (constRandom 0) tinySynth wideLowpass 0) g 0).fltw = 4 / 5 ∧
      ¬ (waveRegs exactArith (constRandom 0) wideLowpass
        (initState exactArith (constRandom 0) tinySynth wideLowpass 0) g 0).fltw ≤ 1 / 10 := by
  refine ⟨by decide, ?_⟩
  obtain ⟨g, hg⟩ := first_iteration_some powNat sinPoly (constRandom 0) tinySynth wideLowpass 0
    (by
      have : wideLowpass.sustainTime = baseline.sustainTime := rfl
      rw [this, baseline_lengths.2.1]; decide)
  have key : ∀ (sp : SfxParams ℚ) (g : Regs ℚ ℚ), sp.lpfCutoff = 2 →
      stepEnvelope exactArith sp
        (stepControl exactArith sp
          (initState exactArith (constRandom 0) tinySynth sp 0).regs).1 = some g →
      (waveRegs exactArith (constRandom 0) sp
        (initState exactArith (constRandom 0) tinySynth sp 0) g 0).fltw = 4 / 5 := by
    intro sp g h2 hg
    obtain ⟨_, _, _, q4, q5⟩ := waveRegs_frame exactArith (constRandom 0) sp
      (initState exactArith (constRandom 0) tinySynth sp 0) _ g hg 0
    obtain ⟨rt, fp, p, fm, fs, fds, sd, ss, am, at', al, vp, hf⟩ :=
      stepControl_frame exactArith sp (initState exactArith (constRandom 0) tinySynth sp 0).regs
    obtain ⟨pk, hr⟩ := initState_regs exactArith (constRandom 0) tinySynth sp 0
    rw [q4, q5, hf, hr]
    simp only [initRegs, resetSample, exactArith, exactOps, h2, powNat_three]
    norm_num
  have h := key wideLowpass g rfl hg
  exact ⟨g, hg, h, by rw [h]; norm_num⟩

/-! ## Wave synthesis: the repeat -/

theorem advancePhase_no_wrap {F D R : Type} (fo : FloatOps F D) (rnd : RandomSource R)
    (sp : SfxParams F) (st : GenState F D R) (h : st.regs.phase + 1 < st.regs.period) :
    (advancePhase fo rnd sp st).regs.phase = st.regs.phase + 1 := by
  unfold advancePhase
  rw [if_neg (by omega)]

theorem subSample_phase {F D R : Type} (fo : FloatOps F D) (rnd : RandomSource R)
    (sp : SfxParams F) (x : F × GenState F D R) (h : x.2.regs.phase + 1 < x.2.regs.period) :
    (subSample fo rnd sp x).2.regs.phase = x.2.regs.phase + 1 ∧
      (subSample fo rnd sp x).2.regs.period = x.2.regs.period := by
  constructor
  · have : (subSample fo rnd sp x).2.regs.phase = (advancePhase fo rnd sp x.2).regs.phase := rfl
    rw [this, advancePhase_no_wrap fo rnd sp x.2 h]
  · obtain ⟨ph, pk, w, dp, p, php, ip, hx⟩ := subSample_frame fo rnd sp x
    rw [hx]

theorem subState_phase {F D R : Type} (fo : FloatOps F D) (rnd : RandomSource R)
    (sp : SfxParams F) (st : GenState F D R) (k : Nat)
    (h : st.regs.phase + (k : Int) < st.regs.period) :
    (subState fo rnd sp st k).2.regs.phase = st.regs.phase + (k : Int) ∧
      (subState fo rnd sp st k).2.regs.period = st.regs.period := by
  induction k with
  | zero => exact ⟨by simp [subState], rfl⟩
  | succ k ih =>
    obtain ⟨i1, i2⟩ := ih (by push_cast at h; omega)
    obtain ⟨s1, s2⟩ := subSample_phase fo rnd sp (subState fo rnd sp st k)
      (by rw [i1, i2]; push_cast at h; omega)
    rw [subState_succ, s1, s2, i1, i2]
    exact ⟨by push_cast; omega, rfl⟩

theorem stepRepeat_phase {F D : Type} (fo : FloatOps F D) (sp : SfxParams F) (g : Regs F D) :
    (stepRepeat fo sp g).phase = g.phase := by
  unfold stepRepeat resetSample
  dsimp only
  split <;> rfl

theorem stepControl_repeatRun (pw : ℚ → ℚ → ℚ) (sn : ℚ → ℚ) (sp : SfxParams ℚ)
    (g0 : Regs ℚ ℚ) (n : Int) (hJ : RepeatRun n g0) (h0 : 0 ≤ n) (hn : n < 31) :
    RepeatRun (n + 1) (stepControl (exactOps pw sn) sp g0).1 ∧
      (stepControl (exactOps pw sn) sp g0).1.period = 1098 := by
  rcases g0 with ⟨⟩
  simp only [RepeatRun] at hJ
  obtain ⟨h1, h2, h3, h4, h5, h6, h7, h8, h9⟩ := hJ
  have c1 : ¬ ((32 : Int) ≠ 0 ∧ n + 1 ≥ 32) := by omega
  have c2 : ¬ ((20032 : Int) ≠ 0 ∧ n + 1 ≥ 20032) := by omega
  simp only [stepControl, stepRepeat, RepeatRun, exactOps, h1, h2, h3, h4, h5, h6, h7, h8, h9,
    c1, c2, if_false]
  norm_num

theorem stepEnvelope_envelopeRun (pw : ℚ → ℚ → ℚ) (sn : ℚ → ℚ) (sp : SfxParams ℚ)
    (g1 : Regs ℚ ℚ) (n : Int) (hE : EnvelopeRun n g1) (h0 : 0 ≤ n) (hn : n < 31) :
    ∃ g, stepEnvelope (exactOps pw sn) sp g1 = some g ∧ EnvelopeRun (n + 1) g := by
  rcases g1 with ⟨⟩
  simp only [EnvelopeRun] at hE
  obtain ⟨h1, h2, h3, h4⟩ := hE
  rcases h4 with ⟨a, b⟩ | ⟨a, b, c⟩
  · simp [stepEnvelope, nextStage, Regs.envLength, EnvelopeRun, h1, h2, h3, a, b]
    omega
  · simp [stepEnvelope, nextStage, Regs.envLength, EnvelopeRun, h1, h2, h3, a, b]
    split_ifs with hc
    · exfalso; omega
    · exact ⟨_, rfl, rfl, rfl, rfl, Or.inr ⟨rfl, by dsimp only; omega, by dsimp only; omega⟩⟩

theorem repeatRun_iteration (pw : ℚ → ℚ → ℚ) (sn : ℚ → ℚ) {R : Type} (rnd : RandomSource R)
    (sp : SfxParams ℚ) (st : GenState ℚ ℚ R) (n : Int) (hR : RepeatRun n st.regs)
    (hE : EnvelopeRun n st.regs) (hp : st.regs.phase = 8 * n) (h0 : 0 ≤ n) (hn : n < 31) :
    ∃ g, stepEnvelope (exactOps pw sn) sp (stepControl (exactOps pw sn) sp st.regs).1 = some g ∧
      RepeatRun (n + 1)
        (superSample (exactOps pw sn) rnd sp
          { st with regs := stepPhaser (exactOps pw sn) g }).2.regs ∧
      EnvelopeRun (n + 1)
        (superSample (exactOps pw sn) rnd sp
          { st with regs := stepPhaser (exactOps pw sn) g }).2.regs ∧
      (superSample (exactOps pw sn) rnd sp
          { st with regs := stepPhaser (exactOps pw sn) g }).2.regs.phase = 8 * (n + 1) := by
  obtain ⟨r1, r2⟩ := stepControl_repeatRun pw sn sp st.regs n hR h0 hn
  obtain ⟨rt, fp, p, fm, fs, fds, sd, ss, am, at', al, vp, hf⟩ :=
    stepControl_frame (exactOps pw sn) sp st.regs
  have e1 : EnvelopeRun n (stepControl (exactOps pw sn) sp st.regs).1 := by
    rw [hf]; exact hE
  have p1 : (stepControl (exactOps pw sn) sp st.regs).1.phase = 8 * n := by
    rw [hf]; exact hp
  obtain ⟨g, hg, e2⟩ := stepEnvelope_envelopeRun pw sn sp _ n e1 h0 hn
  have hgf := stepEnvelope_frame (exactOps pw sn) sp _ g hg
  have r3 : RepeatRun (n + 1) g := by rw [hgf]; exact r1
  have r4 : g.period = 1098 := by rw [hgf]; exact r2
  have p2 : g.phase = 8 * n := by rw [hgf]; exact p1
  obtain ⟨ph, pk, w, dp, p', php, ip, hsf⟩ := superSample_frame (exactOps pw sn) rnd sp
    { st with regs := stepPhaser (exactOps pw sn) g }
  refine ⟨g, hg, ?_, ?_, ?_⟩
  · rw [hsf]; exact r3
  · rw [hsf]; exact e2
  · have hlt : ({ st with regs := stepPhaser (exactOps pw sn) g } : GenState ℚ ℚ R).regs.phase
        + ((8 : Nat) : Int)
        < ({ st with regs := stepPhaser (exactOps pw sn) g } : GenState ℚ ℚ R).regs.period := by
      have a1 : (stepPhaser (exactOps pw sn) g).phase = 8 * n := p2
      have a2 : (stepPhaser (exactOps pw sn) g).period = 1098 := r4
      dsimp only
      rw [a1, a2]
      push_cast
      omega
    obtain ⟨s1, _⟩ := subState_phase (exactOps pw sn) rnd sp
      { st with regs := stepPhaser (exactOps pw sn) g } 8 hlt
    have a1 : (stepPhaser (exactOps pw sn) g).phase = 8 * n := p2
    rw [superSample_eq_subState, s1]
    dsimp only
    rw [a1]
    push_cast
    omega

theorem repeatRun_reachable (pw : ℚ → ℚ → ℚ) (sn : ℚ → ℚ) {R : Type} (rnd : RandomSource R)
    (sp : SfxParams ℚ) (st0 : GenState ℚ ℚ R) (N : Int) (hN : 31 ≤ N)
    (hstop : (exactOps pw sn).lt ((exactOps pw sn).lit 0) (minFreq (exactOps pw sn) sp) = false)
    (hR : RepeatRun 0 st0.regs) (hE : EnvelopeRun 0 st0.regs) (hp : st0.regs.phase = 0)
    (n : Nat) (hn : n ≤ 31) :
    ∃ st, LoopHead (exactOps pw sn) rnd sp st0 N (n : Int) N st ∧ RepeatRun (n : Int) st.regs ∧
      EnvelopeRun (n : Int) st.regs ∧ st.regs.phase = 8 * (n : Int) := by
  induction n with
  | zero => exact ⟨st0, LoopHead.start, hR, hE, by rw [hp]; rfl⟩
  | succ n ih =>
    obtain ⟨st, hh, r, e, p⟩ := ih (by omega)
    obtain ⟨g, hg, r', e', p'⟩ := repeatRun_iteration pw sn rnd sp st (n : Int) r e p
      (by omega) (by omega)
    have hs := LoopHead.step (n : Int) N st g hh (by omega) hg
    rw [stepControl_no_stop (exactOps pw sn) sp st.regs hstop] at hs
    simp only [Bool.false_eq_true, if_false] at hs
    push_cast
    exact ⟨_, hs, r', e', p'⟩

theorem repeatedStart_init (sn : ℚ → ℚ) {R : Type} (rnd : RandomSource R)
    (synth : SfxSynth ℚ) (r : R) :
    RepeatRun 0 (initState (exactOps powNat sn) rnd synth repeatedStart r).regs ∧
    EnvelopeRun 0 (initState (exactOps powNat sn) rnd synth repeatedStart r).regs ∧
    (initState (exactOps powNat sn) rnd synth repeatedStart r).regs.phase = 0 ∧
    (exactOps powNat sn).lt ((exactOps powNat sn).lit 0)
      (minFreq (exactOps powNat sn) repeatedStart) = false := by
  obtain ⟨pk, hr⟩ := initState_regs (exactOps powNat sn) rnd synth repeatedStart r
  rw [hr]
  refine ⟨?_, ?_, rfl, ?_⟩
  · simp [RepeatRun, initRegs, resetSample, startPeriod, minFreq, sslide, repeatedStart,
      baseline, sfx_resetParams, exactArith, exactOps, powNat]
    norm_num [Int.floor_eq_iff]
  · simp [EnvelopeRun, initRegs, resetSample, repeatedStart, baseline, sfx_resetParams,
      exactArith, exactOps]
    norm_num [Int.floor_eq_iff]
  · simp [minFreq, repeatedStart, baseline, sfx_resetParams, exactArith, exactOps]
    norm_num

theorem head_repeatLimit {F D R : Type} (fo : FloatOps F D) (rnd : RandomSource R)
    (synth : SfxSynth F) (sp : SfxParams F) (r : R) (N : Int) (c e : Int) (st : GenState F D R)
    (h : LoopHead fo rnd sp (initState fo rnd synth sp r) N c e st) :
    st.regs.repeatLimit = (initRegs fo sp).repeatLimit := by
  refine LoopHead_inv fo rnd sp _ N
    (fun _ g => g.repeatLimit = (initRegs fo sp).repeatLimit) ?_ ?_ c e st h
  · obtain ⟨pk, hr⟩ := initState_regs fo rnd synth sp r
    rw [hr]
  · intro c st g hP hg
    obtain ⟨rt, fp, p, fm, fs, fds, sd, ss, am, at', al, vp, hf⟩ :=
      stepControl_frame fo sp st.regs
    rw [hf] at hg
    have hgf := stepEnvelope_frame fo sp _ g hg
    obtain ⟨ph, pk, w, dp, p', php, ip, hsf⟩ := superSample_frame fo rnd sp
      { st with regs := stepPhaser fo g }
    have : g.repeatLimit = st.regs.repeatLimit := by rw [hgf]
    rw [hsf]
    exact this.trans hP

/-- C20, as stated, fails for the phase accumulator: in the run of the defaults with
`repeatSpeed = 1` (repeat limit 32) at 44100 Hz and 10 s, iteration 31 of the sample loop is
reached with `repeatTime = 31` and `phase = 248`; the repeat fires in it, and after
`RESET_SAMPLE` the phase is still 248, while it was 0 after the initialisation. -/
theorem repeat_keeps_phase :
    ∃ st, LoopHead exactArith (constRandom 0) repeatedStart
        (initState exactArith (constRandom 0) roomySynth repeatedStart 0)
        (roomySynth.sampleRate * roomySynth.maxDuration) 31
        (roomySynth.sampleRate * roomySynth.maxDuration) st ∧
      (31 : Int) < roomySynth.sampleRate * roomySynth.maxDuration ∧
      st.regs.repeatLimit = 32 ∧ st.regs.repeatTime + 1 = 32 ∧
      (stepRepeat exactArith repeatedStart st.regs).repeatTime = 0 ∧
      (stepRepeat exactArith repeatedStart st.regs).phase = 248 ∧
      (initRegs exactArith repeatedStart).phase = 0 := by
  obtain ⟨i1, i2, i3, i4⟩ := repeatedStart_init sinPoly (constRandom 0) roomySynth 0
  obtain ⟨st, hh, hR, _, hp⟩ := repeatRun_reachable powNat sinPoly (constRandom 0) repeatedStart
    (initState (exactOps powNat sinPoly) (constRandom 0) roomySynth repeatedStart 0)
    (roomySynth.sampleRate * roomySynth.maxDuration) (by decide) i4 i1 i2 i3 31 (le_refl _)
  obtain ⟨h1, h2, _⟩ := hR
  refine ⟨st, hh, by decide, h2, by rw [h1]; rfl, ?_, ?_, rfl⟩
  · unfold stepRepeat
    dsimp only
    rw [if_pos ⟨by rw [h2]; decide, by rw [h1, h2]; decide⟩]
    rfl
  · rw [stepRepeat_phase]
    exact hp

/-! ## Parameter generators: the dead branch of randomize -/

theorem inRange_one {R : Type} (rnd : RandomSource R) (h : rnd.InRange) (r : R) :
    (rnd 1 r).1 = 0 := by
  obtain ⟨a, b⟩ := h 1 r (by decide)
  omega

/-- C26: for every random source that keeps its contract, the draw `sfx_random(1)` in
`sfx_genRandomize` is 0, so the branch that would redraw startFrequency is not taken: for
every interpretation of the arithmetic startFrequency is `powf(x, 2)` with `x` the first
`rndNP1()` draw and minFrequency is `0.0f`; in exact arithmetic startFrequency is the square
of that draw and lies in [0, 1], and minFrequency is 0. -/
theorem sfx_genRandomize_dead_branch {F D R : Type} (fo : FloatOps F D) (rnd : RandomSource R)
    (h : rnd.InRange) (sp : SfxParams F) (waveType : Int) (r : R) (q : SfxParams ℚ) :
    (rnd 1 (rndNP1 fo rnd r).2).1 = 0 ∧
    (sfx_genRandomize fo rnd sp waveType r).1.startFrequency
      = fo.powf (rndNP1 fo rnd r).1 (fo.lit 2) ∧
    (sfx_genRandomize fo rnd sp waveType r).1.minFrequency = fo.lit 0 ∧
    (sfx_genRandomize exactArith rnd q waveType r).1.startFrequency
      = (rndNP1 exactArith rnd r).1 ^ 2 ∧
    0 ≤ (sfx_genRandomize exactArith rnd q waveType r).1.startFrequency ∧
    (sfx_genRandomize exactArith rnd q waveType r).1.startFrequency ≤ 1 ∧
    (sfx_genRandomize exactArith rnd q waveType r).1.minFrequency = 0 := by
  have key : ∀ {F' D' : Type} (fo' : FloatOps F' D') (p : SfxParams F'),
      (sfx_genRandomize fo' rnd p waveType r).1.startFrequency
        = fo'.powf (rndNP1 fo' rnd r).1 (fo'.lit 2) := by
    intro F' D' fo' p
    have e : (rnd 1 (rndNP1 fo' rnd r).2).1 = 0 := inRange_one rnd h _
    unfold sfx_genRandomize
    lift_lets
    intro sp0 sp1 d1 c1 st
    have hs : st.1 = fo'.powf d1.1 (fo'.lit 2) := by
      simp only [st]
      rw [if_neg (by simp only [c1, d1, e]; decide)]
    intros
    exact hs
  have e2 : (sfx_genRandomize exactArith rnd q waveType r).1.startFrequency
      = (rndNP1 exactArith rnd r).1 ^ 2 := by
    rw [key exactArith q]
    exact powNat_two _
  obtain ⟨b1, b2⟩ := rndNP1_bounds powNat sinPoly rnd h r
  refine ⟨inRange_one rnd h _, key fo sp, rfl, e2, ?_, ?_, rfl⟩
  · rw [e2]; positivity
  · rw [e2]
    have : (rndNP1 exactArith rnd r).1 = (rndNP1 (exactOps powNat sinPoly) rnd r).1 := rfl
    rw [this]
    nlinarith

theorem sfx_genRandomize_dead_branch_witness :
    (constRandom 12345).InRange ∧
    (sfx_genRandomize exactArith (constRandom 12345) baseline SFX_SQUARE 0).1.startFrequency
      = (rndNP1 exactArith (constRandom 12345) 0).1 ^ 2 :=
  ⟨constRandom_inRange 12345,
    (sfx_genRandomize_dead_branch exactArith (constRandom 12345) (constRandom_inRange 12345)
      baseline SFX_SQUARE 0 baseline).2.2.2.1⟩

/-! ## Codec: the legacy load and the seed -/

theorem loadSfs_randSeed (v : Int) (sp : SfxParams Nat) (fp : List Nat) (vol : Option Nat) :
    (loadSfs v sp fp vol).1.randSeed = sp.randSeed := by
  unfold loadSfs
  dsimp only
  split <;> rfl

theorem sfx_loadParams_sfs (v : Int) (hv : v = 100 ∨ v = 101 ∨ v = 102) (sp : SfxParams Nat)
    (file : List Nat) (vol : Option Nat) (v0 l0 : Nat) (h4 : 4 ≤ file.length)
    (hver : toInt32 (u32At file 0) = v) :
    sfx_loadParams sp (some file) vol v0 l0
      = (none, (loadSfs v sp (file.drop 4) vol).1, (loadSfs v sp (file.drop 4) vol).2) := by
  have hh : fread [0, 0, 0, 0] file = (file.take 4, 4, file.drop 4) := fread_full _ _ h4
  have hd : toInt32 (decode32 (List.take 4 file)) = v := by simpa [u32At] using hver
  have hsig : ¬ ((file.take 4).getD 0 0 = 0x72 ∧ (file.take 4).getD 1 0 = 0x46 ∧
      (file.take 4).getD 2 0 = 0x58 ∧ (file.take 4).getD 3 0 = 0x20) := by
    rintro ⟨a, b, c, d⟩
    have : toInt32 (decode32 (List.take 4 file)) = 542656114 := by
      simp only [decode32, a, b, c, d]
      decide
    rw [hd] at this
    omega
  simp only [sfx_loadParams, hh, ne_eq, not_true_eq_false, reduceIte, hsig, hd, hv]

/-- C27: a load of a file whose first four bytes are the version word 100, 101 or 102 returns
no error and leaves `randSeed` at the value the output held before the call: it is neither
read from the file nor set to 0.  When the file holds the complete record, `waveType` and all
22 `float` members of the output are those of the layout table, whatever the output held
before; only `randSeed` is carried over. -/
theorem legacy_load_keeps_seed (v : Int) (hv : v = 100 ∨ v = 101 ∨ v = 102)
    (sp sp' : SfxParams Nat) (file : List Nat) (vol : Option Nat) (v0 l0 : Nat)
    (h4 : 4 ≤ file.length) (hver : toInt32 (u32At file 0) = v) :
    (sfx_loadParams sp (some file) vol v0 l0).1 = none ∧
    (sfx_loadParams sp (some file) vol v0 l0).2.1.randSeed = sp.randSeed ∧
    (sfsSize v ≤ file.length →
      (sfx_loadParams sp (some file) vol v0 l0).2.1.waveType
        = (sfsLayout v file 0).waveType ∧
      (sfx_loadParams sp (some file) vol v0 l0).2.1.floats = (sfsLayout v file 0).floats ∧
      (sfx_loadParams sp (some file) vol v0 l0).2.1.waveType
        = (sfx_loadParams sp' (some file) vol v0 l0).2.1.waveType ∧
      (sfx_loadParams sp (some file) vol v0 l0).2.1.floats
        = (sfx_loadParams sp' (some file) vol v0 l0).2.1.floats) := by
  rw [sfx_loadParams_sfs v hv sp file vol v0 l0 h4 hver,
    sfx_loadParams_sfs v hv sp' file vol v0 l0 h4 hver]
  refine ⟨rfl, loadSfs_randSeed v sp _ vol, ?_⟩
  intro hlen
  dsimp only
  rw [loadSfs_full v hv sp file vol hlen, loadSfs_full v hv sp' file vol hlen]
  exact ⟨rfl, rfl, rfl, rfl⟩

theorem legacy_load_keeps_seed_witness :
    otherRecord.randSeed = 77 ∧
    (sfx_loadParams otherRecord (some sfsFile102) (some 9) 1 2).1 = none ∧
    (sfx_loadParams otherRecord (some sfsFile102) (some 9) 1 2).2.1.randSeed = 77 :=
  ⟨rfl,
    (legacy_load_keeps_seed 102 (by decide) otherRecord sampleRecord sfsFile102 (some 9) 1 2
      (by decide) (by decide)).1,
    (legacy_load_keeps_seed 102 (by decide) otherRecord sampleRecord sfsFile102 (some 9) 1 2
      (by decide) (by decide)).2.1⟩

/-! ## Wave synthesis: the random generator is used for noise only -/

theorem foldl_comm {α α' β : Type} (φ : α → α') (f : α → β → α) (f' : α' → β → α')
    (h : ∀ a x, f' (φ a) x = φ (f a x)) (l : List β) (a : α) :
    l.foldl f' (φ a) = φ (l.foldl f a) := by
  induction l generalizing a with
  | nil => rfl
  | cons x l ih => rw [List.foldl_cons, List.foldl_cons, h, ih]

theorem resetNoise_quiet {F D R : Type} (fo : FloatOps F D) (rnd : RandomSource R)
    (sp : SfxParams F) (h1 : sp.waveType ≠ SFX_NOISE) (h2 : sp.waveType ≠ SFX_PINK_NOISE)
    (st : GenState F D R) : resetNoise fo rnd sp st = st := by
  unfold resetNoise
  rw [if_neg h1, if_neg h2]

theorem advancePhase_quiet {F D R R' : Type} (fo : FloatOps F D) (rnd : RandomSource R)
    (rnd' : RandomSource R') (sp : SfxParams F) (h1 : sp.waveType ≠ SFX_NOISE)
    (h2 : sp.waveType ≠ SFX_PINK_NOISE) (st : GenState F D R) (r' : R') :
    advancePhase fo rnd' sp (st.withRng r') = (advancePhase fo rnd sp st).withRng r' := by
  unfold advancePhase
  rw [resetNoise_quiet fo rnd sp h1 h2, resetNoise_quiet fo rnd' sp h1 h2]
  simp only [GenState.withRng]
  split <;> rfl

theorem subSample_quiet {F D R R' : Type} (fo : FloatOps F D) (rnd : RandomSource R)
    (rnd' : RandomSource R') (sp : SfxParams F) (h1 : sp.waveType ≠ SFX_NOISE)
    (h2 : sp.waveType ≠ SFX_PINK_NOISE) (r' : R') (x : F × GenState F D R) :
    subSample fo rnd' sp (x.1, x.2.withRng r')
      = ((subSample fo rnd sp x).1, (subSample fo rnd sp x).2.withRng r') := by
  unfold subSample
  dsimp only
  rw [advancePhase_quiet fo rnd rnd' sp h1 h2]
  rfl

theorem superSample_quiet {F D R R' : Type} (fo : FloatOps F D) (rnd : RandomSource R)
    (rnd' : RandomSource R') (sp : SfxParams F) (h1 : sp.waveType ≠ SFX_NOISE)
    (h2 : sp.waveType ≠ SFX_PINK_NOISE) (r' : R') (st : GenState F D R) :
    superSample fo rnd' sp (st.withRng r')
      = ((superSample fo rnd sp st).1, (superSample fo rnd sp st).2.withRng r') := by
  unfold superSample
  exact foldl_comm (fun (x : F × GenState F D R) => (x.1, x.2.withRng r'))
    (fun acc (_ : Nat) => subSample fo rnd sp acc) (fun acc (_ : Nat) => subSample fo rnd' sp acc)
    (fun a _ => subSample_quiet fo rnd rnd' sp h1 h2 r' a) (List.range 8) (fo.lit 0, st)

theorem genLoop_quiet {F D R R' : Type} (fo : FloatOps F D) (rnd : RandomSource R)
    (rnd' : RandomSource R') (sp : SfxParams F) (h1 : sp.waveType ≠ SFX_NOISE)
    (h2 : sp.waveType ≠ SFX_PINK_NOISE) (r' : R') (fmt : Int) (c e : Int)
    (st : GenState F D R) (samples : Int → Sample F) :
    genLoop fo rnd' sp fmt c e (st.withRng r') samples
      = ((genLoop fo rnd sp fmt c e st samples).1,
         (genLoop fo rnd sp fmt c e st samples).2.1.withRng r',
         (genLoop fo rnd sp fmt c e st samples).2.2) := by
  induction c, e, st, samples using genLoop.induct fo rnd sp fmt with
  | case1 c e st samples hlt hbrk =>
    have hb : stepEnvelope fo sp (stepControl fo sp (st.withRng r').regs).1 = none := hbrk
    rw [genLoop, if_pos hlt, hb, genLoop, if_pos hlt, hbrk]
  | case2 c e st samples hlt g hg ih =>
    have hb : stepEnvelope fo sp (stepControl fo sp (st.withRng r').regs).1 = some g := hg
    have hs : superSample fo rnd' sp { st.withRng r' with regs := stepPhaser fo g }
        = ((superSample fo rnd sp { st with regs := stepPhaser fo g }).1,
           (superSample fo rnd sp { st with regs := stepPhaser fo g }).2.withRng r') :=
      superSample_quiet fo rnd rnd' sp h1 h2 r' { st with regs := stepPhaser fo g }
    have hr : (st.withRng r').regs = st.regs := rfl
    rw [genLoop, if_pos hlt, hb]
    simp only [dite_eq_ite] at ih ⊢
    rw [hs, hr]
    dsimp only
    rw [ih]
    conv_rhs => rw [genLoop, if_pos hlt, hg]
  | case3 c e st samples hge =>
    rw [genLoop, if_neg hge, genLoop, if_neg hge]

theorem initState_quiet {F D R R' : Type} (fo : FloatOps F D) (rnd : RandomSource R)
    (rnd' : RandomSource R') (sp : SfxParams F) (h1 : sp.waveType ≠ SFX_NOISE)
    (h2 : sp.waveType ≠ SFX_PINK_NOISE) (synth : SfxSynth F) (r : R) (r' : R') :
    initState fo rnd' synth sp r' = (initState fo rnd synth sp r).withRng r' := by
  unfold initState
  dsimp only
  rw [resetNoise_quiet fo rnd sp h1 h2, resetNoise_quiet fo rnd' sp h1 h2, if_neg h2, if_neg h2]
  rfl

/-- C25: for every parameter set whose wave type is neither noise nor pink noise, and every
interpretation of the arithmetic, `sfx_generateWave` returns the generator state it was
given (no draw is made), and the count and the context it returns, samples included, are the
same for every random source and every generator state. -/
theorem generateWave_rng_only_for_noise {F D R R' : Type} (fo : FloatOps F D)
    (rnd : RandomSource R) (rnd' : RandomSource R') (synth : SfxSynth F) (sp : SfxParams F)
    (h1 : sp.waveType ≠ SFX_NOISE) (h2 : sp.waveType ≠ SFX_PINK_NOISE) (r : R) (r' : R') :
    (sfx_generateWave fo rnd synth sp r).2.2 = r ∧
    (sfx_generateWave fo rnd' synth sp r').1 = (sfx_generateWave fo rnd synth sp r).1 ∧
    (sfx_generateWave fo rnd' synth sp r').2.1 = (sfx_generateWave fo rnd synth sp r).2.1 := by
  have key : ∀ {R'' : Type} (rnd'' : RandomSource R'') (r'' : R''),
      sfx_generateWave fo rnd'' synth sp r''
        = ((sfx_generateWave fo rnd synth sp r).1, (sfx_generateWave fo rnd synth sp r).2.1,
            r'') := by
    intro R'' rnd'' r''
    unfold sfx_generateWave
    dsimp only
    rw [initState_quiet fo rnd rnd'' sp h1 h2 synth r r'',
      genLoop_quiet fo rnd rnd'' sp h1 h2 r'']
    rfl
  refine ⟨?_, ?_, ?_⟩
  · rw [key rnd r]
  · rw [key rnd' r']
  · rw [key rnd' r']

theorem generateWave_rng_only_for_noise_witness :
    baseline.waveType ≠ SFX_NOISE ∧ baseline.waveType ≠ SFX_PINK_NOISE ∧
    (sfx_generateWave exactArith (constRandom 5) tinySynth baseline 7).2.2 = 7 ∧
    (sfx_generateWave exactArith (constRandom 9) tinySynth baseline 3).1
      = (sfx_generateWave exactArith (constRandom 5) tinySynth baseline 7).1 :=
  ⟨by decide, by decide,
    (generateWave_rng_only_for_noise exactArith (constRandom 5) (constRandom 9) tinySynth
      baseline (by decide) (by decide) 7 3).1,
    (generateWave_rng_only_for_noise exactArith (constRandom 5) (constRandom 9) tinySynth
      baseline (by decide) (by decide) 7 3).2.1⟩

/-! ## Wave synthesis: the envelope runs on its own -/

theorem nextStage_congr {F D : Type} (a b : Regs F D) (h0 : a.envLength0 = b.envLength0)
    (h1 : a.envLength1 = b.envLength1) (h2 : a.envLength2 = b.envLength2) (n : Nat) (s : Int) :
    nextStage a n s = nextStage b n s := by
  induction n generalizing s with
  | zero => rfl
  | succ n ih => simp only [nextStage, Regs.envLength, h0, h1, h2, ih]

theorem stepEnvelope_envSame {F D : Type} (fo : FloatOps F D) (sp sp' : SfxParams F)
    (hp : sp.sustainPunch = sp'.sustainPunch) (a b : Regs F D) (h : EnvSame a b) :
    (stepEnvelope fo sp a = none ↔ stepEnvelope fo sp' b = none) ∧
    ∀ g g', stepEnvelope fo sp a = some g → stepEnvelope fo sp' b = some g' → EnvSame g g' := by
  obtain ⟨h1, h2, h3, h4, h5, h6⟩ := h
  have na : nextStage { a with envTime := a.envTime + 1 } 3 a.envStage
      = nextStage b 3 b.envStage := by
    rw [h1]; exact nextStage_congr _ _ h4 h5 h6 3 _
  have nb : nextStage { b with envTime := b.envTime + 1 } 3 b.envStage
      = nextStage b 3 b.envStage := nextStage_congr _ _ rfl rfl rfl 3 _
  have ca : (({ a with envTime := a.envTime + 1 } : Regs F D).envTime >
      ({ a with envTime := a.envTime + 1 } : Regs F D).envLength a.envStage) ↔
      (({ b with envTime := b.envTime + 1 } : Regs F D).envTime >
      ({ b with envTime := b.envTime + 1 } : Regs F D).envLength b.envStage) := by
    simp only [Regs.envLength, h1, h2, h4, h5, h6]
  unfold stepEnvelope
  dsimp only
  by_cases c : (({ b with envTime := b.envTime + 1 } : Regs F D).envTime >
      ({ b with envTime := b.envTime + 1 } : Regs F D).envLength b.envStage)
  · rw [if_pos (ca.mpr c), if_pos c, na, nb]
    cases nextStage b 3 b.envStage with
    | none => simp
    | some s =>
      simp only [Option.map_some', Option.some.injEq, reduceCtorEq, true_and]
      intro g g' e1 e2
      subst e1 e2
      simp only [EnvSame, envelopeVolume, Regs.envLength, hp, h3, h4, h5, h6, and_self]
  · rw [if_neg (fun x => c (ca.mp x)), if_neg c]
    simp only [Option.map_some', Option.some.injEq, reduceCtorEq, true_and]
    intro g g' e1 e2
    subst e1 e2
    simp only [EnvSame, envelopeVolume, Regs.envLength, hp, h1, h2, h3, h4, h5, h6, and_self]

theorem EnvSame.symm {F D : Type} {a b : Regs F D} (h : EnvSame a b) : EnvSame b a :=
  ⟨h.1.symm, h.2.1.symm, h.2.2.1.symm, h.2.2.2.1.symm, h.2.2.2.2.1.symm, h.2.2.2.2.2.symm⟩

theorem EnvSame.trans {F D : Type} {a b c : Regs F D} (h : EnvSame a b) (h' : EnvSame b c) :
    EnvSame a c :=
  ⟨h.1.trans h'.1, h.2.1.trans h'.2.1, h.2.2.1.trans h'.2.2.1, h.2.2.2.1.trans h'.2.2.2.1,
    h.2.2.2.2.1.trans h'.2.2.2.2.1, h.2.2.2.2.2.trans h'.2.2.2.2.2⟩

theorem envSame_stepControl {F D : Type} (fo : FloatOps F D) (sp : SfxParams F) (g : Regs F D) :
    EnvSame (stepControl fo sp g).1 g := by
  obtain ⟨rt, fp, p, fm, fs, fds, sd, ss, am, at', al, vp, hf⟩ := stepControl_frame fo sp g
  rw [hf]
  exact ⟨rfl, rfl, rfl, rfl, rfl, rfl⟩

theorem envSame_superSample {F D R : Type} (fo : FloatOps F D) (rnd : RandomSource R)
    (sp : SfxParams F) (st : GenState F D R) (g : Regs F D) :
    EnvSame (superSample fo rnd sp { st with regs := stepPhaser fo g }).2.regs g := by
  obtain ⟨ph, pk, w, dp, p, php, ip, hsf⟩ := superSample_frame fo rnd sp
    { st with regs := stepPhaser fo g }
  rw [hsf]
  exact ⟨rfl, rfl, rfl, rfl, rfl, rfl⟩

theorem LoopHead_nonneg {F D R : Type} (fo : FloatOps F D) (rnd : RandomSource R)
    (sp : SfxParams F) (st0 : GenState F D R) (N : Int) (c e : Int) (st : GenState F D R)
    (h : LoopHead fo rnd sp st0 N c e st) : 0 ≤ c :=
  LoopHead_inv fo rnd sp st0 N (fun c _ => 0 ≤ c) (le_refl _)
    (fun c _ _ hc _ => by omega) c e st h

theorem nextStage_ge {F D : Type} (a : Regs F D) (n : Nat) (s s' : Int)
    (h : nextStage a n s = some s') : s ≤ s' := by
  induction n generalizing s with
  | zero =>
    simp only [nextStage, Option.some.injEq] at h
    omega
  | succ n ih =>
    simp only [nextStage] at h
    split_ifs at h with c1 c2
    · have := ih _ h
      omega
    · simp only [Option.some.injEq] at h
      omega

theorem stepEnvelope_stage_ge {F D : Type} (fo : FloatOps F D) (sp : SfxParams F)
    (a g : Regs F D) (h : stepEnvelope fo sp a = some g) : a.envStage ≤ g.envStage := by
  unfold stepEnvelope at h
  dsimp only at h
  split_ifs at h
  · cases hn : nextStage { a with envTime := a.envTime + 1 } 3 a.envStage with
    | none => rw [hn] at h; simp at h
    | some s =>
      rw [hn] at h
      simp only [Option.map_some', Option.some.injEq] at h
      subst h
      exact nextStage_ge _ 3 _ _ hn
  · simp only [Option.map_some', Option.some.injEq] at h
    subst h
    exact le_refl _

theorem heads_envSame {F D R R' : Type} (fo : FloatOps F D) (rnd : RandomSource R)
    (rnd' : RandomSource R') (sp sp' : SfxParams F) (hp : sp.sustainPunch = sp'.sustainPunch)
    (st0 : GenState F D R) (st0' : GenState F D R') (h0 : EnvSame st0.regs st0'.regs)
    (N N' : Int) (c1 e1 : Int) (st1 : GenState F D R)
    (h1 : LoopHead fo rnd sp st0 N c1 e1 st1) :
    ∀ (c2 e2 : Int) (st2 : GenState F D R'), LoopHead fo rnd' sp' st0' N' c2 e2 st2 →
      (c1 = c2 → EnvSame st1.regs st2.regs) ∧ (c1 ≤ c2 → st1.regs.envStage ≤ st2.regs.envStage) := by
  have same : ∀ (c1 e1 : Int) (st1 : GenState F D R), LoopHead fo rnd sp st0 N c1 e1 st1 →
      ∀ (c2 e2 : Int) (st2 : GenState F D R'), LoopHead fo rnd' sp' st0' N' c2 e2 st2 →
      c1 = c2 → EnvSame st1.regs st2.regs := by
    intro c1 e1 st1 h1
    induction h1 with
    | start =>
      intro c2 e2 st2 h2 hc
      cases h2 with
      | start => exact h0
      | step c e st g h lt hg =>
        have := LoopHead_nonneg fo rnd' sp' st0' N' c e st h
        omega
    | step c e st g h lt hg ih =>
      intro c2 e2 st2 h2 hc
      cases h2 with
      | start =>
        have := LoopHead_nonneg fo rnd sp st0 N c e st h
        omega
      | step c' e' st' g' h' lt' hg' =>
        have hs := ih c' e' st' h' (by omega)
        have hc1 := ((envSame_stepControl fo sp st.regs).trans hs).trans
          (envSame_stepControl fo sp' st'.regs).symm
        have hg2 := (stepEnvelope_envSame fo sp sp' hp _ _ hc1).2 g g' hg hg'
        exact ((envSame_superSample fo rnd sp st g).trans hg2).trans
          (envSame_superSample fo rnd' sp' st' g').symm
  intro c2 e2 st2 h2
  refine ⟨same c1 e1 st1 h1 c2 e2 st2 h2, ?_⟩
  induction h2 with
  | start =>
    intro hc
    have := LoopHead_nonneg fo rnd sp st0 N c1 e1 st1 h1
    exact le_of_eq (same c1 e1 st1 h1 0 N' st0' LoopHead.start (by omega)).1
  | step c e st g h lt hg ih =>
    intro hc
    by_cases heq : c1 = c + 1
    · exact le_of_eq (same c1 e1 st1 h1 _ _ _ (LoopHead.step c e st g h lt hg) heq).1
    · have i1 := ih (by omega)
      have i2 := stepEnvelope_stage_ge fo sp' _ g hg
      have i3 := (envSame_stepControl fo sp' st.regs).1
      have i4 := (envSame_superSample fo rnd' sp' st g).1
      omega

theorem initState_envSame {F D R R' : Type} (fo : FloatOps F D) (rnd : RandomSource R)
    (rnd' : RandomSource R') (synth synth' : SfxSynth F) (sp : SfxParams F) (x : F) (r : R)
    (r' : R') :
    EnvSame (initState fo rnd synth sp r).regs
      (initState fo rnd' synth' { sp with repeatSpeed := x } r').regs := by
  obtain ⟨pk, hr⟩ := initState_regs fo rnd synth sp r
  obtain ⟨pk', hr'⟩ := initState_regs fo rnd' synth' { sp with repeatSpeed := x } r'
  rw [hr, hr']
  exact ⟨rfl, rfl, rfl, rfl, rfl, rfl⟩

/-- C21: take two runs of `sfx_generateWave`, for a parameter set and for the same set with
another `repeatSpeed` (any contexts, random sources and interpretation of the arithmetic).
At a sample index both runs reach, the envelope stage, time and volume are equal when the
iteration starts and after its envelope step, and the envelope ends the one run there exactly
when it ends the other.  Within a run the envelope step never lowers the stage, and the stage
at an index is at most the stage at any later index. -/
theorem envelope_ignores_repeat {F D R R' : Type} (fo : FloatOps F D) (rnd : RandomSource R)
    (rnd' : RandomSource R') (synth synth' : SfxSynth F) (sp : SfxParams F) (x : F) (r : R)
    (r' : R') (c e e' : Int) (st : GenState F D R) (st' : GenState F D R')
    (h1 : LoopHead fo rnd sp (initState fo rnd synth sp r)
      (synth.sampleRate * synth.maxDuration) c e st)
    (h2 : LoopHead fo rnd' { sp with repeatSpeed := x }
      (initState fo rnd' synth' { sp with repeatSpeed := x } r')
      (synth'.sampleRate * synth'.maxDuration) c e' st') :
    (st.regs.envStage = st'.regs.envStage ∧ st.regs.envTime = st'.regs.envTime ∧
      st.regs.envVolume = st'.regs.envVolume) ∧
    (stepEnvelope fo sp (stepControl fo sp st.regs).1 = none ↔
      stepEnvelope fo { sp with repeatSpeed := x }
        (stepControl fo { sp with repeatSpeed := x } st'.regs).1 = none) ∧
    (∀ g g', stepEnvelope fo sp (stepControl fo sp st.regs).1 = some g →
      stepEnvelope fo { sp with repeatSpeed := x }
        (stepControl fo { sp with repeatSpeed := x } st'.regs).1 = some g' →
      g.envStage = g'.envStage ∧ g.envTime = g'.envTime ∧ g.envVolume = g'.envVolume) ∧
    (∀ g, stepEnvelope fo sp (stepControl fo sp st.regs).1 = some g →
      st.regs.envStage ≤ g.envStage) ∧
    (∀ (c2 e2 : Int) (st2 : GenState F D R),
      LoopHead fo rnd sp (initState fo rnd synth sp r)
        (synth.sampleRate * synth.maxDuration) c2 e2 st2 →
      c ≤ c2 → st.regs.envStage ≤ st2.regs.envStage) := by
  have hs := (heads_envSame fo rnd rnd' sp { sp with repeatSpeed := x } rfl _ _
    (initState_envSame fo rnd rnd' synth synth' sp x r r') _ _ c e st h1 c e' st' h2).1 rfl
  have hc := ((envSame_stepControl fo sp st.regs).trans hs).trans
    (envSame_stepControl fo { sp with repeatSpeed := x } st'.regs).symm
  obtain ⟨k1, k2⟩ := stepEnvelope_envSame fo sp { sp with repeatSpeed := x } rfl _ _ hc
  refine ⟨⟨hs.1, hs.2.1, hs.2.2.1⟩, k1, ?_, ?_, ?_⟩
  · intro g g' a b
    have := k2 g g' a b
    exact ⟨this.1, this.2.1, this.2.2.1⟩
  · intro g hg
    have i1 := stepEnvelope_stage_ge fo sp _ g hg
    have i2 := (envSame_stepControl fo sp st.regs).1
    omega
  · intro c2 e2 st2 h3 hle
    have h0 : EnvSame (initState fo rnd synth sp r).regs (initState fo rnd synth sp r).regs :=
      ⟨rfl, rfl, rfl, rfl, rfl, rfl⟩
    exact (heads_envSame fo rnd rnd sp sp rfl _ _ h0 _ _ c e st h1 c2 e2 st2 h3).2 hle

theorem envelope_ignores_repeat_witness :
    (initState exactArith (constRandom 0) tinySynth baseline 0).regs.envStage
      = (initState exactArith (constRandom 0) tinySynth repeatedStart 0).regs.envStage ∧
    (stepEnvelope exactArith baseline
        (stepControl exactArith baseline
          (initState exactArith (constRandom 0) tinySynth baseline 0).regs).1 = none ↔
      stepEnvelope exactArith repeatedStart
        (stepControl exactArith repeatedStart
          (initState exactArith (constRandom 0) tinySynth repeatedStart 0).regs).1 = none) :=
  ⟨(envelope_ignores_repeat exactArith (constRandom 0) (constRandom 0) tinySynth tinySynth
      baseline 1 0 0 0 _ _ _ _ LoopHead.start LoopHead.start).1.1,
    (envelope_ignores_repeat exactArith (constRandom 0) (constRandom 0) tinySynth tinySynth
      baseline 1 0 0 0 _ _ _ _ LoopHead.start LoopHead.start).2.1⟩

/-! ## Wave synthesis: the envelope does not divide by zero -/

theorem stepEnvelope_envOk {F D : Type} (fo : FloatOps F D) (sp : SfxParams F) (g g' : Regs F D)
    (h : stepEnvelope fo sp g = some g') (hg : EnvOk g) :
    EnvOk g' ∧ 0 < g'.envLength g'.envStage ∧
    (g'.envStage = 0 →
      g'.envVolume = fo.div (fo.ofInt g'.envTime) (fo.ofInt g'.envLength0)) ∧
    (g'.envStage = 2 →
      g'.envVolume
        = fo.sub (fo.lit 1) (fo.div (fo.ofInt g'.envTime) (fo.ofInt g'.envLength2))) := by
  obtain ⟨h1, h2, hs, h0, ht⟩ := hg
  obtain ⟨e0, e1, e2, es, et0, et, _⟩ := stepEnvelope_some fo sp g g' h h1 h2 hs h0 ht
  refine ⟨⟨e1 ▸ h1, e2 ▸ h2, es, et0, et⟩, ?_, ?_⟩
  rotate_left
  · have hv : ∃ g3 : Regs F D, g' = { g3 with envVolume := envelopeVolume fo sp g3 } := by
      obtain ⟨g3, _, h3⟩ := Option.map_eq_some'.mp h
      exact ⟨g3, h3.symm⟩
    obtain ⟨g3, hv⟩ := hv
    subst hv
    constructor
    · intro h0'
      have h0'' : g3.envStage = 0 := h0'
      simp only [envelopeVolume, Regs.envLength, h0'', if_true]
    · intro h2'
      have h2'' : g3.envStage = 2 := h2'
      simp only [envelopeVolume, Regs.envLength, h2'', if_true, OfNat.ofNat_ne_zero,
        OfNat.ofNat_ne_one, if_false]
  · unfold stepEnvelope at h
    dsimp only at h
    split_ifs at h with c
    · cases hn : nextStage { g with envTime := g.envTime + 1 } 3 g.envStage with
      | none => rw [hn] at h; simp at h
      | some s =>
        rw [hn] at h
        simp only [Option.map_some', Option.some.injEq] at h
        subst h
        dsimp only
        rcases hs with hs | hs | hs <;>
          simp [hs, nextStage, Regs.envLength] at hn c ht ⊢
        · by_cases a1 : g.envLength1 = 0
          · by_cases a2 : g.envLength2 = 0
            · rw [if_pos a1, if_pos a2] at hn; exact absurd hn (by simp)
            · rw [if_pos a1, if_neg a2] at hn
              simp only [Option.some.injEq] at hn
              subst hn
              simp only [OfNat.ofNat_ne_zero, OfNat.ofNat_ne_one, if_false]
              omega
          · rw [if_neg a1] at hn
            simp only [Option.some.injEq] at hn
            subst hn
            simp only [one_ne_zero, if_false, if_true]
            omega
        · obtain ⟨a2, hn⟩ := hn
          subst hn
          simp only [OfNat.ofNat_ne_zero, OfNat.ofNat_ne_one, if_false]
          omega
    · simp only [Option.map_some', Option.some.injEq] at h
      subst h
      have c' : ¬ g.envTime + 1 > g.envLength g.envStage := c
      change 0 < g.envLength g.envStage
      omega

theorem head_envOk {F D R : Type} (fo : FloatOps F D) (rnd : RandomSource R)
    (synth : SfxSynth F) (sp : SfxParams F) (r : R) (h0 : 0 ≤ (initRegs fo sp).envLength0)
    (h1 : 0 ≤ (initRegs fo sp).envLength1) (h2 : 0 ≤ (initRegs fo sp).envLength2) (N : Int)
    (c e : Int) (st : GenState F D R)
    (h : LoopHead fo rnd sp (initState fo rnd synth sp r) N c e st) : EnvOk st.regs := by
  refine LoopHead_inv fo rnd sp _ N (fun _ g => EnvOk g) ?_ ?_ c e st h
  · obtain ⟨pk, hr⟩ := initState_regs fo rnd synth sp r
    rw [hr]
    exact ⟨h1, h2, Or.inl rfl, le_refl _, h0⟩
  · intro c st g hP hg
    obtain ⟨rt, fp, p, fm, fs, fds, sd, ss, am, at', al, vp, hf⟩ :=
      stepControl_frame fo sp st.regs
    rw [hf] at hg
    have hk := (stepEnvelope_envOk fo sp _ g hg hP).1
    obtain ⟨ph, pk, w, dp, p', php, ip, hsf⟩ := superSample_frame fo rnd sp
      { st with regs := stepPhaser fo g }
    rw [hsf]
    exact hk

/-- C29: in exact arithmetic (where the three envelope lengths are never negative), in every
iteration of the sample loop in which the envelope volume is computed, the envelope stage `s`
is 0, 1 or 2, `envLength[s] > 0` and `0 <= envTime <= envLength[s]`; in stage 0 the volume
is `envTime/envLength[0]`, in stage 2 it is `1 - envTime/envLength[2]`, and both lie in
[0, 1]. -/
theorem envelope_division_safe (pw : ℚ → ℚ → ℚ) (sn : ℚ → ℚ) {R : Type}
    (rnd : RandomSource R) (synth : SfxSynth ℚ) (sp : SfxParams ℚ) (r : R) (c e : Int)
    (st : GenState ℚ ℚ R) (g : Regs ℚ ℚ)
    (hh : LoopHead (exactOps pw sn) rnd sp (initState (exactOps pw sn) rnd synth sp r)
      (synth.sampleRate * synth.maxDuration) c e st)
    (hg : stepEnvelope (exactOps pw sn) sp (stepControl (exactOps pw sn) sp st.regs).1
      = some g) :
    (0 ≤ g.envLength0 ∧ 0 ≤ g.envLength1 ∧ 0 ≤ g.envLength2) ∧
    (g.envStage = 0 ∨ g.envStage = 1 ∨ g.envStage = 2) ∧
    0 < g.envLength g.envStage ∧ 0 ≤ g.envTime ∧ g.envTime ≤ g.envLength g.envStage ∧
    (g.envStage = 0 → g.envVolume = (g.envTime : ℚ) / (g.envLength0 : ℚ) ∧
      0 ≤ g.envVolume ∧ g.envVolume ≤ 1) ∧
    (g.envStage = 2 → g.envVolume = 1 - (g.envTime : ℚ) / (g.envLength2 : ℚ) ∧
      0 ≤ g.envVolume ∧ g.envVolume ≤ 1) := by
  have hk := head_envOk (exactOps pw sn) rnd synth sp r (trunc_sq_nonneg _) (trunc_sq_nonneg _)
    (trunc_sq_nonneg _) _ c e st hh
  obtain ⟨rt, fp, p, fm, fs, fds, sd, ss, am, at', al, vp, hf⟩ :=
    stepControl_frame (exactOps pw sn) sp st.regs
  have hl0 : 0 ≤ st.regs.envLength0 := by
    refine LoopHead_inv (exactOps pw sn) rnd sp _ _ (fun _ g => 0 ≤ g.envLength0) ?_ ?_ c e st hh
    · obtain ⟨pk, hr⟩ := initState_regs (exactOps pw sn) rnd synth sp r
      rw [hr]
      exact trunc_sq_nonneg _
    · intro c st g hP hg
      obtain ⟨rt, fp, p, fm, fs, fds, sd, ss, am, at', al, vp, hf⟩ :=
        stepControl_frame (exactOps pw sn) sp st.regs
      rw [hf] at hg
      have hgf := stepEnvelope_frame (exactOps pw sn) sp _ g hg
      obtain ⟨ph, pk, w, dp, p', php, ip, hsf⟩ := superSample_frame (exactOps pw sn) rnd sp
        { st with regs := stepPhaser (exactOps pw sn) g }
      have : g.envLength0 = st.regs.envLength0 := by rw [hgf]
      rw [hsf]
      exact this ▸ hP
  rw [hf] at hg
  have hgf := stepEnvelope_frame (exactOps pw sn) sp _ g hg
  have e0 : g.envLength0 = st.regs.envLength0 := by rw [hgf]
  obtain ⟨⟨k1, k2, ks, kt0, kt⟩, kpos, v0, v2⟩ := stepEnvelope_envOk (exactOps pw sn) sp _ g hg hk
  refine ⟨⟨e0 ▸ hl0, k1, k2⟩, ks, kpos, kt0, kt, ?_, ?_⟩
  · intro h0
    have hv := v0 h0
    simp only [exactOps] at hv
    simp only [Regs.envLength, h0, if_true] at kpos kt
    have a1 : (0 : ℚ) < (g.envLength0 : ℚ) := by exact_mod_cast kpos
    have a2 : (0 : ℚ) ≤ (g.envTime : ℚ) := by exact_mod_cast kt0
    have a3 : (g.envTime : ℚ) ≤ (g.envLength0 : ℚ) := by exact_mod_cast kt
    rw [hv]
    exact ⟨rfl, div_nonneg a2 a1.le, (div_le_one a1).mpr a3⟩
  · intro h2
    have hv := v2 h2
    simp only [exactOps] at hv
    simp only [Regs.envLength, h2, OfNat.ofNat_ne_zero, OfNat.ofNat_ne_one, if_false]
      at kpos kt
    have a1 : (0 : ℚ) < (g.envLength2 : ℚ) := by exact_mod_cast kpos
    have a2 : (0 : ℚ) ≤ (g.envTime : ℚ) := by exact_mod_cast kt0
    have a3 : (g.envTime : ℚ) ≤ (g.envLength2 : ℚ) := by exact_mod_cast kt
    rw [hv]
    have b1 := div_nonneg a2 a1.le
    have b2 := (div_le_one a1).mpr a3
    exact ⟨rfl, by linarith, by linarith⟩

theorem envelope_division_safe_witness :
    ∃ g, stepEnvelope exactArith baseline
        (stepControl exactArith baseline
          (initState exactArith (constRandom 0) tinySynth baseline 0).regs).1 = some g ∧
      0 < g.envLength g.envStage :=
  (first_iteration_some powNat sinPoly (constRandom 0) tinySynth baseline 0
    (by rw [baseline_lengths.2.1]; decide)).elim fun g hg =>
    ⟨g, hg,
      (envelope_division_safe powNat sinPoly (constRandom 0) tinySynth baseline 0 0
        (tinySynth.sampleRate * tinySynth.maxDuration) _ g LoopHead.start hg).2.2.1⟩

/-! ## Wave synthesis: the table indices at every sub-sample -/

theorem cAnd_1023_eq_mod (x : Int) (h0 : 0 ≤ x) (h1 : x < 4294967296) :
    cAnd x 1023 = x % 1024 := by
  have e1 : ofInt32 x = x.toNat := by
    unfold ofInt32
    rw [Int.emod_eq_of_lt h0 h1]
  have e2 : ofInt32 1023 = 2 ^ 10 - 1 := by decide
  have e3 : x.toNat &&& (2 ^ 10 - 1) = x.toNat % 2 ^ 10 := Nat.and_pow_two_sub_one_eq_mod _ _
  have e4 : x.toNat % 2 ^ 10 < 1024 := Nat.mod_lt _ (by decide)
  unfold cAnd toInt32
  rw [e1, e2, e3, if_pos (by omega)]
  omega

theorem stepPhaser_iphase {F D : Type} (fo : FloatOps F D) (g : Regs F D) :
    0 ≤ (stepPhaser fo g).iphase ∧ (stepPhaser fo g).iphase ≤ 1023 := by
  unfold stepPhaser
  dsimp only
  split
  · omega
  · have := abs_nonneg (fo.toInt (fo.add g.fphase g.fdphase))
    omega

theorem subSample_index {F D R : Type} (fo : FloatOps F D) (rnd : RandomSource R)
    (sp : SfxParams F) (x : F × GenState F D R) (h0 : 0 ≤ x.2.regs.phase)
    (hq : 0 < x.2.regs.period) :
    0 ≤ (subSample fo rnd sp x).2.regs.phase ∧
    (subSample fo rnd sp x).2.regs.period = x.2.regs.period ∧
    (subSample fo rnd sp x).2.regs.iphase = x.2.regs.iphase ∧
    0 ≤ (subSample fo rnd sp x).2.regs.ipp ∧ (subSample fo rnd sp x).2.regs.ipp ≤ 1023 := by
  obtain ⟨p1, p2, p3⟩ := advancePhase_phase fo rnd sp x.2 h0 hq
  have e1 : (subSample fo rnd sp x).2.regs.phase = (advancePhase fo rnd sp x.2).regs.phase := rfl
  have e2 : (subSample fo rnd sp x).2.regs.period = (advancePhase fo rnd sp x.2).regs.period :=
    rfl
  have e3 : (subSample fo rnd sp x).2.regs.iphase = (advancePhase fo rnd sp x.2).regs.iphase :=
    rfl
  have e4 : (subSample fo rnd sp x).2.regs.ipp
      = cAnd ((advancePhase fo rnd sp x.2).regs.ipp + 1) 1023 := rfl
  have e5 : (advancePhase fo rnd sp x.2).regs.iphase = x.2.regs.iphase := by
    rw [advancePhase_frame]
  obtain ⟨b1, b2⟩ := cAnd_1023_bounds ((advancePhase fo rnd sp x.2).regs.ipp + 1)
  rw [e1, e2, e3, e4, e5, p1]
  exact ⟨p2, rfl, rfl, b1, by omega⟩

theorem subState_index {F D R : Type} (fo : FloatOps F D) (rnd : RandomSource R)
    (sp : SfxParams F) (st : GenState F D R) (h0 : 0 ≤ st.regs.phase) (hq : 0 < st.regs.period)
    (hi : 0 ≤ st.regs.ipp ∧ st.regs.ipp ≤ 1023) (k : Nat) :
    0 ≤ (subState fo rnd sp st k).2.regs.phase ∧
    (subState fo rnd sp st k).2.regs.period = st.regs.period ∧
    (subState fo rnd sp st k).2.regs.iphase = st.regs.iphase ∧
    0 ≤ (subState fo rnd sp st k).2.regs.ipp ∧ (subState fo rnd sp st k).2.regs.ipp ≤ 1023 := by
  induction k with
  | zero => exact ⟨h0, rfl, rfl, hi.1, hi.2⟩
  | succ k ih =>
    obtain ⟨i1, i2, i3, i4, i5⟩ := ih
    obtain ⟨s1, s2, s3, s4, s5⟩ := subSample_index fo rnd sp (subState fo rnd sp st k) i1
      (by rw [i2]; exact hq)
    rw [subState_succ]
    exact ⟨s1, s2.trans i2, s3.trans i3, s4, s5⟩

theorem head_index {F D R : Type} (fo : FloatOps F D) (rnd : RandomSource R)
    (synth : SfxSynth F) (sp : SfxParams F) (r : R) (N : Int) (c e : Int) (st : GenState F D R)
    (h : LoopHead fo rnd sp (initState fo rnd synth sp r) N c e st) :
    0 ≤ st.regs.phase ∧ 0 ≤ st.regs.ipp ∧ st.regs.ipp ≤ 1023 := by
  refine LoopHead_inv fo rnd sp _ N
    (fun _ g => 0 ≤ g.phase ∧ 0 ≤ g.ipp ∧ g.ipp ≤ 1023) ?_ ?_ c e st h
  · obtain ⟨pk, hr⟩ := initState_regs fo rnd synth sp r
    rw [hr]
    exact ⟨le_refl _, le_refl _, by show (0 : Int) ≤ 1023; decide⟩
  · intro c st g hP hg
    obtain ⟨c1, c2⟩ := stepControl_phase fo sp st.regs
    obtain ⟨e1, e2⟩ := stepEnvelope_phase fo sp _ g hg
    obtain ⟨rt, fp, p, fm, fs, fds, sd, ss, am, at', al, vp, hf⟩ :=
      stepControl_frame fo sp st.regs
    have hgf := stepEnvelope_frame fo sp _ g hg
    have q1 : g.ipp = st.regs.ipp := by rw [hgf, hf]
    obtain ⟨s1, _, _, s4, s5⟩ := subState_index fo rnd sp
      { st with regs := stepPhaser fo g }
      (by show 0 ≤ g.phase; rw [e1, c1]; exact hP.1)
      (by show 0 < g.period; rw [e2]; omega)
      (by show 0 ≤ g.ipp ∧ g.ipp ≤ 1023; rw [q1]; exact hP.2) 8
    rw [superSample_eq_subState]
    exact ⟨s1, s4, s5⟩

theorem trunc_le (b : Int) (y : ℚ) (hb : y ≤ (b : ℚ)) : trunc y ≤ b := by
  unfold trunc
  split
  · have : ((⌊y⌋ : Int) : ℚ) ≤ (b : ℚ) := le_trans (Int.floor_le y) hb
    exact_mod_cast this
  · exact Int.ceil_le.mpr hb

theorem resetSample_fmaxperiod (pw : ℚ → ℚ → ℚ) (sn : ℚ → ℚ) (sp : SfxParams ℚ)
    (g : Regs ℚ ℚ) : (resetSample (exactOps pw sn) sp g).fmaxperiod ≤ 100000 := by
  unfold resetSample
  dsimp only
  generalize minFreq (exactOps pw sn) sp = m
  simp only [exactOps]
  have h : (0 : ℚ) < m * m + 1 / 1000 := by
    have := mul_self_nonneg m
    linarith
  have e : (0.001 : ℚ) = 1 / 1000 := by norm_num
  rw [e, div_le_iff₀ h]
  have := mul_self_nonneg m
  linarith

theorem resetSample_vibrato {F D : Type} (fo : FloatOps F D) (sp : SfxParams F) (g : Regs F D) :
    (resetSample fo sp g).vibratoAmplitude = g.vibratoAmplitude := rfl

theorem stepRepeat_periodOk (pw : ℚ → ℚ → ℚ) (sn : ℚ → ℚ) (sp : SfxParams ℚ) (g : Regs ℚ ℚ)
    (h : PeriodOk g) : PeriodOk (stepRepeat (exactOps pw sn) sp g) := by
  unfold stepRepeat
  dsimp only
  split
  · exact ⟨resetSample_fmaxperiod pw sn sp _, h.2⟩
  · exact h

theorem stepControl_periodOk (pw : ℚ → ℚ → ℚ) (sn : ℚ → ℚ) (sp : SfxParams ℚ) (g : Regs ℚ ℚ)
    (hsn : ∀ x, -1 ≤ sn x ∧ sn x ≤ 1) (h : PeriodOk g) :
    PeriodOk (stepControl (exactOps pw sn) sp g).1 ∧
      (stepControl (exactOps pw sn) sp g).1.period ≤ 150000 := by
  have h2 := stepRepeat_periodOk pw sn sp g h
  unfold stepControl
  lift_lets
  intro g2 g3 g4 fslide fperiod0 over fperiod vib vibratoPhase rfperiod duty
  have h4 : PeriodOk g4 := by
    show PeriodOk (if _ then _ else _)
    split
    · exact h2
    · exact h2
  obtain ⟨a1, a2, a3⟩ := h4
  have hf : fperiod ≤ 100000 := by
    show (if over = true then g4.fmaxperiod else fperiod0) ≤ 100000
    split
    · exact a1
    · rename_i hn
      have : ¬ g4.fmaxperiod < fperiod0 := by
        intro hlt
        exact hn (by show decide (g4.fmaxperiod < fperiod0) = true; exact decide_eq_true hlt)
      linarith
  have hr : rfperiod ≤ 150000 := by
    show (if vib = true then
      fperiod * (1 + sn vibratoPhase * g4.vibratoAmplitude) else fperiod) ≤ 150000
    split
    · obtain ⟨s1, s2⟩ := hsn vibratoPhase
      have b1 : sn vibratoPhase * g4.vibratoAmplitude ≤ 1 / 2 := by nlinarith
      have b2 : -(1 / 2) ≤ sn vibratoPhase * g4.vibratoAmplitude := by nlinarith
      by_cases hp : 0 ≤ fperiod
      · nlinarith
      · nlinarith
    · linarith
  refine ⟨⟨a1, a2, a3⟩, ?_⟩
  show (if trunc rfperiod < 8 then 8 else trunc rfperiod) ≤ 150000
  split
  · decide
  · exact trunc_le 150000 rfperiod (by exact_mod_cast hr)

theorem head_periodOk {R : Type} (pw : ℚ → ℚ → ℚ) (sn : ℚ → ℚ) (rnd : RandomSource R)
    (synth : SfxSynth ℚ) (sp : SfxParams ℚ) (r : R) (N : Int) (c e : Int)
    (st : GenState ℚ ℚ R) (hv : 0 ≤ sp.vibratoDepth ∧ sp.vibratoDepth ≤ 1)
    (hsn : ∀ x, -1 ≤ sn x ∧ sn x ≤ 1)
    (h : LoopHead (exactOps pw sn) rnd sp (initState (exactOps pw sn) rnd synth sp r) N c e st) :
    PeriodOk st.regs := by
  refine LoopHead_inv (exactOps pw sn) rnd sp _ N (fun _ g => PeriodOk g) ?_ ?_ c e st h
  · obtain ⟨pk, hr⟩ := initState_regs (exactOps pw sn) rnd synth sp r
    rw [hr]
    refine ⟨?_, ?_, ?_⟩
    · show (initRegs (exactOps pw sn) sp).fmaxperiod ≤ 100000
      unfold initRegs
      exact resetSample_fmaxperiod pw sn sp _
    · show 0 ≤ sp.vibratoDepth * (0.5 : ℚ)
      nlinarith [hv.1]
    · show sp.vibratoDepth * (0.5 : ℚ) ≤ 1 / 2
      nlinarith [hv.2]
  · intro c st g hP hg
    obtain ⟨⟨p1, p2, p3⟩, _⟩ := stepControl_periodOk pw sn sp st.regs hsn hP
    have hgf := stepEnvelope_frame (exactOps pw sn) sp _ g hg
    obtain ⟨ph, pk, w, dp, p, php, ip, hx⟩ := superSample_frame (exactOps pw sn) rnd sp
      { st with regs := stepPhaser (exactOps pw sn) g }
    have q1 : g.fmaxperiod = (stepControl (exactOps pw sn) sp st.regs).1.fmaxperiod := by
      rw [hgf]
    have q2 : g.vibratoAmplitude
        = (stepControl (exactOps pw sn) sp st.regs).1.vibratoAmplitude := by
      rw [hgf]
    show PeriodOk (superSample (exactOps pw sn) rnd sp
      { st with regs := stepPhaser (exactOps pw sn) g }).2.regs
    rw [hx]
    show g.fmaxperiod ≤ 100000 ∧ 0 ≤ g.vibratoAmplitude ∧ g.vibratoAmplitude ≤ 1 / 2
    rw [q1, q2]
    exact ⟨p1, p2, p3⟩

theorem sinClamped_bounds (x : ℚ) : -1 ≤ sinClamped x ∧ sinClamped x ≤ 1 := by
  unfold sinClamped
  exact ⟨le_max_left _ _, max_le (by norm_num) (min_le_left _ _)⟩

theorem stepFilter_index {F D : Type} (fo : FloatOps F D) (sp : SfxParams F) (g : Regs F D)
    (s : F) :
    (stepFilter fo sp g s).ipp = g.ipp ∧ (stepFilter fo sp g s).iphase = g.iphase := by
  unfold stepFilter
  exact ⟨rfl, rfl⟩

/-- C28: at every head of the sample loop whose iteration passes the envelope, and at each pass
`k` of the supersampling loop, the locals `w` with which the waveform is evaluated (after
`phase++` and the wrap) satisfy `0 ≤ phase < period`; with `vibratoDepth` in `[0, 1]` and a
sine bounded by 1 the period is at most 150000, so `phase * 32` is below `2 ^ 31`, and the
noise index `phase * 32 / period` lies in `[0, 31]`.  The phaser delay `iphase` and the write
index `ipp` lie in `[0, 1023]` (so `ipp & 1023` is `ipp`), the low-pass step changes neither,
and the read index `(ipp - iphase + 1024) & 1023` equals `(ipp - iphase) mod 1024` and lies in
`[0, 1023]`. -/
theorem table_indices_in_bounds {R : Type} (pw : ℚ → ℚ → ℚ) (sn : ℚ → ℚ)
    (rnd : RandomSource R) (synth : SfxSynth ℚ) (sp : SfxParams ℚ) (r : R) (N : Int)
    (c e : Int) (st : GenState ℚ ℚ R) (g : Regs ℚ ℚ) (k : Nat)
    (hv : 0 ≤ sp.vibratoDepth ∧ sp.vibratoDepth ≤ 1)
    (hsn : ∀ x, -1 ≤ sn x ∧ sn x ≤ 1)
    (h : LoopHead (exactOps pw sn) rnd sp (initState (exactOps pw sn) rnd synth sp r) N c e st)
    (hg : stepEnvelope (exactOps pw sn) sp (stepControl (exactOps pw sn) sp st.regs).1
      = some g) :
    (0 ≤ (waveRegs (exactOps pw sn) rnd sp st g k).phase ∧
      (waveRegs (exactOps pw sn) rnd sp st g k).phase
        < (waveRegs (exactOps pw sn) rnd sp st g k).period) ∧
    ((waveRegs (exactOps pw sn) rnd sp st g k).period ≤ 150000 ∧
      (waveRegs (exactOps pw sn) rnd sp st g k).phase * 32 < 2147483648) ∧
    (0 ≤ Int.tdiv ((waveRegs (exactOps pw sn) rnd sp st g k).phase * 32)
        (waveRegs (exactOps pw sn) rnd sp st g k).period ∧
      Int.tdiv ((waveRegs (exactOps pw sn) rnd sp st g k).phase * 32)
        (waveRegs (exactOps pw sn) rnd sp st g k).period ≤ 31) ∧
    (0 ≤ (waveRegs (exactOps pw sn) rnd sp st g k).iphase ∧
      (waveRegs (exactOps pw sn) rnd sp st g k).iphase ≤ 1023) ∧
    (0 ≤ (waveRegs (exactOps pw sn) rnd sp st g k).ipp ∧
      (waveRegs (exactOps pw sn) rnd sp st g k).ipp ≤ 1023 ∧
      cAnd (waveRegs (exactOps pw sn) rnd sp st g k).ipp 1023
        = (waveRegs (exactOps pw sn) rnd sp st g k).ipp) ∧
    (cAnd ((waveRegs (exactOps pw sn) rnd sp st g k).ipp
          - (waveRegs (exactOps pw sn) rnd sp st g k).iphase + 1024) 1023
        = ((waveRegs (exactOps pw sn) rnd sp st g k).ipp
          - (waveRegs (exactOps pw sn) rnd sp st g k).iphase) % 1024 ∧
      0 ≤ cAnd ((waveRegs (exactOps pw sn) rnd sp st g k).ipp
          - (waveRegs (exactOps pw sn) rnd sp st g k).iphase + 1024) 1023 ∧
      cAnd ((waveRegs (exactOps pw sn) rnd sp st g k).ipp
          - (waveRegs (exactOps pw sn) rnd sp st g k).iphase + 1024) 1023 ≤ 1023) ∧
    ∀ s, (stepFilter (exactOps pw sn) sp (waveRegs (exactOps pw sn) rnd sp st g k) s).ipp
          = (waveRegs (exactOps pw sn) rnd sp st g k).ipp ∧
        (stepFilter (exactOps pw sn) sp (waveRegs (exactOps pw sn) rnd sp st g k) s).iphase
          = (waveRegs (exactOps pw sn) rnd sp st g k).iphase := by
  obtain ⟨i1, i2, i3⟩ := head_index (exactOps pw sn) rnd synth sp r N c e st h
  have hP := head_periodOk pw sn rnd synth sp r N c e st hv hsn h
  obtain ⟨_, hp⟩ := stepControl_periodOk pw sn sp st.regs hsn hP
  obtain ⟨c1, c2⟩ := stepControl_phase (exactOps pw sn) sp st.regs
  obtain ⟨e1, e2⟩ := stepEnvelope_phase (exactOps pw sn) sp _ g hg
  obtain ⟨rt, fp, p, fm, fs, fds, sd, ss, am, at', al, vp, hf⟩ :=
    stepControl_frame (exactOps pw sn) sp st.regs
  have hgf := stepEnvelope_frame (exactOps pw sn) sp _ g hg
  have q1 : g.ipp = st.regs.ipp := by rw [hgf, hf]
  obtain ⟨s1, s2, s3, s4, s5⟩ := subState_index (exactOps pw sn) rnd sp
    { st with regs := stepPhaser (exactOps pw sn) g }
    (by show 0 ≤ g.phase; rw [e1, c1]; exact i1)
    (by show 0 < g.period; rw [e2]; omega)
    (by show 0 ≤ g.ipp ∧ g.ipp ≤ 1023; rw [q1]; exact ⟨i2, i3⟩) k
  have s2' : (subState (exactOps pw sn) rnd sp
      { st with regs := stepPhaser (exactOps pw sn) g } k).2.regs.period = g.period := s2
  have s3' : (subState (exactOps pw sn) rnd sp
      { st with regs := stepPhaser (exactOps pw sn) g } k).2.regs.iphase
      = (stepPhaser (exactOps pw sn) g).iphase := s3
  obtain ⟨a1, a2, a3⟩ := advancePhase_phase (exactOps pw sn) rnd sp
    (subState (exactOps pw sn) rnd sp { st with regs := stepPhaser (exactOps pw sn) g } k).2 s1
    (by rw [s2', e2]; omega)
  have w1 : (waveRegs (exactOps pw sn) rnd sp st g k).period = g.period := by
    unfold waveRegs
    rw [a1, s2']
  have w2 : (waveRegs (exactOps pw sn) rnd sp st g k).iphase
      = (stepPhaser (exactOps pw sn) g).iphase := by
    unfold waveRegs
    rw [advancePhase_frame]
    exact s3'
  have w3 : (waveRegs (exactOps pw sn) rnd sp st g k).ipp
      = (subState (exactOps pw sn) rnd sp
        { st with regs := stepPhaser (exactOps pw sn) g } k).2.regs.ipp := by
    unfold waveRegs
    rw [advancePhase_frame]
  have w4 : 0 ≤ (waveRegs (exactOps pw sn) rnd sp st g k).phase := a2
  have w5 : (waveRegs (exactOps pw sn) rnd sp st g k).phase
      < (waveRegs (exactOps pw sn) rnd sp st g k).period := by
    rw [w1, ← s2']
    exact a3
  have w6 : (waveRegs (exactOps pw sn) rnd sp st g k).period ≤ 150000 := by
    rw [w1, e2]
    exact hp
  obtain ⟨n1, n2⟩ := noise_index_bounds _ _ w4 w5
  obtain ⟨f1, f2⟩ := stepPhaser_iphase (exactOps pw sn) g
  rw [← w2] at f1 f2
  rw [← w3] at s4 s5
  have m1 := cAnd_1023_eq_mod (waveRegs (exactOps pw sn) rnd sp st g k).ipp s4 (by omega)
  have m2 := cAnd_1023_eq_mod ((waveRegs (exactOps pw sn) rnd sp st g k).ipp
    - (waveRegs (exactOps pw sn) rnd sp st g k).iphase + 1024) (by omega) (by omega)
  refine ⟨⟨w4, w5⟩, ⟨w6, by omega⟩, ⟨n1, by omega⟩, ⟨f1, f2⟩, ⟨s4, s5, ?_⟩, ⟨?_, ?_, ?_⟩, ?_⟩
  · rw [m1]; omega
  · rw [m2]; omega
  · rw [m2]; omega
  · rw [m2]; omega
  · intro s
    exact stepFilter_index (exactOps pw sn) sp _ s

theorem table_indices_in_bounds_witness :
    ∃ g, stepEnvelope (exactOps powNat sinClamped) baseline
        (stepControl (exactOps powNat sinClamped) baseline
          (initState (exactOps powNat sinClamped) (constRandom 0) tinySynth baseline 0).regs).1
          = some g ∧
      (waveRegs (exactOps powNat sinClamped) (constRandom 0) baseline
        (initState (exactOps powNat sinClamped) (constRandom 0) tinySynth baseline 0)
          g 0).period ≤ 150000 := by
  obtain ⟨g, hg⟩ := first_iteration_some powNat sinClamped (constRandom 0) tinySynth baseline 0
    (by rw [baseline_lengths.2.1]; decide)
  exact ⟨g, hg,
    (table_indices_in_bounds powNat sinClamped (constRandom 0) tinySynth baseline 0
      (tinySynth.sampleRate * tinySynth.maxDuration) 0 _ _ g 0
      ⟨by simp [baseline, sfx_resetParams, exactArith, exactOps],
       by simp [baseline, sfx_resetParams, exactArith, exactOps]⟩
      sinClamped_bounds LoopHead.start hg).2.1.1⟩

/-! ## Parameter generators: the ranges of the archetypes -/

theorem inClampRange_of (sp : SfxParams ℚ)
    (h : (0 ≤ sp.attackTime ∧ sp.attackTime ≤ 1) ∧ (0 ≤ sp.sustainTime ∧ sp.sustainTime ≤ 1) ∧
      (0 ≤ sp.sustainPunch ∧ sp.sustainPunch ≤ 1) ∧ (0 ≤ sp.decayTime ∧ sp.decayTime ≤ 1) ∧
      (0 ≤ sp.startFrequency ∧ sp.startFrequency ≤ 1) ∧
      (0 ≤ sp.minFrequency ∧ sp.minFrequency ≤ 1) ∧
      (-1 ≤ sp.slide ∧ sp.slide ≤ 1) ∧ (-1 ≤ sp.deltaSlide ∧ sp.deltaSlide ≤ 1) ∧
      (0 ≤ sp.vibratoDepth ∧ sp.vibratoDepth ≤ 1) ∧
      (0 ≤ sp.vibratoSpeed ∧ sp.vibratoSpeed ≤ 1) ∧
      (-1 ≤ sp.changeAmount ∧ sp.changeAmount ≤ 1) ∧
      (0 ≤ sp.changeSpeed ∧ sp.changeSpeed ≤ 1) ∧
      (0 ≤ sp.squareDuty ∧ sp.squareDuty ≤ 1) ∧ (-1 ≤ sp.dutySweep ∧ sp.dutySweep ≤ 1) ∧
      (0 ≤ sp.repeatSpeed ∧ sp.repeatSpeed ≤ 1) ∧
      (-1 ≤ sp.phaserOffset ∧ sp.phaserOffset ≤ 1) ∧
      (-1 ≤ sp.phaserSweep ∧ sp.phaserSweep ≤ 1) ∧
      (0 ≤ sp.lpfCutoff ∧ sp.lpfCutoff ≤ 1) ∧
      (-1 ≤ sp.lpfCutoffSweep ∧ sp.lpfCutoffSweep ≤ 1) ∧
      (0 ≤ sp.lpfResonance ∧ sp.lpfResonance ≤ 1) ∧
      (0 ≤ sp.hpfCutoff ∧ sp.hpfCutoff ≤ 1) ∧
      (-1 ≤ sp.hpfCutoffSweep ∧ sp.hpfCutoffSweep ≤ 1)) :
    InClampRange sp := by
  obtain ⟨h0, h1, h2, h3, h4, h5, h6, h7, h8, h9, h10, h11, h12, h13, h14, h15, h16, h17, h18,
    h19, h20, h21⟩ := h
  intro i x hx
  have hi : i < 22 := by
    by_contra hc
    have : sp.floats[i]? = none := List.getElem?_eq_none (by
      have : sp.floats.length = 22 := rfl
      omega)
    rw [this] at hx
    cases hx
  interval_cases i <;>
    simp only [SfxParams.floats, List.getElem?_cons_zero, List.getElem?_cons_succ,
      Option.some.injEq] at hx <;>
    subst hx <;>
    simp only [lowBound, signedFields] <;>
    norm_num <;>
    assumption

theorem range_add (lo c r x : ℚ) (h0 : 0 ≤ x) (h1 : x ≤ r) (a : lo ≤ c) (b : c + r ≤ 1) :
    lo ≤ c + x ∧ c + x ≤ 1 := ⟨by linarith, by linarith⟩

theorem range_add_right (lo c r x : ℚ) (h0 : 0 ≤ x) (h1 : x ≤ r) (a : lo ≤ c) (b : c + r ≤ 1) :
    lo ≤ x + c ∧ x + c ≤ 1 := ⟨by linarith, by linarith⟩

theorem range_sub (lo c r x : ℚ) (h0 : 0 ≤ x) (h1 : x ≤ r) (a : lo ≤ c - r) (b : c ≤ 1) :
    lo ≤ c - x ∧ c - x ≤ 1 := ⟨by linarith, by linarith⟩

theorem range_neg (lo r x : ℚ) (h0 : 0 ≤ x) (h1 : x ≤ r) (a : lo ≤ -r) :
    lo ≤ -x ∧ -x ≤ 1 := ⟨by linarith, by linarith⟩

theorem range_var (lo r x : ℚ) (h0 : 0 ≤ x) (h1 : x ≤ r) (a : lo ≤ 0) (b : r ≤ 1) :
    lo ≤ x ∧ x ≤ 1 := ⟨by linarith, by linarith⟩


set_option linter.unreachableTactic false in
set_option linter.unusedTactic false in
set_option maxHeartbeats 1000000 in
theorem sfx_genPickupCoin_range (pw : ℚ → ℚ → ℚ) (sn : ℚ → ℚ) {R : Type}
    (rnd : RandomSource R) (h : rnd.InRange) (sp : SfxParams ℚ) (r : R) :
    InArchetypeRange (sfx_genPickupCoin (exactOps pw sn) rnd sp r).1 := by
  unfold sfx_genPickupCoin
  lift_lets
  intro sp0 d1 d2 d3 d4 sp1 c1 e1 e2
  obtain ⟨_, _⟩ : 0 ≤ d1.1 ∧ d1.1 ≤ 0.5 := frnd_bounds pw sn rnd h (0.5) (by norm_num) _
  obtain ⟨_, _⟩ : 0 ≤ d2.1 ∧ d2.1 ≤ 0.1 := frnd_bounds pw sn rnd h (0.1) (by norm_num) _
  obtain ⟨_, _⟩ : 0 ≤ d3.1 ∧ d3.1 ≤ 0.4 := frnd_bounds pw sn rnd h (0.4) (by norm_num) _
  obtain ⟨_, _⟩ : 0 ≤ d4.1 ∧ d4.1 ≤ 0.3 := frnd_bounds pw sn rnd h (0.3) (by norm_num) _
  obtain ⟨_, _⟩ : 0 ≤ e1.1 ∧ e1.1 ≤ 0.2 := frnd_bounds pw sn rnd h (0.2) (by norm_num) _
  obtain ⟨_, _⟩ : 0 ≤ e2.1 ∧ e2.1 ≤ 0.4 := frnd_bounds pw sn rnd h (0.4) (by norm_num) _
  clear_value e2 e1 c1 d4 d3 d2 d1
  refine ⟨?_, inClampRange_of _ ?_, ?_⟩
  · simp only [sp1, sp0, sfx_resetParams, SFX_SQUARE, SFX_SAWTOOTH, SFX_SINE, SFX_NOISE]
    norm_num
  · simp only [sp1, sp0, sfx_resetParams, exactOps, decide_eq_true_eq]
    refine ⟨?_, ?_, ?_, ?_, ?_, ?_, ?_, ?_, ?_, ?_, ?_, ?_, ?_, ?_, ?_, ?_, ?_, ?_, ?_, ?_, ?_,
      ?_⟩
    all_goals (try split_ifs) <;>
      first
      | (with_reducible apply range_add
         with_reducible assumption
         with_reducible assumption
         norm_num
         norm_num
         done)
      | (with_reducible apply range_add_right
         with_reducible assumption
         with_reducible assumption
         norm_num
         norm_num
         done)
      | (with_reducible apply range_sub
         with_reducible assumption
         with_reducible assumption
         norm_num
         norm_num
         done)
      | (with_reducible apply range_neg
         with_reducible assumption
         with_reducible assumption
         norm_num
         done)
      | (with_reducible apply range_var
         with_reducible assumption
         with_reducible assumption
         norm_num
         norm_num
         done)
      | (constructor <;> (norm_num; done))
      | (constructor <;> linarith)
  · simp only [sp1, sp0, sfx_resetParams, exactOps, decide_eq_true_eq]
    (try split_ifs) <;> linarith

set_option linter.unreachableTactic false in
set_option linter.unusedTactic false in
set_option maxHeartbeats 1000000 in
theorem sfx_genLaserShoot_range (pw : ℚ → ℚ → ℚ) (sn : ℚ → ℚ) {R : Type}
    (rnd : RandomSource R) (h : rnd.InRange) (sp : SfxParams ℚ) (r : R) :
    InArchetypeRange (sfx_genLaserShoot (exactOps pw sn) rnd sp r).1 := by
  unfold sfx_genLaserShoot
  lift_lets
  intro sp0 w1 w2 w3 r1 d1 d2 d3 sp1 c1 e1 e2 e3 r2 sp2 c2 t1 t2 f2 r3 d4 d5 sp3 c3 g1 r4 c4 h1 h2 r5
    c5 k1
  obtain ⟨_, _⟩ : 0 ≤ d1.1 ∧ d1.1 ≤ 0.5 := frnd_bounds pw sn rnd h (0.5) (by norm_num) _
  obtain ⟨_, _⟩ : 0 ≤ d2.1 ∧ d2.1 ≤ 0.6 := frnd_bounds pw sn rnd h (0.6) (by norm_num) _
  obtain ⟨_, _⟩ : 0 ≤ d3.1 ∧ d3.1 ≤ 0.2 := frnd_bounds pw sn rnd h (0.2) (by norm_num) _
  obtain ⟨_, _⟩ : 0 ≤ e1.1 ∧ e1.1 ≤ 0.6 := frnd_bounds pw sn rnd h (0.6) (by norm_num) _
  obtain ⟨_, _⟩ : 0 ≤ e2.1 ∧ e2.1 ≤ 0.1 := frnd_bounds pw sn rnd h (0.1) (by norm_num) _
  obtain ⟨_, _⟩ : 0 ≤ e3.1 ∧ e3.1 ≤ 0.3 := frnd_bounds pw sn rnd h (0.3) (by norm_num) _
  obtain ⟨_, _⟩ : 0 ≤ t1.1 ∧ t1.1 ≤ 0.5 := frnd_bounds pw sn rnd h (0.5) (by norm_num) _
  obtain ⟨_, _⟩ : 0 ≤ t2.1 ∧ t2.1 ≤ 0.2 := frnd_bounds pw sn rnd h (0.2) (by norm_num) _
  obtain ⟨_, _⟩ : 0 ≤ f2.1 ∧ f2.1 ≤ 0.7 := frnd_bounds pw sn rnd h (0.7) (by norm_num) _
  obtain ⟨_, _⟩ : 0 ≤ d4.1 ∧ d4.1 ≤ 0.2 := frnd_bounds pw sn rnd h (0.2) (by norm_num) _
  obtain ⟨_, _⟩ : 0 ≤ d5.1 ∧ d5.1 ≤ 0.4 := frnd_bounds pw sn rnd h (0.4) (by norm_num) _
  obtain ⟨_, _⟩ : 0 ≤ g1.1 ∧ g1.1 ≤ 0.3 := frnd_bounds pw sn rnd h (0.3) (by norm_num) _
  obtain ⟨_, _⟩ : 0 ≤ h1.1 ∧ h1.1 ≤ 0.2 := frnd_bounds pw sn rnd h (0.2) (by norm_num) _
  obtain ⟨_, _⟩ : 0 ≤ h2.1 ∧ h2.1 ≤ 0.2 := frnd_bounds pw sn rnd h (0.2) (by norm_num) _
  obtain ⟨_, _⟩ : 0 ≤ k1.1 ∧ k1.1 ≤ 0.3 := frnd_bounds pw sn rnd h (0.3) (by norm_num) _
  obtain ⟨_, _⟩ : 0 ≤ w1.1 ∧ w1.1 < 3 := h 3 _ (by norm_num)
  obtain ⟨_, _⟩ : 0 ≤ w3.1 ∧ w3.1 < 2 := h 2 _ (by norm_num)
  clear_value k1 c5 r5 h2 h1 c4 r4 g1 c3 d5 d4 r3 f2 t2 t1 c2 r2 e3 e2 e1 c1 d3 d2 d1 r1 w3 w2 w1
  refine ⟨?_, inClampRange_of _ ?_, ?_⟩
  · simp only [sp3, sp2, sp1, sp0, sfx_resetParams, SFX_SQUARE, SFX_SAWTOOTH, SFX_SINE, SFX_NOISE]
    split_ifs <;> omega
  · simp only [sp3, sp2, sp1, sp0, sfx_resetParams, exactOps, decide_eq_true_eq]
    refine ⟨?_, ?_, ?_, ?_, ?_, ?_, ?_, ?_, ?_, ?_, ?_, ?_, ?_, ?_, ?_, ?_, ?_, ?_, ?_, ?_, ?_,
      ?_⟩
    all_goals (try split_ifs) <;>
      first
      | (with_reducible apply range_add
         with_reducible assumption
         with_reducible assumption
         norm_num
         norm_num
         done)
      | (with_reducible apply range_add_right
         with_reducible assumption
         with_reducible assumption
         norm_num
         norm_num
         done)
      | (with_reducible apply range_sub
         with_reducible assumption
         with_reducible assumption
         norm_num
         norm_num
         done)
      | (with_reducible apply range_neg
         with_reducible assumption
         with_reducible assumption
         norm_num
         done)
      | (with_reducible apply range_var
         with_reducible assumption
         with_reducible assumption
         norm_num
         norm_num
         done)
      | (constructor <;> (norm_num; done))
      | (constructor <;> linarith)
  · simp only [sp3, sp2, sp1, sp0, sfx_resetParams, exactOps, decide_eq_true_eq]
    (try split_ifs) <;> linarith

set_option linter.unreachableTactic false in
set_option linter.unusedTactic false in
set_option maxHeartbeats 1000000 in
theorem sfx_genExplosion_range (pw : ℚ → ℚ → ℚ) (sn : ℚ → ℚ) {R : Type}
    (rnd : RandomSource R) (h : rnd.InRange) (sp : SfxParams ℚ) (r : R) :
    InArchetypeRange (sfx_genExplosion (exactOps pw sn) rnd sp r).1 := by
  unfold sfx_genExplosion
  lift_lets
  intro sp0 c1 t1 t2 f1 f2 r1 sp1 c2 c3 g1 r2 d1 d2 sp2 c4 h1 h2 r3 d3 c5 k1 k2 r4 c6 m1 m2
  obtain ⟨_, _⟩ : 0 ≤ t1.1 ∧ t1.1 ≤ 0.4 := frnd_bounds pw sn rnd h (0.4) (by norm_num) _
  obtain ⟨_, _⟩ : 0 ≤ t2.1 ∧ t2.1 ≤ 0.4 := frnd_bounds pw sn rnd h (0.4) (by norm_num) _
  obtain ⟨_, _⟩ : 0 ≤ f1.1 ∧ f1.1 ≤ 0.7 := frnd_bounds pw sn rnd h (0.7) (by norm_num) _
  obtain ⟨_, _⟩ : 0 ≤ f2.1 ∧ f2.1 ≤ 0.2 := frnd_bounds pw sn rnd h (0.2) (by norm_num) _
  obtain ⟨_, _⟩ : 0 ≤ g1.1 ∧ g1.1 ≤ 0.5 := frnd_bounds pw sn rnd h (0.5) (by norm_num) _
  obtain ⟨_, _⟩ : 0 ≤ d1.1 ∧ d1.1 ≤ 0.3 := frnd_bounds pw sn rnd h (0.3) (by norm_num) _
  obtain ⟨_, _⟩ : 0 ≤ d2.1 ∧ d2.1 ≤ 0.5 := frnd_bounds pw sn rnd h (0.5) (by norm_num) _
  obtain ⟨_, _⟩ : 0 ≤ h1.1 ∧ h1.1 ≤ 0.9 := frnd_bounds pw sn rnd h (0.9) (by norm_num) _
  obtain ⟨_, _⟩ : 0 ≤ h2.1 ∧ h2.1 ≤ 0.3 := frnd_bounds pw sn rnd h (0.3) (by norm_num) _
  obtain ⟨_, _⟩ : 0 ≤ d3.1 ∧ d3.1 ≤ 0.6 := frnd_bounds pw sn rnd h (0.6) (by norm_num) _
  obtain ⟨_, _⟩ : 0 ≤ k1.1 ∧ k1.1 ≤ 0.7 := frnd_bounds pw sn rnd h (0.7) (by norm_num) _
  obtain ⟨_, _⟩ : 0 ≤ k2.1 ∧ k2.1 ≤ 0.6 := frnd_bounds pw sn rnd h (0.6) (by norm_num) _
  obtain ⟨_, _⟩ : 0 ≤ m1.1 ∧ m1.1 ≤ 0.3 := frnd_bounds pw sn rnd h (0.3) (by norm_num) _
  obtain ⟨_, _⟩ : 0 ≤ m2.1 ∧ m2.1 ≤ 1.6 := frnd_bounds pw sn rnd h (1.6) (by norm_num) _
  clear_value m2 m1 c6 r4 k2 k1 c5 d3 r3 h2 h1 c4 d2 d1 r2 g1 c3 c2 r1 f2 f1 t2 t1 c1
  refine ⟨?_, inClampRange_of _ ?_, ?_⟩
  · simp only [sp2, sp1, sp0, sfx_resetParams, SFX_SQUARE, SFX_SAWTOOTH, SFX_SINE, SFX_NOISE]
    norm_num
  · simp only [sp2, sp1, sp0, sfx_resetParams, exactOps, decide_eq_true_eq]
    refine ⟨?_, ?_, ?_, ?_, ?_, ?_, ?_, ?_, ?_, ?_, ?_, ?_, ?_, ?_, ?_, ?_, ?_, ?_, ?_, ?_, ?_,
      ?_⟩
    all_goals (try split_ifs) <;>
      first
      | (with_reducible apply range_add
         with_reducible assumption
         with_reducible assumption
         norm_num
         norm_num
         done)
      | (with_reducible apply range_add_right
         with_reducible assumption
         with_reducible assumption
         norm_num
         norm_num
         done)
      | (with_reducible apply range_sub
         with_reducible assumption
         with_reducible assumption
         norm_num
         norm_num
         done)
      | (with_reducible apply range_neg
         with_reducible assumption
         with_reducible assumption
         norm_num
         done)
      | (with_reducible apply range_var
         with_reducible assumption
         with_reducible assumption
         norm_num
         norm_num
         done)
      | (constructor <;> (norm_num; done))
      | (constructor <;> first | linarith | nlinarith)
  · simp only [sp2, sp1, sp0, sfx_resetParams, exactOps, decide_eq_true_eq]
    (try split_ifs) <;> first | linarith | nlinarith

set_option linter.unreachableTactic false in
set_option linter.unusedTactic false in
set_option maxHeartbeats 1000000 in
theorem sfx_genPowerup_range (pw : ℚ → ℚ → ℚ) (sn : ℚ → ℚ) {R : Type}
    (rnd : RandomSource R) (h : rnd.InRange) (sp : SfxParams ℚ) (r : R) :
    InArchetypeRange (sfx_genPowerup (exactOps pw sn) rnd sp r).1 := by
  unfold sfx_genPowerup
  lift_lets
  intro sp0 c1 f1 r1 c2 t1 t2 t3 g2 c3 k1 k2 r2 d1 d2
  obtain ⟨_, _⟩ : 0 ≤ f1.1 ∧ f1.1 ≤ 0.6 := frnd_bounds pw sn rnd h (0.6) (by norm_num) _
  obtain ⟨_, _⟩ : 0 ≤ t1.1 ∧ t1.1 ≤ 0.3 := frnd_bounds pw sn rnd h (0.3) (by norm_num) _
  obtain ⟨_, _⟩ : 0 ≤ t2.1 ∧ t2.1 ≤ 0.4 := frnd_bounds pw sn rnd h (0.4) (by norm_num) _
  obtain ⟨_, _⟩ : 0 ≤ t3.1 ∧ t3.1 ≤ 0.4 := frnd_bounds pw sn rnd h (0.4) (by norm_num) _
  obtain ⟨_, _⟩ : 0 ≤ g2.1 ∧ g2.1 ≤ 0.2 := frnd_bounds pw sn rnd h (0.2) (by norm_num) _
  obtain ⟨_, _⟩ : 0 ≤ k1.1 ∧ k1.1 ≤ 0.7 := frnd_bounds pw sn rnd h (0.7) (by norm_num) _
  obtain ⟨_, _⟩ : 0 ≤ k2.1 ∧ k2.1 ≤ 0.6 := frnd_bounds pw sn rnd h (0.6) (by norm_num) _
  obtain ⟨_, _⟩ : 0 ≤ d1.1 ∧ d1.1 ≤ 0.4 := frnd_bounds pw sn rnd h (0.4) (by norm_num) _
  obtain ⟨_, _⟩ : 0 ≤ d2.1 ∧ d2.1 ≤ 0.4 := frnd_bounds pw sn rnd h (0.4) (by norm_num) _
  clear_value d2 d1 r2 k2 k1 c3 g2 t3 t2 t1 c2 r1 f1 c1
  refine ⟨?_, inClampRange_of _ ?_, ?_⟩
  · simp only [sp0, sfx_resetParams, SFX_SQUARE, SFX_SAWTOOTH, SFX_SINE, SFX_NOISE]
    split_ifs <;> norm_num
  · simp only [sp0, sfx_resetParams, exactOps, decide_eq_true_eq]
    refine ⟨?_, ?_, ?_, ?_, ?_, ?_, ?_, ?_, ?_, ?_, ?_, ?_, ?_, ?_, ?_, ?_, ?_, ?_, ?_, ?_, ?_,
      ?_⟩
    all_goals (try split_ifs) <;>
      first
      | (with_reducible apply range_add
         with_reducible assumption
         with_reducible assumption
         norm_num
         norm_num
         done)
      | (with_reducible apply range_add_right
         with_reducible assumption
         with_reducible assumption
         norm_num
         norm_num
         done)
      | (with_reducible apply range_sub
         with_reducible assumption
         with_reducible assumption
         norm_num
         norm_num
         done)
      | (with_reducible apply range_neg
         with_reducible assumption
         with_reducible assumption
         norm_num
         done)
      | (with_reducible apply range_var
         with_reducible assumption
         with_reducible assumption
         norm_num
         norm_num
         done)
      | (constructor <;> (norm_num; done))
      | (constructor <;> linarith)
  · simp only [sp0, sfx_resetParams, exactOps, decide_eq_true_eq]
    (try split_ifs) <;> linarith

set_option linter.unreachableTactic false in
set_option linter.unusedTactic false in
set_option maxHeartbeats 1000000 in
theorem sfx_genHitHurt_range (pw : ℚ → ℚ → ℚ) (sn : ℚ → ℚ) {R : Type}
    (rnd : RandomSource R) (h : rnd.InRange) (sp : SfxParams ℚ) (r : R) :
    InArchetypeRange (sfx_genHitHurt (exactOps pw sn) rnd sp r).1 := by
  unfold sfx_genHitHurt
  lift_lets
  intro sp0 w f1 r1 d1 d2 d3 d4 c k1
  obtain ⟨_, _⟩ : 0 ≤ f1.1 ∧ f1.1 ≤ 0.6 := frnd_bounds pw sn rnd h (0.6) (by norm_num) _
  obtain ⟨_, _⟩ : 0 ≤ d1.1 ∧ d1.1 ≤ 0.6 := frnd_bounds pw sn rnd h (0.6) (by norm_num) _
  obtain ⟨_, _⟩ : 0 ≤ d2.1 ∧ d2.1 ≤ 0.4 := frnd_bounds pw sn rnd h (0.4) (by norm_num) _
  obtain ⟨_, _⟩ : 0 ≤ d3.1 ∧ d3.1 ≤ 0.1 := frnd_bounds pw sn rnd h (0.1) (by norm_num) _
  obtain ⟨_, _⟩ : 0 ≤ d4.1 ∧ d4.1 ≤ 0.2 := frnd_bounds pw sn rnd h (0.2) (by norm_num) _
  obtain ⟨_, _⟩ : 0 ≤ k1.1 ∧ k1.1 ≤ 0.3 := frnd_bounds pw sn rnd h (0.3) (by norm_num) _
  obtain ⟨_, _⟩ : 0 ≤ w.1 ∧ w.1 < 3 := h 3 _ (by norm_num)
  clear_value k1 c d4 d3 d2 d1 r1 f1 w
  refine ⟨?_, inClampRange_of _ ?_, ?_⟩
  · simp only [sp0, sfx_resetParams, SFX_SQUARE, SFX_SAWTOOTH, SFX_SINE, SFX_NOISE]
    split_ifs <;> omega
  · simp only [sp0, sfx_resetParams, exactOps, decide_eq_true_eq]
    refine ⟨?_, ?_, ?_, ?_, ?_, ?_, ?_, ?_, ?_, ?_, ?_, ?_, ?_, ?_, ?_, ?_, ?_, ?_, ?_, ?_, ?_,
      ?_⟩
    all_goals (try split_ifs) <;>
      first
      | (with_reducible apply range_add
         with_reducible assumption
         with_reducible assumption
         norm_num
         norm_num
         done)
      | (with_reducible apply range_add_right
         with_reducible assumption
         with_reducible assumption
         norm_num
         norm_num
         done)
      | (with_reducible apply range_sub
         with_reducible assumption
         with_reducible assumption
         norm_num
         norm_num
         done)
      | (with_reducible apply range_neg
         with_reducible assumption
         with_reducible assumption
         norm_num
         done)
      | (with_reducible apply range_var
         with_reducible assumption
         with_reducible assumption
         norm_num
         norm_num
         done)
      | (constructor <;> (norm_num; done))
      | (constructor <;> linarith)
  · simp only [sp0, sfx_resetParams, exactOps, decide_eq_true_eq]
    (try split_ifs) <;> linarith

set_option linter.unreachableTactic false in
set_option linter.unusedTactic false in
set_option maxHeartbeats 1000000 in
theorem sfx_genJump_range (pw : ℚ → ℚ → ℚ) (sn : ℚ → ℚ) {R : Type}
    (rnd : RandomSource R) (h : rnd.InRange) (sp : SfxParams ℚ) (r : R) :
    InArchetypeRange (sfx_genJump (exactOps pw sn) rnd sp r).1 := by
  unfold sfx_genJump
  lift_lets
  intro sp0 d1 d2 d3 d4 d5 c1 k1 r1 c2 k2
  obtain ⟨_, _⟩ : 0 ≤ d1.1 ∧ d1.1 ≤ 0.6 := frnd_bounds pw sn rnd h (0.6) (by norm_num) _
  obtain ⟨_, _⟩ : 0 ≤ d2.1 ∧ d2.1 ≤ 0.3 := frnd_bounds pw sn rnd h (0.3) (by norm_num) _
  obtain ⟨_, _⟩ : 0 ≤ d3.1 ∧ d3.1 ≤ 0.2 := frnd_bounds pw sn rnd h (0.2) (by norm_num) _
  obtain ⟨_, _⟩ : 0 ≤ d4.1 ∧ d4.1 ≤ 0.3 := frnd_bounds pw sn rnd h (0.3) (by norm_num) _
  obtain ⟨_, _⟩ : 0 ≤ d5.1 ∧ d5.1 ≤ 0.2 := frnd_bounds pw sn rnd h (0.2) (by norm_num) _
  obtain ⟨_, _⟩ : 0 ≤ k1.1 ∧ k1.1 ≤ 0.3 := frnd_bounds pw sn rnd h (0.3) (by norm_num) _
  obtain ⟨_, _⟩ : 0 ≤ k2.1 ∧ k2.1 ≤ 0.6 := frnd_bounds pw sn rnd h (0.6) (by norm_num) _
  clear_value k2 c2 r1 k1 c1 d5 d4 d3 d2 d1
  refine ⟨?_, inClampRange_of _ ?_, ?_⟩
  · simp only [sp0, sfx_resetParams, SFX_SQUARE, SFX_SAWTOOTH, SFX_SINE, SFX_NOISE]
    norm_num
  · simp only [sp0, sfx_resetParams, exactOps, decide_eq_true_eq]
    refine ⟨?_, ?_, ?_, ?_, ?_, ?_, ?_, ?_, ?_, ?_, ?_, ?_, ?_, ?_, ?_, ?_, ?_, ?_, ?_, ?_, ?_,
      ?_⟩
    all_goals (try split_ifs) <;>
      first
      | (with_reducible apply range_add
         with_reducible assumption
         with_reducible assumption
         norm_num
         norm_num
         done)
      | (with_reducible apply range_add_right
         with_reducible assumption
         with_reducible assumption
         norm_num
         norm_num
         done)
      | (with_reducible apply range_sub
         with_reducible assumption
         with_reducible assumption
         norm_num
         norm_num
         done)
      | (with_reducible apply range_neg
         with_reducible assumption
         with_reducible assumption
         norm_num
         done)
      | (with_reducible apply range_var
         with_reducible assumption
         with_reducible assumption
         norm_num
         norm_num
         done)
      | (constructor <;> (norm_num; done))
      | (constructor <;> linarith)
  · simp only [sp0, sfx_resetParams, exactOps, decide_eq_true_eq]
    (try split_ifs) <;> linarith

set_option linter.unreachableTactic false in
set_option linter.unusedTactic false in
set_option maxHeartbeats 1000000 in
theorem sfx_genBlipSelect_range (pw : ℚ → ℚ → ℚ) (sn : ℚ → ℚ) {R : Type}
    (rnd : RandomSource R) (h : rnd.InRange) (sp : SfxParams ℚ) (r : R) :
    InArchetypeRange (sfx_genBlipSelect (exactOps pw sn) rnd sp r).1 := by
  unfold sfx_genBlipSelect
  lift_lets
  intro sp0 w f1 r1 d1 d2 d3
  obtain ⟨_, _⟩ : 0 ≤ f1.1 ∧ f1.1 ≤ 0.6 := frnd_bounds pw sn rnd h (0.6) (by norm_num) _
  obtain ⟨_, _⟩ : 0 ≤ d1.1 ∧ d1.1 ≤ 0.4 := frnd_bounds pw sn rnd h (0.4) (by norm_num) _
  obtain ⟨_, _⟩ : 0 ≤ d2.1 ∧ d2.1 ≤ 0.1 := frnd_bounds pw sn rnd h (0.1) (by norm_num) _
  obtain ⟨_, _⟩ : 0 ≤ d3.1 ∧ d3.1 ≤ 0.2 := frnd_bounds pw sn rnd h (0.2) (by norm_num) _
  obtain ⟨_, _⟩ : 0 ≤ w.1 ∧ w.1 < 2 := h 2 _ (by norm_num)
  clear_value d3 d2 d1 r1 f1 w
  refine ⟨?_, inClampRange_of _ ?_, ?_⟩
  · simp only [sp0, sfx_resetParams, SFX_SQUARE, SFX_SAWTOOTH, SFX_SINE, SFX_NOISE]
    omega
  · simp only [sp0, sfx_resetParams, exactOps, decide_eq_true_eq]
    refine ⟨?_, ?_, ?_, ?_, ?_, ?_, ?_, ?_, ?_, ?_, ?_, ?_, ?_, ?_, ?_, ?_, ?_, ?_, ?_, ?_, ?_,
      ?_⟩
    all_goals (try split_ifs) <;>
      first
      | (with_reducible apply range_add
         with_reducible assumption
         with_reducible assumption
         norm_num
         norm_num
         done)
      | (with_reducible apply range_add_right
         with_reducible assumption
         with_reducible assumption
         norm_num
         norm_num
         done)
      | (with_reducible apply range_sub
         with_reducible assumption
         with_reducible assumption
         norm_num
         norm_num
         done)
      | (with_reducible apply range_neg
         with_reducible assumption
         with_reducible assumption
         norm_num
         done)
      | (with_reducible apply range_var
         with_reducible assumption
         with_reducible assumption
         norm_num
         norm_num
         done)
      | (constructor <;> (norm_num; done))
      | (constructor <;> linarith)
  · simp only [sp0, sfx_resetParams, exactOps, decide_eq_true_eq]
    (try split_ifs) <;> linarith

theorem tableAt_mem (pw : ℚ → ℚ → ℚ) (sn : ℚ → ℚ) (table : List ℚ) (i : Int) (h0 : 0 ≤ i)
    (h1 : i < table.length) : tableAt (exactOps pw sn) table i ∈ table := by
  have hlt : i.toNat < table.length := by omega
  unfold tableAt
  rw [if_pos h0]
  show table.getD i.toNat 0 ∈ table
  rw [List.getD_eq_getElem _ _ hlt]
  exact List.getElem_mem hlt

theorem synthFreq_bounds (x : ℚ) (h : x ∈ synthFreq) : 0 ≤ x ∧ x ≤ 1 := by
  simp only [synthFreq, List.mem_cons, List.mem_singleton, List.not_mem_nil, or_false] at h
  rcases h with h | h | h <;> subst h <;> constructor <;> norm_num

theorem arpeggioMod_bounds (x : ℚ) (h : x ∈ arpeggioMod) : -1 ≤ x ∧ x ≤ 1 := by
  simp only [arpeggioMod, List.mem_cons, List.mem_singleton, List.not_mem_nil, or_false] at h
  rcases h with h | h | h | h | h | h | h <;> subst h <;> constructor <;> norm_num

set_option linter.unreachableTactic false in
set_option linter.unusedTactic false in
set_option maxHeartbeats 1000000 in
theorem sfx_genSynth_range (pw : ℚ → ℚ → ℚ) (sn : ℚ → ℚ) {R : Type}
    (rnd : RandomSource R) (h : rnd.InRange) (sp : SfxParams ℚ) (r : R) :
    InArchetypeRange (sfx_genSynth (exactOps pw sn) rnd sp r).1 ∧
      (sfx_genSynth (exactOps pw sn) rnd sp r).1.startFrequency ∈ synthFreq ∧
      (sfx_genSynth (exactOps pw sn) rnd sp r).1.changeAmount ∈ arpeggioMod := by
  unfold sfx_genSynth
  lift_lets
  intro sp0 w i1 c1 a d1 d2 d3 i2 d4 d5 c2 ds c3 e1 e2 lp d6 d7 c4 hc c5 hs
  obtain ⟨_, _⟩ : 0 ≤ w.1 ∧ w.1 < 2 := h 2 _ (by norm_num)
  obtain ⟨i1l, i1u⟩ : 0 ≤ i1.1 ∧ i1.1 < 3 := h 3 _ (by norm_num)
  obtain ⟨i2l, i2u⟩ : 0 ≤ i2.1 ∧ i2.1 < 7 := h 7 _ (by norm_num)
  have m1 := tableAt_mem pw sn synthFreq i1.1 i1l i1u
  have m2 := tableAt_mem pw sn arpeggioMod i2.1 i2l i2u
  obtain ⟨_, _⟩ := synthFreq_bounds _ m1
  obtain ⟨_, _⟩ := arpeggioMod_bounds _ m2
  obtain ⟨_, _⟩ : 0 ≤ a.1 ∧ a.1 ≤ 0.5 := by
    show 0 ≤ (if c1.1 > 3 then _ else _ : ℚ × R).1 ∧ (if c1.1 > 3 then _ else _ : ℚ × R).1 ≤ 0.5
    split
    · exact frnd_bounds pw sn rnd h 0.5 (by norm_num) _
    · norm_num [exactOps]
  obtain ⟨_, _⟩ : 0 ≤ d1.1 ∧ d1.1 ≤ 1 := frnd_bounds pw sn rnd h 1 (by norm_num) _
  obtain ⟨_, _⟩ : 0 ≤ d2.1 ∧ d2.1 ≤ 1 := frnd_bounds pw sn rnd h 1 (by norm_num) _
  obtain ⟨_, _⟩ : 0 ≤ d3.1 ∧ d3.1 ≤ 0.9 := frnd_bounds pw sn rnd h 0.9 (by norm_num) _
  obtain ⟨_, _⟩ : 0 ≤ d4.1 ∧ d4.1 ≤ 0.5 := frnd_bounds pw sn rnd h 0.5 (by norm_num) _
  obtain ⟨_, _⟩ : 0 ≤ d5.1 ∧ d5.1 ≤ 1 := frnd_bounds pw sn rnd h 1 (by norm_num) _
  obtain ⟨_, _⟩ : 0 ≤ ds.1 ∧ ds.1 ≤ 1 := by
    show 0 ≤ (if c2.1 = 2 then _ else _ : ℚ × R).1 ∧ (if c2.1 = 2 then _ else _ : ℚ × R).1 ≤ 1
    split
    · exact frnd_bounds pw sn rnd h 1 (by norm_num) _
    · norm_num [exactOps]
  obtain ⟨e1l, e1u⟩ : 0 ≤ e1.1 ∧ e1.1 ≤ 1 := frnd_bounds pw sn rnd h 1 (by norm_num) _
  obtain ⟨e2l, e2u⟩ : 0 ≤ e2.1 ∧ e2.1 ≤ 1 := frnd_bounds pw sn rnd h 1 (by norm_num) _
  obtain ⟨_, _⟩ : 0 ≤ lp.1 ∧ lp.1 ≤ 1 := by
    show 0 ≤ (if c3.1 = 1 then _ else _ : ℚ × R).1 ∧ (if c3.1 = 1 then _ else _ : ℚ × R).1 ≤ 1
    split
    · norm_num [exactOps]
    · have p1 : 0 ≤ e1.1 * e2.1 := mul_nonneg e1l e2l
      have p2 : e1.1 * e2.1 ≤ 1 := by nlinarith
      simp only [exactOps]
      constructor <;> nlinarith
  obtain ⟨_, _⟩ : -1 ≤ d6.1 ∧ d6.1 ≤ 1 := rndNP1_bounds pw sn rnd h _
  obtain ⟨_, _⟩ : 0 ≤ d7.1 ∧ d7.1 ≤ 1 := frnd_bounds pw sn rnd h 1 (by norm_num) _
  obtain ⟨_, _⟩ : 0 ≤ hc.1 ∧ hc.1 ≤ 1 := by
    show 0 ≤ (if c4.1 = 3 then _ else _ : ℚ × R).1 ∧ (if c4.1 = 3 then _ else _ : ℚ × R).1 ≤ 1
    split
    · exact frnd_bounds pw sn rnd h 1 (by norm_num) _
    · norm_num [exactOps]
  obtain ⟨_, _⟩ : 0 ≤ hs.1 ∧ hs.1 ≤ 1 := by
    show 0 ≤ (if c5.1 = 3 then _ else _ : ℚ × R).1 ∧ (if c5.1 = 3 then _ else _ : ℚ × R).1 ≤ 1
    split
    · exact frnd_bounds pw sn rnd h 1 (by norm_num) _
    · norm_num [exactOps]
  refine ⟨?_, m1, m2⟩
  generalize tableAt (exactOps pw sn) synthFreq i1.1 = sf at *
  generalize tableAt (exactOps pw sn) arpeggioMod i2.1 = ca at *
  clear_value hs c5 hc c4 d7 d6 lp e2 e1 c3 ds c2 d5 d4 i2 d3 d2 d1 a c1 i1 w
  refine ⟨?_, inClampRange_of _ ?_, ?_⟩
  · simp only [sfx_resetParams, SFX_SQUARE, SFX_SAWTOOTH, SFX_SINE, SFX_NOISE]
    omega
  · simp only [sp0, sfx_resetParams, exactOps, decide_eq_true_eq]
    refine ⟨?_, ?_, ?_, ?_, ?_, ?_, ?_, ?_, ?_, ?_, ?_, ?_, ?_, ?_, ?_, ?_, ?_, ?_, ?_, ?_, ?_,
      ?_⟩
    all_goals (try split_ifs) <;>
      first
      | (with_reducible apply range_add
         with_reducible assumption
         with_reducible assumption
         norm_num
         norm_num
         done)
      | (with_reducible apply range_add_right
         with_reducible assumption
         with_reducible assumption
         norm_num
         norm_num
         done)
      | (with_reducible apply range_sub
         with_reducible assumption
         with_reducible assumption
         norm_num
         norm_num
         done)
      | (with_reducible apply range_neg
         with_reducible assumption
         with_reducible assumption
         norm_num
         done)
      | (with_reducible apply range_var
         with_reducible assumption
         with_reducible assumption
         norm_num
         norm_num
         done)
      | (constructor <;> (norm_num; done))
      | (constructor <;> linarith)
  · simp only [sp0, sfx_resetParams, exactOps, decide_eq_true_eq]
    linarith

/-- C30: in exact arithmetic, for every random source that keeps the contract of `sfx_random`
(a value from 0 up to but not including the range) and every generator state, each of the
eight archetype generators returns parameters with waveType square, sawtooth, sine or noise,
every signed float member in `[-1, 1]`, every other float member in `[0, 1]`, and
`minFrequency ≤ startFrequency`.  The indices `sfx_random(3)` and `sfx_random(7)` of the two
table lookups of `sfx_genSynth` lie inside the tables, and the startFrequency and changeAmount
it returns are elements of `synthFreq` and `arpeggioMod`. -/
theorem archetypes_in_range (pw : ℚ → ℚ → ℚ) (sn : ℚ → ℚ) {R : Type}
    (rnd : RandomSource R) (h : rnd.InRange) (sp : SfxParams ℚ) (r : R) :
    (InArchetypeRange (sfx_genPickupCoin (exactOps pw sn) rnd sp r).1 ∧
      InArchetypeRange (sfx_genLaserShoot (exactOps pw sn) rnd sp r).1 ∧
      InArchetypeRange (sfx_genExplosion (exactOps pw sn) rnd sp r).1 ∧
      InArchetypeRange (sfx_genPowerup (exactOps pw sn) rnd sp r).1 ∧
      InArchetypeRange (sfx_genHitHurt (exactOps pw sn) rnd sp r).1 ∧
      InArchetypeRange (sfx_genJump (exactOps pw sn) rnd sp r).1 ∧
      InArchetypeRange (sfx_genBlipSelect (exactOps pw sn) rnd sp r).1 ∧
      InArchetypeRange (sfx_genSynth (exactOps pw sn) rnd sp r).1) ∧
    (∀ r', (0 ≤ (rnd 3 r').1 ∧ (rnd 3 r').1 < (synthFreq.length : Int)) ∧
      (0 ≤ (rnd 7 r').1 ∧ (rnd 7 r').1 < (arpeggioMod.length : Int))) ∧
    (sfx_genSynth (exactOps pw sn) rnd sp r).1.startFrequency ∈ synthFreq ∧
    (sfx_genSynth (exactOps pw sn) rnd sp r).1.changeAmount ∈ arpeggioMod := by
  obtain ⟨s1, s2, s3⟩ := sfx_genSynth_range pw sn rnd h sp r
  refine ⟨⟨sfx_genPickupCoin_range pw sn rnd h sp r, sfx_genLaserShoot_range pw sn rnd h sp r,
    sfx_genExplosion_range pw sn rnd h sp r, sfx_genPowerup_range pw sn rnd h sp r,
    sfx_genHitHurt_range pw sn rnd h sp r, sfx_genJump_range pw sn rnd h sp r,
    sfx_genBlipSelect_range pw sn rnd h sp r, s1⟩, ?_, s2, s3⟩
  intro r'
  exact ⟨h 3 r' (by norm_num), h 7 r' (by norm_num)⟩

theorem archetypes_in_range_witness :
    (constRandom 0).InRange ∧
      InArchetypeRange (sfx_genLaserShoot exactArith (constRandom 0) baseline 0).1 :=
  ⟨constRandom_inRange 0,
    (archetypes_in_range powNat sinPoly (constRandom 0) (constRandom_inRange 0) baseline
      0).1.2.1⟩

/-! ## Wave synthesis: the min-frequency stop -/

theorem stepControl_flag {F D : Type} (fo : FloatOps F D) (sp : SfxParams F) (g : Regs F D) :
    (stepControl fo sp g).2 =
      (fo.dlt (stepArpeggio fo (stepRepeat fo sp g)).fmaxperiod
          (fo.dmul (stepArpeggio fo (stepRepeat fo sp g)).fperiod
            (fo.dadd (stepArpeggio fo (stepRepeat fo sp g)).fslide
              (stepArpeggio fo (stepRepeat fo sp g)).fdslide)) &&
        fo.lt (fo.lit 0) (minFreq fo sp)) := rfl

theorem stepControl_fperiod {F D : Type} (fo : FloatOps F D) (sp : SfxParams F) (g : Regs F D) :
    (stepControl fo sp g).1.fperiod =
      if fo.dlt (stepArpeggio fo (stepRepeat fo sp g)).fmaxperiod
          (fo.dmul (stepArpeggio fo (stepRepeat fo sp g)).fperiod
            (fo.dadd (stepArpeggio fo (stepRepeat fo sp g)).fslide
              (stepArpeggio fo (stepRepeat fo sp g)).fdslide))
      then (stepArpeggio fo (stepRepeat fo sp g)).fmaxperiod
      else fo.dmul (stepArpeggio fo (stepRepeat fo sp g)).fperiod
            (fo.dadd (stepArpeggio fo (stepRepeat fo sp g)).fslide
              (stepArpeggio fo (stepRepeat fo sp g)).fdslide) := rfl

theorem genLoop_head_eq {F D R : Type} (fo : FloatOps F D) (rnd : RandomSource R)
    (sp : SfxParams F) (fmt : Int) (st0 : GenState F D R) (N : Int) (samples0 : Int → Sample F)
    (c e : Int) (st : GenState F D R) (h : LoopHead fo rnd sp st0 N c e st) :
    ∃ samples, genLoop fo rnd sp fmt 0 N st0 samples0 = genLoop fo rnd sp fmt c e st samples := by
  induction h with
  | start => exact ⟨samples0, rfl⟩
  | step c e st g _ hlt hg ih =>
    obtain ⟨samples, hs⟩ := ih
    refine ⟨emitSample fo fmt samples c
      (finishSample fo (superSample fo rnd sp { st with regs := stepPhaser fo g }).1), ?_⟩
    rw [hs]
    conv_lhs => rw [genLoop, if_pos hlt, hg]

theorem genLoop_stop {F D R : Type} (fo : FloatOps F D) (rnd : RandomSource R)
    (sp : SfxParams F) (fmt : Int) (c e : Int) (st : GenState F D R) (samples : Int → Sample F)
    (hlt : c < e) (hf : (stepControl fo sp st.regs).2 = true) :
    (∀ g, stepEnvelope fo sp (stepControl fo sp st.regs).1 = some g →
      genLoop fo rnd sp fmt c e st samples =
        (c + 1, (superSample fo rnd sp { st with regs := stepPhaser fo g }).2,
          emitSample fo fmt samples c
            (finishSample fo (superSample fo rnd sp { st with regs := stepPhaser fo g }).1))) ∧
    (stepEnvelope fo sp (stepControl fo sp st.regs).1 = none →
      genLoop fo rnd sp fmt c e st samples = (c, st, samples)) := by
  constructor
  · intro g hg
    rw [genLoop, if_pos hlt, hg]
    simp only [hf, if_true]
    rw [genLoop, if_neg (by omega)]
  · intro hg
    rw [genLoop, if_pos hlt, hg]

theorem stepArpeggio_frame {F D : Type} (fo : FloatOps F D) (g : Regs F D) :
    stepArpeggio fo g =
      { g with
        arpeggioTime := g.arpeggioTime + 1
        arpeggioLimit := (stepArpeggio fo g).arpeggioLimit
        fperiod := (stepArpeggio fo g).fperiod } := by
  unfold stepArpeggio
  dsimp only
  split <;> rfl

theorem stepRepeat_fmaxperiod {F D : Type} (fo : FloatOps F D) (sp : SfxParams F) (g : Regs F D)
    (h : g.fmaxperiod = fo.ddiv (fo.dlit 100)
      (fo.dadd (fo.toDouble (fo.mul (minFreq fo sp) (minFreq fo sp))) (fo.dlit 0.001))) :
    (stepRepeat fo sp g).fmaxperiod = fo.ddiv (fo.dlit 100)
      (fo.dadd (fo.toDouble (fo.mul (minFreq fo sp) (minFreq fo sp))) (fo.dlit 0.001)) := by
  unfold stepRepeat
  dsimp only
  split
  · rfl
  · exact h

theorem head_fmaxperiod {F D R : Type} (fo : FloatOps F D) (rnd : RandomSource R)
    (synth : SfxSynth F) (sp : SfxParams F) (r : R) (N : Int) (c e : Int) (st : GenState F D R)
    (h : LoopHead fo rnd sp (initState fo rnd synth sp r) N c e st) :
    st.regs.fmaxperiod = fo.ddiv (fo.dlit 100)
      (fo.dadd (fo.toDouble (fo.mul (minFreq fo sp) (minFreq fo sp))) (fo.dlit 0.001)) := by
  refine LoopHead_inv fo rnd sp _ N
    (fun _ g => g.fmaxperiod = fo.ddiv (fo.dlit 100)
      (fo.dadd (fo.toDouble (fo.mul (minFreq fo sp) (minFreq fo sp))) (fo.dlit 0.001)))
    ?_ ?_ c e st h
  · obtain ⟨pk, hr⟩ := initState_regs fo rnd synth sp r
    rw [hr]
    rfl
  · intro c st g hP hg
    have hgf := stepEnvelope_frame fo sp _ g hg
    obtain ⟨ph, pk, w, dp, p, php, ip, hx⟩ := superSample_frame fo rnd sp
      { st with regs := stepPhaser fo g }
    have q1 : g.fmaxperiod = (stepControl fo sp st.regs).1.fmaxperiod := by rw [hgf]
    have q2 : (stepControl fo sp st.regs).1.fmaxperiod
        = (stepArpeggio fo (stepRepeat fo sp st.regs)).fmaxperiod := rfl
    have q3 : (stepArpeggio fo (stepRepeat fo sp st.regs)).fmaxperiod
        = (stepRepeat fo sp st.regs).fmaxperiod := by rw [stepArpeggio_frame]
    show (superSample fo rnd sp { st with regs := stepPhaser fo g }).2.regs.fmaxperiod = _
    rw [hx]
    show g.fmaxperiod = _
    rw [q1, q2, q3]
    exact stepRepeat_fmaxperiod fo sp st.regs hP

/-- C22 (amended): at a loop head with `c` samples emitted and `c < sampleEnd`, the period cap
`fmaxperiod` is `100 / (minFreq * minFreq + 0.001)` for the effective minimum frequency.  If
the slid period `fperiod * (fslide + fdslide)` exceeds it and that frequency is above 0, the
iteration is the last one but still emits its sample: when it passes the envelope the call
returns `c + 1` and the buffer it leaves holds the sample stored at index `c`; it returns `c`
only when the envelope ends in that iteration.  If the effective minimum frequency is not above
0 the period is only capped and the next head is reached with `sampleEnd` unchanged. -/
theorem minFrequency_stop {F D R : Type} (fo : FloatOps F D) (rnd : RandomSource R)
    (synth : SfxSynth F) (sp : SfxParams F) (r : R) (c e : Int) (st : GenState F D R)
    (h : LoopHead fo rnd sp (initState fo rnd synth sp r)
      (synth.sampleRate * synth.maxDuration) c e st)
    (hlt : c < e) :
    (stepArpeggio fo (stepRepeat fo sp st.regs)).fmaxperiod = fo.ddiv (fo.dlit 100)
      (fo.dadd (fo.toDouble (fo.mul (minFreq fo sp) (minFreq fo sp))) (fo.dlit 0.001)) ∧
    ((fo.dlt (stepArpeggio fo (stepRepeat fo sp st.regs)).fmaxperiod
          (fo.dmul (stepArpeggio fo (stepRepeat fo sp st.regs)).fperiod
            (fo.dadd (stepArpeggio fo (stepRepeat fo sp st.regs)).fslide
              (stepArpeggio fo (stepRepeat fo sp st.regs)).fdslide)) = true ∧
        fo.lt (fo.lit 0) (minFreq fo sp) = true) →
      (∀ g, stepEnvelope fo sp (stepControl fo sp st.regs).1 = some g →
        (sfx_generateWave fo rnd synth sp r).1 = c + 1 ∧
        ∃ samples, (sfx_generateWave fo rnd synth sp r).2.1.samples =
          emitSample fo synth.sampleFormat samples c
            (finishSample fo (superSample fo rnd sp { st with regs := stepPhaser fo g }).1)) ∧
      (stepEnvelope fo sp (stepControl fo sp st.regs).1 = none →
        (sfx_generateWave fo rnd synth sp r).1 = c)) ∧
    (fo.lt (fo.lit 0) (minFreq fo sp) = false →
      (stepControl fo sp st.regs).1.fperiod =
        (if fo.dlt (stepArpeggio fo (stepRepeat fo sp st.regs)).fmaxperiod
            (fo.dmul (stepArpeggio fo (stepRepeat fo sp st.regs)).fperiod
              (fo.dadd (stepArpeggio fo (stepRepeat fo sp st.regs)).fslide
                (stepArpeggio fo (stepRepeat fo sp st.regs)).fdslide))
          then (stepArpeggio fo (stepRepeat fo sp st.regs)).fmaxperiod
          else fo.dmul (stepArpeggio fo (stepRepeat fo sp st.regs)).fperiod
            (fo.dadd (stepArpeggio fo (stepRepeat fo sp st.regs)).fslide
              (stepArpeggio fo (stepRepeat fo sp st.regs)).fdslide)) ∧
      ∀ g, stepEnvelope fo sp (stepControl fo sp st.regs).1 = some g →
        LoopHead fo rnd sp (initState fo rnd synth sp r)
          (synth.sampleRate * synth.maxDuration) (c + 1) e
          (superSample fo rnd sp { st with regs := stepPhaser fo g }).2) := by
  obtain ⟨samples, hs⟩ := genLoop_head_eq fo rnd sp synth.sampleFormat
    (initState fo rnd synth sp r) (synth.sampleRate * synth.maxDuration) synth.samples c e st h
  refine ⟨?_, ?_, ?_⟩
  · rw [stepArpeggio_frame]
    exact stepRepeat_fmaxperiod fo sp st.regs
      (head_fmaxperiod fo rnd synth sp r _ c e st h)
  · rintro ⟨h1, h2⟩
    have hf : (stepControl fo sp st.regs).2 = true := by
      rw [stepControl_flag, h1, h2]
      rfl
    obtain ⟨a, b⟩ := genLoop_stop fo rnd sp synth.sampleFormat c e st samples hlt hf
    constructor
    · intro g hg
      have e1 : (sfx_generateWave fo rnd synth sp r).1
          = (genLoop fo rnd sp synth.sampleFormat 0 (synth.sampleRate * synth.maxDuration)
            (initState fo rnd synth sp r) synth.samples).1 := rfl
      have e2 : (sfx_generateWave fo rnd synth sp r).2.1.samples
          = (genLoop fo rnd sp synth.sampleFormat 0 (synth.sampleRate * synth.maxDuration)
            (initState fo rnd synth sp r) synth.samples).2.2 := rfl
      rw [e1, e2, hs, a g hg]
      exact ⟨rfl, samples, rfl⟩
    · intro hg
      have e1 : (sfx_generateWave fo rnd synth sp r).1
          = (genLoop fo rnd sp synth.sampleFormat 0 (synth.sampleRate * synth.maxDuration)
            (initState fo rnd synth sp r) synth.samples).1 := rfl
      rw [e1, hs, b hg]
  · intro hm
    refine ⟨stepControl_fperiod fo sp st.regs, ?_⟩
    intro g hg
    have hstep := LoopHead.step c e st g h hlt hg
    rw [stepControl_no_stop fo sp st.regs hm] at hstep
    exact hstep

theorem earlyStop_flag {R : Type} (rnd : RandomSource R) (synth : SfxSynth ℚ) (r : R) :
    exactArith.dlt
        (stepArpeggio exactArith
          (stepRepeat exactArith earlyStop (initState exactArith rnd synth earlyStop r).regs)).fmaxperiod
        (exactArith.dmul
          (stepArpeggio exactArith
            (stepRepeat exactArith earlyStop
              (initState exactArith rnd synth earlyStop r).regs)).fperiod
          (exactArith.dadd
            (stepArpeggio exactArith
              (stepRepeat exactArith earlyStop
                (initState exactArith rnd synth earlyStop r).regs)).fslide
            (stepArpeggio exactArith
              (stepRepeat exactArith earlyStop
                (initState exactArith rnd synth earlyStop r).regs)).fdslide)) = true ∧
      exactArith.lt (exactArith.lit 0) (minFreq exactArith earlyStop) = true := by
  obtain ⟨pk, hr⟩ := initState_regs exactArith rnd synth earlyStop r
  rw [hr]
  constructor
  · simp [stepArpeggio, stepRepeat, initRegs, resetSample, startPeriod, minFreq, sslide,
      earlyStop, baseline, sfx_resetParams, exactArith, exactOps, powNat_two, powNat_three]
    norm_num [Int.floor_eq_iff]
  · simp [minFreq, earlyStop, baseline, sfx_resetParams, exactArith, exactOps]
    norm_num

theorem minFrequency_stop_witness :
    (0 : Int) < tinySynth.sampleRate * tinySynth.maxDuration ∧
      (sfx_generateWave exactArith (constRandom 0) tinySynth earlyStop 0).1 = 0 + 1 := by
  obtain ⟨g, hg⟩ := first_iteration_some powNat sinPoly (constRandom 0) tinySynth earlyStop 0
    (by
      have : earlyStop.sustainTime = baseline.sustainTime := rfl
      rw [this, baseline_lengths.2.1]; decide)
  exact ⟨by decide,
    (((minFrequency_stop exactArith (constRandom 0) tinySynth earlyStop 0 0 _ _
      LoopHead.start (by decide)).2.1 (earlyStop_flag (constRandom 0) tinySynth 0)).1 g hg).1⟩

/-- C22, counterexample: for the defaults with `minFrequency` 0.3 and both slides -0.5 the stop
condition holds in the first iteration, with 0 samples emitted, and the call returns 1. -/
theorem stop_emits_sample :
    (stepControl exactArith earlyStop
      (initState exactArith (constRandom 0) tinySynth earlyStop 0).regs).2 = true ∧
    (sfx_generateWave exactArith (constRandom 0) tinySynth earlyStop 0).1 = 1 ∧
    (sfx_generateWave exactArith (constRandom 0) tinySynth earlyStop 0).1 ≠ 0 := by
  obtain ⟨f1, f2⟩ := earlyStop_flag (constRandom 0) tinySynth 0
  have hf : (stepControl exactArith earlyStop
      (initState exactArith (constRandom 0) tinySynth earlyStop 0).regs).2 = true := by
    rw [stepControl_flag, f1, f2]
    rfl
  obtain ⟨g, hg⟩ := first_iteration_some powNat sinPoly (constRandom 0) tinySynth earlyStop 0
    (by
      have : earlyStop.sustainTime = baseline.sustainTime := rfl
      rw [this, baseline_lengths.2.1]; decide)
  have hc : (sfx_generateWave exactArith (constRandom 0) tinySynth earlyStop 0).1 = 1 := by
    have e1 : (sfx_generateWave exactArith (constRandom 0) tinySynth earlyStop 0).1
        = (genLoop exactArith (constRandom 0) earlyStop tinySynth.sampleFormat 0
          (tinySynth.sampleRate * tinySynth.maxDuration)
          (initState exactArith (constRandom 0) tinySynth earlyStop 0) tinySynth.samples).1 :=
      rfl
    rw [e1, (genLoop_stop exactArith (constRandom 0) earlyStop tinySynth.sampleFormat 0
      (tinySynth.sampleRate * tinySynth.maxDuration) _ tinySynth.samples (by decide) hf).1 g hg]
    rfl
  refine ⟨hf, hc, ?_⟩
  rw [hc]
  decide

/-! ## Wave synthesis: the arpeggio -/

theorem stepArpeggio_limit {F D : Type} (fo : FloatOps F D) (g : Regs F D) :
    ((g.arpeggioLimit ≠ 0 ∧ g.arpeggioTime + 1 ≥ g.arpeggioLimit) →
      (stepArpeggio fo g).arpeggioLimit = 0 ∧
      (stepArpeggio fo g).fperiod = fo.dmul g.fperiod g.arpeggioModulation) ∧
    (¬ (g.arpeggioLimit ≠ 0 ∧ g.arpeggioTime + 1 ≥ g.arpeggioLimit) →
      (stepArpeggio fo g).arpeggioLimit = g.arpeggioLimit ∧
      (stepArpeggio fo g).fperiod = g.fperiod) := by
  unfold stepArpeggio
  dsimp only
  constructor
  · intro hc
    rw [if_pos hc]
    exact ⟨rfl, rfl⟩
  · intro hc
    rw [if_neg hc]
    exact ⟨rfl, rfl⟩

theorem sslide_raised {F D : Type} (fo : FloatOps F D) (sp : SfxParams F) :
    sslide fo { sp with slide := sslide fo sp } = sslide fo sp := by
  unfold sslide
  dsimp only
  split_ifs <;> rfl

theorem minFreq_raised {F D : Type} (fo : FloatOps F D) (sp : SfxParams F) :
    minFreq fo { sp with slide := sslide fo sp } = minFreq fo sp := rfl

theorem resetSample_raised {F D : Type} (fo : FloatOps F D) (sp : SfxParams F) (g : Regs F D) :
    resetSample fo { sp with slide := sslide fo sp } g = resetSample fo sp g := by
  unfold resetSample
  rw [sslide_raised, minFreq_raised]
  rfl

theorem stepControl_raised {F D : Type} (fo : FloatOps F D) (sp : SfxParams F) (g : Regs F D) :
    stepControl fo { sp with slide := sslide fo sp } g = stepControl fo sp g := by
  unfold stepControl stepRepeat
  simp only [resetSample_raised, minFreq_raised]

theorem stepEnvelope_raised {F D : Type} (fo : FloatOps F D) (sp : SfxParams F) (g : Regs F D) :
    stepEnvelope fo { sp with slide := sslide fo sp } g = stepEnvelope fo sp g := rfl

theorem superSample_raised {F D R : Type} (fo : FloatOps F D) (rnd : RandomSource R)
    (sp : SfxParams F) (st : GenState F D R) :
    superSample fo rnd { sp with slide := sslide fo sp } st = superSample fo rnd sp st := rfl

theorem initState_raised {F D R : Type} (fo : FloatOps F D) (rnd : RandomSource R)
    (synth : SfxSynth F) (sp : SfxParams F) (r : R) :
    (initState fo rnd synth { sp with slide := sslide fo sp } r : GenState F D R)
      = initState fo rnd synth sp r := by
  unfold initState initRegs
  rw [resetSample_raised]
  rfl

theorem genLoop_raised {F D R : Type} (fo : FloatOps F D) (rnd : RandomSource R)
    (sp : SfxParams F) (fmt : Int) (c e : Int) (st : GenState F D R)
    (samples : Int → Sample F) :
    genLoop fo rnd { sp with slide := sslide fo sp } fmt c e st samples
      = genLoop fo rnd sp fmt c e st samples := by
  induction c, e, st, samples using genLoop.induct fo rnd sp fmt with
  | case1 c e st samples hlt hbrk =>
    rw [genLoop, genLoop, if_pos hlt, if_pos hlt, stepControl_raised, stepEnvelope_raised, hbrk]
  | case2 c e st samples hlt g hg ih =>
    rw [genLoop, if_pos hlt, stepControl_raised, stepEnvelope_raised, hg]
    simp only [dite_eq_ite] at ih ⊢
    rw [superSample_raised, ih]
    conv_rhs => rw [genLoop, if_pos hlt, hg]
  | case3 c e st samples hge =>
    rw [genLoop, genLoop, if_neg hge, if_neg hge]

theorem sslide_exact (pw : ℚ → ℚ → ℚ) (sn : ℚ → ℚ) (p : SfxParams ℚ) :
    sslide (exactOps pw sn) p = max p.slide p.deltaSlide := by
  simp only [sslide, exactOps, decide_eq_true_eq]
  split_ifs with h
  · exact (max_eq_right (le_of_lt h)).symm
  · exact (max_eq_left (not_lt.mp h)).symm

theorem stepRepeat_cases {F D : Type} (fo : FloatOps F D) (sp : SfxParams F) (g : Regs F D) :
    stepRepeat fo sp g = resetSample fo sp { g with repeatTime := 0 } ∨
      stepRepeat fo sp g = { g with repeatTime := g.repeatTime + 1 } := by
  unfold stepRepeat
  dsimp only
  split
  · exact Or.inl rfl
  · exact Or.inr rfl

theorem resetSample_slide_off (pw : ℚ → ℚ → ℚ) (sn : ℚ → ℚ) (p : SfxParams ℚ) (g : Regs ℚ ℚ)
    (hs : p.slide ≤ 0) (hd : p.deltaSlide = 0) (hp : pw 0 3 = 0) :
    (resetSample (exactOps pw sn) p g).fslide = 1 ∧
      (resetSample (exactOps pw sn) p g).fdslide = 0 := by
  have h0 : sslide (exactOps pw sn) p = 0 := by
    rw [sslide_exact, hd]
    exact max_eq_right hs
  unfold resetSample
  dsimp only
  rw [h0, hd]
  simp only [exactOps, hp]
  norm_num

theorem resetSample_capped (pw : ℚ → ℚ → ℚ) (sn : ℚ → ℚ) (p : SfxParams ℚ) (g : Regs ℚ ℚ)
    (hm : 0 ≤ p.minFrequency) :
    (resetSample (exactOps pw sn) p g).fperiod ≤ (resetSample (exactOps pw sn) p g).fmaxperiod := by
  have hq : minFreq (exactOps pw sn) p * minFreq (exactOps pw sn) p
      ≤ p.startFrequency * p.startFrequency := by
    simp only [minFreq, exactOps, decide_eq_true_eq]
    split_ifs with h
    · exact le_refl _
    · have := not_lt.mp h
      nlinarith
  have hpos : (0 : ℚ) < minFreq (exactOps pw sn) p * minFreq (exactOps pw sn) p + 1 / 1000 := by
    have := mul_self_nonneg (minFreq (exactOps pw sn) p)
    linarith
  unfold resetSample startPeriod
  dsimp only
  generalize minFreq (exactOps pw sn) p = m at hq hpos
  simp only [exactOps]
  have e : (0.001 : ℚ) = 1 / 1000 := by norm_num
  rw [e]
  exact div_le_div_of_nonneg_left (by norm_num) hpos (by linarith)

theorem stepControl_slide_off (pw : ℚ → ℚ → ℚ) (sn : ℚ → ℚ) (p : SfxParams ℚ) (g : Regs ℚ ℚ)
    (hs : p.slide ≤ 0) (hd : p.deltaSlide = 0) (hp : pw 0 3 = 0)
    (hg : g.fslide = 1 ∧ g.fdslide = 0) :
    ((stepRepeat (exactOps pw sn) p g).fslide = 1 ∧
      (stepRepeat (exactOps pw sn) p g).fdslide = 0) ∧
    ((stepControl (exactOps pw sn) p g).1.fslide = 1 ∧
      (stepControl (exactOps pw sn) p g).1.fdslide = 0) := by
  have h2 : (stepRepeat (exactOps pw sn) p g).fslide = 1 ∧
      (stepRepeat (exactOps pw sn) p g).fdslide = 0 := by
    rcases stepRepeat_cases (exactOps pw sn) p g with h | h
    · rw [h]
      exact resetSample_slide_off pw sn p _ hs hd hp
    · rw [h]
      exact hg
  refine ⟨h2, ?_⟩
  have e1 : (stepControl (exactOps pw sn) p g).1.fslide
      = (stepArpeggio (exactOps pw sn) (stepRepeat (exactOps pw sn) p g)).fslide
        + (stepArpeggio (exactOps pw sn) (stepRepeat (exactOps pw sn) p g)).fdslide := rfl
  have e2 : (stepControl (exactOps pw sn) p g).1.fdslide
      = (stepArpeggio (exactOps pw sn) (stepRepeat (exactOps pw sn) p g)).fdslide := rfl
  have e3 : (stepArpeggio (exactOps pw sn) (stepRepeat (exactOps pw sn) p g)).fslide
      = (stepRepeat (exactOps pw sn) p g).fslide := by rw [stepArpeggio_frame]
  have e4 : (stepArpeggio (exactOps pw sn) (stepRepeat (exactOps pw sn) p g)).fdslide
      = (stepRepeat (exactOps pw sn) p g).fdslide := by rw [stepArpeggio_frame]
  rw [e1, e2, e3, e4, h2.1, h2.2]
  norm_num

theorem stepControl_capped (pw : ℚ → ℚ → ℚ) (sn : ℚ → ℚ) (p : SfxParams ℚ) (g : Regs ℚ ℚ) :
    (stepControl (exactOps pw sn) p g).1.fperiod
      ≤ (stepControl (exactOps pw sn) p g).1.fmaxperiod := by
  rw [stepControl_fperiod]
  have e : (stepControl (exactOps pw sn) p g).1.fmaxperiod
      = (stepArpeggio (exactOps pw sn) (stepRepeat (exactOps pw sn) p g)).fmaxperiod := rfl
  rw [e]
  generalize (stepArpeggio (exactOps pw sn) (stepRepeat (exactOps pw sn) p g)) = a
  simp only [exactOps, decide_eq_true_eq]
  split_ifs with h
  · exact le_refl _
  · exact not_lt.mp h

theorem head_slide_off {R : Type} (pw : ℚ → ℚ → ℚ) (sn : ℚ → ℚ) (rnd : RandomSource R)
    (synth : SfxSynth ℚ) (p : SfxParams ℚ) (r : R) (N : Int) (c e : Int)
    (st : GenState ℚ ℚ R) (hs : p.slide ≤ 0) (hd : p.deltaSlide = 0) (hp : pw 0 3 = 0)
    (h : LoopHead (exactOps pw sn) rnd p (initState (exactOps pw sn) rnd synth p r) N c e st) :
    st.regs.fslide = 1 ∧ st.regs.fdslide = 0 := by
  refine LoopHead_inv (exactOps pw sn) rnd p _ N (fun _ g => g.fslide = 1 ∧ g.fdslide = 0)
    ?_ ?_ c e st h
  · obtain ⟨pk, hr⟩ := initState_regs (exactOps pw sn) rnd synth p r
    rw [hr]
    show (initRegs (exactOps pw sn) p).fslide = 1 ∧ (initRegs (exactOps pw sn) p).fdslide = 0
    unfold initRegs
    exact resetSample_slide_off pw sn p _ hs hd hp
  · intro c st g hP hg
    obtain ⟨_, c1, c2⟩ := stepControl_slide_off pw sn p st.regs hs hd hp hP
    have hgf := stepEnvelope_frame (exactOps pw sn) p _ g hg
    obtain ⟨ph, pk, w, dp, p', php, ip, hx⟩ := superSample_frame (exactOps pw sn) rnd p
      { st with regs := stepPhaser (exactOps pw sn) g }
    have q1 : g.fslide = (stepControl (exactOps pw sn) p st.regs).1.fslide := by rw [hgf]
    have q2 : g.fdslide = (stepControl (exactOps pw sn) p st.regs).1.fdslide := by rw [hgf]
    show (superSample (exactOps pw sn) rnd p
        { st with regs := stepPhaser (exactOps pw sn) g }).2.regs.fslide = 1 ∧
      (superSample (exactOps pw sn) rnd p
        { st with regs := stepPhaser (exactOps pw sn) g }).2.regs.fdslide = 0
    rw [hx]
    show g.fslide = 1 ∧ g.fdslide = 0
    rw [q1, q2]
    exact ⟨c1, c2⟩

theorem head_capped {R : Type} (pw : ℚ → ℚ → ℚ) (sn : ℚ → ℚ) (rnd : RandomSource R)
    (synth : SfxSynth ℚ) (p : SfxParams ℚ) (r : R) (N : Int) (c e : Int)
    (st : GenState ℚ ℚ R) (hm : 0 ≤ p.minFrequency)
    (h : LoopHead (exactOps pw sn) rnd p (initState (exactOps pw sn) rnd synth p r) N c e st) :
    st.regs.fperiod ≤ st.regs.fmaxperiod := by
  refine LoopHead_inv (exactOps pw sn) rnd p _ N (fun _ g => g.fperiod ≤ g.fmaxperiod)
    ?_ ?_ c e st h
  · obtain ⟨pk, hr⟩ := initState_regs (exactOps pw sn) rnd synth p r
    rw [hr]
    show (initRegs (exactOps pw sn) p).fperiod ≤ (initRegs (exactOps pw sn) p).fmaxperiod
    unfold initRegs
    exact resetSample_capped pw sn p _ hm
  · intro c st g _ hg
    have c1 := stepControl_capped pw sn p st.regs
    have hgf := stepEnvelope_frame (exactOps pw sn) p _ g hg
    obtain ⟨ph, pk, w, dp, p', php, ip, hx⟩ := superSample_frame (exactOps pw sn) rnd p
      { st with regs := stepPhaser (exactOps pw sn) g }
    have q1 : g.fperiod = (stepControl (exactOps pw sn) p st.regs).1.fperiod := by rw [hgf]
    have q2 : g.fmaxperiod = (stepControl (exactOps pw sn) p st.regs).1.fmaxperiod := by
      rw [hgf]
    show (superSample (exactOps pw sn) rnd p
        { st with regs := stepPhaser (exactOps pw sn) g }).2.regs.fperiod ≤
      (superSample (exactOps pw sn) rnd p
        { st with regs := stepPhaser (exactOps pw sn) g }).2.regs.fmaxperiod
    rw [hx]
    show g.fperiod ≤ g.fmaxperiod
    rw [q1, q2]
    exact c1

theorem stop_needs_arpeggio (pw : ℚ → ℚ → ℚ) (sn : ℚ → ℚ) (p : SfxParams ℚ) (g : Regs ℚ ℚ)
    (hs : p.slide ≤ 0) (hd : p.deltaSlide = 0) (hp : pw 0 3 = 0) (hm : 0 ≤ p.minFrequency)
    (hg : g.fslide = 1 ∧ g.fdslide = 0) (hc : g.fperiod ≤ g.fmaxperiod)
    (hf : (stepControl (exactOps pw sn) p g).2 = true) : arpeggioFires (exactOps pw sn) p g := by
  obtain ⟨⟨s1, s2⟩, _⟩ := stepControl_slide_off pw sn p g hs hd hp hg
  have hc2 : (stepRepeat (exactOps pw sn) p g).fperiod
      ≤ (stepRepeat (exactOps pw sn) p g).fmaxperiod := by
    rcases stepRepeat_cases (exactOps pw sn) p g with h | h
    · rw [h]
      exact resetSample_capped pw sn p _ hm
    · rw [h]
      exact hc
  by_contra hn
  have a2 := ((stepArpeggio_limit (exactOps pw sn) (stepRepeat (exactOps pw sn) p g)).2 hn).2
  have e3 : (stepArpeggio (exactOps pw sn) (stepRepeat (exactOps pw sn) p g)).fslide
      = (stepRepeat (exactOps pw sn) p g).fslide := by rw [stepArpeggio_frame]
  have e4 : (stepArpeggio (exactOps pw sn) (stepRepeat (exactOps pw sn) p g)).fdslide
      = (stepRepeat (exactOps pw sn) p g).fdslide := by rw [stepArpeggio_frame]
  have e5 : (stepArpeggio (exactOps pw sn) (stepRepeat (exactOps pw sn) p g)).fmaxperiod
      = (stepRepeat (exactOps pw sn) p g).fmaxperiod := by rw [stepArpeggio_frame]
  rw [stepControl_flag, a2, e3, e4, e5, s1, s2] at hf
  generalize (stepRepeat (exactOps pw sn) p g).fperiod = x at hf hc2
  generalize (stepRepeat (exactOps pw sn) p g).fmaxperiod = y at hf hc2
  simp only [exactOps, Bool.and_eq_true, decide_eq_true_eq] at hf
  have := hf.1
  norm_num at this
  linarith

/-- C24 (amended): for every interpretation of the arithmetic `sfx_generateWave` returns the
same count, context and generator state for `p` as for `p` with `slide` replaced by the
effective slide the function computes, which in exact arithmetic is `max(slide, deltaSlide)`.
In exact arithmetic with `pow(0, 3) = 0`, for `slide < 0` and `deltaSlide = 0`: at every loop
head the slide factor is 1 and its increment 0, the slide stage leaves the period the arpeggio
stage produced unchanged, and both stay 1 and 0 after the iteration; with `minFrequency >= 0`
the min-frequency stop can then fire only in an iteration in which the arpeggio fires. -/
theorem effective_slide {F D R : Type} (fo : FloatOps F D) (rnd : RandomSource R)
    (synth : SfxSynth F) (sp : SfxParams F) (r : R)
    (pw : ℚ → ℚ → ℚ) (sn : ℚ → ℚ) (rndq : RandomSource R) (synthq : SfxSynth ℚ)
    (p : SfxParams ℚ) (N c e : Int) (st : GenState ℚ ℚ R) :
    sfx_generateWave fo rnd synth { sp with slide := sslide fo sp } r
      = sfx_generateWave fo rnd synth sp r ∧
    sslide (exactOps pw sn) p = max p.slide p.deltaSlide ∧
    (p.slide < 0 → p.deltaSlide = 0 → pw 0 3 = 0 →
      LoopHead (exactOps pw sn) rndq p (initState (exactOps pw sn) rndq synthq p r) N c e st →
      (st.regs.fslide = 1 ∧ st.regs.fdslide = 0) ∧
      (exactOps pw sn).dmul
          (stepArpeggio (exactOps pw sn) (stepRepeat (exactOps pw sn) p st.regs)).fperiod
          ((exactOps pw sn).dadd
            (stepArpeggio (exactOps pw sn) (stepRepeat (exactOps pw sn) p st.regs)).fslide
            (stepArpeggio (exactOps pw sn) (stepRepeat (exactOps pw sn) p st.regs)).fdslide)
        = (stepArpeggio (exactOps pw sn) (stepRepeat (exactOps pw sn) p st.regs)).fperiod ∧
      ((stepControl (exactOps pw sn) p st.regs).1.fslide = 1 ∧
        (stepControl (exactOps pw sn) p st.regs).1.fdslide = 0) ∧
      (0 ≤ p.minFrequency → (stepControl (exactOps pw sn) p st.regs).2 = true →
        arpeggioFires (exactOps pw sn) p st.regs)) := by
  refine ⟨?_, sslide_exact pw sn p, ?_⟩
  · unfold sfx_generateWave
    rw [initState_raised, genLoop_raised]
  · intro hs hd hp h
    have hP := head_slide_off pw sn rndq synthq p r N c e st (le_of_lt hs) hd hp h
    obtain ⟨⟨s1, s2⟩, c1⟩ := stepControl_slide_off pw sn p st.regs (le_of_lt hs) hd hp hP
    have e3 : (stepArpeggio (exactOps pw sn) (stepRepeat (exactOps pw sn) p st.regs)).fslide
        = (stepRepeat (exactOps pw sn) p st.regs).fslide := by rw [stepArpeggio_frame]
    have e4 : (stepArpeggio (exactOps pw sn) (stepRepeat (exactOps pw sn) p st.regs)).fdslide
        = (stepRepeat (exactOps pw sn) p st.regs).fdslide := by rw [stepArpeggio_frame]
    refine ⟨hP, ?_, c1, ?_⟩
    · rw [e3, e4, s1, s2]
      generalize (stepArpeggio (exactOps pw sn)
        (stepRepeat (exactOps pw sn) p st.regs)).fperiod = x
      simp only [exactOps]
      norm_num
    · intro hm hf
      exact stop_needs_arpeggio pw sn p st.regs (le_of_lt hs) hd hp hm hP
        (head_capped pw sn rndq synthq p r N c e st hm h) hf

theorem effective_slide_witness :
    (deadSlide.slide < 0 ∧ deadSlide.deltaSlide = 0 ∧ powNat 0 3 = 0) ∧
      (initState exactArith (constRandom 0) tinySynth deadSlide 0).regs.fslide = 1 := by
  have hs : deadSlide.slide < 0 := by
    simp [deadSlide, baseline, sfx_resetParams, exactArith, exactOps]
    norm_num
  have hd : deadSlide.deltaSlide = 0 := by
    simp [deadSlide, baseline, sfx_resetParams, exactArith, exactOps]
  have hp : powNat 0 3 = 0 := by
    rw [powNat_three]
    norm_num
  exact ⟨⟨hs, hd, hp⟩,
    ((effective_slide exactArith (constRandom 0) tinySynth deadSlide 0 powNat sinPoly
      (constRandom 0) tinySynth deadSlide (tinySynth.sampleRate * tinySynth.maxDuration) 0 _ _).2.2
        hs hd hp LoopHead.start).1.1⟩

theorem deltaOnly_flag {R : Type} (rnd : RandomSource R) (synth : SfxSynth ℚ) (r : R) :
    (stepControl exactArith deltaOnly (initState exactArith rnd synth deltaOnly r).regs).2
      = true := by
  obtain ⟨pk, hr⟩ := initState_regs exactArith rnd synth deltaOnly r
  rw [hr]
  simp [stepControl, stepRepeat, initRegs, resetSample, startPeriod, minFreq, sslide,
    deltaOnly, baseline, sfx_resetParams, exactArith, exactOps, powNat_two, powNat_three]
  norm_num [Int.floor_eq_iff]

/-- C24, counterexample: for the defaults with `minFrequency` 0.3, `slide` 0 and `deltaSlide`
-1 the slide is not negative, yet the min-frequency stop fires in the first iteration and the
call on a context for 3 samples returns 1. -/
theorem stop_without_slide :
    ¬ (deltaOnly.deltaSlide ≤ deltaOnly.slide ∧ deltaOnly.slide < 0) ∧
    (stepControl exactArith deltaOnly
      (initState exactArith (constRandom 0) tinySynth deltaOnly 0).regs).2 = true ∧
    (sfx_generateWave exactArith (constRandom 0) tinySynth deltaOnly 0).1 = 1 := by
  have hf := deltaOnly_flag (constRandom 0) tinySynth 0
  obtain ⟨g, hg⟩ := first_iteration_some powNat sinPoly (constRandom 0) tinySynth deltaOnly 0
    (by
      have : deltaOnly.sustainTime = baseline.sustainTime := rfl
      rw [this, baseline_lengths.2.1]; decide)
  refine ⟨?_, hf, ?_⟩
  · have : deltaOnly.slide = 0 := by
      simp [deltaOnly, baseline, sfx_resetParams, exactArith, exactOps]
    rw [this]
    intro h
    exact lt_irrefl _ h.2
  · have e1 : (sfx_generateWave exactArith (constRandom 0) tinySynth deltaOnly 0).1
        = (genLoop exactArith (constRandom 0) deltaOnly tinySynth.sampleFormat 0
          (tinySynth.sampleRate * tinySynth.maxDuration)
          (initState exactArith (constRandom 0) tinySynth deltaOnly 0) tinySynth.samples).1 :=
      rfl
    rw [e1, (genLoop_stop exactArith (constRandom 0) deltaOnly tinySynth.sampleFormat 0
      (tinySynth.sampleRate * tinySynth.maxDuration) _ tinySynth.samples (by decide) hf).1 g hg]
    rfl

/-! ## IEEE 754 arithmetic: rounding -/

theorem roundEven_mono_int (x : ℚ) (a b : Int) (ha : (a : ℚ) ≤ x) (hb : x ≤ (b : ℚ)) :
    a ≤ roundEven x ∧ roundEven x ≤ b := by
  have h1 : a ≤ ⌊x⌋ := Int.le_floor.mpr ha
  have h2 : ⌊x⌋ ≤ b := by
    have : ((⌊x⌋ : Int) : ℚ) ≤ (b : ℚ) := le_trans (Int.floor_le x) hb
    exact_mod_cast this
  have h3 : x - ⌊x⌋ < 1 / 2 ∨ ⌊x⌋ + 1 ≤ b := by
    by_cases hx : x = (b : ℚ)
    · left
      rw [hx, Int.floor_intCast]
      norm_num
    · right
      have : x < (b : ℚ) := lt_of_le_of_ne hb hx
      have := Int.floor_lt.mpr this
      omega
  unfold roundEven
  split_ifs with c1 c2 c3
  · exact ⟨h1, h2⟩
  · rcases h3 with h | h
    · exact absurd h c1
    · exact ⟨by omega, h⟩
  · exact ⟨h1, h2⟩
  · rcases h3 with h | h
    · exact absurd h c1
    · exact ⟨by omega, h⟩

theorem roundEven_eq (x : ℚ) (m : Int) (h1 : (m : ℚ) - 1 / 2 < x) (h2 : x < (m : ℚ) + 1 / 2) :
    roundEven x = m := by
  unfold roundEven
  have f1 := Int.floor_le x
  have f2 := Int.lt_floor_add_one x
  split_ifs with c1 c2 c3
  · have a : ((⌊x⌋ : Int) : ℚ) < (m : ℚ) + 1 := by linarith
    have b : (m : ℚ) - 1 < ((⌊x⌋ : Int) : ℚ) := by linarith
    have a' : ⌊x⌋ < m + 1 := by exact_mod_cast a
    have b' : m - 1 < ⌊x⌋ := by exact_mod_cast b
    omega
  · have a : ((⌊x⌋ : Int) : ℚ) < (m : ℚ) := by linarith
    have b : (m : ℚ) - 2 < ((⌊x⌋ : Int) : ℚ) := by linarith
    have a' : ⌊x⌋ < m := by exact_mod_cast a
    have b' : m - 2 < ⌊x⌋ := by exact_mod_cast b
    omega
  · have e : x - ⌊x⌋ = 1 / 2 := le_antisymm (not_lt.mp c2) (not_lt.mp c1)
    have a : ((⌊x⌋ : Int) : ℚ) < (m : ℚ) := by linarith
    have b : (m : ℚ) - 1 < ((⌊x⌋ : Int) : ℚ) := by linarith
    have a' : ⌊x⌋ < m := by exact_mod_cast a
    have b' : m - 1 < ⌊x⌋ := by exact_mod_cast b
    omega
  · have e : x - ⌊x⌋ = 1 / 2 := le_antisymm (not_lt.mp c2) (not_lt.mp c1)
    have a : ((⌊x⌋ : Int) : ℚ) < (m : ℚ) := by linarith
    have b : (m : ℚ) - 1 < ((⌊x⌋ : Int) : ℚ) := by linarith
    have a' : ⌊x⌋ < m := by exact_mod_cast a
    have b' : m - 1 < ⌊x⌋ := by exact_mod_cast b
    omega

theorem log2_lt_iff (q : ℚ) (hq : q ≠ 0) (x : Int) : |q| < (2 : ℚ) ^ x ↔ Int.log 2 |q| < x := by
  have := Int.lt_zpow_iff_log_lt (R := ℚ) (b := 2) (by norm_num) (x := x) (abs_pos.mpr hq)
  simpa using this

theorem log2_le_iff (q : ℚ) (hq : q ≠ 0) (x : Int) : (2 : ℚ) ^ x ≤ |q| ↔ x ≤ Int.log 2 |q| := by
  have := Int.zpow_le_iff_le_log (R := ℚ) (b := 2) (by norm_num) (x := x) (abs_pos.mpr hq)
  simpa using this

theorem log2_eq (q : ℚ) (e : Int) (h1 : (2 : ℚ) ^ e ≤ |q|) (h2 : |q| < (2 : ℚ) ^ (e + 1)) :
    Int.log 2 |q| = e := by
  have hq : q ≠ 0 := by
    intro h
    rw [h, abs_zero] at h1
    exact absurd h1 (not_le.mpr (zpow_pos (by norm_num) e))
  have a := (log2_le_iff q hq e).mp h1
  have b := (log2_lt_iff q hq (e + 1)).mp h2
  omega

/-- The rounding of a number between two integers of small magnitude lies between them. -/
theorem roundTo_range (prec : Nat) (emin emax : Int) (hmin : emin ≤ (prec : Int) - 1)
    (hmax : (prec : Int) ≤ emax + 1) (q : ℚ) (a b : Int) (ha : (a : ℚ) ≤ q) (hb : q ≤ (b : ℚ))
    (hA : -(2 ^ prec : Int) < a) (hB : b < (2 ^ prec : Int)) :
    ∃ r, roundTo prec emin emax q = Ext.fin r ∧ (a : ℚ) ≤ r ∧ r ≤ (b : ℚ) := by
  by_cases hq : q = 0
  · refine ⟨0, by rw [hq]; simp [roundTo], ?_, ?_⟩
    · rw [hq] at ha; exact ha
    · rw [hq] at hb; exact hb
  have hA' : -(2 : ℚ) ^ (prec : Int) < (a : ℚ) := by
    have : ((-(2 ^ prec : Int) : Int) : ℚ) < (a : ℚ) := by exact_mod_cast hA
    simpa using this
  have hB' : (b : ℚ) < (2 : ℚ) ^ (prec : Int) := by
    have : (b : ℚ) < ((2 ^ prec : Int) : ℚ) := by exact_mod_cast hB
    simpa using this
  have habs : |q| < (2 : ℚ) ^ (prec : Int) := abs_lt.mpr ⟨by linarith, by linarith⟩
  have hlog : Int.log 2 |q| < (prec : Int) := (log2_lt_iff q hq _).mp habs
  obtain ⟨k, hk⟩ : ∃ k : Nat, max (Int.log 2 |q|) emin - ((prec : Int) - 1) = -(k : Int) := by
    refine ⟨((prec : Int) - 1 - max (Int.log 2 |q|) emin).toNat, ?_⟩
    have : max (Int.log 2 |q|) emin ≤ (prec : Int) - 1 := max_le (by omega) hmin
    omega
  have hu : (2 : ℚ) ^ (max (Int.log 2 |q|) emin - ((prec : Int) - 1)) = 1 / (2 : ℚ) ^ k := by
    rw [hk, zpow_neg, zpow_natCast, one_div]
  have hpos : (0 : ℚ) < (2 : ℚ) ^ k := pow_pos (by norm_num) k
  have hdiv : q / (1 / (2 : ℚ) ^ k) = q * (2 : ℚ) ^ k := by field_simp
  obtain ⟨m1, m2⟩ := roundEven_mono_int (q * (2 : ℚ) ^ k) (a * 2 ^ k) (b * 2 ^ k)
    (by push_cast; exact mul_le_mul_of_nonneg_right ha hpos.le)
    (by push_cast; exact mul_le_mul_of_nonneg_right hb hpos.le)
  have m1' : (a : ℚ) * (2 : ℚ) ^ k ≤ (roundEven (q * (2 : ℚ) ^ k) : ℚ) := by exact_mod_cast m1
  have m2' : (roundEven (q * (2 : ℚ) ^ k) : ℚ) ≤ (b : ℚ) * (2 : ℚ) ^ k := by exact_mod_cast m2
  have r1 : (a : ℚ) ≤ (roundEven (q * (2 : ℚ) ^ k) : ℚ) * (1 / (2 : ℚ) ^ k) := by
    rw [mul_one_div, le_div_iff₀ hpos]; exact m1'
  have r2 : (roundEven (q * (2 : ℚ) ^ k) : ℚ) * (1 / (2 : ℚ) ^ k) ≤ (b : ℚ) := by
    rw [mul_one_div, div_le_iff₀ hpos]; exact m2'
  have hmax' : (2 : ℚ) ^ (prec : Int) ≤ (2 : ℚ) ^ (emax + 1) :=
    zpow_le_zpow_right₀ (by norm_num) hmax
  have rabs : |(roundEven (q * (2 : ℚ) ^ k) : ℚ) * (1 / (2 : ℚ) ^ k)| < (2 : ℚ) ^ (emax + 1) :=
    abs_lt.mpr ⟨by linarith, by linarith⟩
  refine ⟨(roundEven (q * (2 : ℚ) ^ k) : ℚ) * (1 / (2 : ℚ) ^ k), ?_, r1, r2⟩
  unfold roundTo
  rw [if_neg hq]
  simp only [hu, hdiv]
  rw [if_neg (not_le.mpr rabs)]

theorem round32_range (q : ℚ) (a b : Int) (ha : (a : ℚ) ≤ q) (hb : q ≤ (b : ℚ))
    (hA : -16777216 < a) (hB : b < 16777216) :
    ∃ r, round32 q = Ext.fin r ∧ (a : ℚ) ≤ r ∧ r ≤ (b : ℚ) :=
  roundTo_range 24 (-126) 127 (by norm_num) (by norm_num) q a b ha hb (by norm_num; exact hA)
    (by norm_num; exact hB)

theorem round32_int (n : Int) (hA : -16777216 < n) (hB : n < 16777216) :
    round32 (n : ℚ) = Ext.fin (n : ℚ) := by
  obtain ⟨r, h, r1, r2⟩ := round32_range (n : ℚ) n n (le_refl _) (le_refl _) hA hB
  rw [h, le_antisymm r2 r1]

theorem round64_int (n : Int) (hA : -9007199254740992 < n) (hB : n < 9007199254740992) :
    round64 (n : ℚ) = Ext.fin (n : ℚ) := by
  obtain ⟨r, h, r1, r2⟩ := roundTo_range 53 (-1022) 1023 (by norm_num) (by norm_num) (n : ℚ) n n
    (le_refl _) (le_refl _) (by norm_num; exact hA) (by norm_num; exact hB)
  have : round64 (n : ℚ) = Ext.fin r := h
  rw [this, le_antisymm r2 r1]

/-- The rounding of `q`, from the exponent `e` of its leading bit and the nearest multiple `m`
of the unit in the last place. -/
theorem roundTo_eval (prec : Nat) (emin emax : Int) (q : ℚ) (e m : Int)
    (h1 : (2 : ℚ) ^ e ≤ |q|) (h2 : |q| < (2 : ℚ) ^ (e + 1)) (he : emin ≤ e)
    (hm1 : (m : ℚ) - 1 / 2 < q / (2 : ℚ) ^ (e - ((prec : Int) - 1)))
    (hm2 : q / (2 : ℚ) ^ (e - ((prec : Int) - 1)) < (m : ℚ) + 1 / 2)
    (hov : |(m : ℚ) * (2 : ℚ) ^ (e - ((prec : Int) - 1))| < (2 : ℚ) ^ (emax + 1)) :
    roundTo prec emin emax q = Ext.fin ((m : ℚ) * (2 : ℚ) ^ (e - ((prec : Int) - 1))) := by
  have hq : q ≠ 0 := by
    intro h
    rw [h, abs_zero] at h1
    exact absurd h1 (not_le.mpr (zpow_pos (by norm_num) e))
  unfold roundTo
  rw [if_neg hq, log2_eq q e h1 h2, max_eq_left he]
  simp only [roundEven_eq _ m hm1 hm2]
  rw [if_neg (not_le.mpr hov)]

/-- A result of magnitude `2^(emax+1)` or more overflows to an infinity. -/
theorem roundTo_overflow (prec : Nat) (emin emax : Int) (hp : 1 ≤ prec) (he : emin ≤ emax)
    (q : ℚ) (h : (2 : ℚ) ^ (emax + 1) ≤ q) : roundTo prec emin emax q = Ext.pinf := by
  have hpos : (0 : ℚ) < q := lt_of_lt_of_le (zpow_pos (by norm_num) _) h
  have hq : q ≠ 0 := hpos.ne'
  have hlog : emax + 1 ≤ Int.log 2 |q| := (log2_le_iff q hq _).mp (by rwa [abs_of_pos hpos])
  have hL : (2 : ℚ) ^ (Int.log 2 |q|) ≤ q := by
    have := (log2_le_iff q hq (Int.log 2 |q|)).mpr (le_refl _)
    exact le_trans this (le_of_eq (abs_of_pos hpos))
  obtain ⟨k, hk⟩ : ∃ k : Nat, (prec : Int) - 1 = (k : Int) := ⟨prec - 1, by omega⟩
  have hu : (0 : ℚ) < (2 : ℚ) ^ (Int.log 2 |q| - (k : Int)) := zpow_pos (by norm_num) _
  have hint : ((2 ^ k : Int) : ℚ) ≤ q / (2 : ℚ) ^ (Int.log 2 |q| - (k : Int)) := by
    rw [le_div_iff₀ hu]
    push_cast
    rw [← zpow_natCast, ← zpow_add₀ (by norm_num : (2 : ℚ) ≠ 0)]
    simpa using hL
  have hr : (2 ^ k : Int) ≤ roundEven (q / (2 : ℚ) ^ (Int.log 2 |q| - (k : Int))) := by
    unfold roundEven
    have := Int.le_floor.mpr hint
    split_ifs <;> omega
  have hr' : ((2 ^ k : Int) : ℚ)
      ≤ (roundEven (q / (2 : ℚ) ^ (Int.log 2 |q| - (k : Int))) : ℚ) := by exact_mod_cast hr
  have hbig : (2 : ℚ) ^ (emax + 1)
      ≤ (roundEven (q / (2 : ℚ) ^ (Int.log 2 |q| - (k : Int))) : ℚ)
        * (2 : ℚ) ^ (Int.log 2 |q| - (k : Int)) := by
    have e1 : ((2 ^ k : Int) : ℚ) * (2 : ℚ) ^ (Int.log 2 |q| - (k : Int))
        = (2 : ℚ) ^ (Int.log 2 |q|) := by
      push_cast
      rw [← zpow_natCast, ← zpow_add₀ (by norm_num : (2 : ℚ) ≠ 0)]
      simp
    have e2 : (2 : ℚ) ^ (emax + 1) ≤ (2 : ℚ) ^ (Int.log 2 |q|) :=
      zpow_le_zpow_right₀ (by norm_num) hlog
    calc (2 : ℚ) ^ (emax + 1) ≤ (2 : ℚ) ^ (Int.log 2 |q|) := e2
      _ = ((2 ^ k : Int) : ℚ) * (2 : ℚ) ^ (Int.log 2 |q| - (k : Int)) := e1.symm
      _ ≤ _ := mul_le_mul_of_nonneg_right hr' hu.le
  unfold roundTo
  rw [if_neg hq, max_eq_left (by omega : emin ≤ Int.log 2 |q|), hk]
  simp only
  rw [if_pos (le_trans hbig (le_abs_self _)), if_pos hpos]

theorem round32_overflow (q : ℚ) (h : (2 : ℚ) ^ (128 : Int) ≤ q) : round32 q = Ext.pinf :=
  roundTo_overflow 24 (-126) 127 (by norm_num) (by norm_num) q (by simpa using h)

theorem round32_eval (q : ℚ) (e m : Int)
    (h1 : (2 : ℚ) ^ e ≤ |q|) (h2 : |q| < (2 : ℚ) ^ (e + 1)) (he : -126 ≤ e)
    (hm1 : (m : ℚ) - 1 / 2 < q / (2 : ℚ) ^ (e - 23))
    (hm2 : q / (2 : ℚ) ^ (e - 23) < (m : ℚ) + 1 / 2)
    (hov : |(m : ℚ) * (2 : ℚ) ^ (e - 23)| < (2 : ℚ) ^ (128 : Int)) :
    round32 q = Ext.fin ((m : ℚ) * (2 : ℚ) ^ (e - 23)) := by
  have := roundTo_eval 24 (-126) 127 q e m h1 h2 he (by simpa using hm1) (by simpa using hm2)
    (by simpa using hov)
  simpa [round32] using this


theorem round32_zero : round32 0 = Ext.fin 0 := by simp [round32, roundTo]

theorem round32_hundredth : round32 (1 / 100) = Ext.fin (5368709 / 536870912) := by
  have := round32_eval (1 / 100) (-7) 10737418 (by norm_num [abs_of_pos]) (by norm_num [abs_of_pos])
    (by norm_num) (by norm_num) (by norm_num) (by norm_num [abs_of_pos])
  rw [this]
  norm_num


theorem round32_one : round32 1 = Ext.fin 1 := by
  simpa using round32_int 1 (by norm_num) (by norm_num)

theorem round32_100000 : round32 100000 = Ext.fin 100000 := by
  simpa using round32_int 100000 (by norm_num) (by norm_num)

theorem round32_03 : round32 0.3 = Ext.fin (5033165 / 16777216) := by
  have e : (0.3 : ℚ) = 3 / 10 := by norm_num
  rw [e, round32_eval (3 / 10) (-2) 10066330 (by norm_num [abs_of_pos])
    (by norm_num [abs_of_pos]) (by norm_num) (by norm_num) (by norm_num)
    (by norm_num [abs_of_pos])]
  norm_num

theorem round32_04 : round32 0.4 = Ext.fin (13421773 / 33554432) := by
  have e : (0.4 : ℚ) = 2 / 5 := by norm_num
  rw [e, round32_eval (2 / 5) (-2) 13421773 (by norm_num [abs_of_pos])
    (by norm_num [abs_of_pos]) (by norm_num) (by norm_num) (by norm_num)
    (by norm_num [abs_of_pos])]
  norm_num

theorem baseline32_eq :
    baseline32 =
      { randSeed := 0, waveType := SFX_SQUARE, attackTime := Ext.fin 0,
        sustainTime := Ext.fin (5033165 / 16777216), sustainPunch := Ext.fin 0,
        decayTime := Ext.fin (13421773 / 33554432),
        startFrequency := Ext.fin (5033165 / 16777216), minFrequency := Ext.fin 0,
        slide := Ext.fin 0, deltaSlide := Ext.fin 0, vibratoDepth := Ext.fin 0,
        vibratoSpeed := Ext.fin 0, changeAmount := Ext.fin 0, changeSpeed := Ext.fin 0,
        squareDuty := Ext.fin 0, dutySweep := Ext.fin 0, repeatSpeed := Ext.fin 0,
        phaserOffset := Ext.fin 0, phaserSweep := Ext.fin 0, lpfCutoff := Ext.fin 1,
        lpfCutoffSweep := Ext.fin 0, lpfResonance := Ext.fin 0, hpfCutoff := Ext.fin 0,
        hpfCutoffSweep := Ext.fin 0 } := by
  simp only [baseline32, sfx_resetParams, ieeeOps, round32_zero, round32_one, round32_03,
    round32_04]

theorem toInt_fin_int (n : Int) (h1 : -2147483648 ≤ n) (h2 : n ≤ 2147483647) :
    Ext.toInt (Ext.fin (n : ℚ)) = n := by
  have : trunc (n : ℚ) = n := by simp [trunc]
  simp only [Ext.toInt, this]
  rw [if_pos ⟨h1, h2⟩]

theorem round32_sq_03 :
    round32 (5033165 / 16777216 * (5033165 / 16777216)) = Ext.fin (3019899 / 33554432) := by
  rw [round32_eval (5033165 / 16777216 * (5033165 / 16777216)) (-4) 12079596
    (by norm_num [abs_of_pos]) (by norm_num [abs_of_pos]) (by norm_num) (by norm_num) (by norm_num)
    (by norm_num [abs_of_pos])]
  norm_num

theorem round32_len_03 :
    round32 (3019899 / 33554432 * 100000) = Ext.fin (9000) := by
  rw [round32_eval (3019899 / 33554432 * 100000) (13) 9216000
    (by norm_num [abs_of_pos]) (by norm_num [abs_of_pos]) (by norm_num) (by norm_num) (by norm_num)
    (by norm_num [abs_of_pos])]
  norm_num

theorem round32_sq_04 :
    round32 (13421773 / 33554432 * (13421773 / 33554432)) = Ext.fin (10737419 / 67108864) := by
  rw [round32_eval (13421773 / 33554432 * (13421773 / 33554432)) (-3) 10737419
    (by norm_num [abs_of_pos]) (by norm_num [abs_of_pos]) (by norm_num) (by norm_num) (by norm_num)
    (by norm_num [abs_of_pos])]
  norm_num

theorem round32_len_04 :
    round32 (10737419 / 67108864 * 100000) = Ext.fin (16384001 / 1024) := by
  rw [round32_eval (10737419 / 67108864 * 100000) (13) 16384001
    (by norm_num [abs_of_pos]) (by norm_num [abs_of_pos]) (by norm_num) (by norm_num) (by norm_num)
    (by norm_num [abs_of_pos])]
  norm_num

theorem round32_sq_001 :
    round32 (5368709 / 536870912 * (5368709 / 536870912)) = Ext.fin (13743895 / 137438953472) := by
  rw [round32_eval (5368709 / 536870912 * (5368709 / 536870912)) (-14) 13743895
    (by norm_num [abs_of_pos]) (by norm_num [abs_of_pos]) (by norm_num) (by norm_num) (by norm_num)
    (by norm_num [abs_of_pos])]
  norm_num

theorem round32_len_001 :
    round32 (13743895 / 137438953472 * 100000) = Ext.fin (10) := by
  rw [round32_eval (13743895 / 137438953472 * 100000) (3) 10485760
    (by norm_num [abs_of_pos]) (by norm_num [abs_of_pos]) (by norm_num) (by norm_num) (by norm_num)
    (by norm_num [abs_of_pos])]
  norm_num

/-! ## Wave synthesis: the frame count, in the operations of the code -/

theorem initRegs_envLength {F D : Type} (fo : FloatOps F D) (sp : SfxParams F) :
    (initRegs fo sp).envLength0
        = fo.toInt (fo.mul (fo.mul sp.attackTime sp.attackTime) (fo.lit 100000)) ∧
    (initRegs fo sp).envLength1
        = fo.toInt (fo.mul (fo.mul sp.sustainTime sp.sustainTime) (fo.lit 100000)) ∧
    (initRegs fo sp).envLength2
        = fo.toInt (fo.mul (fo.mul sp.decayTime sp.decayTime) (fo.lit 100000)) ∧
    (initRegs fo sp).envStage = 0 ∧ (initRegs fo sp).envTime = 0 :=
  ⟨rfl, rfl, rfl, rfl, rfl⟩

theorem generateWave_count_generic {F D R : Type} (fo : FloatOps F D) (rnd : RandomSource R)
    (synth : SfxSynth F) (sp : SfxParams F) (r : R)
    (hN : 0 ≤ synth.sampleRate * synth.maxDuration)
    (hmin : fo.lt (fo.lit 0) (minFreq fo sp) = false)
    (h0 : 0 ≤ (initRegs fo sp).envLength0) (h1 : 0 ≤ (initRegs fo sp).envLength1)
    (h2 : 0 ≤ (initRegs fo sp).envLength2) :
    (sfx_generateWave fo rnd synth sp r).1 =
      min (synth.sampleRate * synth.maxDuration)
        ((initRegs fo sp).envLength0
          + (if 0 < (initRegs fo sp).envLength1 then (initRegs fo sp).envLength1 + 1 else 0)
          + (if 0 < (initRegs fo sp).envLength2 then (initRegs fo sp).envLength2 + 1 else 0)) := by
  obtain ⟨pk, hr⟩ := initState_regs fo rnd synth sp r
  have e : (sfx_generateWave fo rnd synth sp r).1
      = (genLoop fo rnd sp synth.sampleFormat 0 (synth.sampleRate * synth.maxDuration)
        (initState fo rnd synth sp r) synth.samples).1 := rfl
  rw [e, genLoop_count fo rnd sp synth.sampleFormat hmin 0 _ _ _ hN
    (by rw [hr]; exact h1) (by rw [hr]; exact h2)
    (by rw [hr]; exact Or.inl rfl) (by rw [hr]; exact le_refl _)
    (by rw [hr]; exact h0), hr]
  simp only [envRemaining]
  have a : ({ initRegs fo sp with pinkI := pk } : Regs F D).envStage = 0 := rfl
  have b : ({ initRegs fo sp with pinkI := pk } : Regs F D).envTime = 0 := rfl
  rw [if_pos a, b, sub_zero, zero_add]


/-- C15, amended: for every interpretation of the arithmetic, with `L0`, `L1`, `L2` the stage
lengths the code computes, `(int)(attackTime*attackTime*100000.0f)` and likewise for
`sustainTime` and `decayTime` (products of `float`, rounded as such), and with
`N = sampleRate*maxDuration >= 0`: when the effective minimum frequency is not above 0 (so
that the minimum-frequency stop cannot fire) and the three lengths are not negative,
`sfx_generateWave` returns `min(N, L0 + (L1 > 0 ? L1+1 : 0) + (L2 > 0 ? L2+1 : 0))`; with all
three lengths 0 it returns 0; and with `L0 = 0`, `L1 = 9000`, `L2 = 16000` (Scenario A, the
defaults) at 44100 Hz and 10 s it returns 25002, below 441000. -/
theorem generateWave_envelope_count {F D R : Type} (fo : FloatOps F D) (rnd : RandomSource R)
    (synth : SfxSynth F) (sp : SfxParams F) (r : R)
    (hN : 0 ≤ synth.sampleRate * synth.maxDuration)
    (hmin : fo.lt (fo.lit 0) (minFreq fo sp) = false)
    (h0 : 0 ≤ fo.toInt (fo.mul (fo.mul sp.attackTime sp.attackTime) (fo.lit 100000)))
    (h1 : 0 ≤ fo.toInt (fo.mul (fo.mul sp.sustainTime sp.sustainTime) (fo.lit 100000)))
    (h2 : 0 ≤ fo.toInt (fo.mul (fo.mul sp.decayTime sp.decayTime) (fo.lit 100000))) :
    (sfx_generateWave fo rnd synth sp r).1 =
      min (synth.sampleRate * synth.maxDuration)
        (fo.toInt (fo.mul (fo.mul sp.attackTime sp.attackTime) (fo.lit 100000))
          + (if 0 < fo.toInt (fo.mul (fo.mul sp.sustainTime sp.sustainTime) (fo.lit 100000))
              then fo.toInt (fo.mul (fo.mul sp.sustainTime sp.sustainTime) (fo.lit 100000)) + 1
              else 0)
          + (if 0 < fo.toInt (fo.mul (fo.mul sp.decayTime sp.decayTime) (fo.lit 100000))
              then fo.toInt (fo.mul (fo.mul sp.decayTime sp.decayTime) (fo.lit 100000)) + 1
              else 0)) ∧
    (fo.toInt (fo.mul (fo.mul sp.attackTime sp.attackTime) (fo.lit 100000)) = 0 →
      fo.toInt (fo.mul (fo.mul sp.sustainTime sp.sustainTime) (fo.lit 100000)) = 0 →
      fo.toInt (fo.mul (fo.mul sp.decayTime sp.decayTime) (fo.lit 100000)) = 0 →
      (sfx_generateWave fo rnd synth sp r).1 = 0) ∧
    (fo.toInt (fo.mul (fo.mul sp.attackTime sp.attackTime) (fo.lit 100000)) = 0 →
      fo.toInt (fo.mul (fo.mul sp.sustainTime sp.sustainTime) (fo.lit 100000)) = 9000 →
      fo.toInt (fo.mul (fo.mul sp.decayTime sp.decayTime) (fo.lit 100000)) = 16000 →
      synth.sampleRate = 44100 → synth.maxDuration = 10 →
      (sfx_generateWave fo rnd synth sp r).1 = 25002 ∧ (25002 : Int) < 44100 * 10) := by
  obtain ⟨e0, e1, e2, _, _⟩ := initRegs_envLength fo sp
  have key := generateWave_count_generic fo rnd synth sp r hN hmin (by rw [e0]; exact h0)
    (by rw [e1]; exact h1) (by rw [e2]; exact h2)
  rw [e0, e1, e2] at key
  refine ⟨key, ?_, ?_⟩
  · intro a b c
    rw [key, a, b, c]
    simp only [lt_self_iff_false, if_false, add_zero]
    exact min_eq_right hN
  · intro a b c hr hd
    rw [key, a, b, c, hr, hd]
    norm_num

theorem ieee_lengths_zero (sn : ℚ → ℚ) :
    (ieeeOps sn).toInt ((ieeeOps sn).mul ((ieeeOps sn).mul (Ext.fin 0) (Ext.fin 0))
      ((ieeeOps sn).lit 100000)) = 0 := by
  simp only [ieeeOps, Ext.mul, mul_zero, zero_mul, round32_zero, round32_100000]
  exact toInt_fin_int 0 (by norm_num) (by norm_num)

theorem baseline32_lengths :
    (ieeeOps sinPoly).toInt ((ieeeOps sinPoly).mul
      ((ieeeOps sinPoly).mul baseline32.attackTime baseline32.attackTime)
      ((ieeeOps sinPoly).lit 100000)) = 0 ∧
    (ieeeOps sinPoly).toInt ((ieeeOps sinPoly).mul
      ((ieeeOps sinPoly).mul baseline32.sustainTime baseline32.sustainTime)
      ((ieeeOps sinPoly).lit 100000)) = 9000 ∧
    (ieeeOps sinPoly).toInt ((ieeeOps sinPoly).mul
      ((ieeeOps sinPoly).mul baseline32.decayTime baseline32.decayTime)
      ((ieeeOps sinPoly).lit 100000)) = 16000 := by
  rw [baseline32_eq]
  refine ⟨ieee_lengths_zero sinPoly, ?_, ?_⟩
  · simp only [ieeeOps, Ext.mul, round32_100000, round32_sq_03, round32_len_03]
    exact toInt_fin_int 9000 (by norm_num) (by norm_num)
  · simp only [ieeeOps, Ext.mul, round32_100000, round32_sq_04, round32_len_04]
    simp only [Ext.toInt, trunc]
    norm_num [Int.floor_eq_iff]

theorem ieee_minFreq_zero (sp : SfxParams Ext) (a : ℚ) (hs : sp.startFrequency = Ext.fin a)
    (ha : 0 ≤ a) (hm : sp.minFrequency = Ext.fin 0) :
    (ieeeOps sinPoly).lt ((ieeeOps sinPoly).lit 0) (minFreq (ieeeOps sinPoly) sp) = false := by
  have e : Ext.lt (Ext.fin a) (Ext.fin 0) = false := by
    simp only [Ext.lt, decide_eq_false_iff_not, not_lt]
    exact ha
  simp only [minFreq, hs, hm, ieeeOps, e, round32_zero, Bool.false_eq_true, if_false]
  simp [Ext.lt]

theorem generateWave_envelope_count_witness :
    (sfx_generateWave (ieeeOps sinPoly) (constRandom 0) roomy32 baseline32 0).1 = 25002 := by
  obtain ⟨hL0, hL1, hL2⟩ := baseline32_lengths
  exact ((generateWave_envelope_count (ieeeOps sinPoly) (constRandom 0) roomy32 baseline32 0
    (by decide)
    (ieee_minFreq_zero baseline32 (5033165 / 16777216) (by rw [baseline32_eq])
      (by norm_num) (by rw [baseline32_eq]))
    (by rw [hL0]) (by rw [hL1]; decide) (by rw [hL2]; decide)).2.2 hL0 hL1 hL2 rfl rfl).1

/-- C15, as stated, fails: in IEEE arithmetic, for the defaults with `sustainTime = 0.01f` and
`decayTime = 0` at 44100 Hz and 10 s, the effective minimum frequency is 0 and
`sfx_generateWave` returns 11, while `trunc(sustainTime^2*100000) = 9` and the count of the
claim is `0 + (9+1) + 0 = 10`: the `float` product `sustainTime*sustainTime*100000.0f` is
rounded to 10. -/
theorem envelope_count_rounded :
    (sfx_generateWave (ieeeOps sinPoly) (constRandom 0) roomy32 shortNote 0).1 = 11 ∧
    shortNote.sustainTime = Ext.fin shortNoteExact.sustainTime ∧
    shortNote.attackTime = Ext.fin shortNoteExact.attackTime ∧
    shortNote.decayTime = Ext.fin shortNoteExact.decayTime ∧
    minFreq (ieeeOps sinPoly) shortNote = Ext.fin 0 ∧
    trunc (shortNoteExact.sustainTime ^ 2 * 100000) = 9 ∧
    envelopeFrames shortNoteExact (roomy32.sampleRate * roomy32.maxDuration) = 10 := by
  have hs : shortNote =
      { baseline32 with sustainTime := Ext.fin (5368709 / 536870912), decayTime := Ext.fin 0 } :=
    rfl
  rw [baseline32_eq] at hs
  have hL0 : (ieeeOps sinPoly).toInt ((ieeeOps sinPoly).mul
      ((ieeeOps sinPoly).mul shortNote.attackTime shortNote.attackTime)
      ((ieeeOps sinPoly).lit 100000)) = 0 := by
    rw [hs]; exact ieee_lengths_zero sinPoly
  have hL2 : (ieeeOps sinPoly).toInt ((ieeeOps sinPoly).mul
      ((ieeeOps sinPoly).mul shortNote.decayTime shortNote.decayTime)
      ((ieeeOps sinPoly).lit 100000)) = 0 := by
    rw [hs]; exact ieee_lengths_zero sinPoly
  have hL1 : (ieeeOps sinPoly).toInt ((ieeeOps sinPoly).mul
      ((ieeeOps sinPoly).mul shortNote.sustainTime shortNote.sustainTime)
      ((ieeeOps sinPoly).lit 100000)) = 10 := by
    rw [hs]
    simp only [ieeeOps, Ext.mul, round32_100000, round32_sq_001, round32_len_001]
    exact toInt_fin_int 10 (by norm_num) (by norm_num)
  have hmin := ieee_minFreq_zero shortNote (5033165 / 16777216) (by rw [hs]) (by norm_num)
    (by rw [hs])
  obtain ⟨e0, e1, e2, _, _⟩ := initRegs_envLength (ieeeOps sinPoly) shortNote
  have key := generateWave_count_generic (ieeeOps sinPoly) (constRandom 0) roomy32 shortNote 0
    (by decide) hmin (by rw [e0, hL0]) (by rw [e1, hL1]; decide) (by rw [e2, hL2])
  rw [e0, e1, e2, hL0, hL1, hL2] at key
  have t1 : trunc (shortNoteExact.sustainTime ^ 2 * 100000) = 9 := by
    simp only [shortNoteExact, trunc]
    norm_num [Int.floor_eq_iff]
  have t0 : trunc (shortNoteExact.attackTime ^ 2 * 100000) = 0 := by
    simp [shortNoteExact, baseline, sfx_resetParams, exactArith, exactOps, trunc]
  have t2 : trunc (shortNoteExact.decayTime ^ 2 * 100000) = 0 := by
    simp [shortNoteExact, trunc]
  refine ⟨by rw [key]; decide, ?_, ?_, ?_, ?_, t1, ?_⟩
  · rw [hs]; rfl
  · rw [hs]; simp [shortNoteExact, baseline, sfx_resetParams, exactArith, exactOps]
  · rw [hs]; rfl
  · rw [hs]
    simp only [minFreq, ieeeOps, Ext.lt]
    norm_num
  · simp only [envelopeFrames, t0, t1, t2]
    decide

/-! ## Wave synthesis: the repeat, in the operations of the code -/

theorem round32_two : round32 2 = Ext.fin 2 := by
  simpa using round32_int 2 (by norm_num) (by norm_num)

theorem round32_ofInt (sn : ℚ → ℚ) (n : Int) (hA : -16777216 < n) (hB : n < 16777216) :
    (ieeeOps sn).ofInt n = Ext.fin (n : ℚ) := round32_int n hA hB

theorem round32_rep_sub :
    round32 (1 + -(13421773 / 67108864)) = Ext.fin (13421773 / 16777216) := by
  rw [round32_eval (1 + -(13421773 / 67108864)) (-1) 13421773
    (by norm_num [abs_of_pos]) (by norm_num [abs_of_pos]) (by norm_num) (by norm_num) (by norm_num)
    (by norm_num [abs_of_pos])]
  norm_num

theorem round32_rep_sq :
    round32 ((13421773 / 16777216) ^ 2) = Ext.fin (10737419 / 16777216) := by
  rw [round32_eval ((13421773 / 16777216) ^ 2) (-1) 10737419
    (by norm_num [abs_of_pos]) (by norm_num [abs_of_pos]) (by norm_num) (by norm_num) (by norm_num)
    (by norm_num [abs_of_pos])]
  norm_num

theorem round32_rep_mul :
    round32 (10737419 / 16777216 * 20000) = Ext.fin (13107201 / 1024) := by
  rw [round32_eval (10737419 / 16777216 * 20000) (13) 13107201
    (by norm_num [abs_of_pos]) (by norm_num [abs_of_pos]) (by norm_num) (by norm_num) (by norm_num)
    (by norm_num [abs_of_pos])]
  norm_num

theorem round32_rep_add :
    round32 (13107201 / 1024 + 32) = Ext.fin (13139969 / 1024) := by
  rw [round32_eval (13107201 / 1024 + 32) (13) 13139969
    (by norm_num [abs_of_pos]) (by norm_num [abs_of_pos]) (by norm_num) (by norm_num) (by norm_num)
    (by norm_num [abs_of_pos])]
  norm_num

theorem Ext.pow_two (rd : ℚ → Ext) (a : ℚ) :
    Ext.pow rd (Ext.fin a) (Ext.fin 2) = rd (a ^ 2) := by
  simp [Ext.pow]

theorem Ext.pow_three (rd : ℚ → Ext) (a : ℚ) :
    Ext.pow rd (Ext.fin a) (Ext.fin 3) = rd (a ^ 3) := by
  simp [Ext.pow]

theorem Ext.sub_fin (rd : ℚ → Ext) (a b : ℚ) :
    Ext.sub rd (Ext.fin a) (Ext.fin b) = rd (a + -b) := rfl

theorem fifthRepeat_limit :
    (initRegs (ieeeOps sinPoly) fifthRepeat).repeatLimit = 12832 ∧
    trunc ((1 - 13421773 / 67108864) ^ 2 * 20000 + 32) = 12831 := by
  have hs : fifthRepeat = { baseline32 with repeatSpeed := Ext.fin (13421773 / 67108864) } := rfl
  rw [baseline32_eq] at hs
  constructor
  · have h0 : Ext.eq (Ext.fin (13421773 / 67108864)) (Ext.fin 0) = false := by
      simp only [Ext.eq, decide_eq_false_iff_not]
      norm_num
    have h1 : Ext.sub round32 (Ext.fin 1) (Ext.fin (13421773 / 67108864))
        = Ext.fin (13421773 / 16777216) := by
      rw [Ext.sub_fin, round32_rep_sub]
    have h2 : Ext.pow round32 (Ext.fin (13421773 / 16777216)) (Ext.fin 2)
        = Ext.fin (10737419 / 16777216) := by
      rw [Ext.pow_two, round32_rep_sq]
    have h3 : Ext.mul round32 (Ext.fin (10737419 / 16777216)) (Ext.fin 20000)
        = Ext.fin (13107201 / 1024) := by
      simp only [Ext.mul]
      exact round32_rep_mul
    have h4 : Ext.add round32 (Ext.fin (13107201 / 1024)) (Ext.fin 32)
        = Ext.fin (13139969 / 1024) := by
      simp only [Ext.add]
      exact round32_rep_add
    have h5 : Ext.toInt (Ext.fin (13139969 / 1024)) = 12832 := by
      simp only [Ext.toInt, trunc]
      norm_num [Int.floor_eq_iff]
    have e1 := round32_ofInt sinPoly 20000 (by norm_num) (by norm_num)
    have e2 := round32_ofInt sinPoly 32 (by norm_num) (by norm_num)
    rw [hs]
    simp only [initRegs, resetSample]
    rw [e1, e2]
    simp only [ieeeOps, round32_zero, round32_one, round32_two]
    push_cast
    rw [h0, h1, h2, h3, h4, h5]
    simp
  · simp only [trunc]
    norm_num [Int.floor_eq_iff]

/-- C20, amended: for every interpretation of the arithmetic, at every iteration of the sample
loop `repeatLimit` is 0 when `repeatSpeed == 0.0f` and otherwise the value the code computes
in `float`, `(int)(powf(1.0f - repeatSpeed, 2.0f)*20000 + 32)`; with `repeatSpeed == 0.0f`,
with a limit of 0, and whenever the counter has not reached the limit, the repeat only counts
(`repeatTime++`); when the counter reaches the limit it is set to 0 and the running period
(`fperiod`, `period`), the slide factor, the delta-slide, the duty and the duty sweep are reset
to the values they had right after the initialisation of the call, as are the maximum period
and the arpeggio locals; the phase accumulator `phase` is not reset, it keeps its value. -/
theorem repeat_retrigger {F D R : Type} (fo : FloatOps F D) (rnd : RandomSource R)
    (synth : SfxSynth F) (sp : SfxParams F) (r : R) (c e : Int) (st : GenState F D R)
    (hh : LoopHead fo rnd sp (initState fo rnd synth sp r)
      (synth.sampleRate * synth.maxDuration) c e st) :
    st.regs.repeatLimit =
      (if fo.eq sp.repeatSpeed (fo.lit 0) then 0
       else fo.toInt (fo.add (fo.mul (fo.powf (fo.sub (fo.lit 1) sp.repeatSpeed) (fo.lit 2))
        (fo.ofInt 20000)) (fo.ofInt 32))) ∧
    ((fo.eq sp.repeatSpeed (fo.lit 0) = true ∨ st.regs.repeatLimit = 0 ∨
        st.regs.repeatTime + 1 < st.regs.repeatLimit) →
      stepRepeat fo sp st.regs = { st.regs with repeatTime := st.regs.repeatTime + 1 }) ∧
    (st.regs.repeatLimit ≠ 0 ∧ st.regs.repeatTime + 1 ≥ st.regs.repeatLimit →
      (stepRepeat fo sp st.regs).repeatTime = 0 ∧
      (stepRepeat fo sp st.regs).fperiod = (initRegs fo sp).fperiod ∧
      (stepRepeat fo sp st.regs).period = (initRegs fo sp).period ∧
      (stepRepeat fo sp st.regs).fslide = (initRegs fo sp).fslide ∧
      (stepRepeat fo sp st.regs).fdslide = (initRegs fo sp).fdslide ∧
      (stepRepeat fo sp st.regs).squareDuty = (initRegs fo sp).squareDuty ∧
      (stepRepeat fo sp st.regs).squareSlide = (initRegs fo sp).squareSlide ∧
      (stepRepeat fo sp st.regs).fmaxperiod = (initRegs fo sp).fmaxperiod ∧
      (stepRepeat fo sp st.regs).arpeggioTime = (initRegs fo sp).arpeggioTime ∧
      (stepRepeat fo sp st.regs).arpeggioLimit = (initRegs fo sp).arpeggioLimit ∧
      (stepRepeat fo sp st.regs).arpeggioModulation = (initRegs fo sp).arpeggioModulation ∧
      (stepRepeat fo sp st.regs).phase = st.regs.phase) := by
  have hl := head_repeatLimit fo rnd synth sp r _ c e st hh
  have hi : (initRegs fo sp).repeatLimit =
      (if fo.eq sp.repeatSpeed (fo.lit 0) then 0
       else fo.toInt (fo.add (fo.mul (fo.powf (fo.sub (fo.lit 1) sp.repeatSpeed) (fo.lit 2))
        (fo.ofInt 20000)) (fo.ofInt 32))) := rfl
  refine ⟨hl.trans hi, ?_, ?_⟩
  · intro h
    have hc : ¬ (st.regs.repeatLimit ≠ 0 ∧ st.regs.repeatTime + 1 ≥ st.regs.repeatLimit) := by
      rcases h with h | h | h
      · rw [hl, hi, if_pos h]; simp
      · rw [h]; simp
      · omega
    unfold stepRepeat
    dsimp only
    rw [if_neg hc]
  · intro h
    unfold stepRepeat
    dsimp only
    rw [if_pos h]
    exact ⟨rfl, rfl, rfl, rfl, rfl, rfl, rfl, rfl, rfl, rfl, rfl, rfl⟩

theorem repeat_retrigger_witness :
    (initState (ieeeOps sinPoly) (constRandom 0) roomy32 fifthRepeat 0).regs.repeatLimit
      = 12832 := by
  rw [(repeat_retrigger (ieeeOps sinPoly) (constRandom 0) roomy32 fifthRepeat 0 0
    (roomy32.sampleRate * roomy32.maxDuration) _ LoopHead.start).1]
  exact fifthRepeat_limit.1

/-! ## Wave synthesis: the stability clamps, in the operations of the code -/

theorem stepControl_duty_clamped {F D : Type} (fo : FloatOps F D) (sp : SfxParams F)
    (g : Regs F D) :
    Clamped fo (fo.lit 0) (fo.lit 0.5) (stepControl fo sp g).1.squareDuty := by
  unfold stepControl Clamped
  lift_lets
  intro g2 g3 g4 fslide fperiod0 over fperiod vib vibratoPhase rfperiod duty
  dsimp only
  split_ifs with a b
  · exact Or.inl rfl
  · exact Or.inr (Or.inl rfl)
  · exact Or.inr (Or.inr ⟨by simpa using a, by simpa using b⟩)

theorem stepFilter_fltw_clamped {F D : Type} (fo : FloatOps F D) (sp : SfxParams F)
    (g : Regs F D) (s : F) :
    Clamped fo (fo.lit 0) (fo.lit 0.1) (stepFilter fo sp g s).fltw := by
  unfold stepFilter Clamped
  dsimp only
  split_ifs with a b
  · exact Or.inl rfl
  · exact Or.inr (Or.inl rfl)
  · exact Or.inr (Or.inr ⟨by simpa using a, by simpa using b⟩)

theorem subSample_fltw_clamped {F D R : Type} (fo : FloatOps F D) (rnd : RandomSource R)
    (sp : SfxParams F) (x : F × GenState F D R) :
    Clamped fo (fo.lit 0) (fo.lit 0.1) (subSample fo rnd sp x).2.regs.fltw := by
  unfold subSample
  dsimp only
  exact stepFilter_fltw_clamped fo sp _ _

theorem initRegs_fltdmp_capped {F D : Type} (fo : FloatOps F D) (sp : SfxParams F) :
    Capped fo (fo.lit 0.8) (initRegs fo sp).fltdmp := by
  simp only [initRegs, resetSample, Capped]
  split_ifs with a
  · exact Or.inl rfl
  · exact Or.inr (by simpa using a)

theorem head_filter_clamped {F D R : Type} (fo : FloatOps F D) (rnd : RandomSource R)
    (synth : SfxSynth F) (sp : SfxParams F) (r : R) (N : Int) (c e : Int)
    (st : GenState F D R) (h : LoopHead fo rnd sp (initState fo rnd synth sp r) N c e st) :
    Capped fo (fo.lit 0.8) st.regs.fltdmp ∧ st.regs.fltdmp = (initRegs fo sp).fltdmp ∧ 0 ≤ c ∧
      (0 < c → Clamped fo (fo.lit 0) (fo.lit 0.1) st.regs.fltw) := by
  refine LoopHead_inv fo rnd sp _ N
    (fun c g => Capped fo (fo.lit 0.8) g.fltdmp ∧ g.fltdmp = (initRegs fo sp).fltdmp ∧ 0 ≤ c ∧
      (0 < c → Clamped fo (fo.lit 0) (fo.lit 0.1) g.fltw))
    ?_ ?_ c e st h
  · obtain ⟨pk, hr⟩ := initState_regs fo rnd synth sp r
    rw [hr]
    exact ⟨initRegs_fltdmp_capped fo sp, rfl, le_refl _, fun h => absurd h (lt_irrefl _)⟩
  · intro c st g hP hg
    obtain ⟨_, _, _, _, _, _, q7, _⟩ := iteration_flthp fo sp st.regs g hg
    obtain ⟨ph, pk, w, dp, p, php, ip, hsf⟩ := superSample_frame fo rnd sp
      { st with regs := stepPhaser fo g }
    have e : (superSample fo rnd sp { st with regs := stepPhaser fo g }).2.regs.fltdmp
        = st.regs.fltdmp := by
      rw [hsf]
      exact q7
    refine ⟨by rw [e]; exact hP.1, by rw [e]; exact hP.2.1, by omega, fun _ => ?_⟩
    rw [superSample_eq_subState, subState_succ]
    exact subSample_fltw_clamped fo rnd sp _

theorem ieee_clamped (sn : ℚ → ℚ) (lo hi : ℚ) (x : Ext) (h : lo ≤ hi)
    (hx : Clamped (ieeeOps sn) (Ext.fin lo) (Ext.fin hi) x) :
    x = Ext.nan ∨ ∃ a, x = Ext.fin a ∧ lo ≤ a ∧ a ≤ hi := by
  rcases hx with hx | hx | ⟨h1, h2⟩
  · exact Or.inr ⟨lo, hx, le_refl _, h⟩
  · exact Or.inr ⟨hi, hx, h, le_refl _⟩
  · cases x with
    | fin a =>
      simp only [ieeeOps, Ext.lt, decide_eq_false_iff_not, not_lt] at h1 h2
      exact Or.inr ⟨a, rfl, h1, h2⟩
    | pinf => simp [ieeeOps, Ext.lt] at h2
    | ninf => simp [ieeeOps, Ext.lt] at h1
    | nan => exact Or.inl rfl

theorem ieee_capped (sn : ℚ → ℚ) (hi : ℚ) (x : Ext)
    (hx : Capped (ieeeOps sn) (Ext.fin hi) x) :
    x = Ext.nan ∨ x = Ext.ninf ∨ ∃ a, x = Ext.fin a ∧ a ≤ hi := by
  rcases hx with hx | h2
  · exact Or.inr (Or.inr ⟨hi, hx, le_refl _⟩)
  · cases x with
    | fin a =>
      simp only [ieeeOps, Ext.lt, decide_eq_false_iff_not, not_lt] at h2
      exact Or.inr (Or.inr ⟨a, rfl, h2⟩)
    | pinf => simp [ieeeOps, Ext.lt] at h2
    | ninf => exact Or.inr (Or.inl rfl)
    | nan => exact Or.inl rfl

theorem round32_half : round32 0.5 = Ext.fin (1 / 2) := by
  have e : (0.5 : ℚ) = 1 / 2 := by norm_num
  rw [e, round32_eval (1 / 2) (-1) 8388608 (by norm_num [abs_of_pos])
    (by norm_num [abs_of_pos]) (by norm_num) (by norm_num) (by norm_num)
    (by norm_num [abs_of_pos])]
  norm_num

theorem round32_01 : round32 0.1 = Ext.fin (13421773 / 134217728) := by
  have e : (0.1 : ℚ) = 1 / 10 := by norm_num
  rw [e, round32_eval (1 / 10) (-4) 13421773 (by norm_num [abs_of_pos])
    (by norm_num [abs_of_pos]) (by norm_num) (by norm_num) (by norm_num)
    (by norm_num [abs_of_pos])]
  norm_num

theorem round32_08 : round32 0.8 = Ext.fin (13421773 / 16777216) := by
  have e : (0.8 : ℚ) = 4 / 5 := by norm_num
  rw [e, round32_eval (4 / 5) (-1) 13421773 (by norm_num [abs_of_pos])
    (by norm_num [abs_of_pos]) (by norm_num) (by norm_num) (by norm_num)
    (by norm_num [abs_of_pos])]
  norm_num

theorem first_iteration_generic {F D R : Type} (fo : FloatOps F D) (rnd : RandomSource R)
    (synth : SfxSynth F) (sp : SfxParams F) (r : R)
    (h0 : 0 ≤ (initRegs fo sp).envLength0) (h1 : 0 < (initRegs fo sp).envLength1) :
    ∃ g, stepEnvelope fo sp (stepControl fo sp (initState fo rnd synth sp r).regs).1
      = some g := by
  cases hc : stepEnvelope fo sp (stepControl fo sp (initState fo rnd synth sp r).regs).1 with
  | some g => exact ⟨g, rfl⟩
  | none =>
    exfalso
    obtain ⟨pk, hr⟩ := initState_regs fo rnd synth sp r
    obtain ⟨rt, fp, p, fm, fs, fds, sd, ss, am, at', al, vp, hf⟩ :=
      stepControl_frame fo sp (initState fo rnd synth sp r).regs
    rw [hf, hr] at hc
    have hz := stepEnvelope_none fo sp _ hc (Or.inl rfl) h0
    have a : ∀ l0 l1 l2 : Int, 0 ≤ l0 → 0 < l1 → envRemaining l0 l1 l2 0 0 ≠ 0 := by
      intro l0 l1 l2 a0 a1
      simp only [envRemaining, if_true, if_pos a1]
      split_ifs <;> omega
    exact a _ _ _ h0 h1 hz

theorem hugeFilter_eq :
    hugeFilter =
      { randSeed := 0, waveType := SFX_SQUARE, attackTime := Ext.fin 0,
        sustainTime := Ext.fin (5033165 / 16777216), sustainPunch := Ext.fin 0,
        decayTime := Ext.fin (13421773 / 33554432),
        startFrequency := Ext.fin (5033165 / 16777216), minFrequency := Ext.fin 0,
        slide := Ext.fin 0, deltaSlide := Ext.fin 0, vibratoDepth := Ext.fin 0,
        vibratoSpeed := Ext.fin 0, changeAmount := Ext.fin 0, changeSpeed := Ext.fin 0,
        squareDuty := Ext.fin 0, dutySweep := Ext.fin 0, repeatSpeed := Ext.fin 0,
        phaserOffset := Ext.fin 0, phaserSweep := Ext.fin 0,
        lpfCutoff := Ext.fin 100000002004087734272, lpfCutoffSweep := Ext.fin 0,
        lpfResonance := Ext.fin 100000002004087734272, hpfCutoff := Ext.fin 0,
        hpfCutoffSweep := Ext.fin 0 } := by
  have hs : hugeFilter = { baseline32 with
    lpfCutoff := Ext.fin 100000002004087734272
    lpfResonance := Ext.fin 100000002004087734272 } := rfl
  rw [baseline32_eq] at hs
  exact hs

theorem hugeFilter_lengths :
    (initRegs (ieeeOps sinPoly) hugeFilter).envLength0 = 0 ∧
    (initRegs (ieeeOps sinPoly) hugeFilter).envLength1 = 9000 ∧
    (initRegs (ieeeOps sinPoly) hugeFilter).envLength2 = 16000 := by
  obtain ⟨e0, e1, e2, _, _⟩ := initRegs_envLength (ieeeOps sinPoly) hugeFilter
  obtain ⟨b0, b1, b2⟩ := baseline32_lengths
  rw [e0, e1, e2]
  exact ⟨b0, b1, b2⟩

/-- In IEEE arithmetic the damping of the low-pass filter is NaN for `hugeFilter`:
`powf(1e20f, 3.0f)` and `powf(1e20f, 2.0f)` overflow to infinity, `5.0f` over infinity is 0,
0 times infinity is NaN, and `NaN > 0.8f` is false. -/
theorem hugeFilter_fltdmp : (initRegs (ieeeOps sinPoly) hugeFilter).fltdmp = Ext.nan := by
  have p3 : Ext.pow round32 (Ext.fin 100000002004087734272) (Ext.fin 3) = Ext.pinf := by
    rw [Ext.pow_three, round32_overflow _ (by norm_num)]
  have p2 : Ext.pow round32 (Ext.fin 100000002004087734272) (Ext.fin 2) = Ext.pinf := by
    rw [Ext.pow_two, round32_overflow _ (by norm_num)]
  have l3 : round32 3 = Ext.fin 3 := by
    simpa using round32_int 3 (by norm_num) (by norm_num)
  have l5 : round32 5 = Ext.fin 5 := by
    simpa using round32_int 5 (by norm_num) (by norm_num)
  have l20 : round32 20 = Ext.fin 20 := by
    simpa using round32_int 20 (by norm_num) (by norm_num)
  have h001 : ∃ a, round32 0.01 = Ext.fin a := by
    have e : (0.01 : ℚ) = 1 / 100 := by norm_num
    exact ⟨_, by rw [e]; exact round32_hundredth⟩
  obtain ⟨a, ha⟩ := h001
  rw [hugeFilter_eq]
  simp only [initRegs, resetSample, ieeeOps, l3, l5, l20, round32_two, round32_one, round32_01,
    round32_08, ha, p3, p2]
  simp [Ext.mul, Ext.add, Ext.div, Ext.lt, Ext.scaledInf]

/-! ## Wave synthesis: the range of the samples, in the operations of the code -/

theorem finishSample_clamped {F D : Type} (fo : FloatOps F D) (y : F) :
    Clamped fo (fo.neg (fo.lit 1)) (fo.lit 1) (finishSample fo y) := by
  unfold finishSample Clamped
  dsimp only
  split_ifs with a b
  · exact Or.inr (Or.inl rfl)
  · exact Or.inl rfl
  · exact Or.inr (Or.inr ⟨by simpa using b, by simpa using a⟩)

theorem emitSample_stored {F D : Type} (fo : FloatOps F D) (fmt : Int)
    (samples : Int → Sample F) (c : Int) (x : F) :
    (fmt = SFX_F32 → emitSample fo fmt samples c x c = Sample.f32 x) ∧
    (fmt = SFX_I16 →
      emitSample fo fmt samples c x c = Sample.i16 (fo.toInt (fo.mul x (fo.lit 32767)))) ∧
    (fmt = SFX_U8 →
      emitSample fo fmt samples c x c
        = Sample.u8 (fo.toInt (fo.add (fo.mul x (fo.lit 127)) (fo.lit 128)))) := by
  unfold emitSample
  refine ⟨?_, ?_, ?_⟩ <;> intro h <;> subst h <;> simp [SFX_U8, SFX_I16, SFX_F32]

theorem ieee_neg_one (sn : ℚ → ℚ) : (ieeeOps sn).neg ((ieeeOps sn).lit 1) = Ext.fin (-1) := by
  simp only [ieeeOps, round32_one, Ext.neg]

theorem round32_32767 : round32 32767 = Ext.fin 32767 := by
  simpa using round32_int 32767 (by norm_num) (by norm_num)

theorem round32_127 : round32 127 = Ext.fin 127 := by
  simpa using round32_int 127 (by norm_num) (by norm_num)

theorem round32_128 : round32 128 = Ext.fin 128 := by
  simpa using round32_int 128 (by norm_num) (by norm_num)

theorem toInt_fin_range (r : ℚ) (a b : Int) (ha : (a : ℚ) ≤ r) (hb : r ≤ (b : ℚ))
    (hA : -2147483648 ≤ a) (hB : b ≤ 2147483647) :
    a ≤ Ext.toInt (Ext.fin r) ∧ Ext.toInt (Ext.fin r) ≤ b := by
  obtain ⟨t1, t2⟩ := trunc_mem a b r ha hb
  simp only [Ext.toInt]
  rw [if_pos ⟨by omega, by omega⟩]
  exact ⟨t1, t2⟩

/-- In IEEE arithmetic, the I16 and U8 quantizations of a number between -1 and 1 lie in
[-32767, 32767] and [1, 255]. -/
theorem ieee_quantized_range (sn : ℚ → ℚ) (a : ℚ) (h1 : -1 ≤ a) (h2 : a ≤ 1) :
    (-32767 ≤ (ieeeOps sn).toInt ((ieeeOps sn).mul (Ext.fin a) ((ieeeOps sn).lit 32767)) ∧
      (ieeeOps sn).toInt ((ieeeOps sn).mul (Ext.fin a) ((ieeeOps sn).lit 32767)) ≤ 32767) ∧
    (1 ≤ (ieeeOps sn).toInt ((ieeeOps sn).add ((ieeeOps sn).mul (Ext.fin a)
        ((ieeeOps sn).lit 127)) ((ieeeOps sn).lit 128)) ∧
      (ieeeOps sn).toInt ((ieeeOps sn).add ((ieeeOps sn).mul (Ext.fin a)
        ((ieeeOps sn).lit 127)) ((ieeeOps sn).lit 128)) ≤ 255) := by
  simp only [ieeeOps, round32_32767, round32_127, round32_128, Ext.mul]
  constructor
  · obtain ⟨r, hr, r1, r2⟩ := round32_range (a * 32767) (-32767) 32767
      (by push_cast; linarith) (by push_cast; linarith) (by norm_num) (by norm_num)
    rw [hr]
    exact toInt_fin_range r (-32767) 32767 r1 r2 (by norm_num) (by norm_num)
  · obtain ⟨r, hr, r1, r2⟩ := round32_range (a * 127) (-127) 127
      (by push_cast; linarith) (by push_cast; linarith) (by norm_num) (by norm_num)
    rw [hr]
    simp only [Ext.add]
    obtain ⟨s, hs, s1, s2⟩ := round32_range (r + 128) 1 255
      (by push_cast at r1 ⊢; linarith) (by push_cast at r2 ⊢; linarith) (by norm_num)
      (by norm_num)
    rw [hs]
    exact toInt_fin_range s 1 255 s1 s2 (by norm_num) (by norm_num)

theorem ieee_nan_absorbing (sn : ℚ → ℚ) : Absorbing (ieeeOps sn) Ext.nan := by
  refine ⟨?_, ?_, ?_, ?_, ?_, ?_, ?_, ?_, ?_⟩ <;> intro a <;> cases a <;>
    simp [ieeeOps, Ext.add, Ext.sub, Ext.neg, Ext.mul, Ext.div, Ext.lt]

theorem subSample_absorbing {F D R : Type} (fo : FloatOps F D) (rnd : RandomSource R)
    (sp : SfxParams F) (n : F) (hn : Absorbing fo n)
    (hl : fo.eq sp.lpfCutoff (fo.lit 1) = false) (x : F × GenState F D R)
    (hd : x.2.regs.fltdmp = n) : (subSample fo rnd sp x).1 = n := by
  obtain ⟨a1, a2, s1, s2, m1, m2, d1, l1, l2⟩ := hn
  unfold subSample stepFilter
  dsimp only
  rw [advancePhase_frame]
  dsimp only
  simp only [hl, hd, Bool.not_false, if_true, m1, m2, s1, s2, a1, a2, Function.update_same]

theorem superSample_absorbing {F D R : Type} (fo : FloatOps F D) (rnd : RandomSource R)
    (sp : SfxParams F) (n : F) (hn : Absorbing fo n)
    (hl : fo.eq sp.lpfCutoff (fo.lit 1) = false) (st : GenState F D R)
    (hd : st.regs.fltdmp = n) : finishSample fo (superSample fo rnd sp st).1 = n := by
  obtain ⟨ph, pk, w, dp, p, php, ip, hx⟩ := subState_frame fo rnd sp st 7
  have e : (superSample fo rnd sp st).1 = n := by
    rw [superSample_eq_subState, subState_succ]
    exact subSample_absorbing fo rnd sp n hn hl _ (by rw [hx]; exact hd)
  obtain ⟨a1, a2, s1, s2, m1, m2, d1, l1, l2⟩ := hn
  unfold finishSample
  dsimp only
  rw [e, d1, m2, l2, l1]
  simp

theorem genLoop_one {F D R : Type} (fo : FloatOps F D) (rnd : RandomSource R)
    (sp : SfxParams F) (fmt : Int) (st : GenState F D R) (samples : Int → Sample F)
    (g : Regs F D) (hg : stepEnvelope fo sp (stepControl fo sp st.regs).1 = some g) :
    (genLoop fo rnd sp fmt 0 1 st samples).1 = 1 ∧
    (genLoop fo rnd sp fmt 0 1 st samples).2.2 =
      emitSample fo fmt samples 0
        (finishSample fo (superSample fo rnd sp { st with regs := stepPhaser fo g }).1) := by
  rw [genLoop, if_pos (by decide), hg]
  dsimp only
  rw [genLoop, if_neg (by split_ifs <;> decide)]
  exact ⟨rfl, rfl⟩

/-- C16, amended: for every interpretation of the arithmetic, every sample `sfx_generateWave`
emits (every cell below the count it returns) is the quantization of a value `x` that has
passed the clamp to `-1.0f`, `1.0f`: in F32 format the cell holds `x`, in I16 format
`(int16_t)(x*32767.0f)` and in U8 format `(uint8_t)(x*127.0f + 128.0f)`, computed in `float`.
In IEEE arithmetic such an `x` is NaN or lies in [-1, 1], and in the second case the I16
value lies in [-32767, 32767] and the U8 value in [1, 255]. -/
theorem generateWave_quantized {F D R : Type} (fo : FloatOps F D) (rnd : RandomSource R)
    (synth : SfxSynth F) (sp : SfxParams F) (r : R) (i : Int)
    (h0 : 0 ≤ i) (hi : i < (sfx_generateWave fo rnd synth sp r).1) :
    (∃ x : F, Clamped fo (fo.neg (fo.lit 1)) (fo.lit 1) x ∧
      (synth.sampleFormat = SFX_F32 →
        (sfx_generateWave fo rnd synth sp r).2.1.samples i = Sample.f32 x) ∧
      (synth.sampleFormat = SFX_I16 →
        (sfx_generateWave fo rnd synth sp r).2.1.samples i
          = Sample.i16 (fo.toInt (fo.mul x (fo.lit 32767)))) ∧
      (synth.sampleFormat = SFX_U8 →
        (sfx_generateWave fo rnd synth sp r).2.1.samples i
          = Sample.u8 (fo.toInt (fo.add (fo.mul x (fo.lit 127)) (fo.lit 128))))) ∧
    (∀ (sn : ℚ → ℚ) (x : Ext),
      Clamped (ieeeOps sn) ((ieeeOps sn).neg ((ieeeOps sn).lit 1)) ((ieeeOps sn).lit 1) x →
      x = Ext.nan ∨ ∃ a, x = Ext.fin a ∧ -1 ≤ a ∧ a ≤ 1 ∧
        (-32767 ≤ (ieeeOps sn).toInt ((ieeeOps sn).mul x ((ieeeOps sn).lit 32767)) ∧
          (ieeeOps sn).toInt ((ieeeOps sn).mul x ((ieeeOps sn).lit 32767)) ≤ 32767) ∧
        (1 ≤ (ieeeOps sn).toInt ((ieeeOps sn).add ((ieeeOps sn).mul x ((ieeeOps sn).lit 127))
            ((ieeeOps sn).lit 128)) ∧
          (ieeeOps sn).toInt ((ieeeOps sn).add ((ieeeOps sn).mul x ((ieeeOps sn).lit 127))
            ((ieeeOps sn).lit 128)) ≤ 255)) := by
  constructor
  · exact genLoop_cells fo rnd sp synth.sampleFormat
      (fun s => ∃ x : F, Clamped fo (fo.neg (fo.lit 1)) (fo.lit 1) x ∧
        (synth.sampleFormat = SFX_F32 → s = Sample.f32 x) ∧
        (synth.sampleFormat = SFX_I16 → s = Sample.i16 (fo.toInt (fo.mul x (fo.lit 32767)))) ∧
        (synth.sampleFormat = SFX_U8 →
          s = Sample.u8 (fo.toInt (fo.add (fo.mul x (fo.lit 127)) (fo.lit 128)))))
      (fun samples c y => ⟨_, finishSample_clamped fo y,
        emitSample_stored fo synth.sampleFormat samples c _⟩) 0
      (synth.sampleRate * synth.maxDuration) (initState fo rnd synth sp r)
      synth.samples (fun i h0 hi => absurd hi (by omega)) i h0 hi
  · intro sn x hx
    have e1 : (ieeeOps sn).lit 1 = Ext.fin 1 := round32_one
    rw [ieee_neg_one, e1] at hx
    rcases ieee_clamped sn (-1) 1 x (by norm_num) hx with h | ⟨a, ha, b1, b2⟩
    · exact Or.inl h
    · rw [ha]
      exact Or.inr ⟨a, rfl, b1, b2, ieee_quantized_range sn a b1 b2⟩

theorem roomy32_count :
    (sfx_generateWave (ieeeOps sinPoly) (constRandom 0) roomy32 baseline32 0).1 = 25002 := by
  obtain ⟨hL0, hL1, hL2⟩ := baseline32_lengths
  obtain ⟨e0, e1, e2, _, _⟩ := initRegs_envLength (ieeeOps sinPoly) baseline32
  rw [generateWave_count_generic (ieeeOps sinPoly) (constRandom 0) roomy32 baseline32 0
    (by decide)
    (ieee_minFreq_zero baseline32 (5033165 / 16777216) (by rw [baseline32_eq])
      (by norm_num) (by rw [baseline32_eq]))
    (by rw [e0, hL0]) (by rw [e1, hL1]; decide) (by rw [e2, hL2]; decide), e0, e1, e2, hL0, hL1,
    hL2]
  decide

theorem generateWave_quantized_witness :
    ∃ x : Ext, Clamped (ieeeOps sinPoly) ((ieeeOps sinPoly).neg ((ieeeOps sinPoly).lit 1))
        ((ieeeOps sinPoly).lit 1) x ∧
      (sfx_generateWave (ieeeOps sinPoly) (constRandom 0) roomy32 baseline32 0).2.1.samples 0
        = Sample.f32 x := by
  obtain ⟨x, hx, hf, _, _⟩ := (generateWave_quantized (ieeeOps sinPoly) (constRandom 0) roomy32
    baseline32 0 0 (le_refl 0) (by rw [roomy32_count]; decide)).1
  exact ⟨x, hx, hf rfl⟩

theorem generateWave_one {F D R : Type} (fo : FloatOps F D) (rnd : RandomSource R)
    (synth : SfxSynth F) (sp : SfxParams F) (r : R) (g : Regs F D)
    (hN : synth.sampleRate * synth.maxDuration = 1)
    (hg : stepEnvelope fo sp (stepControl fo sp (initState fo rnd synth sp r).regs).1 = some g) :
    (sfx_generateWave fo rnd synth sp r).1 = 1 ∧
    (sfx_generateWave fo rnd synth sp r).2.1.samples =
      emitSample fo synth.sampleFormat synth.samples 0
        (finishSample fo
          (superSample fo rnd sp
            { initState fo rnd synth sp r with regs := stepPhaser fo g }).1) := by
  unfold sfx_generateWave
  dsimp only
  rw [hN]
  exact genLoop_one fo rnd sp synth.sampleFormat _ synth.samples g hg

/-- C16, as stated, fails: in IEEE arithmetic, for the defaults with `lpfCutoff` and
`lpfResonance` both `1e20f`, a call with room for one `float` sample returns 1 and the sample
it stores is NaN, which is not a value from [-1, 1]: the filter damping is NaN, the filtered
sample is NaN, and NaN passes the clamp since `NaN > 1.0f` and `NaN < -1.0f` are both false. -/
theorem nan_sample_emitted :
    (sfx_generateWave (ieeeOps sinPoly) (constRandom 0) oneFrame32 hugeFilter 0).1 = 1 ∧
    (sfx_generateWave (ieeeOps sinPoly) (constRandom 0) oneFrame32 hugeFilter 0).2.1.samples 0
      = Sample.f32 Ext.nan ∧
    oneFrame32.sampleFormat = SFX_F32 ∧
    hugeFilter.lpfCutoff = Ext.fin 100000002004087734272 ∧
    hugeFilter.lpfResonance = Ext.fin 100000002004087734272 := by
  obtain ⟨g, hg⟩ := first_iteration_generic (ieeeOps sinPoly) (constRandom 0) oneFrame32
    hugeFilter 0 (by rw [hugeFilter_lengths.1]) (by rw [hugeFilter_lengths.2.1]; decide)
  obtain ⟨c1, c2⟩ := generateWave_one (ieeeOps sinPoly) (constRandom 0) oneFrame32 hugeFilter 0
    g (by decide) hg
  obtain ⟨_, _, _, _, _, _, q7, _⟩ := iteration_flthp (ieeeOps sinPoly) hugeFilter _ g hg
  obtain ⟨pk, hr⟩ := initState_regs (ieeeOps sinPoly) (constRandom 0) oneFrame32 hugeFilter 0
  have hd : g.fltdmp = Ext.nan := by
    rw [q7, hr]
    exact hugeFilter_fltdmp
  have hl : (ieeeOps sinPoly).eq hugeFilter.lpfCutoff ((ieeeOps sinPoly).lit 1) = false := by
    rw [hugeFilter_eq]
    simp only [ieeeOps, round32_one, Ext.eq, decide_eq_false_iff_not]
    norm_num
  have hs := superSample_absorbing (ieeeOps sinPoly) (constRandom 0) hugeFilter Ext.nan
    (ieee_nan_absorbing sinPoly) hl
    { initState (ieeeOps sinPoly) (constRandom 0) oneFrame32 hugeFilter 0 with
      regs := stepPhaser (ieeeOps sinPoly) g } hd
  have hF : oneFrame32.sampleFormat = SFX_F32 := rfl
  rw [hs, hF] at c2
  refine ⟨c1, ?_, hF, by rw [hugeFilter_eq], by rw [hugeFilter_eq]⟩
  rw [c2]
  exact (emitSample_stored (ieeeOps sinPoly) SFX_F32 oneFrame32.samples 0 Ext.nan).1 rfl

/-- In IEEE arithmetic the I16 quantization of `x = 5281953/33554432`, a `float` in [-1, 1], is
5158: the `float` product `x*32767.0f` is rounded to 5158, while `trunc(32767*x) = 5157`. -/
theorem i16_product_rounded :
    emitSample (ieeeOps sinPoly) SFX_I16 oneFrame32.samples 0 (Ext.fin (5281953 / 33554432)) 0
      = Sample.i16 5158 ∧
    trunc (32767 * (5281953 / 33554432)) = 5157 := by
  constructor
  · rw [(emitSample_stored (ieeeOps sinPoly) SFX_I16 oneFrame32.samples 0 _).2.1 rfl]
    have e : round32 (5281953 / 33554432 * 32767) = Ext.fin 5158 := by
      rw [round32_eval (5281953 / 33554432 * 32767) 12 10563584
        (by norm_num [abs_of_pos]) (by norm_num [abs_of_pos]) (by norm_num) (by norm_num)
        (by norm_num) (by norm_num [abs_of_pos])]
      norm_num
    simp only [ieeeOps, round32_32767, Ext.mul, e]
    have t := toInt_fin_int 5158 (by norm_num) (by norm_num)
    push_cast at t
    rw [t]
  · simp only [trunc]
    norm_num [Int.floor_eq_iff]

/-! ## Wave synthesis: the duty in IEEE arithmetic -/

/-- A result of magnitude below `2^emax` is rounded to a finite number. -/
theorem roundTo_finite (prec : Nat) (emin emax : Int) (hp : 1 ≤ prec) (he : emin < emax)
    (q : ℚ) (h : |q| < (2 : ℚ) ^ emax) : ∃ r, roundTo prec emin emax q = Ext.fin r := by
  by_cases hq : q = 0
  · exact ⟨0, by rw [hq]; simp [roundTo]⟩
  have hlog : Int.log 2 |q| < emax := (log2_lt_iff q hq _).mp h
  have hlt : |q| < (2 : ℚ) ^ (Int.log 2 |q| + 1) := (log2_lt_iff q hq _).mpr (by omega)
  obtain ⟨k, hk⟩ : ∃ k : Nat, (prec : Int) - 1 = (k : Int) := ⟨prec - 1, by omega⟩
  obtain ⟨E, hE⟩ : ∃ E : Int, max (Int.log 2 |q|) emin = E := ⟨_, rfl⟩
  have hE1 : Int.log 2 |q| ≤ E := hE ▸ le_max_left _ _
  have hE2 : E + 1 ≤ emax := by
    rw [← hE]
    rcases le_total (Int.log 2 |q|) emin with a | a
    · rw [max_eq_right a]; omega
    · rw [max_eq_left a]; omega
  have hu : (0 : ℚ) < (2 : ℚ) ^ (E - (k : Int)) := zpow_pos (by norm_num) _
  have hq2 : |q| < (2 : ℚ) ^ (E + 1) :=
    lt_of_lt_of_le hlt (zpow_le_zpow_right₀ (by norm_num) (by omega))
  have hsplit : (2 : ℚ) ^ (E + 1) = (2 : ℚ) ^ (k + 1) * (2 : ℚ) ^ (E - (k : Int)) := by
    rw [← zpow_natCast, ← zpow_add₀ (by norm_num : (2 : ℚ) ≠ 0)]
    congr 1
    push_cast
    ring
  have hb : |q / (2 : ℚ) ^ (E - (k : Int))| < (2 : ℚ) ^ (k + 1) := by
    rw [abs_div, abs_of_pos hu, div_lt_iff₀ hu, ← hsplit]
    exact hq2
  obtain ⟨b1, b2⟩ := abs_lt.mp hb
  obtain ⟨m1, m2⟩ := roundEven_mono_int (q / (2 : ℚ) ^ (E - (k : Int)))
    (-(2 ^ (k + 1))) (2 ^ (k + 1)) (by push_cast; exact b1.le) (by push_cast; exact b2.le)
  have m1' : -(2 : ℚ) ^ (k + 1) ≤ (roundEven (q / (2 : ℚ) ^ (E - (k : Int))) : ℚ) := by
    have : ((-(2 ^ (k + 1)) : Int) : ℚ) ≤ (roundEven (q / (2 : ℚ) ^ (E - (k : Int))) : ℚ) := by
      exact_mod_cast m1
    simpa using this
  have m2' : (roundEven (q / (2 : ℚ) ^ (E - (k : Int))) : ℚ) ≤ (2 : ℚ) ^ (k + 1) := by
    have : (roundEven (q / (2 : ℚ) ^ (E - (k : Int))) : ℚ) ≤ (((2 ^ (k + 1)) : Int) : ℚ) := by
      exact_mod_cast m2
    simpa using this
  have hr : |(roundEven (q / (2 : ℚ) ^ (E - (k : Int))) : ℚ) * (2 : ℚ) ^ (E - (k : Int))|
      ≤ (2 : ℚ) ^ (E + 1) := by
    rw [abs_mul, abs_of_pos hu, hsplit]
    exact mul_le_mul_of_nonneg_right (abs_le.mpr ⟨m1', m2'⟩) hu.le
  have hfin : ¬ (2 : ℚ) ^ (emax + 1)
      ≤ |(roundEven (q / (2 : ℚ) ^ (E - (k : Int))) : ℚ) * (2 : ℚ) ^ (E - (k : Int))| := by
    rw [not_le]
    exact lt_of_le_of_lt hr (zpow_lt_zpow_right₀ (by norm_num) (by omega))
  refine ⟨(roundEven (q / (2 : ℚ) ^ (E - (k : Int))) : ℚ) * (2 : ℚ) ^ (E - (k : Int)), ?_⟩
  unfold roundTo
  rw [if_neg hq, hk, hE]
  simp only
  rw [if_neg hfin]

theorem round32_finite (q : ℚ) (h : |q| < (2 : ℚ) ^ (127 : Int)) : ∃ r, round32 q = Ext.fin r :=
  roundTo_finite 24 (-126) 127 (by norm_num) (by norm_num) q h

theorem roundTo_ne_nan (prec : Nat) (emin emax : Int) (q : ℚ) :
    roundTo prec emin emax q ≠ Ext.nan := by
  unfold roundTo
  dsimp only
  split_ifs <;> simp

theorem round32_ne_nan (q : ℚ) : round32 q ≠ Ext.nan := roundTo_ne_nan 24 (-126) 127 q

theorem add_fin_ne_nan (x : Ext) (s : ℚ) (hx : x ≠ Ext.nan) :
    Ext.add round32 x (Ext.fin s) ≠ Ext.nan := by
  cases x with
  | fin d => exact round32_ne_nan _
  | pinf => simp [Ext.add]
  | ninf => simp [Ext.add]
  | nan => exact absurd rfl hx

theorem sub_fin_ne_nan (d : ℚ) (y : Ext) (hy : y ≠ Ext.nan) :
    Ext.sub round32 (Ext.fin d) y ≠ Ext.nan := by
  cases y with
  | fin s => exact round32_ne_nan _
  | pinf => simp [Ext.sub, Ext.neg, Ext.add]
  | ninf => simp [Ext.sub, Ext.neg, Ext.add]
  | nan => exact absurd rfl hy

theorem ieee_clamp_duty (x : Ext) (hx : x ≠ Ext.nan) :
    ∃ d, (if Ext.lt x (Ext.fin 0) then Ext.fin 0
      else if Ext.lt (Ext.fin (1 / 2)) x then Ext.fin (1 / 2) else x) = Ext.fin d ∧
      0 ≤ d ∧ d ≤ 1 / 2 := by
  cases x with
  | fin a =>
    simp only [Ext.lt, decide_eq_true_eq]
    split_ifs with c1 c2
    · exact ⟨0, rfl, le_refl _, by norm_num⟩
    · exact ⟨1 / 2, rfl, by norm_num, le_refl _⟩
    · exact ⟨a, rfl, not_lt.mp c1, not_lt.mp c2⟩
  | pinf => exact ⟨1 / 2, by simp [Ext.lt], by norm_num, le_refl _⟩
  | ninf => exact ⟨0, by simp [Ext.lt], le_refl _, by norm_num⟩
  | nan => exact absurd rfl hx

theorem stepControl_duty_eq {F D : Type} (fo : FloatOps F D) (sp : SfxParams F) (g : Regs F D) :
    (stepControl fo sp g).1.squareDuty =
      (if fo.lt (fo.add (stepRepeat fo sp g).squareDuty (stepRepeat fo sp g).squareSlide)
          (fo.lit 0) then fo.lit 0
       else if fo.lt (fo.lit 0.5)
          (fo.add (stepRepeat fo sp g).squareDuty (stepRepeat fo sp g).squareSlide)
        then fo.lit 0.5
       else fo.add (stepRepeat fo sp g).squareDuty (stepRepeat fo sp g).squareSlide) ∧
    (stepControl fo sp g).1.squareSlide = (stepRepeat fo sp g).squareSlide := by
  unfold stepControl
  dsimp only
  split_ifs <;> exact ⟨rfl, rfl⟩

theorem round32_00005 : round32 0.00005 = Ext.fin (13743895 / 274877906944) := by
  have e : (0.00005 : ℚ) = 1 / 20000 := by norm_num
  rw [e, round32_eval (1 / 20000) (-15) 13743895 (by norm_num [abs_of_pos])
    (by norm_num [abs_of_pos]) (by norm_num) (by norm_num) (by norm_num)
    (by norm_num [abs_of_pos])]
  norm_num

theorem resetSample_dutyOk (sn : ℚ → ℚ) (sp : SfxParams Ext) (a b : ℚ)
    (ha : sp.squareDuty = Ext.fin a) (hb : sp.dutySweep = Ext.fin b)
    (hbb : |b| < (2 : ℚ) ^ (128 : Int)) (g : Regs Ext Ext) :
    DutyOk (resetSample (ieeeOps sn) sp g) := by
  unfold DutyOk resetSample
  dsimp only
  simp only [ieeeOps, ha, hb, round32_half, round32_00005, Ext.mul, Ext.neg]
  refine ⟨sub_fin_ne_nan _ _ (round32_ne_nan _), ?_⟩
  apply round32_finite
  rw [abs_mul, abs_neg, abs_of_pos (by norm_num : (0 : ℚ) < 13743895 / 274877906944)]
  have h1 : |b| * (13743895 / 274877906944)
      ≤ (2 : ℚ) ^ (128 : Int) * (13743895 / 274877906944) :=
    mul_le_mul_of_nonneg_right hbb.le (by norm_num)
  have h2 : (2 : ℚ) ^ (128 : Int) * (13743895 / 274877906944) < (2 : ℚ) ^ (127 : Int) := by
    norm_num
  exact lt_of_le_of_lt h1 h2

theorem stepRepeat_dutyOk (sn : ℚ → ℚ) (sp : SfxParams Ext) (a b : ℚ)
    (ha : sp.squareDuty = Ext.fin a) (hb : sp.dutySweep = Ext.fin b)
    (hbb : |b| < (2 : ℚ) ^ (128 : Int)) (g : Regs Ext Ext) (hg : DutyOk g) :
    DutyOk (stepRepeat (ieeeOps sn) sp g) := by
  unfold stepRepeat
  dsimp only
  split_ifs
  · exact resetSample_dutyOk sn sp a b ha hb hbb _
  · exact hg

theorem stepControl_dutyOk (sn : ℚ → ℚ) (sp : SfxParams Ext) (a b : ℚ)
    (ha : sp.squareDuty = Ext.fin a) (hb : sp.dutySweep = Ext.fin b)
    (hbb : |b| < (2 : ℚ) ^ (128 : Int)) (g : Regs Ext Ext) (hg : DutyOk g) :
    DutyOk (stepControl (ieeeOps sn) sp g).1 ∧
    ∃ d, (stepControl (ieeeOps sn) sp g).1.squareDuty = Ext.fin d ∧ 0 ≤ d ∧ d ≤ 1 / 2 := by
  obtain ⟨h1, s, h2⟩ := stepRepeat_dutyOk sn sp a b ha hb hbb g hg
  obtain ⟨e1, e2⟩ := stepControl_duty_eq (ieeeOps sn) sp g
  have l0 : (ieeeOps sn).lit 0 = Ext.fin 0 := round32_zero
  have l5 : (ieeeOps sn).lit 0.5 = Ext.fin (1 / 2) := round32_half
  have la : (ieeeOps sn).add = Ext.add round32 := rfl
  have lt : (ieeeOps sn).lt = Ext.lt := rfl
  rw [l0, l5, la, lt, h2] at e1
  obtain ⟨d, hd, d1, d2⟩ := ieee_clamp_duty _
    (add_fin_ne_nan (stepRepeat (ieeeOps sn) sp g).squareDuty s h1)
  rw [hd] at e1
  refine ⟨⟨by rw [e1]; simp, s, by rw [e2, h2]⟩, d, e1, d1, d2⟩

theorem head_dutyOk (sn : ℚ → ℚ) {R : Type} (rnd : RandomSource R) (synth : SfxSynth Ext)
    (sp : SfxParams Ext) (r : R) (a b : ℚ)
    (ha : sp.squareDuty = Ext.fin a) (hb : sp.dutySweep = Ext.fin b)
    (hbb : |b| < (2 : ℚ) ^ (128 : Int)) (N c e : Int) (st : GenState Ext Ext R)
    (h : LoopHead (ieeeOps sn) rnd sp (initState (ieeeOps sn) rnd synth sp r) N c e st) :
    DutyOk st.regs := by
  refine LoopHead_inv (ieeeOps sn) rnd sp _ N (fun _ g => DutyOk g) ?_ ?_ c e st h
  · obtain ⟨pk, hr⟩ := initState_regs (ieeeOps sn) rnd synth sp r
    rw [hr]
    have hi : DutyOk (initRegs (ieeeOps sn) sp) := by
      unfold initRegs
      exact resetSample_dutyOk sn sp a b ha hb hbb _
    exact hi
  · intro c st g hP hg
    obtain ⟨k1, _⟩ := stepControl_dutyOk sn sp a b ha hb hbb st.regs hP
    have hgf := stepEnvelope_frame (ieeeOps sn) sp _ g hg
    obtain ⟨ph, pk, w, dp, p', php, ip, hsf⟩ := superSample_frame (ieeeOps sn) rnd sp
      { st with regs := stepPhaser (ieeeOps sn) g }
    have e1 : (superSample (ieeeOps sn) rnd sp
        { st with regs := stepPhaser (ieeeOps sn) g }).2.regs.squareDuty
        = (stepControl (ieeeOps sn) sp st.regs).1.squareDuty := by
      rw [hsf, hgf]; rfl
    have e2 : (superSample (ieeeOps sn) rnd sp
        { st with regs := stepPhaser (ieeeOps sn) g }).2.regs.squareSlide
        = (stepControl (ieeeOps sn) sp st.regs).1.squareSlide := by
      rw [hsf, hgf]; rfl
    unfold DutyOk
    rw [e1, e2]
    exact k1

/-- In IEEE arithmetic, for parameters whose `squareDuty` and `dutySweep` are finite, the duty
at every waveform evaluation of a run is a number in [0, 1/2]. -/
theorem ieee_duty_range (sn : ℚ → ℚ) {R : Type} (rnd : RandomSource R) (synth : SfxSynth Ext)
    (sp : SfxParams Ext) (r : R) (a b : ℚ)
    (ha : sp.squareDuty = Ext.fin a) (hb : sp.dutySweep = Ext.fin b)
    (hbb : |b| < (2 : ℚ) ^ (128 : Int)) (N c e : Int) (st : GenState Ext Ext R)
    (g : Regs Ext Ext)
    (h : LoopHead (ieeeOps sn) rnd sp (initState (ieeeOps sn) rnd synth sp r) N c e st)
    (hg : stepEnvelope (ieeeOps sn) sp (stepControl (ieeeOps sn) sp st.regs).1 = some g)
    (k : Nat) :
    ∃ d, (waveRegs (ieeeOps sn) rnd sp st g k).squareDuty = Ext.fin d ∧ 0 ≤ d ∧ d ≤ 1 / 2 := by
  obtain ⟨_, q2, _, _, _⟩ := waveRegs_frame (ieeeOps sn) rnd sp st _ g hg k
  obtain ⟨_, d, hd, d1, d2⟩ := stepControl_dutyOk sn sp a b ha hb hbb st.regs
    (head_dutyOk sn rnd synth sp r a b ha hb hbb N c e st h)
  exact ⟨d, by rw [q2, hd], d1, d2⟩

theorem round32_00001 : round32 0.0001 = Ext.fin (13743895 / 137438953472) := by
  have e : (0.0001 : ℚ) = 1 / 10000 := by norm_num
  rw [e, round32_eval (1 / 10000) (-14) 13743895 (by norm_num [abs_of_pos])
    (by norm_num [abs_of_pos]) (by norm_num) (by norm_num) (by norm_num)
    (by norm_num [abs_of_pos])]
  norm_num

theorem round32_sweep : round32 (-10000 * (13743895 / 137438953472)) = Ext.fin (-1) := by
  rw [round32_eval (-10000 * (13743895 / 137438953472)) (-1) (-16777216)
    (by norm_num [abs_of_neg]) (by norm_num [abs_of_neg]) (by norm_num) (by norm_num)
    (by norm_num) (by norm_num [abs_of_neg])]
  norm_num


theorem hugeSweep_eq :
    hugeSweep =
      { randSeed := 0, waveType := SFX_SQUARE, attackTime := Ext.fin 0,
        sustainTime := Ext.fin (5033165 / 16777216), sustainPunch := Ext.fin 0,
        decayTime := Ext.fin (13421773 / 33554432),
        startFrequency := Ext.fin (5033165 / 16777216), minFrequency := Ext.fin 0,
        slide := Ext.fin 0, deltaSlide := Ext.fin 0, vibratoDepth := Ext.fin 0,
        vibratoSpeed := Ext.fin 0, changeAmount := Ext.fin 0, changeSpeed := Ext.fin 0,
        squareDuty := Ext.fin 0, dutySweep := Ext.fin 0, repeatSpeed := Ext.fin 0,
        phaserOffset := Ext.fin 0, phaserSweep := Ext.fin 0,
        lpfCutoff := Ext.fin 100000002004087734272, lpfCutoffSweep := Ext.fin (-10000),
        lpfResonance := Ext.fin 100000002004087734272, hpfCutoff := Ext.fin 0,
        hpfCutoffSweep := Ext.fin 0 } := by
  have hs : hugeSweep = { hugeFilter with lpfCutoffSweep := Ext.fin (-10000) } := rfl
  rw [hugeFilter_eq] at hs
  exact hs

/-- In IEEE arithmetic the cutoff coefficient of the low-pass filter is NaN after the clamp for
`hugeSweep`: `fltw` starts as infinity, `fltwd = 1.0f + (-10000.0f)*0.0001f` is 0, their
product is NaN, and both comparisons of the clamp are false for NaN. -/
theorem hugeSweep_fltw (s : Ext) :
    (initRegs (ieeeOps sinPoly) hugeSweep).fltw = Ext.pinf ∧
    (initRegs (ieeeOps sinPoly) hugeSweep).fltwd = Ext.fin 0 ∧
    (stepFilter (ieeeOps sinPoly) hugeSweep (initRegs (ieeeOps sinPoly) hugeSweep) s).fltw
      = Ext.nan := by
  have p3 : Ext.pow round32 (Ext.fin 100000002004087734272) (Ext.fin 3) = Ext.pinf := by
    rw [Ext.pow_three, round32_overflow _ (by norm_num)]
  have l3 : round32 3 = Ext.fin 3 := by
    simpa using round32_int 3 (by norm_num) (by norm_num)
  have m : Ext.mul round32 (Ext.fin (-10000)) (Ext.fin (13743895 / 137438953472))
      = Ext.fin (-1) := by
    simp only [Ext.mul]
    exact round32_sweep
  have a : Ext.add round32 (Ext.fin 1) (Ext.fin (-1)) = Ext.fin 0 := by
    simp only [Ext.add]
    have : (1 : ℚ) + -1 = 0 := by norm_num
    rw [this, round32_zero]
  have w : (initRegs (ieeeOps sinPoly) hugeSweep).fltw = Ext.pinf := by
    rw [hugeSweep_eq]
    simp only [initRegs, resetSample, ieeeOps, l3, round32_01, p3]
    simp [Ext.mul, Ext.scaledInf]
  have wd : (initRegs (ieeeOps sinPoly) hugeSweep).fltwd = Ext.fin 0 := by
    rw [hugeSweep_eq]
    simp only [initRegs, resetSample, ieeeOps, round32_one, round32_00001]
    rw [m, a]
  have f : ∀ g : Regs Ext Ext, g.fltw = Ext.pinf → g.fltwd = Ext.fin 0 →
      (stepFilter (ieeeOps sinPoly) hugeSweep g s).fltw = Ext.nan := by
    intro g hw hwd
    unfold stepFilter
    dsimp only
    rw [hw, hwd]
    simp [ieeeOps, Ext.mul, Ext.scaledInf, Ext.lt]
  exact ⟨w, wd, f _ w wd⟩

theorem hugeSweep_lengths :
    (initRegs (ieeeOps sinPoly) hugeSweep).envLength0 = 0 ∧
    (initRegs (ieeeOps sinPoly) hugeSweep).envLength1 = 9000 := by
  obtain ⟨e0, e1, _, _, _⟩ := initRegs_envLength (ieeeOps sinPoly) hugeSweep
  obtain ⟨b0, b1, _⟩ := baseline32_lengths
  rw [e0, e1]
  exact ⟨b0, b1⟩

/-- In the run of `hugeSweep` in IEEE arithmetic, the low-pass filter of the first sub-sample
works with a cutoff coefficient that is NaN, whatever the waveform sample. -/
theorem hugeSweep_run (s : Ext) :
    ∃ g, stepEnvelope (ieeeOps sinPoly) hugeSweep
        (stepControl (ieeeOps sinPoly) hugeSweep
          (initState (ieeeOps sinPoly) (constRandom 0) roomy32 hugeSweep 0).regs).1 = some g ∧
      (stepFilter (ieeeOps sinPoly) hugeSweep
        (waveRegs (ieeeOps sinPoly) (constRandom 0) hugeSweep
          (initState (ieeeOps sinPoly) (constRandom 0) roomy32 hugeSweep 0) g 0) s).fltw
        = Ext.nan := by
  obtain ⟨g, hg⟩ := first_iteration_generic (ieeeOps sinPoly) (constRandom 0) roomy32
    hugeSweep 0 (by rw [hugeSweep_lengths.1]) (by rw [hugeSweep_lengths.2]; decide)
  obtain ⟨_, _, _, _, q5, q6, _, _⟩ := iteration_flthp (ieeeOps sinPoly) hugeSweep _ g hg
  obtain ⟨pk, hr⟩ := initState_regs (ieeeOps sinPoly) (constRandom 0) roomy32 hugeSweep 0
  obtain ⟨w, wd, _⟩ := hugeSweep_fltw s
  have e1 : (waveRegs (ieeeOps sinPoly) (constRandom 0) hugeSweep
      (initState (ieeeOps sinPoly) (constRandom 0) roomy32 hugeSweep 0) g 0).fltw
      = Ext.pinf := by
    unfold waveRegs
    rw [advancePhase_frame]
    have : (subState (ieeeOps sinPoly) (constRandom 0) hugeSweep
        { initState (ieeeOps sinPoly) (constRandom 0) roomy32 hugeSweep 0 with
          regs := stepPhaser (ieeeOps sinPoly) g } 0).2.regs.fltw = g.fltw := rfl
    dsimp only
    rw [this, q5, hr]
    exact w
  have e2 : (waveRegs (ieeeOps sinPoly) (constRandom 0) hugeSweep
      (initState (ieeeOps sinPoly) (constRandom 0) roomy32 hugeSweep 0) g 0).fltwd
      = Ext.fin 0 := by
    unfold waveRegs
    rw [advancePhase_frame]
    have : (subState (ieeeOps sinPoly) (constRandom 0) hugeSweep
        { initState (ieeeOps sinPoly) (constRandom 0) roomy32 hugeSweep 0 with
          regs := stepPhaser (ieeeOps sinPoly) g } 0).2.regs.fltwd = g.fltwd := rfl
    dsimp only
    rw [this, q6, hr]
    exact wd
  refine ⟨g, hg, ?_⟩
  unfold stepFilter
  dsimp only
  rw [e1, e2]
  simp [ieeeOps, Ext.mul, Ext.scaledInf, Ext.lt]

/-- C19, amended: for every interpretation of the arithmetic and every parameter set, inside or
outside the documented ranges, at every sub-sample waveform evaluation of a run the integer
period is at least 8, `squareDuty` has passed its clamp to `0.0f`, `0.5f` and `fltdmp` its cap
at `0.8f`; the coefficient `fltw` has passed its clamp to `0.0f`, `0.1f` when the low-pass
filter of that sub-sample uses it, and at the waveform evaluation itself from the second
sub-sample of the run on.  In IEEE arithmetic a value that has passed the clamp of `fltw` lies
in [0, `0.1f`] or is NaN, a value that has passed the cap is at most `0.8f` or is NaN, and for
parameters whose `squareDuty` and `dutySweep` are finite the duty at every waveform evaluation
is a number in [0, 0.5]. -/
theorem stability_clamps {F D R : Type} (fo : FloatOps F D) (rnd : RandomSource R)
    (synth : SfxSynth F) (sp : SfxParams F) (r : R) (c e : Int) (st : GenState F D R)
    (g : Regs F D)
    (hh : LoopHead fo rnd sp (initState fo rnd synth sp r)
      (synth.sampleRate * synth.maxDuration) c e st)
    (hg : stepEnvelope fo sp (stepControl fo sp st.regs).1 = some g)
    (k : Nat) (hk : k < 8) :
    8 ≤ (waveRegs fo rnd sp st g k).period ∧
    Clamped fo (fo.lit 0) (fo.lit 0.5) (waveRegs fo rnd sp st g k).squareDuty ∧
    Capped fo (fo.lit 0.8) (waveRegs fo rnd sp st g k).fltdmp ∧
    (∀ s : F, Clamped fo (fo.lit 0) (fo.lit 0.1)
      (stepFilter fo sp (waveRegs fo rnd sp st g k) s).fltw) ∧
    (0 < c ∨ 0 < k → Clamped fo (fo.lit 0) (fo.lit 0.1) (waveRegs fo rnd sp st g k).fltw) ∧
    (∀ (sn : ℚ → ℚ) (x : Ext),
      Clamped (ieeeOps sn) ((ieeeOps sn).lit 0) ((ieeeOps sn).lit 0.1) x →
        x = Ext.nan ∨ ∃ a, x = Ext.fin a ∧ 0 ≤ a ∧ a ≤ 13421773 / 134217728) ∧
    (∀ (sn : ℚ → ℚ) (x : Ext), Capped (ieeeOps sn) ((ieeeOps sn).lit 0.8) x →
        x = Ext.nan ∨ x = Ext.ninf ∨ ∃ a, x = Ext.fin a ∧ a ≤ 13421773 / 16777216) ∧
    (∀ (sn : ℚ → ℚ) (rnd1 : RandomSource R) (synth1 : SfxSynth Ext) (sp1 : SfxParams Ext)
      (r1 : R) (c1 e1 : Int) (st1 : GenState Ext Ext R) (g1 : Regs Ext Ext) (a b : ℚ),
      sp1.squareDuty = Ext.fin a → sp1.dutySweep = Ext.fin b → |b| < (2 : ℚ) ^ (128 : Int) →
      LoopHead (ieeeOps sn) rnd1 sp1 (initState (ieeeOps sn) rnd1 synth1 sp1 r1)
        (synth1.sampleRate * synth1.maxDuration) c1 e1 st1 →
      stepEnvelope (ieeeOps sn) sp1 (stepControl (ieeeOps sn) sp1 st1.regs).1 = some g1 →
      ∀ k1 : Nat, ∃ d, (waveRegs (ieeeOps sn) rnd1 sp1 st1 g1 k1).squareDuty = Ext.fin d ∧
        0 ≤ d ∧ d ≤ 1 / 2) := by
  obtain ⟨q1, q2, q3, q4, q5⟩ := waveRegs_frame fo rnd sp st _ g hg k
  obtain ⟨a1, _, a2, a3⟩ := head_filter_clamped fo rnd synth sp r _ c e st hh
  obtain ⟨rt, fp, p, fm, fs, fds, sd, ss, am, at', al, vp, hf⟩ :=
    stepControl_frame fo sp st.regs
  refine ⟨?_, ?_, ?_, fun s => stepFilter_fltw_clamped fo sp _ s, ?_, ?_, ?_, ?_⟩
  · rw [q1]; exact (stepControl_phase fo sp st.regs).2
  · rw [q2]; exact stepControl_duty_clamped fo sp st.regs
  · rw [q3, hf]; exact a1
  · intro hck
    rw [q4]
    cases k with
    | zero =>
      have hc : 0 < c := by
        rcases hck with h | h
        · exact h
        · exact absurd h (lt_irrefl _)
      rw [q5, hf]
      exact a3 hc
    | succ k =>
      rw [subState_succ]
      exact subSample_fltw_clamped fo rnd sp _
  · intro sn x hx
    have e0 : (ieeeOps sn).lit 0 = Ext.fin 0 := round32_zero
    have e1 : (ieeeOps sn).lit 0.1 = Ext.fin (13421773 / 134217728) := round32_01
    rw [e0, e1] at hx
    exact ieee_clamped sn 0 _ x (by norm_num) hx
  · intro sn x hx
    have e1 : (ieeeOps sn).lit 0.8 = Ext.fin (13421773 / 16777216) := round32_08
    rw [e1] at hx
    exact ieee_capped sn _ x hx
  · intro sn rnd1 synth1 sp1 r1 c1 e1 st1 g1 a b ha hb hbb h1 hg1 k1
    exact ieee_duty_range sn rnd1 synth1 sp1 r1 a b ha hb hbb _ c1 e1 st1 g1 h1 hg1 k1

theorem stability_clamps_witness :
    ∃ g, stepEnvelope (ieeeOps sinPoly) hugeFilter
        (stepControl (ieeeOps sinPoly) hugeFilter
          (initState (ieeeOps sinPoly) (constRandom 0) roomy32 hugeFilter 0).regs).1 = some g ∧
      8 ≤ (waveRegs (ieeeOps sinPoly) (constRandom 0) hugeFilter
        (initState (ieeeOps sinPoly) (constRandom 0) roomy32 hugeFilter 0) g 0).period ∧
      Capped (ieeeOps sinPoly) ((ieeeOps sinPoly).lit 0.8)
        (waveRegs (ieeeOps sinPoly) (constRandom 0) hugeFilter
          (initState (ieeeOps sinPoly) (constRandom 0) roomy32 hugeFilter 0) g 0).fltdmp ∧
      (waveRegs (ieeeOps sinPoly) (constRandom 0) hugeFilter
        (initState (ieeeOps sinPoly) (constRandom 0) roomy32 hugeFilter 0) g 0).fltdmp
          = Ext.nan ∧
      ∃ d, (waveRegs (ieeeOps sinPoly) (constRandom 0) hugeFilter
        (initState (ieeeOps sinPoly) (constRandom 0) roomy32 hugeFilter 0) g 0).squareDuty
          = Ext.fin d ∧ 0 ≤ d ∧ d ≤ 1 / 2 := by
  obtain ⟨g, hg⟩ := first_iteration_generic (ieeeOps sinPoly) (constRandom 0) roomy32
    hugeFilter 0 (by rw [hugeFilter_lengths.1]) (by rw [hugeFilter_lengths.2.1]; decide)
  have h := stability_clamps (ieeeOps sinPoly) (constRandom 0) roomy32 hugeFilter 0 0
    (roomy32.sampleRate * roomy32.maxDuration) _ g LoopHead.start hg 0 (by decide)
  obtain ⟨_, _, q3, _, _⟩ := waveRegs_frame (ieeeOps sinPoly) (constRandom 0) hugeFilter
    (initState (ieeeOps sinPoly) (constRandom 0) roomy32 hugeFilter 0) _ g hg 0
  obtain ⟨_, a2, _, _⟩ := head_filter_clamped (ieeeOps sinPoly) (constRandom 0) roomy32
    hugeFilter 0 (roomy32.sampleRate * roomy32.maxDuration) 0
    (roomy32.sampleRate * roomy32.maxDuration) _ LoopHead.start
  obtain ⟨rt, fp, p, fm, fs, fds, sd, ss, am, at', al, vp, hf⟩ :=
    stepControl_frame (ieeeOps sinPoly) hugeFilter
      (initState (ieeeOps sinPoly) (constRandom 0) roomy32 hugeFilter 0).regs
  refine ⟨g, hg, h.1, h.2.2.1, ?_, ?_⟩
  · rw [q3, hf]
    exact a2.trans hugeFilter_fltdmp
  · exact h.2.2.2.2.2.2.2 sinPoly (constRandom 0) roomy32 hugeFilter 0 0
      (roomy32.sampleRate * roomy32.maxDuration) _ g 0 0 (by rw [hugeFilter_eq])
      (by rw [hugeFilter_eq]) (by norm_num) LoopHead.start hg 0

end SfxGen
